import Mathlib

/-!
LocApiV02: a shallow embedding of the QMI LOC v02 adapter.

The development embeds the parts of `loc_api/loc_api_v02/LocApiV02.cpp` that the
properties below talk about.

* Unsigned machine integers are natural numbers; where the C type bounds a
  result the truncation is written out (`% 2 ^ 64`, `% 2 ^ 32`, `% 2 ^ 16`), and
  a value stored into a 16-bit field goes through `toInt16` or `toUInt16`.
* Enumerations and bit constants that the source takes from interface headers
  (`location_service_v02.h`, `gps_extended_c.h`, `loc_api_v02_client.h`) are not
  part of the sources.  Enumerations are inductive types carrying the
  enumerator names used in the source; bit constants are fields of a record of
  constants, so that every theorem holds for whatever values the headers give.
* The transport (`locClientOpen`, `locClientClose`, `locClientRegisterEventMask`,
  `locClientSendReq`, `loc_sync_send_req`) and the allocator are external: they
  are an environment whose answers may depend on everything that happened
  before.  Every interaction is appended to a trace kept in the adapter state.
-/

namespace LocApiV02

/-! ## Constants of the interface headers -/

/-- Bit constants used by the event-mask code: the consumer side
`LOC_API_ADAPTER_BIT_*` and the protocol side `QMI_LOC_EVENT_MASK_*_V02`. -/
structure MaskConsts where
  LOC_API_ADAPTER_BIT_PARSED_POSITION_REPORT : Nat
  LOC_API_ADAPTER_BIT_SATELLITE_REPORT : Nat
  LOC_API_ADAPTER_BIT_NMEA_POSITION_REPORT : Nat
  LOC_API_ADAPTER_BIT_NMEA_1HZ_REPORT : Nat
  LOC_API_ADAPTER_BIT_NI_NOTIFY_VERIFY_REQUEST : Nat
  LOC_API_ADAPTER_BIT_ASSISTANCE_DATA_REQUEST : Nat
  LOC_API_ADAPTER_BIT_POSITION_INJECTION_REQUEST : Nat
  LOC_API_ADAPTER_BIT_STATUS_REPORT : Nat
  LOC_API_ADAPTER_BIT_LOCATION_SERVER_REQUEST : Nat
  LOC_API_ADAPTER_BIT_REQUEST_WIFI : Nat
  LOC_API_ADAPTER_BIT_SENSOR_STATUS : Nat
  LOC_API_ADAPTER_BIT_REQUEST_TIME_SYNC : Nat
  LOC_API_ADAPTER_BIT_REPORT_SPI : Nat
  LOC_API_ADAPTER_BIT_REPORT_NI_GEOFENCE : Nat
  LOC_API_ADAPTER_BIT_GEOFENCE_GEN_ALERT : Nat
  LOC_API_ADAPTER_BIT_REPORT_GENFENCE_BREACH : Nat
  LOC_API_ADAPTER_BIT_BATCHED_GENFENCE_BREACH_REPORT : Nat
  LOC_API_ADAPTER_BIT_PEDOMETER_CTRL : Nat
  LOC_API_ADAPTER_BIT_REPORT_GENFENCE_DWELL : Nat
  LOC_API_ADAPTER_BIT_MOTION_CTRL : Nat
  LOC_API_ADAPTER_BIT_REQUEST_WIFI_AP_DATA : Nat
  LOC_API_ADAPTER_BIT_BATCH_FULL : Nat
  LOC_API_ADAPTER_BIT_BATCH_STATUS : Nat
  LOC_API_ADAPTER_BIT_BATCHED_POSITION_REPORT : Nat
  LOC_API_ADAPTER_BIT_GNSS_MEASUREMENT_REPORT : Nat
  LOC_API_ADAPTER_BIT_GNSS_SV_POLYNOMIAL_REPORT : Nat
  LOC_API_ADAPTER_BIT_GDT_UPLOAD_BEGIN_REQ : Nat
  LOC_API_ADAPTER_BIT_GDT_UPLOAD_END_REQ : Nat
  LOC_API_ADAPTER_BIT_GNSS_MEASUREMENT : Nat
  LOC_API_ADAPTER_BIT_REQUEST_TIMEZONE : Nat
  LOC_API_ADAPTER_BIT_REQUEST_SRN_DATA : Nat
  LOC_API_ADAPTER_BIT_FDCL_SERVICE_REQ : Nat
  QMI_LOC_EVENT_MASK_POSITION_REPORT_V02 : Nat
  QMI_LOC_EVENT_MASK_GNSS_SV_INFO_V02 : Nat
  QMI_LOC_EVENT_MASK_NMEA_V02 : Nat
  QMI_LOC_EVENT_MASK_NI_NOTIFY_VERIFY_REQ_V02 : Nat
  QMI_LOC_EVENT_MASK_INJECT_PREDICTED_ORBITS_REQ_V02 : Nat
  QMI_LOC_EVENT_MASK_INJECT_TIME_REQ_V02 : Nat
  QMI_LOC_EVENT_MASK_INJECT_POSITION_REQ_V02 : Nat
  QMI_LOC_EVENT_MASK_ENGINE_STATE_V02 : Nat
  QMI_LOC_EVENT_MASK_LOCATION_SERVER_CONNECTION_REQ_V02 : Nat
  QMI_LOC_EVENT_MASK_WIFI_REQ_V02 : Nat
  QMI_LOC_EVENT_MASK_SENSOR_STREAMING_READY_STATUS_V02 : Nat
  QMI_LOC_EVENT_MASK_TIME_SYNC_REQ_V02 : Nat
  QMI_LOC_EVENT_MASK_SET_SPI_STREAMING_REPORT_V02 : Nat
  QMI_LOC_EVENT_MASK_NI_GEOFENCE_NOTIFICATION_V02 : Nat
  QMI_LOC_EVENT_MASK_GEOFENCE_GEN_ALERT_V02 : Nat
  QMI_LOC_EVENT_MASK_GEOFENCE_BREACH_NOTIFICATION_V02 : Nat
  QMI_LOC_EVENT_MASK_GEOFENCE_BATCH_BREACH_NOTIFICATION_V02 : Nat
  QMI_LOC_EVENT_MASK_PEDOMETER_CONTROL_V02 : Nat
  QMI_LOC_EVENT_MASK_GEOFENCE_BATCH_DWELL_NOTIFICATION_V02 : Nat
  QMI_LOC_EVENT_MASK_MOTION_DATA_CONTROL_V02 : Nat
  QMI_LOC_EVENT_MASK_INJECT_WIFI_AP_DATA_REQ_V02 : Nat
  QMI_LOC_EVENT_MASK_BATCH_FULL_NOTIFICATION_V02 : Nat
  QMI_LOC_EVENT_MASK_BATCHING_STATUS_V02 : Nat
  QMI_LOC_EVENT_MASK_LIVE_BATCHED_POSITION_REPORT_V02 : Nat
  QMI_LOC_EVENT_MASK_GNSS_MEASUREMENT_REPORT_V02 : Nat
  QMI_LOC_EVENT_MASK_GNSS_SV_POLYNOMIAL_REPORT_V02 : Nat
  QMI_LOC_EVENT_MASK_GDT_UPLOAD_BEGIN_REQ_V02 : Nat
  QMI_LOC_EVENT_MASK_GDT_UPLOAD_END_REQ_V02 : Nat
  QMI_LOC_EVENT_MASK_GET_TIME_ZONE_REQ_V02 : Nat
  QMI_LOC_EVENT_MASK_INJECT_SRN_AP_DATA_REQ_V02 : Nat
  QMI_LOC_EVENT_MASK_FDCL_SERVICE_REQ_V02 : Nat

/-- One concrete assignment of the mask constants, used to evaluate the
definitions on examples: consumer bit `i` is `1 <<< i` in the order of
`enum loc_api_adapter_event_index`, protocol bits follow
`location_service_v02.h` (position 0x1, SV info 0x2, NMEA 0x4, NI 0x8,
inject time 0x10, predicted orbits 0x20, inject position 0x40, engine state
0x80, ..., measurement report 0x1000000). -/
def headerMasks : MaskConsts where
  LOC_API_ADAPTER_BIT_PARSED_POSITION_REPORT := 1 <<< 0
  LOC_API_ADAPTER_BIT_SATELLITE_REPORT := 1 <<< 1
  LOC_API_ADAPTER_BIT_NMEA_1HZ_REPORT := 1 <<< 2
  LOC_API_ADAPTER_BIT_NMEA_POSITION_REPORT := 1 <<< 3
  LOC_API_ADAPTER_BIT_NI_NOTIFY_VERIFY_REQUEST := 1 <<< 4
  LOC_API_ADAPTER_BIT_ASSISTANCE_DATA_REQUEST := 1 <<< 5
  LOC_API_ADAPTER_BIT_LOCATION_SERVER_REQUEST := 1 <<< 6
  LOC_API_ADAPTER_BIT_STATUS_REPORT := 1 <<< 8
  LOC_API_ADAPTER_BIT_REQUEST_WIFI := 1 <<< 9
  LOC_API_ADAPTER_BIT_SENSOR_STATUS := 1 <<< 10
  LOC_API_ADAPTER_BIT_REQUEST_TIME_SYNC := 1 <<< 11
  LOC_API_ADAPTER_BIT_REPORT_SPI := 1 <<< 12
  LOC_API_ADAPTER_BIT_REPORT_NI_GEOFENCE := 1 <<< 13
  LOC_API_ADAPTER_BIT_GEOFENCE_GEN_ALERT := 1 <<< 14
  LOC_API_ADAPTER_BIT_REPORT_GENFENCE_BREACH := 1 <<< 15
  LOC_API_ADAPTER_BIT_PEDOMETER_CTRL := 1 <<< 16
  LOC_API_ADAPTER_BIT_MOTION_CTRL := 1 <<< 17
  LOC_API_ADAPTER_BIT_REQUEST_WIFI_AP_DATA := 1 <<< 18
  LOC_API_ADAPTER_BIT_BATCH_FULL := 1 <<< 19
  LOC_API_ADAPTER_BIT_BATCHED_POSITION_REPORT := 1 <<< 20
  LOC_API_ADAPTER_BIT_BATCHED_GENFENCE_BREACH_REPORT := 1 <<< 21
  LOC_API_ADAPTER_BIT_GNSS_MEASUREMENT_REPORT := 1 <<< 22
  LOC_API_ADAPTER_BIT_GNSS_SV_POLYNOMIAL_REPORT := 1 <<< 23
  LOC_API_ADAPTER_BIT_GDT_UPLOAD_BEGIN_REQ := 1 <<< 24
  LOC_API_ADAPTER_BIT_GDT_UPLOAD_END_REQ := 1 <<< 25
  LOC_API_ADAPTER_BIT_GNSS_MEASUREMENT := 1 <<< 26
  LOC_API_ADAPTER_BIT_REQUEST_TIMEZONE := 1 <<< 27
  LOC_API_ADAPTER_BIT_REPORT_GENFENCE_DWELL := 1 <<< 28
  LOC_API_ADAPTER_BIT_REQUEST_SRN_DATA := 1 <<< 29
  LOC_API_ADAPTER_BIT_POSITION_INJECTION_REQUEST := 1 <<< 30
  LOC_API_ADAPTER_BIT_BATCH_STATUS := 1 <<< 31
  LOC_API_ADAPTER_BIT_FDCL_SERVICE_REQ := 1 <<< 32
  QMI_LOC_EVENT_MASK_POSITION_REPORT_V02 := 0x00000001
  QMI_LOC_EVENT_MASK_GNSS_SV_INFO_V02 := 0x00000002
  QMI_LOC_EVENT_MASK_NMEA_V02 := 0x00000004
  QMI_LOC_EVENT_MASK_NI_NOTIFY_VERIFY_REQ_V02 := 0x00000008
  QMI_LOC_EVENT_MASK_INJECT_TIME_REQ_V02 := 0x00000010
  QMI_LOC_EVENT_MASK_INJECT_PREDICTED_ORBITS_REQ_V02 := 0x00000020
  QMI_LOC_EVENT_MASK_INJECT_POSITION_REQ_V02 := 0x00000040
  QMI_LOC_EVENT_MASK_ENGINE_STATE_V02 := 0x00000080
  QMI_LOC_EVENT_MASK_WIFI_REQ_V02 := 0x00000200
  QMI_LOC_EVENT_MASK_SENSOR_STREAMING_READY_STATUS_V02 := 0x00000400
  QMI_LOC_EVENT_MASK_TIME_SYNC_REQ_V02 := 0x00000800
  QMI_LOC_EVENT_MASK_SET_SPI_STREAMING_REPORT_V02 := 0x00001000
  QMI_LOC_EVENT_MASK_LOCATION_SERVER_CONNECTION_REQ_V02 := 0x00002000
  QMI_LOC_EVENT_MASK_NI_GEOFENCE_NOTIFICATION_V02 := 0x00004000
  QMI_LOC_EVENT_MASK_GEOFENCE_GEN_ALERT_V02 := 0x00008000
  QMI_LOC_EVENT_MASK_GEOFENCE_BREACH_NOTIFICATION_V02 := 0x00010000
  QMI_LOC_EVENT_MASK_PEDOMETER_CONTROL_V02 := 0x00020000
  QMI_LOC_EVENT_MASK_MOTION_DATA_CONTROL_V02 := 0x00040000
  QMI_LOC_EVENT_MASK_BATCH_FULL_NOTIFICATION_V02 := 0x00080000
  QMI_LOC_EVENT_MASK_LIVE_BATCHED_POSITION_REPORT_V02 := 0x00100000
  QMI_LOC_EVENT_MASK_INJECT_WIFI_AP_DATA_REQ_V02 := 0x00200000
  QMI_LOC_EVENT_MASK_GEOFENCE_BATCH_BREACH_NOTIFICATION_V02 := 0x00400000
  QMI_LOC_EVENT_MASK_GNSS_MEASUREMENT_REPORT_V02 := 0x01000000
  QMI_LOC_EVENT_MASK_GNSS_SV_POLYNOMIAL_REPORT_V02 := 0x02000000
  QMI_LOC_EVENT_MASK_GDT_UPLOAD_BEGIN_REQ_V02 := 0x08000000
  QMI_LOC_EVENT_MASK_GDT_UPLOAD_END_REQ_V02 := 0x10000000
  QMI_LOC_EVENT_MASK_GEOFENCE_BATCH_DWELL_NOTIFICATION_V02 := 0x20000000
  QMI_LOC_EVENT_MASK_GET_TIME_ZONE_REQ_V02 := 0x40000000
  QMI_LOC_EVENT_MASK_BATCHING_STATUS_V02 := 0x80000000
  QMI_LOC_EVENT_MASK_INJECT_SRN_AP_DATA_REQ_V02 := 0x200000000
  QMI_LOC_EVENT_MASK_FDCL_SERVICE_REQ_V02 := 0x2000000000

/-! ## Enumerations -/

/-- The status type of the transport client (`locClientStatusEnumType`); `other`
stands for every enumerator the adapter does not name. -/
inductive locClientStatusEnumType where
  | eLOC_CLIENT_SUCCESS
  | eLOC_CLIENT_FAILURE_GENERAL
  | eLOC_CLIENT_FAILURE_UNSUPPORTED
  | eLOC_CLIENT_FAILURE_INVALID_PARAMETER
  | eLOC_CLIENT_FAILURE_ENGINE_BUSY
  | eLOC_CLIENT_FAILURE_PHONE_OFFLINE
  | eLOC_CLIENT_FAILURE_TIMEOUT
  | eLOC_CLIENT_FAILURE_INVALID_HANDLE
  | eLOC_CLIENT_FAILURE_SERVICE_NOT_PRESENT
  | eLOC_CLIENT_FAILURE_INTERNAL
  | other (value : Nat)
  deriving DecidableEq, Repr

/-- The status carried by an indication (`qmiLocStatusEnumT_v02`). -/
inductive qmiLocStatusEnumT_v02 where
  | eQMI_LOC_SUCCESS_V02
  | eQMI_LOC_GENERAL_FAILURE_V02
  | eQMI_LOC_ENGINE_BUSY_V02
  | other (value : Nat)
  deriving DecidableEq, Repr

/-- The adapter error codes (`enum loc_api_adapter_err`). -/
inductive loc_api_adapter_err where
  | LOC_API_ADAPTER_ERR_SUCCESS
  | LOC_API_ADAPTER_ERR_GENERAL_FAILURE
  | LOC_API_ADAPTER_ERR_UNSUPPORTED
  | LOC_API_ADAPTER_ERR_INVALID_HANDLE
  | LOC_API_ADAPTER_ERR_INVALID_PARAMETER
  | LOC_API_ADAPTER_ERR_ENGINE_BUSY
  | LOC_API_ADAPTER_ERR_PHONE_OFFLINE
  | LOC_API_ADAPTER_ERR_TIMEOUT
  | LOC_API_ADAPTER_ERR_SERVICE_NOT_PRESENT
  | LOC_API_ADAPTER_ERR_INTERNAL
  | LOC_API_ADAPTER_ERR_FAILURE
  deriving DecidableEq, Repr

/-- The consumer-facing error of the location API (`LocationError`), as far as
the adapter produces it. -/
inductive LocationError where
  | LOCATION_ERROR_SUCCESS
  | LOCATION_ERROR_GENERAL_FAILURE
  deriving DecidableEq, Repr

/-- Status values handed to `reportStatus` (`LocGpsStatusValue`). -/
inductive LocGpsStatusValue where
  | LOC_GPS_STATUS_NONE
  | LOC_GPS_STATUS_SESSION_BEGIN
  | LOC_GPS_STATUS_SESSION_END
  | LOC_GPS_STATUS_ENGINE_ON
  | LOC_GPS_STATUS_ENGINE_OFF
  deriving DecidableEq, Repr

/-- Engine states of `qmiLocEventEngineStateIndMsgT_v02.engineState`. -/
inductive qmiLocEngineStateEnumT_v02 where
  | eQMI_LOC_ENGINE_STATE_ON_V02
  | eQMI_LOC_ENGINE_STATE_OFF_V02
  | other (value : Nat)
  deriving DecidableEq, Repr

/-- Message identifiers of the requests and indications the embedded functions
use; `other` is any further identifier of the protocol. -/
inductive MsgId where
  | QMI_LOC_STOP_REQ_V02
  | QMI_LOC_DELETE_GNSS_SERVICE_DATA_REQ_V02
  | QMI_LOC_DELETE_GNSS_SERVICE_DATA_IND_V02
  | QMI_LOC_DELETE_ASSIST_DATA_REQ_V02
  | QMI_LOC_DELETE_ASSIST_DATA_IND_V02
  | QMI_LOC_INJECT_PREDICTED_ORBITS_DATA_REQ_V02
  | QMI_LOC_INJECT_PREDICTED_ORBITS_DATA_IND_V02
  | QMI_LOC_GET_BATCH_SIZE_REQ_V02
  | QMI_LOC_EVENT_GEOFENCE_BATCHED_BREACH_NOTIFICATION_IND_V02
  | QMI_LOC_START_DBT_REQ_V02
  | QMI_LOC_QUERY_AON_CONFIG_REQ_V02
  | QMI_LOC_QUERY_AON_CONFIG_IND_V02
  | QMI_LOC_GET_SUPPORTED_FEATURE_REQ_V02
  | QMI_LOC_GET_SUPPORTED_FEATURE_IND_V02
  | QMI_LOC_SET_GNSS_CONSTELL_REPORT_CONFIG_V02
  | QMI_LOC_SET_GNSS_CONSTELL_REPORT_CONFIG_IND_V02
  | QMI_LOC_SET_OPERATION_MODE_REQ_V02
  | QMI_LOC_SET_OPERATION_MODE_IND_V02
  | QMI_LOC_START_REQ_V02
  | other (id : Nat)
  deriving DecidableEq, Repr

/-- Convert error from loc_api_v02 to loc eng format (`LocApiV02::convertErr`). -/
def convertErr : locClientStatusEnumType → loc_api_adapter_err
  | .eLOC_CLIENT_SUCCESS => .LOC_API_ADAPTER_ERR_SUCCESS
  | .eLOC_CLIENT_FAILURE_GENERAL => .LOC_API_ADAPTER_ERR_GENERAL_FAILURE
  | .eLOC_CLIENT_FAILURE_UNSUPPORTED => .LOC_API_ADAPTER_ERR_UNSUPPORTED
  | .eLOC_CLIENT_FAILURE_INVALID_PARAMETER => .LOC_API_ADAPTER_ERR_INVALID_PARAMETER
  | .eLOC_CLIENT_FAILURE_ENGINE_BUSY => .LOC_API_ADAPTER_ERR_ENGINE_BUSY
  | .eLOC_CLIENT_FAILURE_PHONE_OFFLINE => .LOC_API_ADAPTER_ERR_PHONE_OFFLINE
  | .eLOC_CLIENT_FAILURE_TIMEOUT => .LOC_API_ADAPTER_ERR_TIMEOUT
  | .eLOC_CLIENT_FAILURE_INVALID_HANDLE => .LOC_API_ADAPTER_ERR_INVALID_HANDLE
  | .eLOC_CLIENT_FAILURE_SERVICE_NOT_PRESENT => .LOC_API_ADAPTER_ERR_SERVICE_NOT_PRESENT
  | .eLOC_CLIENT_FAILURE_INTERNAL => .LOC_API_ADAPTER_ERR_INTERNAL
  | .other _ => .LOC_API_ADAPTER_ERR_FAILURE

/-! ## Event masks -/

/-- The C test `if (mask & bit)` on unsigned integers. -/
def hasBit (mask bit : Nat) : Bool := (mask &&& bit) != 0

/-- The C statement `if (cond) eventMask |= bits;`. -/
def orIf (cond : Bool) (bits eventMask : Nat) : Nat :=
  if cond then eventMask ||| bits else eventMask

/-- The complement `~x` of a 64-bit unsigned value. -/
def not64 (x : Nat) : Nat := (2 ^ 64 - 1) ^^^ (x % 2 ^ 64)

/-- Convert event mask from loc eng to loc_api_v02 format
(`LocApiV02::convertMask`), one line per `if` of the source, in source order. -/
def convertMask (k : MaskConsts) (mask : Nat) : Nat :=
  (0 : Nat)
  |> orIf (hasBit mask k.LOC_API_ADAPTER_BIT_PARSED_POSITION_REPORT)
      k.QMI_LOC_EVENT_MASK_POSITION_REPORT_V02
  |> orIf (hasBit mask k.LOC_API_ADAPTER_BIT_SATELLITE_REPORT)
      k.QMI_LOC_EVENT_MASK_GNSS_SV_INFO_V02
  |> orIf (hasBit mask k.LOC_API_ADAPTER_BIT_NMEA_POSITION_REPORT ||
           hasBit mask k.LOC_API_ADAPTER_BIT_NMEA_1HZ_REPORT)
      k.QMI_LOC_EVENT_MASK_NMEA_V02
  |> orIf (hasBit mask k.LOC_API_ADAPTER_BIT_NI_NOTIFY_VERIFY_REQUEST)
      k.QMI_LOC_EVENT_MASK_NI_NOTIFY_VERIFY_REQ_V02
  |> orIf (hasBit mask k.LOC_API_ADAPTER_BIT_ASSISTANCE_DATA_REQUEST)
      k.QMI_LOC_EVENT_MASK_INJECT_PREDICTED_ORBITS_REQ_V02
  |> orIf (hasBit mask k.LOC_API_ADAPTER_BIT_ASSISTANCE_DATA_REQUEST)
      k.QMI_LOC_EVENT_MASK_INJECT_TIME_REQ_V02
  |> orIf (hasBit mask k.LOC_API_ADAPTER_BIT_POSITION_INJECTION_REQUEST)
      k.QMI_LOC_EVENT_MASK_INJECT_POSITION_REQ_V02
  |> orIf (hasBit mask k.LOC_API_ADAPTER_BIT_STATUS_REPORT)
      k.QMI_LOC_EVENT_MASK_ENGINE_STATE_V02
  |> orIf (hasBit mask k.LOC_API_ADAPTER_BIT_LOCATION_SERVER_REQUEST)
      k.QMI_LOC_EVENT_MASK_LOCATION_SERVER_CONNECTION_REQ_V02
  |> orIf (hasBit mask k.LOC_API_ADAPTER_BIT_REQUEST_WIFI)
      k.QMI_LOC_EVENT_MASK_WIFI_REQ_V02
  |> orIf (hasBit mask k.LOC_API_ADAPTER_BIT_SENSOR_STATUS)
      k.QMI_LOC_EVENT_MASK_SENSOR_STREAMING_READY_STATUS_V02
  |> orIf (hasBit mask k.LOC_API_ADAPTER_BIT_REQUEST_TIME_SYNC)
      k.QMI_LOC_EVENT_MASK_TIME_SYNC_REQ_V02
  |> orIf (hasBit mask k.LOC_API_ADAPTER_BIT_REPORT_SPI)
      k.QMI_LOC_EVENT_MASK_SET_SPI_STREAMING_REPORT_V02
  |> orIf (hasBit mask k.LOC_API_ADAPTER_BIT_REPORT_NI_GEOFENCE)
      k.QMI_LOC_EVENT_MASK_NI_GEOFENCE_NOTIFICATION_V02
  |> orIf (hasBit mask k.LOC_API_ADAPTER_BIT_GEOFENCE_GEN_ALERT)
      k.QMI_LOC_EVENT_MASK_GEOFENCE_GEN_ALERT_V02
  |> orIf (hasBit mask k.LOC_API_ADAPTER_BIT_REPORT_GENFENCE_BREACH)
      k.QMI_LOC_EVENT_MASK_GEOFENCE_BREACH_NOTIFICATION_V02
  |> orIf (hasBit mask k.LOC_API_ADAPTER_BIT_BATCHED_GENFENCE_BREACH_REPORT)
      k.QMI_LOC_EVENT_MASK_GEOFENCE_BATCH_BREACH_NOTIFICATION_V02
  |> orIf (hasBit mask k.LOC_API_ADAPTER_BIT_PEDOMETER_CTRL)
      k.QMI_LOC_EVENT_MASK_PEDOMETER_CONTROL_V02
  |> orIf (hasBit mask k.LOC_API_ADAPTER_BIT_REPORT_GENFENCE_DWELL)
      k.QMI_LOC_EVENT_MASK_GEOFENCE_BATCH_DWELL_NOTIFICATION_V02
  |> orIf (hasBit mask k.LOC_API_ADAPTER_BIT_MOTION_CTRL)
      k.QMI_LOC_EVENT_MASK_MOTION_DATA_CONTROL_V02
  |> orIf (hasBit mask k.LOC_API_ADAPTER_BIT_REQUEST_WIFI_AP_DATA)
      k.QMI_LOC_EVENT_MASK_INJECT_WIFI_AP_DATA_REQ_V02
  |> orIf (hasBit mask k.LOC_API_ADAPTER_BIT_BATCH_FULL)
      k.QMI_LOC_EVENT_MASK_BATCH_FULL_NOTIFICATION_V02
  |> orIf (hasBit mask k.LOC_API_ADAPTER_BIT_BATCH_STATUS)
      k.QMI_LOC_EVENT_MASK_BATCHING_STATUS_V02
  |> orIf (hasBit mask k.LOC_API_ADAPTER_BIT_BATCHED_POSITION_REPORT)
      k.QMI_LOC_EVENT_MASK_LIVE_BATCHED_POSITION_REPORT_V02
  |> orIf (hasBit mask k.LOC_API_ADAPTER_BIT_GNSS_MEASUREMENT_REPORT)
      k.QMI_LOC_EVENT_MASK_GNSS_MEASUREMENT_REPORT_V02
  |> orIf (hasBit mask k.LOC_API_ADAPTER_BIT_GNSS_SV_POLYNOMIAL_REPORT)
      k.QMI_LOC_EVENT_MASK_GNSS_SV_POLYNOMIAL_REPORT_V02
  |> orIf (hasBit mask k.LOC_API_ADAPTER_BIT_GDT_UPLOAD_BEGIN_REQ)
      k.QMI_LOC_EVENT_MASK_GDT_UPLOAD_BEGIN_REQ_V02
  |> orIf (hasBit mask k.LOC_API_ADAPTER_BIT_GDT_UPLOAD_END_REQ)
      k.QMI_LOC_EVENT_MASK_GDT_UPLOAD_END_REQ_V02
  |> orIf (hasBit mask k.LOC_API_ADAPTER_BIT_GNSS_MEASUREMENT)
      k.QMI_LOC_EVENT_MASK_GNSS_MEASUREMENT_REPORT_V02
  |> orIf (hasBit mask k.LOC_API_ADAPTER_BIT_REQUEST_TIMEZONE)
      k.QMI_LOC_EVENT_MASK_GET_TIME_ZONE_REQ_V02
  |> orIf (hasBit mask k.LOC_API_ADAPTER_BIT_REQUEST_SRN_DATA)
      k.QMI_LOC_EVENT_MASK_INJECT_SRN_AP_DATA_REQ_V02
  |> orIf (hasBit mask k.LOC_API_ADAPTER_BIT_FDCL_SERVICE_REQ)
      k.QMI_LOC_EVENT_MASK_FDCL_SERVICE_REQ_V02

/-! ## Requests, indications, the transport and the adapter state -/

/-- Further constants of the interface headers used by the embedded
functions. -/
structure MiscConsts where
  LOC_ENGINE_SYNC_REQUEST_TIMEOUT : Nat
  QMI_LOC_MAX_PREDICTED_ORBITS_PART_LEN_V02 : Nat
  GLO_SV_PRN_MIN : Int
  GAL_SV_PRN_MIN : Int
  BDS_SV_PRN_MIN : Int
  GPS_SV_PRN_MIN : Int
  GPS_SV_PRN_MAX : Int
  GLO_SV_PRN_MAX : Int
  BDS_SV_PRN_MAX : Int
  GAL_SV_PRN_MAX : Int
  QZSS_SV_PRN_MIN : Int
  QZSS_SV_PRN_MAX : Int

/-- The header values of `MiscConsts` (timeout 1000 ms, 1024-byte XTRA parts,
GPS ids 1 to 32, GLONASS 65 to 96, QZSS 193 to 197, BeiDou 201 to 235, Galileo
301 to 336). -/
def headerMisc : MiscConsts where
  LOC_ENGINE_SYNC_REQUEST_TIMEOUT := 1000
  QMI_LOC_MAX_PREDICTED_ORBITS_PART_LEN_V02 := 1024
  GLO_SV_PRN_MIN := 65
  GAL_SV_PRN_MIN := 301
  BDS_SV_PRN_MIN := 201
  GPS_SV_PRN_MIN := 1
  GPS_SV_PRN_MAX := 32
  GLO_SV_PRN_MAX := 96
  BDS_SV_PRN_MAX := 235
  GAL_SV_PRN_MAX := 336
  QZSS_SV_PRN_MIN := 193
  QZSS_SV_PRN_MAX := 197

/-- Default session id (`LOC_API_V02_DEF_SESSION_ID`). -/
def LOC_API_V02_DEF_SESSION_ID : Nat := 1

/-- GPS SV Id offset (`GPS_SV_ID_OFFSET`). -/
def GPS_SV_ID_OFFSET : Nat := 1

/-- SV ID range (`SV_ID_RANGE`). -/
def SV_ID_RANGE : Nat := 32

/-- The stop request (`qmiLocStopReqMsgT_v02`). -/
structure qmiLocStopReqMsgT_v02 where
  sessionId : Nat
  deriving DecidableEq, Repr

/-- Format of predicted orbits data; the adapter only uses XTRA. -/
inductive qmiLocPredictedOrbitsFormatEnumT_v02 where
  | eQMI_LOC_PREDICTED_ORBITS_XTRA_V02
  deriving DecidableEq, Repr

/-- The fields of `qmiLocInjectPredictedOrbitsDataReqMsgT_v02` that
`setXtraData` writes; `partData` holds the `partData_len` bytes copied in. -/
structure qmiLocInjectPredictedOrbitsDataReqMsgT_v02 where
  formatType_valid : Bool
  formatType : qmiLocPredictedOrbitsFormatEnumT_v02
  totalSize : Nat
  totalParts : Nat
  partNum : Nat
  partData_len : Nat
  partData : List Nat
  deriving DecidableEq, Repr

/-- The satellite part of the bulk delete request. -/
structure qmiLocDeleteSatelliteDataStructT_v02 where
  system : Nat
  deleteSatelliteDataMask : Nat
  deriving DecidableEq, Repr

/-- The bulk delete request (`qmiLocDeleteGNSSServiceDataReqMsgT_v02`). -/
structure qmiLocDeleteGNSSServiceDataReqMsgT_v02 where
  deleteAllFlag : Bool
  deleteSatelliteData_valid : Bool
  deleteSatelliteData : qmiLocDeleteSatelliteDataStructT_v02
  deleteCommonDataMask_valid : Bool
  deleteCommonDataMask : Nat
  deleteCellDbDataMask_valid : Bool
  deleteCellDbDataMask : Nat
  deriving DecidableEq, Repr

/-- Satellite systems of the legacy per-satellite list; the adapter only
enumerates GPS. -/
inductive qmiLocSvSystemEnumT_v02 where
  | eQMI_LOC_SV_SYSTEM_GPS_V02
  | eQMI_LOC_SV_SYSTEM_GALILEO_V02
  | eQMI_LOC_SV_SYSTEM_SBAS_V02
  | eQMI_LOC_SV_SYSTEM_COMPASS_V02
  | eQMI_LOC_SV_SYSTEM_GLONASS_V02
  | eQMI_LOC_SV_SYSTEM_BDS_V02
  | eQMI_LOC_SV_SYSTEM_QZSS_V02
  | other (value : Nat)
  deriving DecidableEq, Repr

/-- One entry of the legacy satellite list (`qmiLocDeleteSvInfoStructT_v02`). -/
structure qmiLocDeleteSvInfoStructT_v02 where
  gnssSvId : Nat
  system : qmiLocSvSystemEnumT_v02
  deleteSvInfoMask : Nat
  deriving DecidableEq, Repr

/-- The legacy delete request (`qmiLocDeleteAssistDataReqMsgT_v02`);
`deleteSvInfoList` holds the first `deleteSvInfoList_len` entries of the
array, the rest of which stays zero. -/
structure qmiLocDeleteAssistDataReqMsgT_v02 where
  deleteAllFlag : Bool
  deleteSvInfoList_valid : Bool
  deleteSvInfoList_len : Nat
  deleteSvInfoList : List qmiLocDeleteSvInfoStructT_v02
  deleteGnssDataMask_valid : Bool
  deleteGnssDataMask : Nat
  deleteCellDbDataMask_valid : Bool
  deleteCellDbDataMask : Nat
  deriving DecidableEq, Repr

/-- The AON configuration query (`qmiLocQueryAonConfigReqMsgT_v02`). -/
structure qmiLocQueryAonConfigReqMsgT_v02 where
  transactionId : Nat
  deriving DecidableEq, Repr

/-- The constellation report configuration request
(`qmiLocSetGNSSConstRepConfigReqMsgT_v02`), as far as the adapter writes it. -/
structure qmiLocSetGNSSConstRepConfigReqMsgT_v02 where
  measReportConfig_valid : Bool
  measReportConfig : Nat
  svPolyReportConfig_valid : Bool
  svPolyReportConfig : Nat
  deriving DecidableEq, Repr

/-- Operation modes of the engine (`qmiLocOperationModeEnumT_v02`). -/
inductive qmiLocOperationModeEnumT_v02 where
  | eQMI_LOC_OPER_MODE_MSB_V02
  | eQMI_LOC_OPER_MODE_MSA_V02
  | eQMI_LOC_OPER_MODE_STANDALONE_V02
  | eQMI_LOC_OPER_MODE_CELL_ID_V02
  | eQMI_LOC_OPER_MODE_WWAN_V02
  deriving DecidableEq, Repr

/-- The mode-setting request (`qmiLocSetOperationModeReqMsgT_v02`). -/
structure qmiLocSetOperationModeReqMsgT_v02 where
  operationMode : qmiLocOperationModeEnumT_v02
  deriving DecidableEq, Repr

/-- Accuracy tiers of the start request. -/
inductive qmiLocAccuracyLevelEnumT_v02 where
  | eQMI_LOC_ACCURACY_LOW_V02
  | eQMI_LOC_ACCURACY_MED_V02
  | eQMI_LOC_ACCURACY_HIGH_V02
  deriving DecidableEq, Repr

/-- Recurrence of the start request. -/
inductive qmiLocFixRecurrenceEnumT_v02 where
  | eQMI_LOC_RECURRENCE_PERIODIC_V02
  | eQMI_LOC_RECURRENCE_SINGLE_V02
  deriving DecidableEq, Repr

/-- The start request (`qmiLocStartReqMsgT_v02`), as far as `startFix` writes
it; a field that `startFix` leaves alone keeps the zero of the `memset`
(`none` for the enumerations, the empty string for the character arrays). -/
structure qmiLocStartReqMsgT_v02 where
  sessionId : Nat
  minInterval_valid : Bool
  minInterval : Nat
  horizontalAccuracyLevel_valid : Bool
  horizontalAccuracyLevel : Option qmiLocAccuracyLevelEnumT_v02
  positionReportTimeout_valid : Bool
  positionReportTimeout : Nat
  fixRecurrence_valid : Bool
  fixRecurrence : Option qmiLocFixRecurrenceEnumT_v02
  sharePosition_valid : Bool
  sharePosition : Bool
  applicationId_valid : Bool
  applicationName : List Nat
  applicationProvider : List Nat
  configAltitudeAssumed_valid : Bool
  configAltitudeAssumedDisabled : Bool
  deriving DecidableEq, Repr

/-- The object a `locClientReqUnionType` points to, by union member; `pReqData`
is any other request, as raw bytes. -/
inductive ReqPayload where
  | pStopReq (m : qmiLocStopReqMsgT_v02)
  | pInjectPredictedOrbitsDataReq (m : qmiLocInjectPredictedOrbitsDataReqMsgT_v02)
  | pDeleteGNSSServiceDataReq (m : qmiLocDeleteGNSSServiceDataReqMsgT_v02)
  | pDeleteAssistDataReq (m : qmiLocDeleteAssistDataReqMsgT_v02)
  | pReqData (bytes : List Nat)
  | pQueryAonConfigReq (m : qmiLocQueryAonConfigReqMsgT_v02)
  | pGetSupportedFeatureReq
  | pSetGNSSConstRepConfigReq (m : qmiLocSetGNSSConstRepConfigReqMsgT_v02)
  | pSetOperationModeReq (m : qmiLocSetOperationModeReqMsgT_v02)
  | pStartReq (m : qmiLocStartReqMsgT_v02)
  deriving DecidableEq, Repr

/-- The fields of an indication payload that the embedded functions read:
the leading `status` word; for the predicted-orbits indication the echoed
`partNum`; for the AON configuration indication `aonCapability`; for the
supported-feature indication the first `feature_len` entries of `feature`. -/
structure Ind where
  status : qmiLocStatusEnumT_v02
  partNum : Nat
  aonCapability_valid : Bool := false
  aonCapability : Nat := 0
  feature_len : Nat := 0
  feature : List Nat := []
  deriving DecidableEq, Repr

/-- An indication buffer after `memset(&ind, 0, sizeof(ind))`: the success
status is the enumerator with value 0. -/
def Ind.zero : Ind := { status := .eQMI_LOC_SUCCESS_V02, partNum := 0 }

/-- What happened at the boundary of the adapter, in order: calls into the
transport with their answers, allocations, status reports to the consumer and
the engine-down and engine-up calls into the base class. -/
inductive Event where
  | locClientRegisterEventMask (handle : Option Nat) (mask : Nat) (result : Bool)
  | locClientSendReq (handle : Option Nat) (req_id : MsgId)
      (req_payload : Option ReqPayload) (status : locClientStatusEnumType)
  | loc_sync_send_req (handle : Option Nat) (req_id : MsgId)
      (req_payload : Option ReqPayload) (timeout_msec : Nat) (ind_id : MsgId)
      (ind_payload_ptr : Option Ind) (status : locClientStatusEnumType) (ind : Ind)
  | malloc (result : Bool)
  | reportStatus (status : LocGpsStatusValue)
  | locClientOpen (mask : Nat) (status : locClientStatusEnumType) (handle : Option Nat)
  | locClientSupportMsgCheck (handle : Option Nat) (msgArray : List MsgId)
      (status : locClientStatusEnumType) (supportedMsgList : Nat)
  | saveSupportedMsgList (supportedMsgList : Nat)
  | saveSupportedFeatureList (feature : List Nat)
  | locClientClose (handle : Option Nat) (status : locClientStatusEnumType)
  | handleEngineDownEvent
  | handleEngineUpEvent
  deriving DecidableEq, Repr

/-- The environment of the adapter.  Every answer is a function of the
history so far and of the arguments of the call.  `validateRequest` reports
the request data to snapshot (`none` is a null `pReqData`); `castStatus` is the
value read when the leading status word of an indication is read through a
`locClientStatusEnumType` pointer. -/
structure Env where
  locClientRegisterEventMask : List Event → Option Nat → Nat → Bool
  locClientSendReq : List Event → Option Nat → MsgId → Option ReqPayload →
    locClientStatusEnumType
  loc_sync_send_req : List Event → Option Nat → MsgId → Option ReqPayload → Nat →
    MsgId → Option Ind → locClientStatusEnumType × Ind
  malloc : List Event → Bool
  validateRequest : MsgId → Option ReqPayload → Option ReqPayload
  castStatus : qmiLocStatusEnumT_v02 → locClientStatusEnumType
  locClientOpen : List Event → Nat → locClientStatusEnumType × Option Nat
  locClientSupportMsgCheck : List Event → Option Nat → List MsgId →
    locClientStatusEnumType × Nat
  locClientClose : List Event → Option Nat → locClientStatusEnumType

/-- The variables captured by a closure pushed on `mResenders`. -/
structure Resender where
  req_id : MsgId
  req_payload_copy : Option ReqPayload
  timeout_msec : Nat
  ind_id : MsgId
  deriving DecidableEq, Repr

/-- Tri-state of the measurement-support cache. -/
inductive supportState where
  | sup_unknown
  | sup_yes
  | sup_no
  deriving DecidableEq, Repr

/-- The mutable state of one `LocApiV02` object, with the function-local
static `isNewApiSupported` of `deleteAidingData` and the trace of boundary
events.  `clientHandle = none` is `LOC_CLIENT_INVALID_HANDLE_VALUE`. -/
structure State where
  clientHandle : Option Nat
  mGnssMeasurementSupported : supportState
  mMask : Nat
  mQmiMask : Nat
  mInSession : Bool
  mEngineOn : Bool
  mMeasurementsStarted : Bool
  mResenders : List Resender
  isNewApiSupported : Bool
  trace : List Event
  deriving DecidableEq, Repr

/-- The state right after the constructor, before any call. -/
def State.init : State where
  clientHandle := none
  mGnssMeasurementSupported := .sup_unknown
  mMask := 0
  mQmiMask := 0
  mInSession := false
  mEngineOn := false
  mMeasurementsStarted := false
  mResenders := []
  isNewApiSupported := true
  trace := []

/-- Append one boundary event to the trace. -/
def State.log (s : State) (e : Event) : State := { s with trace := s.trace ++ [e] }

/-- The mask cleared by `adjustMaskIfNoSession` (its local `clearMask`). -/
def clearMask (k : MaskConsts) : Nat :=
  k.QMI_LOC_EVENT_MASK_POSITION_REPORT_V02 |||
  k.QMI_LOC_EVENT_MASK_GNSS_SV_INFO_V02 |||
  k.QMI_LOC_EVENT_MASK_NMEA_V02 |||
  k.QMI_LOC_EVENT_MASK_ENGINE_STATE_V02 |||
  k.QMI_LOC_EVENT_MASK_GNSS_MEASUREMENT_REPORT_V02

/-- The function `LocApiV02::adjustMaskIfNoSession`. -/
def adjustMaskIfNoSession (k : MaskConsts) (s : State) (qmiMask : Nat) : Nat :=
  if !s.mInSession then qmiMask &&& not64 (clearMask k) else qmiMask

/-- The function `LocApiV02::registerEventMask`: the transport is called only
when the computed mask differs from `mQmiMask`, and `mQmiMask` is updated only
when the transport accepts. -/
def registerEventMask (env : Env) (k : MaskConsts) (s : State) (adapterMask : Nat) : State :=
  let qmiMask := adjustMaskIfNoSession k s (convertMask k adapterMask)
  let s1 :=
    if qmiMask ≠ s.mQmiMask then
      let ok := env.locClientRegisterEventMask s.trace s.clientHandle qmiMask
      let s0 := s.log (.locClientRegisterEventMask s.clientHandle qmiMask ok)
      if ok then { s0 with mQmiMask := qmiMask } else s0
    else s
  { s1 with mMask := adapterMask }

/-- The status that `locClientSendReq (QMI_LOC_STOP_REQ_V02, ...)` returns to
`stopFix`. -/
def stopFix.status (env : Env) (s : State) : locClientStatusEnumType :=
  env.locClientSendReq s.trace s.clientHandle .QMI_LOC_STOP_REQ_V02
    (some (.pStopReq { sessionId := LOC_API_V02_DEF_SESSION_ID }))

/-- The state of `stopFix` after the stop request was sent and `mInSession`
was set to false, before the test of `mEngineOn`. -/
def stopFix.sent (env : Env) (s : State) : State :=
  { s.log (.locClientSendReq s.clientHandle .QMI_LOC_STOP_REQ_V02
      (some (.pStopReq { sessionId := LOC_API_V02_DEF_SESSION_ID }))
      (stopFix.status env s)) with mInSession := false }

/-- The function `LocApiV02::stopFix`. -/
def stopFix (env : Env) (k : MaskConsts) (s : State) : loc_api_adapter_err × State :=
  let s2 := stopFix.sent env s
  let s3 := if !s2.mEngineOn then registerEventMask env k s2 s2.mMask else s2
  (convertErr (stopFix.status env s), s3)

/-- The result of `locSyncSendReq`: the returned status, the indication buffer
after the call (`none` when the caller passed a null pointer) and the state. -/
structure SyncResult where
  status : locClientStatusEnumType
  ind : Option Ind
  state : State

/-- The function `LocApiV02::locSyncSendReq`.  On an engine-busy answer the
engine-state event is registered when the queue is empty and `mQmiMask` lacks
the bit (the answer is ignored and `mQmiMask` is not touched), the request data
reported by `validateRequest` is copied, and a resender is pushed unless that
copy could not be allocated. -/
def locSyncSendReq (env : Env) (k : MaskConsts) (s : State) (req_id : MsgId)
    (req_payload : Option ReqPayload) (timeout_msec : Nat) (ind_id : MsgId)
    (ind_payload_ptr : Option Ind) : SyncResult :=
  let r := env.loc_sync_send_req s.trace s.clientHandle req_id req_payload timeout_msec
    ind_id ind_payload_ptr
  let status := r.1
  let ind := ind_payload_ptr.map (fun _ => r.2)
  let s1 := s.log (.loc_sync_send_req s.clientHandle req_id req_payload timeout_msec ind_id
    ind_payload_ptr status r.2)
  let busy : Bool :=
    decide (status = .eLOC_CLIENT_FAILURE_ENGINE_BUSY) ||
    (decide (status = .eLOC_CLIENT_SUCCESS) && ind_payload_ptr.isSome &&
      decide (env.castStatus r.2.status = .eLOC_CLIENT_FAILURE_ENGINE_BUSY))
  if busy then
    let s2 :=
      if s1.mResenders.isEmpty && (s1.mQmiMask &&& k.QMI_LOC_EVENT_MASK_ENGINE_STATE_V02) == 0 then
        let m := s1.mQmiMask ||| k.QMI_LOC_EVENT_MASK_ENGINE_STATE_V02
        s1.log (.locClientRegisterEventMask s1.clientHandle m
          (env.locClientRegisterEventMask s1.trace s1.clientHandle m))
      else s1
    match env.validateRequest req_id req_payload with
    | none =>
      { status := status, ind := ind,
        state := { s2 with mResenders := s2.mResenders ++
          [{ req_id := req_id, req_payload_copy := none,
             timeout_msec := timeout_msec, ind_id := ind_id }] } }
    | some pReqData =>
      let ok := env.malloc s2.trace
      let s3 := s2.log (.malloc ok)
      if ok then
        { status := status, ind := ind,
          state := { s3 with mResenders := s3.mResenders ++
            [{ req_id := req_id, req_payload_copy := some pReqData,
               timeout_msec := timeout_msec, ind_id := ind_id }] } }
      else { status := status, ind := ind, state := s3 }
  else { status := status, ind := ind, state := s1 }

/-- Running one closure of `mResenders`: a `loc_sync_send_req` with the captured
request and a null indication pointer, on the current client handle. -/
def Resender.run (env : Env) (s : State) (r : Resender) : State :=
  let a := env.loc_sync_send_req s.trace s.clientHandle r.req_id r.req_payload_copy
    r.timeout_msec r.ind_id none
  s.log (.loc_sync_send_req s.clientHandle r.req_id r.req_payload_copy r.timeout_msec
    r.ind_id none a.1 a.2)

/-- The consumer callback `reportStatus`, recorded in the trace. -/
def reportStatus (s : State) (status : LocGpsStatusValue) : State :=
  s.log (.reportStatus status)

/-- The body `MsgUpdateEngineState::proc` for a message built with
`engineOn`. -/
def MsgUpdateEngineState.proc (env : Env) (k : MaskConsts) (s : State) (engineOn : Bool) :
    State :=
  let s1 :=
    if s.mEngineOn && !s.mInSession && !engineOn then registerEventMask env k s s.mMask
    else s
  let s2 := { s1 with mEngineOn := engineOn }
  if engineOn then
    if s2.mInSession then
      reportStatus (reportStatus s2 .LOC_GPS_STATUS_ENGINE_ON) .LOC_GPS_STATUS_SESSION_BEGIN
    else s2
  else
    let s3 := reportStatus s2 .LOC_GPS_STATUS_SESSION_END
    let s4 := reportStatus s3 .LOC_GPS_STATUS_ENGINE_OFF
    let s5 := registerEventMask env k s4 s4.mMask
    let s6 := s5.mResenders.foldl (Resender.run env) s5
    { s6 with mResenders := [] }

/-- The function `LocApiV02::reportEngineState` followed by the processing of
the message it posts to the adapter's queue. -/
def reportEngineState (env : Env) (k : MaskConsts) (s : State)
    (engineState : qmiLocEngineStateEnumT_v02) : State :=
  match engineState with
  | .eQMI_LOC_ENGINE_STATE_ON_V02 => MsgUpdateEngineState.proc env k s true
  | .eQMI_LOC_ENGINE_STATE_OFF_V02 => MsgUpdateEngineState.proc env k s false
  | .other _ => reportStatus s .LOC_GPS_STATUS_NONE

/-! ## XTRA injection -/

/-- The length of the part that `setXtraData` sends when `len_injected` bytes
are already injected.  The comparison
`QMI_LOC_MAX_PREDICTED_ORBITS_PART_LEN_V02 > (length - len_injected)` is done in
32-bit unsigned arithmetic, `len_injected` being a `uint32_t`. -/
def setXtraData.partData_len (m : MiscConsts) (length : Int) (len_injected : Nat) : Nat :=
  if m.QMI_LOC_MAX_PREDICTED_ORBITS_PART_LEN_V02 % 2 ^ 32 >
      ((length - (len_injected : Int)) % 2 ^ 32).toNat then
    ((length - (len_injected : Int)) % 2 ^ 32).toNat
  else m.QMI_LOC_MAX_PREDICTED_ORBITS_PART_LEN_V02

/-- The request `inject_xtra` as `setXtraData` has filled it when part `part`
is sent: the `memcpy` takes `partData_len` bytes of the blob from offset
`len_injected`. -/
def setXtraData.inject_xtra (m : MiscConsts) (data : List Nat) (length : Int)
    (total_parts part len_injected : Nat) : qmiLocInjectPredictedOrbitsDataReqMsgT_v02 :=
  { formatType_valid := true
    formatType := .eQMI_LOC_PREDICTED_ORBITS_XTRA_V02
    totalSize := (length % 2 ^ 32).toNat
    totalParts := total_parts
    partNum := part
    partData_len := setXtraData.partData_len m length len_injected
    partData := (data.drop len_injected).take (setXtraData.partData_len m length len_injected) }

/-- The loop of `setXtraData` (`for (part = 1; part <= total_parts; part++)`),
run for at most `fuel` evaluations of the loop condition; `none` is fuel
exhausted.  `part` is a `uint16_t` and `len_injected` a `uint32_t`.  A part
that is not acknowledged (client status, indication status or echoed part
number) leaves `len_injected` as it is; the loop has no `break`.  The returned
status is the one left in `status` when the loop condition fails. -/
def setXtraData.loop (env : Env) (k : MaskConsts) (m : MiscConsts) (data : List Nat)
    (length : Int) (total_parts : Nat) :
    Nat → Nat → Nat → locClientStatusEnumType → State →
    Option (locClientStatusEnumType × State)
  | 0, _, _, _, _ => none
  | fuel + 1, part, len_injected, status, s =>
    if part ≤ total_parts then
      let inject_xtra := setXtraData.inject_xtra m data length total_parts part len_injected
      let r := locSyncSendReq env k s .QMI_LOC_INJECT_PREDICTED_ORBITS_DATA_REQ_V02
        (some (.pInjectPredictedOrbitsDataReq inject_xtra))
        m.LOC_ENGINE_SYNC_REQUEST_TIMEOUT
        .QMI_LOC_INJECT_PREDICTED_ORBITS_DATA_IND_V02 (some Ind.zero)
      let inject_xtra_ind := r.ind.getD Ind.zero
      if r.status ≠ .eLOC_CLIENT_SUCCESS ∨
          inject_xtra_ind.status ≠ .eQMI_LOC_SUCCESS_V02 ∨
          inject_xtra.partNum ≠ inject_xtra_ind.partNum then
        setXtraData.loop env k m data length total_parts fuel ((part + 1) % 2 ^ 16)
          len_injected r.status r.state
      else
        setXtraData.loop env k m data length total_parts fuel ((part + 1) % 2 ^ 16)
          ((len_injected + inject_xtra.partData_len) % 2 ^ 32) r.status r.state
    else some (status, s)

/-- The local `total_parts` of `setXtraData`:
`((length - 1) / QMI_LOC_MAX_PREDICTED_ORBITS_PART_LEN_V02) + 1` in `int`
arithmetic (division truncates toward zero), stored in a `uint16_t`. -/
def setXtraData.total_parts (m : MiscConsts) (length : Int) : Nat :=
  ((Int.tdiv (length - 1) (m.QMI_LOC_MAX_PREDICTED_ORBITS_PART_LEN_V02 : Int) + 1) % 2 ^ 16).toNat

/-- The function `LocApiV02::setXtraData` on the blob `data` with declared
`length`. -/
def setXtraData (env : Env) (k : MaskConsts) (m : MiscConsts) (fuel : Nat) (s : State)
    (data : List Nat) (length : Int) : Option (loc_api_adapter_err × State) :=
  (setXtraData.loop env k m data length (setXtraData.total_parts m length) fuel 1 0
    .eLOC_CLIENT_SUCCESS s).map (fun r => (convertErr r.1, r.2))

/-! ## Aiding data deletion -/

/-- Bit constants used by `deleteAidingData`: the consumer side
`GNSS_AIDING_DATA_*` and the protocol side of both delete requests. -/
structure DeleteConsts where
  GNSS_AIDING_DATA_SV_EPHEMERIS_BIT : Nat
  GNSS_AIDING_DATA_SV_ALMANAC_BIT : Nat
  GNSS_AIDING_DATA_SV_HEALTH_BIT : Nat
  GNSS_AIDING_DATA_SV_DIRECTION_BIT : Nat
  GNSS_AIDING_DATA_SV_STEER_BIT : Nat
  GNSS_AIDING_DATA_SV_ALMANAC_CORR_BIT : Nat
  GNSS_AIDING_DATA_SV_BLACKLIST_BIT : Nat
  GNSS_AIDING_DATA_SV_SA_DATA_BIT : Nat
  GNSS_AIDING_DATA_SV_NO_EXIST_BIT : Nat
  GNSS_AIDING_DATA_SV_IONOSPHERE_BIT : Nat
  GNSS_AIDING_DATA_SV_TIME_BIT : Nat
  GNSS_AIDING_DATA_SV_TYPE_GPS_BIT : Nat
  GNSS_AIDING_DATA_SV_TYPE_GLONASS_BIT : Nat
  GNSS_AIDING_DATA_SV_TYPE_QZSS_BIT : Nat
  GNSS_AIDING_DATA_SV_TYPE_BEIDOU_BIT : Nat
  GNSS_AIDING_DATA_SV_TYPE_GALILEO_BIT : Nat
  GNSS_AIDING_DATA_COMMON_POSITION_BIT : Nat
  GNSS_AIDING_DATA_COMMON_TIME_BIT : Nat
  GNSS_AIDING_DATA_COMMON_UTC_BIT : Nat
  GNSS_AIDING_DATA_COMMON_RTI_BIT : Nat
  GNSS_AIDING_DATA_COMMON_FREQ_BIAS_EST_BIT : Nat
  GNSS_AIDING_DATA_COMMON_CELLDB_BIT : Nat
  QMI_LOC_DELETE_DATA_MASK_EPHEMERIS_V02 : Nat
  QMI_LOC_DELETE_DATA_MASK_ALMANAC_V02 : Nat
  QMI_LOC_DELETE_DATA_MASK_SVHEALTH_V02 : Nat
  QMI_LOC_DELETE_DATA_MASK_SVDIR_V02 : Nat
  QMI_LOC_DELETE_DATA_MASK_SVSTEER_V02 : Nat
  QMI_LOC_DELETE_DATA_MASK_ALM_CORR_V02 : Nat
  QMI_LOC_DELETE_DATA_MASK_BLACKLIST_V02 : Nat
  QMI_LOC_DELETE_DATA_MASK_SA_DATA_V02 : Nat
  QMI_LOC_DELETE_DATA_MASK_SV_NO_EXIST_V02 : Nat
  QMI_LOC_DELETE_DATA_MASK_IONO_V02 : Nat
  QMI_LOC_DELETE_DATA_MASK_TIME_V02 : Nat
  QMI_LOC_SYSTEM_GPS_V02 : Nat
  QMI_LOC_SYSTEM_GLO_V02 : Nat
  QMI_LOC_SYSTEM_BDS_V02 : Nat
  QMI_LOC_SYSTEM_GAL_V02 : Nat
  QMI_LOC_SYSTEM_QZSS_V02 : Nat
  QMI_LOC_DELETE_COMMON_MASK_POS_V02 : Nat
  QMI_LOC_DELETE_COMMON_MASK_TIME_V02 : Nat
  QMI_LOC_DELETE_COMMON_MASK_UTC_V02 : Nat
  QMI_LOC_DELETE_COMMON_MASK_RTI_V02 : Nat
  QMI_LOC_DELETE_COMMON_MASK_FREQ_BIAS_EST_V02 : Nat
  QMI_LOC_MASK_DELETE_CELLDB_POS_V02 : Nat
  QMI_LOC_MASK_DELETE_CELLDB_LATEST_GPS_POS_V02 : Nat
  QMI_LOC_MASK_DELETE_CELLDB_OTA_POS_V02 : Nat
  QMI_LOC_MASK_DELETE_CELLDB_EXT_REF_POS_V02 : Nat
  QMI_LOC_MASK_DELETE_CELLDB_TIMETAG_V02 : Nat
  QMI_LOC_MASK_DELETE_CELLDB_CELLID_V02 : Nat
  QMI_LOC_MASK_DELETE_CELLDB_CACHED_CELLID_V02 : Nat
  QMI_LOC_MASK_DELETE_CELLDB_LAST_SRV_CELL_V02 : Nat
  QMI_LOC_MASK_DELETE_CELLDB_CUR_SRV_CELL_V02 : Nat
  QMI_LOC_MASK_DELETE_CELLDB_NEIGHBOR_INFO_V02 : Nat
  QMI_LOC_MASK_DELETE_EPHEMERIS_V02 : Nat
  QMI_LOC_MASK_DELETE_ALMANAC_V02 : Nat
  QMI_LOC_MASK_DELETE_POSITION_V02 : Nat
  QMI_LOC_MASK_DELETE_TIME_V02 : Nat
  QMI_LOC_MASK_DELETE_IONO_V02 : Nat
  QMI_LOC_MASK_DELETE_UTC_V02 : Nat
  QMI_LOC_MASK_DELETE_HEALTH_V02 : Nat
  QMI_LOC_MASK_DELETE_GPS_SVDIR_V02 : Nat
  QMI_LOC_MASK_DELETE_SADATA_V02 : Nat
  QMI_LOC_MASK_DELETE_RTI_V02 : Nat

/-- The satellite part of `GnssAidingData`. -/
structure GnssAidingDataSv where
  svMask : Nat
  svTypeMask : Nat
  deriving DecidableEq, Repr

/-- The common part of `GnssAidingData`. -/
structure GnssAidingDataCommon where
  mask : Nat
  deriving DecidableEq, Repr

/-- The argument of `deleteAidingData` (`GnssAidingData`). -/
structure GnssAidingData where
  deleteAll : Bool
  sv : GnssAidingDataSv
  common : GnssAidingDataCommon
  deriving DecidableEq, Repr

/-- The ten cell-database bits both delete requests set together. -/
def deleteAidingData.cellDbMask (d : DeleteConsts) : Nat :=
  d.QMI_LOC_MASK_DELETE_CELLDB_POS_V02 |||
  d.QMI_LOC_MASK_DELETE_CELLDB_LATEST_GPS_POS_V02 |||
  d.QMI_LOC_MASK_DELETE_CELLDB_OTA_POS_V02 |||
  d.QMI_LOC_MASK_DELETE_CELLDB_EXT_REF_POS_V02 |||
  d.QMI_LOC_MASK_DELETE_CELLDB_TIMETAG_V02 |||
  d.QMI_LOC_MASK_DELETE_CELLDB_CELLID_V02 |||
  d.QMI_LOC_MASK_DELETE_CELLDB_CACHED_CELLID_V02 |||
  d.QMI_LOC_MASK_DELETE_CELLDB_LAST_SRV_CELL_V02 |||
  d.QMI_LOC_MASK_DELETE_CELLDB_CUR_SRV_CELL_V02 |||
  d.QMI_LOC_MASK_DELETE_CELLDB_NEIGHBOR_INFO_V02

/-- The bulk request `delete_gnss_req` that `deleteAidingData` builds from
zeroed memory, one line per `if` of the source. -/
def deleteAidingData.delete_gnss_req (d : DeleteConsts) (data : GnssAidingData) :
    qmiLocDeleteGNSSServiceDataReqMsgT_v02 :=
  if data.deleteAll then
    { deleteAllFlag := true
      deleteSatelliteData_valid := false
      deleteSatelliteData := { system := 0, deleteSatelliteDataMask := 0 }
      deleteCommonDataMask_valid := false
      deleteCommonDataMask := 0
      deleteCellDbDataMask_valid := false
      deleteCellDbDataMask := 0 }
  else
    let sv := data.sv.svMask
    let deleteSatelliteDataMask :=
      (0 : Nat)
      |> orIf (hasBit d.GNSS_AIDING_DATA_SV_EPHEMERIS_BIT sv) d.QMI_LOC_DELETE_DATA_MASK_EPHEMERIS_V02
      |> orIf (hasBit d.GNSS_AIDING_DATA_SV_ALMANAC_BIT sv) d.QMI_LOC_DELETE_DATA_MASK_ALMANAC_V02
      |> orIf (hasBit d.GNSS_AIDING_DATA_SV_HEALTH_BIT sv) d.QMI_LOC_DELETE_DATA_MASK_SVHEALTH_V02
      |> orIf (hasBit d.GNSS_AIDING_DATA_SV_DIRECTION_BIT sv) d.QMI_LOC_DELETE_DATA_MASK_SVDIR_V02
      |> orIf (hasBit d.GNSS_AIDING_DATA_SV_STEER_BIT sv) d.QMI_LOC_DELETE_DATA_MASK_SVSTEER_V02
      |> orIf (hasBit d.GNSS_AIDING_DATA_SV_ALMANAC_CORR_BIT sv) d.QMI_LOC_DELETE_DATA_MASK_ALM_CORR_V02
      |> orIf (hasBit d.GNSS_AIDING_DATA_SV_BLACKLIST_BIT sv) d.QMI_LOC_DELETE_DATA_MASK_BLACKLIST_V02
      |> orIf (hasBit d.GNSS_AIDING_DATA_SV_SA_DATA_BIT sv) d.QMI_LOC_DELETE_DATA_MASK_SA_DATA_V02
      |> orIf (hasBit d.GNSS_AIDING_DATA_SV_NO_EXIST_BIT sv) d.QMI_LOC_DELETE_DATA_MASK_SV_NO_EXIST_V02
      |> orIf (hasBit d.GNSS_AIDING_DATA_SV_IONOSPHERE_BIT sv) d.QMI_LOC_DELETE_DATA_MASK_IONO_V02
      |> orIf (hasBit d.GNSS_AIDING_DATA_SV_TIME_BIT sv) d.QMI_LOC_DELETE_DATA_MASK_TIME_V02
    let deleteSatelliteData_valid : Bool :=
      hasBit d.GNSS_AIDING_DATA_SV_EPHEMERIS_BIT sv ||
      hasBit d.GNSS_AIDING_DATA_SV_ALMANAC_BIT sv ||
      hasBit d.GNSS_AIDING_DATA_SV_HEALTH_BIT sv ||
      hasBit d.GNSS_AIDING_DATA_SV_DIRECTION_BIT sv ||
      hasBit d.GNSS_AIDING_DATA_SV_STEER_BIT sv ||
      hasBit d.GNSS_AIDING_DATA_SV_ALMANAC_CORR_BIT sv ||
      hasBit d.GNSS_AIDING_DATA_SV_BLACKLIST_BIT sv ||
      hasBit d.GNSS_AIDING_DATA_SV_SA_DATA_BIT sv ||
      hasBit d.GNSS_AIDING_DATA_SV_NO_EXIST_BIT sv ||
      hasBit d.GNSS_AIDING_DATA_SV_IONOSPHERE_BIT sv ||
      hasBit d.GNSS_AIDING_DATA_SV_TIME_BIT sv
    let ty := data.sv.svTypeMask
    let system :=
      if deleteSatelliteData_valid then
        (0 : Nat)
        |> orIf (hasBit d.GNSS_AIDING_DATA_SV_TYPE_GPS_BIT ty) d.QMI_LOC_SYSTEM_GPS_V02
        |> orIf (hasBit d.GNSS_AIDING_DATA_SV_TYPE_GLONASS_BIT ty) d.QMI_LOC_SYSTEM_GLO_V02
        |> orIf (hasBit d.GNSS_AIDING_DATA_SV_TYPE_QZSS_BIT ty) d.QMI_LOC_SYSTEM_BDS_V02
        |> orIf (hasBit d.GNSS_AIDING_DATA_SV_TYPE_BEIDOU_BIT ty) d.QMI_LOC_SYSTEM_GAL_V02
        |> orIf (hasBit d.GNSS_AIDING_DATA_SV_TYPE_GALILEO_BIT ty) d.QMI_LOC_SYSTEM_QZSS_V02
      else 0
    let cm := data.common.mask
    let deleteCommonDataMask :=
      (0 : Nat)
      |> orIf (hasBit d.GNSS_AIDING_DATA_COMMON_POSITION_BIT cm) d.QMI_LOC_DELETE_COMMON_MASK_POS_V02
      |> orIf (hasBit d.GNSS_AIDING_DATA_COMMON_TIME_BIT cm) d.QMI_LOC_DELETE_COMMON_MASK_TIME_V02
      |> orIf (hasBit d.GNSS_AIDING_DATA_COMMON_UTC_BIT cm) d.QMI_LOC_DELETE_COMMON_MASK_UTC_V02
      |> orIf (hasBit d.GNSS_AIDING_DATA_COMMON_RTI_BIT cm) d.QMI_LOC_DELETE_COMMON_MASK_RTI_V02
      |> orIf (hasBit d.GNSS_AIDING_DATA_COMMON_FREQ_BIAS_EST_BIT cm)
          d.QMI_LOC_DELETE_COMMON_MASK_FREQ_BIAS_EST_V02
    let deleteCommonDataMask_valid : Bool :=
      hasBit d.GNSS_AIDING_DATA_COMMON_POSITION_BIT cm ||
      hasBit d.GNSS_AIDING_DATA_COMMON_TIME_BIT cm ||
      hasBit d.GNSS_AIDING_DATA_COMMON_UTC_BIT cm ||
      hasBit d.GNSS_AIDING_DATA_COMMON_RTI_BIT cm ||
      hasBit d.GNSS_AIDING_DATA_COMMON_FREQ_BIAS_EST_BIT cm
    let celldb := hasBit d.GNSS_AIDING_DATA_COMMON_CELLDB_BIT cm
    { deleteAllFlag := false
      deleteSatelliteData_valid := deleteSatelliteData_valid
      deleteSatelliteData :=
        { system := system, deleteSatelliteDataMask := deleteSatelliteDataMask }
      deleteCommonDataMask_valid := deleteCommonDataMask_valid
      deleteCommonDataMask := deleteCommonDataMask
      deleteCellDbDataMask_valid := celldb
      deleteCellDbDataMask := if celldb then deleteAidingData.cellDbMask d else 0 }

/-- The legacy request `delete_req` that `deleteAidingData` builds from zeroed
memory.  The GPS loop writes entries `0 .. SV_ID_RANGE - 1` with satellite ids
counting up from `GPS_SV_ID_OFFSET`. -/
def deleteAidingData.delete_req (d : DeleteConsts) (data : GnssAidingData) :
    qmiLocDeleteAssistDataReqMsgT_v02 :=
  if data.deleteAll then
    { deleteAllFlag := true
      deleteSvInfoList_valid := false
      deleteSvInfoList_len := 0
      deleteSvInfoList := []
      deleteGnssDataMask_valid := false
      deleteGnssDataMask := 0
      deleteCellDbDataMask_valid := false
      deleteCellDbDataMask := 0 }
  else
    let sv := data.sv.svMask
    let gps := hasBit d.GNSS_AIDING_DATA_SV_TYPE_GPS_BIT data.sv.svTypeMask
    let cm := data.common.mask
    let gpsList : Bool :=
      (hasBit d.GNSS_AIDING_DATA_SV_EPHEMERIS_BIT sv ||
        hasBit d.GNSS_AIDING_DATA_SV_ALMANAC_BIT sv) && gps
    let entry (i : Nat) : qmiLocDeleteSvInfoStructT_v02 :=
      { gnssSvId := GPS_SV_ID_OFFSET + i
        system := .eQMI_LOC_SV_SYSTEM_GPS_V02
        deleteSvInfoMask :=
          (0 : Nat)
          |> orIf (hasBit d.GNSS_AIDING_DATA_SV_EPHEMERIS_BIT sv)
              d.QMI_LOC_MASK_DELETE_EPHEMERIS_V02
          |> orIf (hasBit d.GNSS_AIDING_DATA_SV_ALMANAC_BIT sv)
              d.QMI_LOC_MASK_DELETE_ALMANAC_V02 }
    let deleteGnssDataMask :=
      (0 : Nat)
      |> orIf (hasBit d.GNSS_AIDING_DATA_COMMON_POSITION_BIT cm) d.QMI_LOC_MASK_DELETE_POSITION_V02
      |> orIf (hasBit d.GNSS_AIDING_DATA_COMMON_TIME_BIT cm) d.QMI_LOC_MASK_DELETE_TIME_V02
      |> orIf (hasBit d.GNSS_AIDING_DATA_SV_IONOSPHERE_BIT sv && gps) d.QMI_LOC_MASK_DELETE_IONO_V02
      |> orIf (hasBit d.GNSS_AIDING_DATA_COMMON_UTC_BIT cm) d.QMI_LOC_MASK_DELETE_UTC_V02
      |> orIf (hasBit d.GNSS_AIDING_DATA_SV_HEALTH_BIT sv && gps) d.QMI_LOC_MASK_DELETE_HEALTH_V02
      |> orIf (hasBit d.GNSS_AIDING_DATA_SV_DIRECTION_BIT sv && gps)
          d.QMI_LOC_MASK_DELETE_GPS_SVDIR_V02
      |> orIf (hasBit d.GNSS_AIDING_DATA_SV_SA_DATA_BIT sv && gps) d.QMI_LOC_MASK_DELETE_SADATA_V02
      |> orIf (hasBit d.GNSS_AIDING_DATA_COMMON_RTI_BIT cm) d.QMI_LOC_MASK_DELETE_RTI_V02
    let deleteGnssDataMask_valid : Bool :=
      hasBit d.GNSS_AIDING_DATA_COMMON_POSITION_BIT cm ||
      hasBit d.GNSS_AIDING_DATA_COMMON_TIME_BIT cm ||
      (hasBit d.GNSS_AIDING_DATA_SV_IONOSPHERE_BIT sv && gps) ||
      hasBit d.GNSS_AIDING_DATA_COMMON_UTC_BIT cm ||
      (hasBit d.GNSS_AIDING_DATA_SV_HEALTH_BIT sv && gps) ||
      (hasBit d.GNSS_AIDING_DATA_SV_DIRECTION_BIT sv && gps) ||
      (hasBit d.GNSS_AIDING_DATA_SV_SA_DATA_BIT sv && gps) ||
      hasBit d.GNSS_AIDING_DATA_COMMON_RTI_BIT cm
    let celldb := hasBit d.GNSS_AIDING_DATA_COMMON_CELLDB_BIT cm
    { deleteAllFlag := false
      deleteSvInfoList_valid := gpsList
      deleteSvInfoList_len := if gpsList then SV_ID_RANGE else 0
      deleteSvInfoList := if gpsList then (List.range SV_ID_RANGE).map entry else []
      deleteGnssDataMask_valid := deleteGnssDataMask_valid
      deleteGnssDataMask := deleteGnssDataMask
      deleteCellDbDataMask_valid := celldb
      deleteCellDbDataMask := if celldb then deleteAidingData.cellDbMask d else 0 }

/-- The function `LocApiV02::deleteAidingData`.  `status` starts as
`eLOC_CLIENT_FAILURE_UNSUPPORTED`; the bulk request is sent only while the
static `isNewApiSupported` holds; the legacy request is sent when `status` is
then unsupported or internal, after clearing the static. -/
def deleteAidingData (env : Env) (k : MaskConsts) (m : MiscConsts) (d : DeleteConsts)
    (s : State) (data : GnssAidingData) : LocationError × State :=
  let r1 : locClientStatusEnumType × State :=
    if s.isNewApiSupported then
      let r := locSyncSendReq env k s .QMI_LOC_DELETE_GNSS_SERVICE_DATA_REQ_V02
        (some (.pDeleteGNSSServiceDataReq (deleteAidingData.delete_gnss_req d data)))
        m.LOC_ENGINE_SYNC_REQUEST_TIMEOUT .QMI_LOC_DELETE_GNSS_SERVICE_DATA_IND_V02
        (some Ind.zero)
      (r.status, r.state)
    else (.eLOC_CLIENT_FAILURE_UNSUPPORTED, s)
  if r1.1 = .eLOC_CLIENT_FAILURE_UNSUPPORTED ∨ r1.1 = .eLOC_CLIENT_FAILURE_INTERNAL then
    let s2 := { r1.2 with isNewApiSupported := false }
    let r := locSyncSendReq env k s2 .QMI_LOC_DELETE_ASSIST_DATA_REQ_V02
      (some (.pDeleteAssistDataReq (deleteAidingData.delete_req d data)))
      m.LOC_ENGINE_SYNC_REQUEST_TIMEOUT .QMI_LOC_DELETE_ASSIST_DATA_IND_V02
      (some Ind.zero)
    let delete_resp := r.ind.getD Ind.zero
    if r.status ≠ .eLOC_CLIENT_SUCCESS ∨ delete_resp.status ≠ .eQMI_LOC_SUCCESS_V02 then
      (.LOCATION_ERROR_GENERAL_FAILURE, r.state)
    else (.LOCATION_ERROR_SUCCESS, r.state)
  else (.LOCATION_ERROR_SUCCESS, r1.2)

/-! ## Field transcoders -/

/-- Gaussian 2D scaling table entry (`struct conf_scaler_to_68_pair`); the
`float` literal is kept as the exact decimal written in the source. -/
structure conf_scaler_to_68_pair where
  confidence : Nat
  scaler_to_68 : ℚ

/-- Length of the `confScalers` array. -/
def CONF_SCALER_ARRAY_MAX : Nat := 3

/-- The table `confScalers`. -/
def confScalers : List conf_scaler_to_68_pair :=
  [ { confidence := 39, scaler_to_68 := 1.517 },   -- 0 - 39 . Index 0
    { confidence := 50, scaler_to_68 := 1.287 },   -- 40 - 50. Index 1
    { confidence := 63, scaler_to_68 := 1.072 } ]  -- 51 - 63. Index 2

/-- The `for` loop of `scaleAccuracyTo68PercentConfidence` over the remaining
table entries: the first entry whose bound is not below `realConfidence` scales
the accuracy and ends the loop.  `F` is the type of accuracy values, `mul` its
multiplication and `lit` the conversion of a literal to `F`. -/
def scaleAccuracyTo68PercentConfidence.loop {F : Type} (mul : F → F → F) (lit : ℚ → F)
    (realConfidence : Nat) (accuracy : F) : List conf_scaler_to_68_pair → F
  | [] => accuracy
  | p :: rest =>
    if realConfidence ≤ p.confidence then mul accuracy (lit p.scaler_to_68)
    else scaleAccuracyTo68PercentConfidence.loop mul lit realConfidence accuracy rest

/-- The function `LocApiV02::scaleAccuracyTo68PercentConfidence`, returning the
new value of `gpsLocation.accuracy`. -/
def scaleAccuracyTo68PercentConfidence {F : Type} (mul : F → F → F) (lit : ℚ → F)
    (confidenceValue : Nat) (accuracy : F) (isCircularUnc : Bool) : F :=
  if confidenceValue < 68 then
    let realConfidence := if isCircularUnc then 63 else confidenceValue
    scaleAccuracyTo68PercentConfidence.loop mul lit realConfidence accuracy
      (confScalers.take CONF_SCALER_ARRAY_MAX)
  else accuracy

/-- Constellations of the normalized data model (`GnssSvType`). -/
inductive GnssSvType where
  | GNSS_SV_TYPE_UNKNOWN
  | GNSS_SV_TYPE_GPS
  | GNSS_SV_TYPE_SBAS
  | GNSS_SV_TYPE_GLONASS
  | GNSS_SV_TYPE_QZSS
  | GNSS_SV_TYPE_BEIDOU
  | GNSS_SV_TYPE_GALILEO
  deriving DecidableEq, Repr

/-- The fields of `qmiLocSVTimeSpeedStructT_v02` read by
`convertGnssMeasurements`; the two `float` fields hold their exact values. -/
structure qmiLocSVTimeSpeedStructT_v02 where
  svTimeMs : Nat := 0
  svTimeSubMs : ℚ := 0
  svTimeUncMs : ℚ := 0
  deriving DecidableEq, Repr

/-- The fields of one `qmiLocSVMeasurementStructT_v02` read by
`convertGnssMeasurements` and by the loop of `reportSvMeasurement`; `gnssSvId`
is a `uint16_t`, `gloFrequency` a `uint8_t`, and the fields after `gloFrequency`
are zero unless given. -/
structure qmiLocSVMeasurementStructT_v02 where
  gnssSvId : Nat
  gloFrequency : Nat
  measurementStatus : Nat := 0
  validMeasStatusMask : Nat := 0
  svTimeSpeed : qmiLocSVTimeSpeedStructT_v02 := {}
  deriving DecidableEq, Repr

/-- An `int` value stored into an `int16_t` object: reduced modulo 2^16 into
the range from -2^15 to 2^15 - 1. -/
def toInt16 (x : Int) : Int :=
  if x % 2 ^ 16 < 2 ^ 15 then x % 2 ^ 16 else x % 2 ^ 16 - 2 ^ 16

/-- An `int` value stored into a `uint16_t` object: reduced modulo 2^16. -/
def toUInt16 (x : Int) : Int := x % 2 ^ 16

/-- The constellation and satellite id that `convertGnssMeasurements` stores.
The field `svId` of `GnssMeasurementsData` is an `int16_t` (declared in
`LocationAPI.h`). -/
structure GnssMeasurementsData where
  svType : GnssSvType
  svId : Int
  deriving DecidableEq, Repr

/-- The `switch (gnss_measurement_report_ptr.system)` of
`LocApiV02::convertGnssMeasurements`, as far as it sets `svType` and `svId`.
The raw id is a `uint16_t`, the right-hand sides are computed in `int`, and the
assignment to the `int16_t` field `svId` keeps the low 16 bits. -/
def convertGnssMeasurements (m : MiscConsts) (system : qmiLocSvSystemEnumT_v02)
    (gnss_measurement_info : qmiLocSVMeasurementStructT_v02) : GnssMeasurementsData :=
  match system with
  | .eQMI_LOC_SV_SYSTEM_GPS_V02 =>
    { svType := .GNSS_SV_TYPE_GPS, svId := toInt16 gnss_measurement_info.gnssSvId }
  | .eQMI_LOC_SV_SYSTEM_GALILEO_V02 =>
    { svType := .GNSS_SV_TYPE_GALILEO
      svId := toInt16 (gnss_measurement_info.gnssSvId + 1 - m.GAL_SV_PRN_MIN) }
  | .eQMI_LOC_SV_SYSTEM_SBAS_V02 =>
    { svType := .GNSS_SV_TYPE_SBAS, svId := toInt16 gnss_measurement_info.gnssSvId }
  | .eQMI_LOC_SV_SYSTEM_GLONASS_V02 =>
    { svType := .GNSS_SV_TYPE_GLONASS
      svId :=
        if gnss_measurement_info.gnssSvId ≠ 255 then
          toInt16 (gnss_measurement_info.gnssSvId + 1 - m.GLO_SV_PRN_MIN)
        else toInt16 (gnss_measurement_info.gloFrequency + 92) }
  | .eQMI_LOC_SV_SYSTEM_BDS_V02 =>
    { svType := .GNSS_SV_TYPE_BEIDOU
      svId := toInt16 (gnss_measurement_info.gnssSvId + 1 - m.BDS_SV_PRN_MIN) }
  | .eQMI_LOC_SV_SYSTEM_QZSS_V02 =>
    { svType := .GNSS_SV_TYPE_QZSS, svId := toInt16 gnss_measurement_info.gnssSvId }
  | _ => { svType := .GNSS_SV_TYPE_UNKNOWN, svId := toInt16 gnss_measurement_info.gnssSvId }

/-! ## Opening the client and starting a fix -/

/-- Constants of the interface headers used by `open`,
`setSvMeasurementConstellation` and `cacheGnssMeasurementSupport`: the indices
`LOC_API_ADAPTER_MESSAGE_*`, the capability bits `QMI_LOC_MASK_AON_*` and the
constellation bits `eQMI_SYSTEM_*`. -/
structure OpenConsts where
  LOC_API_ADAPTER_MESSAGE_LOCATION_BATCHING : Nat
  LOC_API_ADAPTER_MESSAGE_ADAPTIVE_LOCATION_BATCHING : Nat
  LOC_API_ADAPTER_MESSAGE_DISTANCE_BASE_LOCATION_BATCHING : Nat
  LOC_API_ADAPTER_MESSAGE_UPDATE_TBF_ON_THE_FLY : Nat
  LOC_API_ADAPTER_MESSAGE_OUTDOOR_TRIP_BATCHING : Nat
  QMI_LOC_MASK_AON_AUTO_BATCHING_SUPPORTED_V02 : Nat
  QMI_LOC_MASK_AON_DISTANCE_BASED_BATCHING_SUPPORTED_V02 : Nat
  QMI_LOC_MASK_AON_UPDATE_TBF_SUPPORTED_V02 : Nat
  QMI_LOC_MASK_AON_OUTDOOR_TRIP_BATCHING_SUPPORTED_V02 : Nat
  eQMI_SYSTEM_GPS_V02 : Nat
  eQMI_SYSTEM_GLO_V02 : Nat
  eQMI_SYSTEM_BDS_V02 : Nat
  eQMI_SYSTEM_GAL_V02 : Nat
  eQMI_SYSTEM_QZSS_V02 : Nat

/-- The constellation set that `open` and `cacheGnssMeasurementSupport`
request: GPS, GLONASS, BeiDou, Galileo and QZSS. -/
def allConstellations (o : OpenConsts) : Nat :=
  o.eQMI_SYSTEM_GPS_V02 ||| o.eQMI_SYSTEM_GLO_V02 ||| o.eQMI_SYSTEM_BDS_V02 |||
  o.eQMI_SYSTEM_GAL_V02 ||| o.eQMI_SYSTEM_QZSS_V02

/-- The function `LocApiV02::setSvMeasurementConstellation`; the returned
code is success exactly when both the client status and the indication status
are success. -/
def setSvMeasurementConstellation (env : Env) (k : MaskConsts) (m : MiscConsts) (s : State)
    (svConstellation : Nat) : loc_api_adapter_err × State :=
  let setGNSSConstRepConfigReq : qmiLocSetGNSSConstRepConfigReqMsgT_v02 :=
    { measReportConfig_valid := true
      measReportConfig := svConstellation
      svPolyReportConfig_valid := true
      svPolyReportConfig := svConstellation }
  let r := locSyncSendReq env k s .QMI_LOC_SET_GNSS_CONSTELL_REPORT_CONFIG_V02
    (some (.pSetGNSSConstRepConfigReq setGNSSConstRepConfigReq))
    m.LOC_ENGINE_SYNC_REQUEST_TIMEOUT .QMI_LOC_SET_GNSS_CONSTELL_REPORT_CONFIG_IND_V02
    (some Ind.zero)
  let setGNSSConstRepConfigInd := r.ind.getD Ind.zero
  if r.status ≠ .eLOC_CLIENT_SUCCESS ∨
      setGNSSConstRepConfigInd.status ≠ .eQMI_LOC_SUCCESS_V02 then
    (.LOC_API_ADAPTER_ERR_GENERAL_FAILURE, r.state)
  else (.LOC_API_ADAPTER_ERR_SUCCESS, r.state)

/-- The function `LocApiV02::cacheGnssMeasurementSupport`: the probe is sent
only while the cache is unknown. -/
def cacheGnssMeasurementSupport (env : Env) (k : MaskConsts) (m : MiscConsts) (o : OpenConsts)
    (s : State) : State :=
  if s.mGnssMeasurementSupported = .sup_unknown then
    let setGNSSConstRepConfigReq : qmiLocSetGNSSConstRepConfigReqMsgT_v02 :=
      { measReportConfig_valid := true
        measReportConfig := allConstellations o
        svPolyReportConfig_valid := false
        svPolyReportConfig := 0 }
    let r := locSyncSendReq env k s .QMI_LOC_SET_GNSS_CONSTELL_REPORT_CONFIG_V02
      (some (.pSetGNSSConstRepConfigReq setGNSSConstRepConfigReq))
      m.LOC_ENGINE_SYNC_REQUEST_TIMEOUT .QMI_LOC_SET_GNSS_CONSTELL_REPORT_CONFIG_IND_V02
      (some Ind.zero)
    let setGNSSConstRepConfigInd := r.ind.getD Ind.zero
    if r.status ≠ .eLOC_CLIENT_SUCCESS ∨
        (setGNSSConstRepConfigInd.status ≠ .eQMI_LOC_SUCCESS_V02 ∧
         setGNSSConstRepConfigInd.status ≠ .eQMI_LOC_ENGINE_BUSY_V02) then
      { r.state with mGnssMeasurementSupported := .sup_no }
    else { r.state with mGnssMeasurementSupported := .sup_yes }
  else s

/-- The bits that `open` adds to `supportedMsgList` once the AON capability
is valid.  The source tests `aonCapability | MASK`, a bitwise or. -/
def open_.aonBits (o : OpenConsts) (supportedMsgList aonCapability : Nat) : Nat :=
  supportedMsgList
  |> orIf ((aonCapability ||| o.QMI_LOC_MASK_AON_AUTO_BATCHING_SUPPORTED_V02) != 0)
      (1 <<< o.LOC_API_ADAPTER_MESSAGE_ADAPTIVE_LOCATION_BATCHING)
  |> orIf ((aonCapability ||| o.QMI_LOC_MASK_AON_DISTANCE_BASED_BATCHING_SUPPORTED_V02) != 0)
      (1 <<< o.LOC_API_ADAPTER_MESSAGE_DISTANCE_BASE_LOCATION_BATCHING)
  |> orIf ((aonCapability ||| o.QMI_LOC_MASK_AON_UPDATE_TBF_SUPPORTED_V02) != 0)
      (1 <<< o.LOC_API_ADAPTER_MESSAGE_UPDATE_TBF_ON_THE_FLY)
  |> orIf ((aonCapability ||| o.QMI_LOC_MASK_AON_OUTDOOR_TRIP_BATCHING_SUPPORTED_V02) != 0)
      (1 <<< o.LOC_API_ADAPTER_MESSAGE_OUTDOOR_TRIP_BATCHING)

/-- The AON configuration query of `open`, made when location batching is
among the supported messages; it returns the updated `supportedMsgList`. -/
def open_.queryAon (env : Env) (k : MaskConsts) (m : MiscConsts) (o : OpenConsts)
    (s : State) (supportedMsgList : Nat) : Nat × State :=
  let messageChecker := (1 <<< o.LOC_API_ADAPTER_MESSAGE_LOCATION_BATCHING) % 2 ^ 32
  if messageChecker &&& supportedMsgList = messageChecker then
    let r := locSyncSendReq env k s .QMI_LOC_QUERY_AON_CONFIG_REQ_V02
      (some (.pQueryAonConfigReq { transactionId := LOC_API_V02_DEF_SESSION_ID }))
      m.LOC_ENGINE_SYNC_REQUEST_TIMEOUT .QMI_LOC_QUERY_AON_CONFIG_IND_V02 (some Ind.zero)
    let queryAonConfigInd := r.ind.getD Ind.zero
    if r.status = .eLOC_CLIENT_FAILURE_UNSUPPORTED then (supportedMsgList, r.state)
    else if r.status ≠ .eLOC_CLIENT_SUCCESS ∨
        queryAonConfigInd.status ≠ .eQMI_LOC_SUCCESS_V02 then (supportedMsgList, r.state)
    else if queryAonConfigInd.aonCapability_valid then
      (open_.aonBits o supportedMsgList queryAonConfigInd.aonCapability, r.state)
    else (supportedMsgList, r.state)
  else (supportedMsgList, s)

/-- The supported-feature query of `open`. -/
def open_.queryFeatures (env : Env) (k : MaskConsts) (m : MiscConsts) (s : State) : State :=
  let r := locSyncSendReq env k s .QMI_LOC_GET_SUPPORTED_FEATURE_REQ_V02
    (some .pGetSupportedFeatureReq) m.LOC_ENGINE_SYNC_REQUEST_TIMEOUT
    .QMI_LOC_GET_SUPPORTED_FEATURE_IND_V02 (some Ind.zero)
  let getSupportedFeatureList_ind := r.ind.getD Ind.zero
  if r.status ≠ .eLOC_CLIENT_SUCCESS then r.state
  else if getSupportedFeatureList_ind.feature_len > 0 then
    r.state.log (.saveSupportedFeatureList getSupportedFeatureList_ind.feature)
  else r.state

/-- The part of `open` that runs after `locClientOpen` succeeded: the
supported-message check, the AON configuration query when batching is
supported, the saving of the supported messages and the supported-feature
query. -/
def open_.afterOpen (env : Env) (k : MaskConsts) (m : MiscConsts) (o : OpenConsts)
    (s : State) : State :=
  let msgArray : List MsgId :=
    [.QMI_LOC_GET_BATCH_SIZE_REQ_V02,
     .QMI_LOC_EVENT_GEOFENCE_BATCHED_BREACH_NOTIFICATION_IND_V02,
     .QMI_LOC_START_DBT_REQ_V02]
  let c := env.locClientSupportMsgCheck s.trace s.clientHandle msgArray
  let s1 := s.log (.locClientSupportMsgCheck s.clientHandle msgArray c.1 c.2)
  let r1 := open_.queryAon env k m o s1 c.2
  let s2 := r1.2.log (.saveSupportedMsgList r1.1)
  open_.queryFeatures env k m s2

/-- The function `LocApiV02::open` (`open` is a keyword here, hence the
underscore).  `mExcludedMask` is the constant member of
the base class.  With an invalid handle the adjusted mask is stored in
`mQmiMask` and handed to `locClientOpen`; with a valid handle and a changed
consumer mask `registerEventMask` is called. -/
def open_ (env : Env) (k : MaskConsts) (m : MiscConsts) (o : OpenConsts)
    (mExcludedMask : Nat) (s : State) (mask : Nat) : loc_api_adapter_err × State :=
  let newMask := mask &&& not64 mExcludedMask
  let qmiMask := convertMask k newMask
  let r : loc_api_adapter_err × State :=
    if s.clientHandle = none then
      let s1 := { s with mMask := newMask }
      let s2 := { s1 with mQmiMask := adjustMaskIfNoSession k s1 qmiMask }
      let a := env.locClientOpen s2.trace s2.mQmiMask
      let s3 := { s2.log (.locClientOpen s2.mQmiMask a.1 a.2) with clientHandle := a.2 }
      if a.1 ≠ .eLOC_CLIENT_SUCCESS ∨ a.2 = none then
        (.LOC_API_ADAPTER_ERR_FAILURE, { s3 with mMask := 0, mQmiMask := 0 })
      else (.LOC_API_ADAPTER_ERR_SUCCESS, open_.afterOpen env k m o s3)
    else if newMask ≠ s.mMask then
      (.LOC_API_ADAPTER_ERR_SUCCESS, registerEventMask env k s newMask)
    else (.LOC_API_ADAPTER_ERR_SUCCESS, s)
  let s4 :=
    if r.2.mGnssMeasurementSupported = .sup_yes then
      (setSvMeasurementConstellation env k m r.2 (allConstellations o)).2
    else r.2
  let s5 :=
    if r.1 = .LOC_API_ADAPTER_ERR_SUCCESS then cacheGnssMeasurementSupport env k m o s4
    else s4
  (r.1, s5)

/-- Positioning modes of the consumer (`LocPositionMode`). -/
inductive LocPositionMode where
  | LOC_POSITION_MODE_STANDALONE
  | LOC_POSITION_MODE_MS_BASED
  | LOC_POSITION_MODE_MS_ASSISTED
  | LOC_POSITION_MODE_RESERVED_1
  | LOC_POSITION_MODE_RESERVED_2
  | LOC_POSITION_MODE_RESERVED_3
  | LOC_POSITION_MODE_RESERVED_4
  | LOC_POSITION_MODE_RESERVED_5
  deriving DecidableEq, Repr

/-- Recurrence of the consumer (`LocGpsPositionRecurrence`). -/
inductive LocGpsPositionRecurrence where
  | LOC_GPS_POSITION_RECURRENCE_PERIODIC
  | LOC_GPS_POSITION_RECURRENCE_SINGLE
  | other (value : Nat)
  deriving DecidableEq, Repr

/-- The fix criteria (`LocPosMode`), as far as `startFix` reads them;
`credentials` and `provider` are the character arrays. -/
structure LocPosMode where
  mode : LocPositionMode
  recurrence : LocGpsPositionRecurrence
  min_interval : Nat
  preferred_accuracy : Nat
  share_position : Bool
  credentials : List Nat
  provider : List Nat
  deriving DecidableEq, Repr

/-- The array sizes that `startFix` takes with `sizeof`. -/
structure StartConsts where
  sizeof_applicationName : Nat
  sizeof_credentials : Nat
  sizeof_applicationProvider : Nat
  sizeof_provider : Nat

/-- The array sizes of the interface headers. -/
def headerStart : StartConsts where
  sizeof_applicationName := 33
  sizeof_credentials := 14
  sizeof_applicationProvider := 25
  sizeof_provider := 8

/-- The operation mode that `startFix` puts in the mode-setting request. -/
def startFix.operationMode (fixCriteria : LocPosMode) : qmiLocOperationModeEnumT_v02 :=
  match fixCriteria.mode with
  | .LOC_POSITION_MODE_MS_BASED => .eQMI_LOC_OPER_MODE_MSB_V02
  | .LOC_POSITION_MODE_MS_ASSISTED => .eQMI_LOC_OPER_MODE_MSA_V02
  | .LOC_POSITION_MODE_RESERVED_4 => .eQMI_LOC_OPER_MODE_CELL_ID_V02
  | .LOC_POSITION_MODE_RESERVED_5 => .eQMI_LOC_OPER_MODE_WWAN_V02
  | _ => .eQMI_LOC_OPER_MODE_STANDALONE_V02

/-- The number of bytes that `startFix` copies between two arrays:
`((size1 < size2) ? size1 : size2) - 1`, in `int` arithmetic. -/
def startFix.copyLen (size1 size2 : Nat) : Nat :=
  (((if size1 < size2 then size1 else size2) : Int) - 1).toNat

/-- The start request that `startFix` builds from zeroed memory. -/
def startFix.start_msg (c : StartConsts) (fixCriteria : LocPosMode) : qmiLocStartReqMsgT_v02 :=
  let low := ¬ fixCriteria.preferred_accuracy ≤ 1000
  let hasCredentials := fixCriteria.credentials.headD 0 ≠ 0
  { sessionId := LOC_API_V02_DEF_SESSION_ID
    minInterval_valid := true
    minInterval :=
      if low ∧ fixCriteria.min_interval < 600000 then 600000 else fixCriteria.min_interval
    horizontalAccuracyLevel_valid := true
    horizontalAccuracyLevel :=
      if fixCriteria.preferred_accuracy ≤ 100 then some .eQMI_LOC_ACCURACY_HIGH_V02
      else if fixCriteria.preferred_accuracy ≤ 1000 then some .eQMI_LOC_ACCURACY_MED_V02
      else some .eQMI_LOC_ACCURACY_LOW_V02
    positionReportTimeout_valid := decide low
    positionReportTimeout := if low then 60000 else 0
    fixRecurrence_valid := true
    fixRecurrence :=
      if fixCriteria.recurrence = .LOC_GPS_POSITION_RECURRENCE_SINGLE then
        some .eQMI_LOC_RECURRENCE_SINGLE_V02
      else some .eQMI_LOC_RECURRENCE_PERIODIC_V02
    sharePosition_valid := true
    sharePosition := fixCriteria.share_position
    applicationId_valid := decide hasCredentials
    applicationName :=
      if hasCredentials then
        fixCriteria.credentials.take
          (startFix.copyLen c.sizeof_applicationName c.sizeof_credentials)
      else []
    applicationProvider :=
      if hasCredentials then
        fixCriteria.provider.take
          (startFix.copyLen c.sizeof_applicationProvider c.sizeof_provider)
      else []
    configAltitudeAssumed_valid := true
    configAltitudeAssumedDisabled := true }

/-- The state of `startFix` right after `mInSession = true;
mMeasurementsStarted = true;`, at the call of `registerEventMask`. -/
def startFix.entered (s : State) : State :=
  { s with mInSession := true, mMeasurementsStarted := true }

/-- The function `LocApiV02::startFix`.  The start request is sent when the
mode-setting status is success or timeout and the mode-setting indication
status is success; the returned code converts the last status assigned. -/
def startFix (env : Env) (k : MaskConsts) (m : MiscConsts) (c : StartConsts) (s : State)
    (fixCriteria : LocPosMode) : loc_api_adapter_err × State :=
  let s1 := registerEventMask env k (startFix.entered s) (startFix.entered s).mMask
  let r := locSyncSendReq env k s1 .QMI_LOC_SET_OPERATION_MODE_REQ_V02
    (some (.pSetOperationModeReq { operationMode := startFix.operationMode fixCriteria }))
    m.LOC_ENGINE_SYNC_REQUEST_TIMEOUT .QMI_LOC_SET_OPERATION_MODE_IND_V02 (some Ind.zero)
  let set_mode_ind := r.ind.getD Ind.zero
  if (r.status ≠ .eLOC_CLIENT_SUCCESS ∧ r.status ≠ .eLOC_CLIENT_FAILURE_TIMEOUT) ∨
      set_mode_ind.status ≠ .eQMI_LOC_SUCCESS_V02 then
    (convertErr r.status, r.state)
  else
    let req_union := some (ReqPayload.pStartReq (startFix.start_msg c fixCriteria))
    let status := env.locClientSendReq r.state.trace r.state.clientHandle
      .QMI_LOC_START_REQ_V02 req_union
    (convertErr status,
      r.state.log (.locClientSendReq r.state.clientHandle .QMI_LOC_START_REQ_V02 req_union
        status))

/-! ## Satellite report -/

/-- Constants of the interface headers used by `reportSv`. -/
structure SvConsts where
  GNSS_SV_MAX : Nat
  QMI_LOC_SV_INFO_MASK_VALID_SYSTEM_V02 : Nat
  QMI_LOC_SV_INFO_MASK_VALID_GNSS_SVID_V02 : Nat
  QMI_LOC_SV_INFO_MASK_VALID_SNR_V02 : Nat
  QMI_LOC_SV_INFO_MASK_VALID_ELEVATION_V02 : Nat
  QMI_LOC_SV_INFO_MASK_VALID_AZIMUTH_V02 : Nat
  QMI_LOC_SV_INFO_MASK_VALID_SVINFO_MASK_V02 : Nat
  QMI_LOC_SVINFO_MASK_HAS_EPHEMERIS_V02 : Nat
  QMI_LOC_SVINFO_MASK_HAS_ALMANAC_V02 : Nat
  GNSS_SV_OPTIONS_HAS_EPHEMER_BIT : Nat
  GNSS_SV_OPTIONS_HAS_ALMANAC_BIT : Nat
  GNSS_SV_OPTIONS_HAS_CARRIER_FREQUENCY_BIT : Nat

/-- One concrete assignment of `SvConsts`, following the interface headers. -/
def headerSv : SvConsts where
  GNSS_SV_MAX := 64
  QMI_LOC_SV_INFO_MASK_VALID_SYSTEM_V02 := 0x01
  QMI_LOC_SV_INFO_MASK_VALID_GNSS_SVID_V02 := 0x02
  QMI_LOC_SV_INFO_MASK_VALID_ELEVATION_V02 := 0x10
  QMI_LOC_SV_INFO_MASK_VALID_AZIMUTH_V02 := 0x20
  QMI_LOC_SV_INFO_MASK_VALID_SNR_V02 := 0x40
  QMI_LOC_SV_INFO_MASK_VALID_SVINFO_MASK_V02 := 0x08
  QMI_LOC_SVINFO_MASK_HAS_EPHEMERIS_V02 := 0x01
  QMI_LOC_SVINFO_MASK_HAS_ALMANAC_V02 := 0x02
  GNSS_SV_OPTIONS_HAS_EPHEMER_BIT := 1 <<< 0
  GNSS_SV_OPTIONS_HAS_ALMANAC_BIT := 1 <<< 1
  GNSS_SV_OPTIONS_HAS_CARRIER_FREQUENCY_BIT := 1 <<< 3

/-- One entry of the satellite list of the protocol
(`qmiLocSvInfoStructT_v02`); `gnssSvId` is a `uint16_t` and the three `float`
fields are only copied. -/
structure qmiLocSvInfoStructT_v02 where
  validMask : Nat
  system : qmiLocSvSystemEnumT_v02
  gnssSvId : Nat
  svInfoMask : Nat
  elevation : ℚ
  azimuth : ℚ
  snr : ℚ
  deriving DecidableEq, Repr

/-- An all-zero list entry, read where the array holds no entry. -/
def qmiLocSvInfoStructT_v02.zero : qmiLocSvInfoStructT_v02 :=
  { validMask := 0, system := .other 0, gnssSvId := 0, svInfoMask := 0,
    elevation := 0, azimuth := 0, snr := 0 }

/-- The satellite-info indication (`qmiLocEventGnssSvInfoIndMsgT_v02`). -/
structure qmiLocEventGnssSvInfoIndMsgT_v02 where
  svList_valid : Nat
  svList_len : Nat
  svList : List qmiLocSvInfoStructT_v02
  deriving DecidableEq, Repr

/-- One satellite of the normalized report (`GnssSv`).  The field `svId` is a
`uint16_t` (declared in `LocationAPI.h`); `carrierFrequencyHz` is in whole
Hz. -/
structure GnssSv where
  svId : Int
  type : GnssSvType
  cN0Dbhz : ℚ
  elevation : ℚ
  azimuth : ℚ
  gnssSvOptionsMask : Nat
  carrierFrequencyHz : Int
  deriving DecidableEq, Repr

/-- The normalized satellite report (`GnssSvNotification`): `gnssSvs` holds the
first `count` entries of the array. -/
structure GnssSvNotification where
  count : Nat
  gnssSvs : List GnssSv
  deriving DecidableEq, Repr

/-- The spacing of the `float` values (IEEE 754 binary32) around the magnitude
`n`: 1 below 2^24, doubled with every further binary digit of `n`. -/
def floatOfInt.ulp : Nat → Nat → Nat
  | 0, _ => 1
  | fuel + 1, n => if n < 2 ^ 24 then 1 else 2 * floatOfInt.ulp fuel (n / 2)

/-- The conversion of a whole number to `float` (IEEE 754 binary32, round to
nearest, ties to even), as the whole number it yields; also the rounding of an
exact sum of whole-number `float` values.  Magnitudes of 2^128 and more, which
overflow a `float`, are outside this definition. -/
def floatOfInt (x : Int) : Int :=
  let n := x.natAbs
  let u := floatOfInt.ulp 128 n
  let q := n / u
  let r := n % u
  let q1 :=
    if 2 * r < u then q
    else if u < 2 * r then q + 1
    else if q % 2 = 0 then q else q + 1
  if x < 0 then -((q1 * u : Nat) : Int) else ((q1 * u : Nat) : Int)

/-- The constants written in the initializer of `CarrierFrequencies`, in whole
Hz. -/
def CarrierFrequencies.hz : GnssSvType → Int
  | .GNSS_SV_TYPE_UNKNOWN => 0
  | .GNSS_SV_TYPE_GPS => 1575420000
  | .GNSS_SV_TYPE_SBAS => 1575420000
  | .GNSS_SV_TYPE_GLONASS => 1602000000
  | .GNSS_SV_TYPE_QZSS => 1575420000
  | .GNSS_SV_TYPE_BEIDOU => 1561098000
  | .GNSS_SV_TYPE_GALILEO => 1575420000

/-- The element of `const float CarrierFrequencies[]` read at a constellation:
the written constant converted to `float`. -/
def CarrierFrequencies.stored (type : GnssSvType) : Int :=
  floatOfInt (CarrierFrequencies.hz type)

/-- The table `const float CarrierFrequencies[]` as the program reads it,
indexed by the constellation, in whole Hz. -/
def CarrierFrequencies (type : GnssSvType) : Int := CarrierFrequencies.stored type

/-- The `switch (sv_info_ptr->system)` of `reportSv`: the normalized id, the
constellation, and whether the options mask keeps the carrier-frequency bit
(the default case resets `mask` to 0).  The raw id is a `uint16_t`, the
subtractions are computed in `int`, and the assignment to the `uint16_t` field
`svId` reduces the result modulo 2^16. -/
def reportSv.constellation (sv_info_ptr : qmiLocSvInfoStructT_v02) : Int × GnssSvType × Bool :=
  match sv_info_ptr.system with
  | .eQMI_LOC_SV_SYSTEM_GPS_V02 => (toUInt16 sv_info_ptr.gnssSvId, .GNSS_SV_TYPE_GPS, true)
  | .eQMI_LOC_SV_SYSTEM_GALILEO_V02 =>
    (toUInt16 ((sv_info_ptr.gnssSvId : Int) - 300), .GNSS_SV_TYPE_GALILEO, true)
  | .eQMI_LOC_SV_SYSTEM_SBAS_V02 => (toUInt16 sv_info_ptr.gnssSvId, .GNSS_SV_TYPE_SBAS, true)
  | .eQMI_LOC_SV_SYSTEM_GLONASS_V02 =>
    (toUInt16 sv_info_ptr.gnssSvId, .GNSS_SV_TYPE_GLONASS, true)
  | .eQMI_LOC_SV_SYSTEM_BDS_V02 =>
    (toUInt16 ((sv_info_ptr.gnssSvId : Int) - 200), .GNSS_SV_TYPE_BEIDOU, true)
  | .eQMI_LOC_SV_SYSTEM_QZSS_V02 =>
    (toUInt16 ((sv_info_ptr.gnssSvId : Int) - 192), .GNSS_SV_TYPE_QZSS, true)
  | _ => (toUInt16 sv_info_ptr.gnssSvId, .GNSS_SV_TYPE_UNKNOWN, false)

/-- The entry that `reportSv` writes for one accepted satellite, starting
from the zeroed array slot.  `carrierFrequencyHz` is set to 0 and the element
of `CarrierFrequencies` is added, which gives that element. -/
def reportSv.convert (c : SvConsts) (sv_info_ptr : qmiLocSvInfoStructT_v02) : GnssSv :=
  let sw := reportSv.constellation sv_info_ptr
  let mask0 := if sw.2.2 then (0 ||| c.GNSS_SV_OPTIONS_HAS_CARRIER_FREQUENCY_BIT) else 0
  let hasInfo := hasBit sv_info_ptr.validMask c.QMI_LOC_SV_INFO_MASK_VALID_SVINFO_MASK_V02
  let mask :=
    mask0
    |> orIf (hasInfo && hasBit sv_info_ptr.svInfoMask c.QMI_LOC_SVINFO_MASK_HAS_EPHEMERIS_V02)
        c.GNSS_SV_OPTIONS_HAS_EPHEMER_BIT
    |> orIf (hasInfo && hasBit sv_info_ptr.svInfoMask c.QMI_LOC_SVINFO_MASK_HAS_ALMANAC_V02)
        c.GNSS_SV_OPTIONS_HAS_ALMANAC_BIT
  { svId := sw.1
    type := sw.2.1
    cN0Dbhz :=
      if hasBit sv_info_ptr.validMask c.QMI_LOC_SV_INFO_MASK_VALID_SNR_V02 then
        sv_info_ptr.snr else 0
    elevation :=
      if hasBit sv_info_ptr.validMask c.QMI_LOC_SV_INFO_MASK_VALID_ELEVATION_V02 then
        sv_info_ptr.elevation else 0
    azimuth :=
      if hasBit sv_info_ptr.validMask c.QMI_LOC_SV_INFO_MASK_VALID_AZIMUTH_V02 then
        sv_info_ptr.azimuth else 0
    gnssSvOptionsMask := mask
    carrierFrequencyHz := 0 + CarrierFrequencies sw.2.1 }

/-- The test that lets `reportSv` accept a list entry: system and satellite id
valid, satellite id not 0. -/
def reportSv.accepted (c : SvConsts) (sv_info_ptr : qmiLocSvInfoStructT_v02) : Bool :=
  hasBit sv_info_ptr.validMask c.QMI_LOC_SV_INFO_MASK_VALID_SYSTEM_V02 &&
  hasBit sv_info_ptr.validMask c.QMI_LOC_SV_INFO_MASK_VALID_GNSS_SVID_V02 &&
  sv_info_ptr.gnssSvId != 0

/-- The `for` loop of `reportSv` over the indices still to visit. -/
def reportSv.loop (c : SvConsts) (svList : List qmiLocSvInfoStructT_v02) :
    List Nat → GnssSvNotification → GnssSvNotification
  | [], SvNotify => SvNotify
  | i :: rest, SvNotify =>
    let sv_info_ptr := svList.getD i qmiLocSvInfoStructT_v02.zero
    if reportSv.accepted c sv_info_ptr then
      reportSv.loop c svList rest
        { count := SvNotify.count + 1
          gnssSvs := SvNotify.gnssSvs ++ [reportSv.convert c sv_info_ptr] }
    else reportSv.loop c svList rest SvNotify

/-- A `uint32_t` value converted to `int`. -/
def toInt32 (x : Nat) : Int :=
  if x % 2 ^ 32 < 2 ^ 31 then ((x % 2 ^ 32 : Nat) : Int) else ((x % 2 ^ 32 : Nat) : Int) - 2 ^ 32

/-- The local `num_svs_max` of `reportSv` when the list is valid: the declared
length as an `int`, capped by `GNSS_SV_MAX`. -/
def reportSv.num_svs_max (c : SvConsts) (svList_len : Nat) : Int :=
  if toInt32 svList_len > (c.GNSS_SV_MAX : Int) then (c.GNSS_SV_MAX : Int)
  else toInt32 svList_len

/-- The function `LocApiV02::reportSv`, returning the notification it hands to
`LocApiBase::reportSv`. -/
def reportSv (c : SvConsts) (gnss_report_ptr : qmiLocEventGnssSvInfoIndMsgT_v02) :
    GnssSvNotification :=
  if gnss_report_ptr.svList_valid = 1 then
    reportSv.loop c gnss_report_ptr.svList
      (List.range (reportSv.num_svs_max c gnss_report_ptr.svList_len).toNat)
      { count := 0, gnssSvs := [] }
  else { count := 0, gnssSvs := [] }

/-! ## Measurement reports -/

/-- Constants of the interface headers used by `convertGnssMeasurements` and
`convertGnssClock`: the measurement status bits of the protocol and the flag and
state bits of the normalized data model. -/
structure MeasConsts where
  GNSS_MEASUREMENTS_DATA_CARRIER_FREQUENCY_BIT : Nat
  QMI_LOC_MASK_MEAS_STATUS_SM_VALID_V02 : Nat
  QMI_LOC_MASK_MEAS_STATUS_SB_VALID_V02 : Nat
  QMI_LOC_MASK_MEAS_STATUS_MS_VALID_V02 : Nat
  QMI_LOC_MASK_MEAS_STATUS_BE_CONFIRM_V02 : Nat
  GNSS_MEASUREMENTS_STATE_UNKNOWN_BIT : Nat
  GNSS_MEASUREMENTS_STATE_CODE_LOCK_BIT : Nat
  GNSS_MEASUREMENTS_STATE_BIT_SYNC_BIT : Nat
  GNSS_MEASUREMENTS_STATE_SUBFRAME_SYNC_BIT : Nat
  GNSS_MEASUREMENTS_STATE_TOW_DECODED_BIT : Nat
  GNSS_MEASUREMENTS_STATE_GLO_STRING_SYNC_BIT : Nat
  GNSS_MEASUREMENTS_STATE_GLO_TOD_DECODED_BIT : Nat
  GNSS_MEASUREMENTS_STATE_BDS_D2_BIT_SYNC_BIT : Nat
  GNSS_MEASUREMENTS_STATE_BDS_D2_SUBFRAME_SYNC_BIT : Nat
  GNSS_MEASUREMENTS_STATE_GAL_E1BC_CODE_LOCK_BIT : Nat
  GNSS_MEASUREMENTS_STATE_GAL_E1C_2ND_CODE_LOCK_BIT : Nat
  GNSS_MEASUREMENTS_STATE_GAL_E1B_PAGE_SYNC_BIT : Nat
  GNSS_MEASUREMENTS_CLOCK_FLAGS_FULL_BIAS_BIT : Nat
  GNSS_MEASUREMENTS_CLOCK_FLAGS_BIAS_BIT : Nat
  GNSS_MEASUREMENTS_CLOCK_FLAGS_BIAS_UNCERTAINTY_BIT : Nat
  GNSS_MEASUREMENTS_CLOCK_FLAGS_DRIFT_BIT : Nat
  GNSS_MEASUREMENTS_CLOCK_FLAGS_DRIFT_UNCERTAINTY_BIT : Nat
  GNSS_MEASUREMENTS_MAX : Nat
  GNSS_LOC_SV_MEAS_LIST_MAX_SIZE : Nat

/-- One concrete assignment of `MeasConsts`, one distinct bit per name in the
order of the interface headers (the unknown state is 0), 64 accumulated
measurements and 16 measurements per indication. -/
def headerMeas : MeasConsts where
  GNSS_MEASUREMENTS_DATA_CARRIER_FREQUENCY_BIT := 1 <<< 9
  QMI_LOC_MASK_MEAS_STATUS_SM_VALID_V02 := 0x01
  QMI_LOC_MASK_MEAS_STATUS_SB_VALID_V02 := 0x02
  QMI_LOC_MASK_MEAS_STATUS_MS_VALID_V02 := 0x04
  QMI_LOC_MASK_MEAS_STATUS_BE_CONFIRM_V02 := 0x08
  GNSS_MEASUREMENTS_STATE_UNKNOWN_BIT := 0
  GNSS_MEASUREMENTS_STATE_CODE_LOCK_BIT := 1 <<< 0
  GNSS_MEASUREMENTS_STATE_BIT_SYNC_BIT := 1 <<< 1
  GNSS_MEASUREMENTS_STATE_SUBFRAME_SYNC_BIT := 1 <<< 2
  GNSS_MEASUREMENTS_STATE_TOW_DECODED_BIT := 1 <<< 3
  GNSS_MEASUREMENTS_STATE_GLO_STRING_SYNC_BIT := 1 <<< 6
  GNSS_MEASUREMENTS_STATE_GLO_TOD_DECODED_BIT := 1 <<< 7
  GNSS_MEASUREMENTS_STATE_BDS_D2_BIT_SYNC_BIT := 1 <<< 8
  GNSS_MEASUREMENTS_STATE_BDS_D2_SUBFRAME_SYNC_BIT := 1 <<< 9
  GNSS_MEASUREMENTS_STATE_GAL_E1BC_CODE_LOCK_BIT := 1 <<< 10
  GNSS_MEASUREMENTS_STATE_GAL_E1C_2ND_CODE_LOCK_BIT := 1 <<< 11
  GNSS_MEASUREMENTS_STATE_GAL_E1B_PAGE_SYNC_BIT := 1 <<< 12
  GNSS_MEASUREMENTS_CLOCK_FLAGS_FULL_BIAS_BIT := 1 <<< 3
  GNSS_MEASUREMENTS_CLOCK_FLAGS_BIAS_BIT := 1 <<< 4
  GNSS_MEASUREMENTS_CLOCK_FLAGS_BIAS_UNCERTAINTY_BIT := 1 <<< 5
  GNSS_MEASUREMENTS_CLOCK_FLAGS_DRIFT_BIT := 1 <<< 6
  GNSS_MEASUREMENTS_CLOCK_FLAGS_DRIFT_UNCERTAINTY_BIT := 1 <<< 7
  GNSS_MEASUREMENTS_MAX := 64
  GNSS_LOC_SV_MEAS_LIST_MAX_SIZE := 16

/-- The fields of `gloTime` read by `convertGnssMeasurements`. -/
structure qmiLocGloTimeStructT_v02 where
  gloFourYear : Nat := 0
  gloDays : Nat := 0
  deriving DecidableEq, Repr

/-- The fields of `systemTime` read by `convertGnssClock`; the two `float`
fields hold their exact values. -/
structure qmiLocGnssTimeStructT_v02 where
  systemWeek : Nat := 0
  systemMsec : Nat := 0
  systemClkTimeBias : ℚ := 0
  systemClkTimeUncMs : ℚ := 0
  deriving DecidableEq, Repr

/-- The field of `systemTimeExt` read by `convertGnssClock`. -/
structure qmiLocGnssTimeExtStructT_v02 where
  refFCount : Nat := 0
  deriving DecidableEq, Repr

/-- The measurement indication (`qmiLocEventGnssSvMeasInfoIndMsgT_v02`), as far
as the measurement transcoders read it.  `svMeasurement` holds what the array
of the message holds from index 0; the fields not given are zero. -/
structure qmiLocEventGnssSvMeasInfoIndMsgT_v02 where
  seqNum : Nat
  maxMessageNum : Nat
  system : qmiLocSvSystemEnumT_v02
  svMeasurement_valid : Nat := 0
  svMeasurement_len : Nat := 0
  svMeasurement : List qmiLocSVMeasurementStructT_v02 := []
  gloTime_valid : Nat := 0
  gloTime : qmiLocGloTimeStructT_v02 := {}
  systemTime_valid : Nat := 0
  systemTime : qmiLocGnssTimeStructT_v02 := {}
  systemTimeExt_valid : Nat := 0
  systemTimeExt : qmiLocGnssTimeExtStructT_v02 := {}
  numClockResets_valid : Nat := 0
  numClockResets : Nat := 0
  rcvrClockFrequencyInfo_valid : Nat := 0
  deriving DecidableEq, Repr

/-- An all-zero measurement entry, read where the array holds no entry. -/
def qmiLocSVMeasurementStructT_v02.zero : qmiLocSVMeasurementStructT_v02 :=
  { gnssSvId := 0, gloFrequency := 0 }

/-! ### Carrier frequency -/

/-- The local `flags` of `convertGnssMeasurements` after the constellation
switch: the carrier-frequency bit, reset to 0 in the default case. -/
def convertGnssMeasurements.flags (c : MeasConsts) (system : qmiLocSvSystemEnumT_v02) : Nat :=
  match system with
  | .eQMI_LOC_SV_SYSTEM_GPS_V02 => 0 ||| c.GNSS_MEASUREMENTS_DATA_CARRIER_FREQUENCY_BIT
  | .eQMI_LOC_SV_SYSTEM_GALILEO_V02 => 0 ||| c.GNSS_MEASUREMENTS_DATA_CARRIER_FREQUENCY_BIT
  | .eQMI_LOC_SV_SYSTEM_SBAS_V02 => 0 ||| c.GNSS_MEASUREMENTS_DATA_CARRIER_FREQUENCY_BIT
  | .eQMI_LOC_SV_SYSTEM_GLONASS_V02 => 0 ||| c.GNSS_MEASUREMENTS_DATA_CARRIER_FREQUENCY_BIT
  | .eQMI_LOC_SV_SYSTEM_BDS_V02 => 0 ||| c.GNSS_MEASUREMENTS_DATA_CARRIER_FREQUENCY_BIT
  | .eQMI_LOC_SV_SYSTEM_QZSS_V02 => 0 ||| c.GNSS_MEASUREMENTS_DATA_CARRIER_FREQUENCY_BIT
  | _ => 0

/-- The value of `measurementData.carrierFrequencyHz` that
`convertGnssMeasurements` leaves, in whole Hz: 0, then for a GLONASS measurement
with `gloFrequency` in [1, 14] `+= ((gloFrequency - 8) * 562500)`, then
`+= CarrierFrequencies[measurementData.svType]`.  `rnd` rounds an exact result
into the type of the field, which is declared outside these sources;
`gloFrequency` is narrower than `int`, so the offset is computed in `int`. -/
def convertGnssMeasurements.carrierFrequencyHz (rnd : Int → Int) (m : MiscConsts)
    (system : qmiLocSvSystemEnumT_v02) (gnss_measurement_info : qmiLocSVMeasurementStructT_v02) :
    Int :=
  let c0 : Int := 0
  let c1 : Int :=
    if system = .eQMI_LOC_SV_SYSTEM_GLONASS_V02 ∧
        1 ≤ gnss_measurement_info.gloFrequency ∧ gnss_measurement_info.gloFrequency ≤ 14 then
      rnd (c0 + ((gnss_measurement_info.gloFrequency : Int) - 8) * 562500)
    else c0
  rnd (c1 + CarrierFrequencies.stored (convertGnssMeasurements m system gnss_measurement_info).svType)

/-! ### Measurement state -/

/-- The `double` arithmetic used for the received satellite time, with the
conversions from the integer and `float` fields and to `int64_t`. -/
structure DoubleOps (D : Type) where
  ofUInt32 : Nat → D
  ofFloat : ℚ → D
  lit : ℚ → D
  add : D → D → D
  mul : D → D → D
  fmod : D → D → D
  toInt64 : D → Int

/-- Exact rational arithmetic in place of `double`: no rounding, `fmod` with
the sign of its first argument, and truncation toward zero on conversion to an
integer. -/
def DoubleOps.exact : DoubleOps ℚ where
  ofUInt32 := fun n => (n : ℚ)
  ofFloat := fun q => q
  lit := fun q => q
  add := fun x y => x + y
  mul := fun x y => x * y
  fmod := fun x y => x - y * (Int.tdiv (x / y).num (x / y).den : Int)
  toInt64 := fun x => Int.tdiv x.num x.den

/-- The three fields that the state chain of `convertGnssMeasurements`
sets. -/
structure MeasurementState where
  stateMask : Nat
  receivedSvTimeNs : Int
  receivedSvTimeUncertaintyNs : Int
  deriving DecidableEq, Repr

/-- The local `isGloTimeValid` of `convertGnssMeasurements`. -/
def convertGnssMeasurements.isGloTimeValid (svType : GnssSvType)
    (gnss_measurement_report_ptr : qmiLocEventGnssSvMeasInfoIndMsgT_v02) : Bool :=
  decide (svType = .GNSS_SV_TYPE_GLONASS) &&
  (gnss_measurement_report_ptr.gloTime_valid != 0) &&
  (gnss_measurement_report_ptr.gloTime.gloFourYear != 255) &&
  (gnss_measurement_report_ptr.gloTime.gloDays != 65535)

/-- The local `galSVstateMask` of `convertGnssMeasurements`.  The tests are
`measurementStatus & (1 << 30)` and `measurementStatus & (1 << 31)` with `int`
constants converted to 64 bits: the second constant becomes
`0xFFFFFFFF80000000`. -/
def convertGnssMeasurements.galSVstateMask (c : MeasConsts) (svType : GnssSvType)
    (gnss_measurement_info : qmiLocSVMeasurementStructT_v02) : Nat :=
  if svType = .GNSS_SV_TYPE_GALILEO then
    c.GNSS_MEASUREMENTS_STATE_GAL_E1BC_CODE_LOCK_BIT
    |> orIf (hasBit gnss_measurement_info.measurementStatus (2 ^ 30))
        c.GNSS_MEASUREMENTS_STATE_GAL_E1C_2ND_CODE_LOCK_BIT
    |> orIf (hasBit gnss_measurement_info.measurementStatus (2 ^ 64 - 2 ^ 31))
        c.GNSS_MEASUREMENTS_STATE_GAL_E1B_PAGE_SYNC_BIT
  else 0

/-- The macro `IS_BDS_GEO_SV (svId, gnssType)`. -/
def IS_BDS_GEO_SV (svId : Int) (gnssType : GnssSvType) : Bool :=
  decide (gnssType = .GNSS_SV_TYPE_BEIDOU) && decide (svId ≤ 5) && decide (svId ≥ 1)

/-- The part of `convertGnssMeasurements` that sets `stateMask`,
`receivedSvTimeNs` and `receivedSvTimeUncertaintyNs`, for the `svType` and
`svId` that the constellation switch has stored. -/
def convertGnssMeasurements.state {D : Type} (ops : DoubleOps D) (c : MeasConsts)
    (m : MiscConsts) (gnss_measurement_report_ptr : qmiLocEventGnssSvMeasInfoIndMsgT_v02)
    (gnss_measurement_info : qmiLocSVMeasurementStructT_v02) : MeasurementState :=
  let measurementData :=
    convertGnssMeasurements m gnss_measurement_report_ptr.system gnss_measurement_info
  let validMask :=
    gnss_measurement_info.measurementStatus &&& gnss_measurement_info.validMeasStatusMask
  let bitSynMask :=
    c.QMI_LOC_MASK_MEAS_STATUS_BE_CONFIRM_V02 ||| c.QMI_LOC_MASK_MEAS_STATUS_SB_VALID_V02
  let gpsTowUncNs := ops.mul (ops.ofFloat gnss_measurement_info.svTimeSpeed.svTimeUncMs)
    (ops.lit 1e6)
  let isGloTimeValid :=
    convertGnssMeasurements.isGloTimeValid measurementData.svType gnss_measurement_report_ptr
  let galSVstateMask :=
    convertGnssMeasurements.galSVstateMask c measurementData.svType gnss_measurement_info
  if hasBit validMask c.QMI_LOC_MASK_MEAS_STATUS_MS_VALID_V02 then
    { stateMask :=
        (c.GNSS_MEASUREMENTS_STATE_SUBFRAME_SYNC_BIT |||
          c.GNSS_MEASUREMENTS_STATE_TOW_DECODED_BIT |||
          c.GNSS_MEASUREMENTS_STATE_BIT_SYNC_BIT |||
          c.GNSS_MEASUREMENTS_STATE_CODE_LOCK_BIT)
        |> orIf isGloTimeValid
            (c.GNSS_MEASUREMENTS_STATE_GLO_STRING_SYNC_BIT |||
              c.GNSS_MEASUREMENTS_STATE_GLO_TOD_DECODED_BIT)
        |> (fun stateMask => stateMask ||| galSVstateMask)
        |> orIf (IS_BDS_GEO_SV measurementData.svId measurementData.svType)
            (c.GNSS_MEASUREMENTS_STATE_BDS_D2_BIT_SYNC_BIT |||
              c.GNSS_MEASUREMENTS_STATE_BDS_D2_SUBFRAME_SYNC_BIT)
      receivedSvTimeNs :=
        ops.toInt64 (ops.mul
          (ops.add (ops.ofUInt32 gnss_measurement_info.svTimeSpeed.svTimeMs)
            (ops.ofFloat gnss_measurement_info.svTimeSpeed.svTimeSubMs))
          (ops.lit 1e6))
      receivedSvTimeUncertaintyNs := ops.toInt64 gpsTowUncNs }
  else if validMask &&& bitSynMask = bitSynMask then
    { stateMask :=
        (c.GNSS_MEASUREMENTS_STATE_BIT_SYNC_BIT ||| c.GNSS_MEASUREMENTS_STATE_CODE_LOCK_BIT) |||
          galSVstateMask
      receivedSvTimeNs :=
        ops.toInt64 (ops.mul
          (ops.fmod
            (ops.add (ops.ofUInt32 gnss_measurement_info.svTimeSpeed.svTimeMs)
              (ops.ofFloat gnss_measurement_info.svTimeSpeed.svTimeSubMs))
            (ops.lit 20))
          (ops.lit 1e6))
      receivedSvTimeUncertaintyNs := ops.toInt64 gpsTowUncNs }
  else if hasBit validMask c.QMI_LOC_MASK_MEAS_STATUS_SM_VALID_V02 then
    { stateMask := c.GNSS_MEASUREMENTS_STATE_CODE_LOCK_BIT ||| galSVstateMask
      receivedSvTimeNs :=
        ops.toInt64 (ops.mul (ops.ofFloat gnss_measurement_info.svTimeSpeed.svTimeSubMs)
          (ops.lit 1e6))
      receivedSvTimeUncertaintyNs := ops.toInt64 gpsTowUncNs }
  else
    { stateMask := c.GNSS_MEASUREMENTS_STATE_UNKNOWN_BIT
      receivedSvTimeNs := 0
      receivedSvTimeUncertaintyNs := 0 }

/-! ### Measurement clock -/

/-- GPS week unknown (`C_GPS_WEEK_UNKNOWN`). -/
def C_GPS_WEEK_UNKNOWN : Nat := 65535

/-- The fields of `GnssMeasurementsClock` that `convertGnssClock` computes in
integer arithmetic; the bias and drift values, which are floating-point
expressions, are left out. -/
structure GnssMeasurementsClock where
  flags : Nat
  timeNs : Int
  hwClockDiscontinuityCount : Nat
  deriving DecidableEq, Repr

/-- The zeroed clock. -/
def GnssMeasurementsClock.zero : GnssMeasurementsClock :=
  { flags := 0, timeNs := 0, hwClockDiscontinuityCount := 0 }

/-- The `static uint32_t` locals of `convertGnssClock`. -/
structure ClockStatics where
  oldRefFCount : Nat
  newRefFCount : Nat
  oldDiscCount : Nat
  newDiscCount : Nat
  localDiscCount : Nat
  deriving DecidableEq, Repr

/-- The statics of `convertGnssClock` before its first call. -/
def ClockStatics.init : ClockStatics :=
  { oldRefFCount := 0, newRefFCount := 0, oldDiscCount := 0, newDiscCount := 0,
    localDiscCount := 0 }

/-- What one call of `convertGnssClock` leaves: the returned `msInWeek`, the
clock written through the reference, the statics and the adapter state. -/
structure ClockResult where
  msInWeek : Int
  clock : GnssMeasurementsClock
  statics : ClockStatics
  state : State
  deriving DecidableEq, Repr

/-- The function `LocApiV02::convertGnssClock`.  The discontinuity counter is
incremented when `mMeasurementsStarted` is set, when the clock-reset count
differs from the previous one, or when `newRefFCount <= oldRefFCount`. -/
def convertGnssClock (c : MeasConsts) (s : State) (st : ClockStatics)
    (clock : GnssMeasurementsClock)
    (gnss_measurement_info : qmiLocEventGnssSvMeasInfoIndMsgT_v02) : ClockResult :=
  let flags0 : Nat := 0
  let r : ClockResult :=
    if gnss_measurement_info.systemTimeExt_valid ≠ 0 ∧
        gnss_measurement_info.numClockResets_valid ≠ 0 then
      let newRefFCount := gnss_measurement_info.systemTimeExt.refFCount % 2 ^ 32
      let newDiscCount := gnss_measurement_info.numClockResets % 2 ^ 32
      let bump : Bool :=
        s.mMeasurementsStarted || (st.oldDiscCount != newDiscCount) ||
          decide (newRefFCount ≤ st.oldRefFCount)
      let s1 := if bump && s.mMeasurementsStarted then { s with mMeasurementsStarted := false } else s
      let localDiscCount := if bump then (st.localDiscCount + 1) % 2 ^ 32 else st.localDiscCount
      let st1 : ClockStatics :=
        { oldRefFCount := newRefFCount, newRefFCount := newRefFCount
          oldDiscCount := newDiscCount, newDiscCount := newDiscCount
          localDiscCount := localDiscCount }
      let clock1 : GnssMeasurementsClock :=
        { clock with
          timeNs := ((gnss_measurement_info.systemTimeExt.refFCount % 2 ^ 32 : Nat) : Int) * 1000000
          hwClockDiscontinuityCount := localDiscCount }
      let msInWeek := toInt32 gnss_measurement_info.systemTime.systemMsec
      let flags1 :=
        if gnss_measurement_info.systemTime_valid ≠ 0 ∧
            gnss_measurement_info.systemTime.systemWeek % 2 ^ 16 ≠ C_GPS_WEEK_UNKNOWN ∧
            gnss_measurement_info.systemTime.systemClkTimeUncMs ≤ 16 then
          flags0 ||| (c.GNSS_MEASUREMENTS_CLOCK_FLAGS_FULL_BIAS_BIT |||
            c.GNSS_MEASUREMENTS_CLOCK_FLAGS_BIAS_BIT |||
            c.GNSS_MEASUREMENTS_CLOCK_FLAGS_BIAS_UNCERTAINTY_BIT)
        else flags0
      { msInWeek := msInWeek, clock := { clock1 with flags := flags1 }, statics := st1,
        state := s1 }
    else { msInWeek := -1, clock := { clock with flags := flags0 }, statics := st, state := s }
  if gnss_measurement_info.rcvrClockFrequencyInfo_valid ≠ 0 then
    { r with
      clock := { r.clock with
        flags := r.clock.flags ||| (c.GNSS_MEASUREMENTS_CLOCK_FLAGS_DRIFT_BIT |||
          c.GNSS_MEASUREMENTS_CLOCK_FLAGS_DRIFT_UNCERTAINTY_BIT) } }
  else r

/-! ### Accumulation of the measurements of a burst -/

/-- The notification accumulated by `reportGnssMeasurementData`
(`GnssMeasurementsNotification`).  `count` is the `size_t` field.
`measurements` lists the assignments `measurements[meas_index] = ...` made since
the last `memset`, each with the index written; the array itself has
`GNSS_MEASUREMENTS_MAX` elements, so an index at or beyond that number is a
write outside the array. -/
structure GnssMeasurementsNotification where
  count : Nat
  measurements : List (Int × GnssMeasurementsData)
  clock : GnssMeasurementsClock
  deriving DecidableEq, Repr

/-- The notification after `memset`. -/
def GnssMeasurementsNotification.zero : GnssMeasurementsNotification :=
  { count := 0, measurements := [], clock := GnssMeasurementsClock.zero }

/-- The `static` locals of `reportGnssMeasurementData`. -/
structure MeasStatics where
  measurementsNotify : GnssMeasurementsNotification
  meas_index : Int
  bGPSreceived : Bool
  msInWeek : Int
  deriving DecidableEq, Repr

/-- The statics of `reportGnssMeasurementData` before its first call. -/
def MeasStatics.init : MeasStatics :=
  { measurementsNotify := GnssMeasurementsNotification.zero, meas_index := 0,
    bGPSreceived := false, msInWeek := -1 }

/-- What one call of `reportGnssMeasurementData` leaves: its statics, those of
`convertGnssClock`, the adapter state, and the arguments of the call of
`LocApiBase::reportGnssMeasurementData` when one is made. -/
structure MeasResult where
  statics : MeasStatics
  clockStatics : ClockStatics
  state : State
  forwarded : Option (GnssMeasurementsNotification × Int)
  deriving DecidableEq, Repr

/-- The loop `for (index = 0; index < svMeasurement_len; index++)` of
`reportGnssMeasurementData` over the indices still to visit: each round
converts one measurement into `measurements[meas_index]` and increments
`meas_index`, with no test against the size of the array. -/
def reportGnssMeasurementData.loop (m : MiscConsts)
    (gnss_measurement_report_ptr : qmiLocEventGnssSvMeasInfoIndMsgT_v02) :
    List Nat → MeasStatics → MeasStatics
  | [], st => st
  | index :: rest, st =>
    reportGnssMeasurementData.loop m gnss_measurement_report_ptr rest
      { st with
        measurementsNotify :=
          { st.measurementsNotify with
            measurements := st.measurementsNotify.measurements ++
              [(st.meas_index,
                convertGnssMeasurements m gnss_measurement_report_ptr.system
                  (gnss_measurement_report_ptr.svMeasurement.getD index
                    qmiLocSVMeasurementStructT_v02.zero))] }
        meas_index := st.meas_index + 1 }

/-- The start of a burst in `reportGnssMeasurementData`: on message 1 the
statics are reset and the notification is zeroed. -/
def reportGnssMeasurementData.reset (st : MeasStatics)
    (gnss_measurement_report_ptr : qmiLocEventGnssSvMeasInfoIndMsgT_v02) : MeasStatics :=
  if 1 = gnss_measurement_report_ptr.seqNum then
    { measurementsNotify := GnssMeasurementsNotification.zero, meas_index := 0,
      bGPSreceived := false, msInWeek := -1 }
  else st

/-- The measurements of one indication added by `reportGnssMeasurementData`.
`svMeasurement_len` is the `uint32_t` field stored into an `int`, and
`count += svMeasurement_len` is done in `size_t`. -/
def reportGnssMeasurementData.accumulate (m : MiscConsts) (st : MeasStatics)
    (gnss_measurement_report_ptr : qmiLocEventGnssSvMeasInfoIndMsgT_v02) : MeasStatics :=
  if gnss_measurement_report_ptr.svMeasurement_valid ≠ 0 then
    let svMeasurement_len := toInt32 gnss_measurement_report_ptr.svMeasurement_len
    let st1 : MeasStatics :=
      { st with
        measurementsNotify :=
          { st.measurementsNotify with
            count := (((st.measurementsNotify.count : Int) + svMeasurement_len) %
              2 ^ 64).toNat } }
    if svMeasurement_len ≠ 0 then
      reportGnssMeasurementData.loop m gnss_measurement_report_ptr
        (List.range svMeasurement_len.toNat) st1
    else st1
  else st

/-- The GPS clock reading of `reportGnssMeasurementData`: a GPS indication
sets `bGPSreceived` and converts the clock. -/
def reportGnssMeasurementData.readClock (c : MeasConsts) (s : State) (cst : ClockStatics)
    (st : MeasStatics) (gnss_measurement_report_ptr : qmiLocEventGnssSvMeasInfoIndMsgT_v02) :
    MeasResult :=
  if gnss_measurement_report_ptr.system = .eQMI_LOC_SV_SYSTEM_GPS_V02 then
    let cr := convertGnssClock c s cst st.measurementsNotify.clock gnss_measurement_report_ptr
    { statics :=
        { st with
          bGPSreceived := true
          msInWeek := cr.msInWeek
          measurementsNotify := { st.measurementsNotify with clock := cr.clock } }
      clockStatics := cr.statics, state := cr.state, forwarded := none }
  else { statics := st, clockStatics := cst, state := s, forwarded := none }

/-- The function `LocApiV02::reportGnssMeasurementData`: an indication with
`seqNum > maxMessageNum` is dropped; otherwise the burst is started on message
1, the measurements are accumulated, the clock is read from a GPS indication,
and the notification is forwarded when this is the last message of the burst,
`meas_index > 0` and a GPS indication was received. -/
def reportGnssMeasurementData (c : MeasConsts) (m : MiscConsts) (s : State)
    (cst : ClockStatics) (st : MeasStatics)
    (gnss_measurement_report_ptr : qmiLocEventGnssSvMeasInfoIndMsgT_v02) : MeasResult :=
  if gnss_measurement_report_ptr.seqNum > gnss_measurement_report_ptr.maxMessageNum then
    { statics := st, clockStatics := cst, state := s, forwarded := none }
  else
    let r := reportGnssMeasurementData.readClock c s cst
      (reportGnssMeasurementData.accumulate m
        (reportGnssMeasurementData.reset st gnss_measurement_report_ptr)
        gnss_measurement_report_ptr)
      gnss_measurement_report_ptr
    { r with
      forwarded :=
        if gnss_measurement_report_ptr.maxMessageNum = gnss_measurement_report_ptr.seqNum ∧
            r.statics.meas_index > 0 ∧ r.statics.bGPSreceived = true then
          some (r.statics.measurementsNotify, r.statics.msInWeek)
        else none }

/-- A sequence of calls of `reportGnssMeasurementData`, one per indication:
the forwarded notification of each call, in order, and what the last call
leaves. -/
def reportGnssMeasurementData.run (c : MeasConsts) (m : MiscConsts) :
    State → ClockStatics → MeasStatics → List qmiLocEventGnssSvMeasInfoIndMsgT_v02 →
    List (Option (GnssMeasurementsNotification × Int)) × MeasResult
  | s, cst, st, [] =>
    ([], { statics := st, clockStatics := cst, state := s, forwarded := none })
  | s, cst, st, r :: rest =>
    let o := reportGnssMeasurementData c m s cst st r
    let t := reportGnssMeasurementData.run c m o.state o.clockStatics o.statics rest
    (o.forwarded :: t.1, t.2)

/-- The fields of one slot of `svMeasurementSet.gnssMeas.svMeasurement` that
the loop of `reportSvMeasurement` writes (`Gnss_SVMeasurementStructType`);
`measurementStatus` is the `uint32_t` cast of the protocol value. -/
structure Gnss_SVMeasurementStructType where
  sizeSet : Bool
  gnssSvId : Nat
  gloFrequency : Nat
  measurementStatus : Nat
  deriving DecidableEq, Repr

/-- The part `gnssMeas` of the measurement set, as far as the loop sets it:
`numSvs` and the slots written, each with its index.  The array has
`GNSS_LOC_SV_MEAS_LIST_MAX_SIZE` slots. -/
structure Gnss_LocSvMeasStruct where
  numSvs : Nat
  svMeasurement : List (Nat × Gnss_SVMeasurementStructType)
  deriving DecidableEq, Repr

/-- The loop `for (i = 0; i < svMeasurement_len; i++)` of `reportSvMeasurement`
over the indices still to visit, with the counter `cnt`: slot `i` gets its
`size` in every round and the measurement when its id and status are not 0, and
`numSvs` is set to `cnt` at the end of every round. -/
def reportSvMeasurement.loop (svMeasurement : List qmiLocSVMeasurementStructT_v02) :
    List Nat → Nat → Gnss_LocSvMeasStruct → Gnss_LocSvMeasStruct
  | [], _, gnssMeas => gnssMeas
  | i :: rest, cnt, gnssMeas =>
    let e := svMeasurement.getD i qmiLocSVMeasurementStructT_v02.zero
    if e.gnssSvId ≠ 0 ∧ e.measurementStatus ≠ 0 then
      reportSvMeasurement.loop svMeasurement rest ((cnt + 1) % 2 ^ 32)
        { numSvs := (cnt + 1) % 2 ^ 32
          svMeasurement := gnssMeas.svMeasurement ++
            [(i, { sizeSet := true, gnssSvId := e.gnssSvId, gloFrequency := e.gloFrequency
                   measurementStatus := e.measurementStatus % 2 ^ 32 })] }
    else
      reportSvMeasurement.loop svMeasurement rest cnt
        { numSvs := cnt
          svMeasurement := gnssMeas.svMeasurement ++
            [(i, { sizeSet := true, gnssSvId := 0, gloFrequency := 0,
                   measurementStatus := 0 })] }

/-- The part of `LocApiV02::reportSvMeasurement` that fills
`svMeasurementSet.gnssMeas.svMeasurement` and `numSvs`.  The cap of `numSvs` at
`GNSS_LOC_SV_MEAS_LIST_MAX_SIZE` is followed by a second assignment of
`svMeasurement_len`, and the loop runs to `svMeasurement_len`. -/
def reportSvMeasurement (c : MeasConsts)
    (gnss_raw_measurement_ptr : qmiLocEventGnssSvMeasInfoIndMsgT_v02) : Gnss_LocSvMeasStruct :=
  if 1 = gnss_raw_measurement_ptr.svMeasurement_valid then
    let numSvs0 := gnss_raw_measurement_ptr.svMeasurement_len % 2 ^ 32
    let numSvs1 :=
      if gnss_raw_measurement_ptr.svMeasurement_len % 2 ^ 32 > c.GNSS_LOC_SV_MEAS_LIST_MAX_SIZE
      then c.GNSS_LOC_SV_MEAS_LIST_MAX_SIZE else numSvs0
    let numSvs2 := (fun (_ : Nat) => gnss_raw_measurement_ptr.svMeasurement_len % 2 ^ 32) numSvs1
    reportSvMeasurement.loop gnss_raw_measurement_ptr.svMeasurement
      (List.range (gnss_raw_measurement_ptr.svMeasurement_len % 2 ^ 32)) 0
      { numSvs := numSvs2, svMeasurement := [] }
  else { numSvs := 0, svMeasurement := [] }

/-! ### Satellites used in the fix -/

/-- The C expression `1 << n` on `int` (32 bits): the value 2^n for
`0 <= n <= 30`, `INT_MIN` for `n = 31`, and `none` for a negative count or a
count of 32 or more, where the behaviour is undefined. -/
def shiftLeftOne (n : Int) : Option Int :=
  if n < 0 ∨ 32 ≤ n then none
  else if n = 31 then some (-(2 ^ 31))
  else some (2 ^ n.toNat)

/-- The statement `mask |= v` for a 64-bit unsigned `mask` and an `int` value
`v`, which is converted to 64 bits first. -/
def orAssignInt (mask : Nat) (v : Int) : Nat := mask ||| (v % 2 ^ 64).toNat

/-- The used-satellite masks of the extended location
(`GnssSvUsedInPosition`). -/
structure GnssSvUsedInPosition where
  gps_sv_used_ids_mask : Nat
  glo_sv_used_ids_mask : Nat
  gal_sv_used_ids_mask : Nat
  bds_sv_used_ids_mask : Nat
  qzss_sv_used_ids_mask : Nat
  deriving DecidableEq, Repr

/-- The masks after `memset`. -/
def GnssSvUsedInPosition.zero : GnssSvUsedInPosition :=
  { gps_sv_used_ids_mask := 0, glo_sv_used_ids_mask := 0, gal_sv_used_ids_mask := 0,
    bds_sv_used_ids_mask := 0, qzss_sv_used_ids_mask := 0 }

/-- One round of the used-satellite loop of `reportPosition` for the id
`gnssSvIdUsed` (a `uint16_t`); `none` when the shift is undefined.  The GPS
branch tests the upper bound only. -/
def reportPosition.markUsed (m : MiscConsts) (ids : GnssSvUsedInPosition)
    (gnssSvIdUsed : Nat) : Option GnssSvUsedInPosition :=
  let id : Int := ((gnssSvIdUsed % 2 ^ 16 : Nat) : Int)
  if id ≤ m.GPS_SV_PRN_MAX then
    (shiftLeftOne (id - m.GPS_SV_PRN_MIN)).map (fun v =>
      { ids with gps_sv_used_ids_mask := orAssignInt ids.gps_sv_used_ids_mask v })
  else if id ≥ m.GLO_SV_PRN_MIN ∧ id ≤ m.GLO_SV_PRN_MAX then
    (shiftLeftOne (id - m.GLO_SV_PRN_MIN)).map (fun v =>
      { ids with glo_sv_used_ids_mask := orAssignInt ids.glo_sv_used_ids_mask v })
  else if id ≥ m.BDS_SV_PRN_MIN ∧ id ≤ m.BDS_SV_PRN_MAX then
    (shiftLeftOne (id - m.BDS_SV_PRN_MIN)).map (fun v =>
      { ids with bds_sv_used_ids_mask := orAssignInt ids.bds_sv_used_ids_mask v })
  else if id ≥ m.GAL_SV_PRN_MIN ∧ id ≤ m.GAL_SV_PRN_MAX then
    (shiftLeftOne (id - m.GAL_SV_PRN_MIN)).map (fun v =>
      { ids with gal_sv_used_ids_mask := orAssignInt ids.gal_sv_used_ids_mask v })
  else if id ≥ m.QZSS_SV_PRN_MIN ∧ id ≤ m.QZSS_SV_PRN_MAX then
    (shiftLeftOne (id - m.QZSS_SV_PRN_MIN)).map (fun v =>
      { ids with qzss_sv_used_ids_mask := orAssignInt ids.qzss_sv_used_ids_mask v })
  else some ids

/-- The used-satellite loop of `reportPosition` over the indices still to
visit. -/
def reportPosition.usedLoop (m : MiscConsts) (gnssSvUsedList : List Nat) :
    List Nat → GnssSvUsedInPosition → Option GnssSvUsedInPosition
  | [], ids => some ids
  | idx :: rest, ids =>
    (reportPosition.markUsed m ids (gnssSvUsedList.getD idx 0)).bind
      (reportPosition.usedLoop m gnssSvUsedList rest)

/-- The used-satellite masks that `reportPosition` fills in the zeroed
extended location: the loop runs when the list is valid, not empty, and
`LocApiBase::needReport` answered `reported`. -/
def reportPosition.gnss_sv_used_ids (m : MiscConsts) (gnssSvUsedList_valid : Nat)
    (gnssSvUsedList_len : Nat) (gnssSvUsedList : List Nat) (reported : Bool) :
    Option GnssSvUsedInPosition :=
  if gnssSvUsedList_valid ≠ 0 ∧ gnssSvUsedList_len % 2 ^ 32 ≠ 0 then
    if reported then
      reportPosition.usedLoop m gnssSvUsedList (List.range (gnssSvUsedList_len % 2 ^ 32))
        GnssSvUsedInPosition.zero
    else some GnssSvUsedInPosition.zero
  else some GnssSvUsedInPosition.zero

/-! ## Creating and closing the adapter -/

/-- An adapter object as `new LocApiV02(msgTask, exMask, context)` leaves it:
the three constructor arguments and the state set by the initialiser list.
A pointer is `none` when it is `NULL`. -/
structure LocApiV02Object where
  msgTask : Option Nat
  exMask : Nat
  context : Option Nat
  state : State
  deriving DecidableEq, Repr

/-- The function `LocApiV02::createLocApiV02`; `none` is the `NULL` result.
The source tests `NULL != msgTask` before it logs "msgTask can not be NULL"
and returns `NULL`. -/
def createLocApiV02 (msgTask : Option Nat) (exMask : Nat) (context : Option Nat) :
    Option LocApiV02Object :=
  if msgTask ≠ none then none
  else some { msgTask := msgTask, exMask := exMask, context := context, state := State.init }

/-- The function `getLocApi`. -/
def getLocApi (msgTask : Option Nat) (exMask : Nat) (context : Option Nat) :
    Option LocApiV02Object :=
  createLocApiV02 msgTask exMask context

/-- The function `LocApiV02::close`.  The `||` short-circuits, so
`locClientClose` is called only on a valid handle; the four assignments that
follow are all the members the function writes. -/
def close (env : Env) (s : State) : loc_api_adapter_err × State :=
  if s.clientHandle = none then
    (.LOC_API_ADAPTER_ERR_SUCCESS,
      { s with mMask := 0, mQmiMask := 0, mInSession := false, clientHandle := none })
  else
    let status := env.locClientClose s.trace s.clientHandle
    let s1 := s.log (.locClientClose s.clientHandle status)
    (if status = .eLOC_CLIENT_SUCCESS then .LOC_API_ADAPTER_ERR_SUCCESS
      else .LOC_API_ADAPTER_ERR_FAILURE,
      { s1 with mMask := 0, mQmiMask := 0, mInSession := false, clientHandle := none })

/-! ## Callbacks of the transport -/

/-- The values of `eventId` that the `switch` of `eventCb` has a case for;
`other` is every other value. -/
inductive EventIndId where
  | QMI_LOC_EVENT_POSITION_REPORT_IND_V02
  | QMI_LOC_EVENT_GNSS_SV_INFO_IND_V02
  | QMI_LOC_EVENT_ENGINE_STATE_IND_V02
  | QMI_LOC_EVENT_FIX_SESSION_STATE_IND_V02
  | QMI_LOC_EVENT_NMEA_IND_V02
  | QMI_LOC_EVENT_INJECT_PREDICTED_ORBITS_REQ_IND_V02
  | QMI_LOC_EVENT_INJECT_TIME_REQ_IND_V02
  | QMI_LOC_EVENT_INJECT_POSITION_REQ_IND_V02
  | QMI_LOC_EVENT_NI_NOTIFY_VERIFY_REQ_IND_V02
  | QMI_LOC_EVENT_LOCATION_SERVER_CONNECTION_REQ_IND_V02
  | QMI_LOC_EVENT_GNSS_MEASUREMENT_REPORT_IND_V02
  | QMI_LOC_EVENT_SV_POLYNOMIAL_REPORT_IND_V02
  | QMI_LOC_EVENT_WIFI_REQ_IND_V02
  | other (eventId : Nat)
  deriving DecidableEq, Repr

/-- The functions that `eventCb` calls. -/
inductive Handler where
  | reportPosition
  | reportSv
  | reportEngineState
  | reportFixSessionState
  | reportNmea
  | reportXtraServerUrl
  | requestXtraData
  | requestTime
  | requestLocation
  | reportNiRequest
  | reportAtlRequest
  | reportSvMeasurement
  | reportGnssMeasurementData
  | reportSvPolynomial
  | reportOdcpiRequest
  deriving DecidableEq, Repr

/-- The calls of each case of the `switch` of `eventCb`, in order; the
`switch` has no `default`. -/
def eventCb.handlers : EventIndId → List Handler
  | .QMI_LOC_EVENT_POSITION_REPORT_IND_V02 => [.reportPosition]
  | .QMI_LOC_EVENT_GNSS_SV_INFO_IND_V02 => [.reportSv]
  | .QMI_LOC_EVENT_ENGINE_STATE_IND_V02 => [.reportEngineState]
  | .QMI_LOC_EVENT_FIX_SESSION_STATE_IND_V02 => [.reportFixSessionState]
  | .QMI_LOC_EVENT_NMEA_IND_V02 => [.reportNmea]
  | .QMI_LOC_EVENT_INJECT_PREDICTED_ORBITS_REQ_IND_V02 =>
    [.reportXtraServerUrl, .requestXtraData]
  | .QMI_LOC_EVENT_INJECT_TIME_REQ_IND_V02 => [.requestTime]
  | .QMI_LOC_EVENT_INJECT_POSITION_REQ_IND_V02 => [.requestLocation]
  | .QMI_LOC_EVENT_NI_NOTIFY_VERIFY_REQ_IND_V02 => [.reportNiRequest]
  | .QMI_LOC_EVENT_LOCATION_SERVER_CONNECTION_REQ_IND_V02 => [.reportAtlRequest]
  | .QMI_LOC_EVENT_GNSS_MEASUREMENT_REPORT_IND_V02 =>
    [.reportSvMeasurement, .reportGnssMeasurementData]
  | .QMI_LOC_EVENT_SV_POLYNOMIAL_REPORT_IND_V02 => [.reportSvPolynomial]
  | .QMI_LOC_EVENT_WIFI_REQ_IND_V02 => [.reportOdcpiRequest]
  | .other _ => []

/-- The function `LocApiV02::eventCb` over any state `σ` that the handlers
act on (adapter members and consumer callbacks): `handler h` is the effect of
the function `h` on the payload of the event. -/
def eventCb {σ : Type} (handler : Handler → σ → σ) (eventId : EventIndId) (st : σ) : σ :=
  (eventCb.handlers eventId).foldl (fun acc h => handler h acc) st

/-- Session status handed to `LocApiBase` (`loc_sess_status`). -/
inductive loc_sess_status where
  | LOC_SESS_SUCCESS
  | LOC_SESS_INTERMEDIATE
  | LOC_SESS_FAILURE
  deriving DecidableEq, Repr

/-- The two values of `qmiLocSessionStatusEnumT_v02` that `reportPosition`
names. -/
structure SessConsts where
  eQMI_LOC_SESS_STATUS_SUCCESS_V02 : Nat
  eQMI_LOC_SESS_STATUS_IN_PROGRESS_V02 : Nat

/-- The values of the interface header. -/
def headerSess : SessConsts where
  eQMI_LOC_SESS_STATUS_SUCCESS_V02 := 0
  eQMI_LOC_SESS_STATUS_IN_PROGRESS_V02 := 1

/-- The fields of a position report that decide which calls into
`LocApiBase` are made (`qmiLocEventPositionReportIndMsgT_v02`). -/
structure qmiLocEventPositionReportIndMsgT_v02 where
  sessionStatus : Nat
  latitude_valid : Nat
  longitude_valid : Nat
  gnssSvUsedList_valid : Nat
  gnssSvUsedList_len : Nat
  deriving DecidableEq, Repr

/-- A call of `reportPosition` into `LocApiBase`, with the session status it
passes. -/
inductive LocApiBaseCall where
  | needReport (status : loc_sess_status)
  | reportPosition (status : loc_sess_status)
  deriving DecidableEq, Repr

/-- The calls of `LocApiV02::reportPosition` into `LocApiBase`, in order.
The condition of the `?:` handed to `needReport` is the enumerator
`eQMI_LOC_SESS_STATUS_IN_PROGRESS_V02` itself; the one handed to
`LocApiBase::reportPosition` compares `sessionStatus` with it. -/
def reportPosition.calls (p : SessConsts)
    (location_report_ptr : qmiLocEventPositionReportIndMsgT_v02) : List LocApiBaseCall :=
  if location_report_ptr.sessionStatus = p.eQMI_LOC_SESS_STATUS_SUCCESS_V02 ∨
      location_report_ptr.sessionStatus = p.eQMI_LOC_SESS_STATUS_IN_PROGRESS_V02 then
    if 1 = location_report_ptr.latitude_valid ∧ 1 = location_report_ptr.longitude_valid then
      (if location_report_ptr.gnssSvUsedList_valid ≠ 0 ∧
          location_report_ptr.gnssSvUsedList_len % 2 ^ 32 ≠ 0 then
        [LocApiBaseCall.needReport
          (if p.eQMI_LOC_SESS_STATUS_IN_PROGRESS_V02 ≠ 0 then .LOC_SESS_INTERMEDIATE
           else .LOC_SESS_SUCCESS)]
       else []) ++
      [LocApiBaseCall.reportPosition
        (if location_report_ptr.sessionStatus = p.eQMI_LOC_SESS_STATUS_IN_PROGRESS_V02
         then .LOC_SESS_INTERMEDIATE else .LOC_SESS_SUCCESS)]
    else []
  else [LocApiBaseCall.reportPosition .LOC_SESS_FAILURE]

/-- The requests handed to `locClientSendReq` in a trace, in order, each with
the status it came back with. -/
def sendReqCalls (trace : List Event) : List (MsgId × locClientStatusEnumType) :=
  trace.filterMap (fun e =>
    match e with
    | .locClientSendReq _ req_id _ status => some (req_id, status)
    | _ => none)

/-- The mode-setting step of `startFix`: the registration of the stored mask
followed by the blocking mode-setting request. -/
def startFix.modeSet (env : Env) (k : MaskConsts) (m : MiscConsts) (s : State)
    (fixCriteria : LocPosMode) : SyncResult :=
  locSyncSendReq env k (registerEventMask env k (startFix.entered s) (startFix.entered s).mMask)
    .QMI_LOC_SET_OPERATION_MODE_REQ_V02
    (some (.pSetOperationModeReq { operationMode := startFix.operationMode fixCriteria }))
    m.LOC_ENGINE_SYNC_REQUEST_TIMEOUT .QMI_LOC_SET_OPERATION_MODE_IND_V02 (some Ind.zero)

/-- The status of the start request of `startFix`, sent after the
mode-setting step. -/
def startFix.startStatus (env : Env) (k : MaskConsts) (m : MiscConsts) (c : StartConsts)
    (s : State) (fixCriteria : LocPosMode) : locClientStatusEnumType :=
  env.locClientSendReq (startFix.modeSet env k m s fixCriteria).state.trace
    (startFix.modeSet env k m s fixCriteria).state.clientHandle .QMI_LOC_START_REQ_V02
    (some (ReqPayload.pStartReq (startFix.start_msg c fixCriteria)))

/-- A transport that accepts every registration, answers every request with
success and a zero indication, reports the request itself as the data to
snapshot, opens with handle 1, reports no optional message as supported and
closes with success, and an allocator that never fails. -/
def Env.accepting : Env where
  locClientRegisterEventMask := fun _ _ _ => true
  locClientSendReq := fun _ _ _ _ => .eLOC_CLIENT_SUCCESS
  loc_sync_send_req := fun _ _ _ _ _ _ _ => (.eLOC_CLIENT_SUCCESS, Ind.zero)
  malloc := fun _ => true
  validateRequest := fun _ p => p
  castStatus := fun st =>
    match st with
    | .eQMI_LOC_SUCCESS_V02 => .eLOC_CLIENT_SUCCESS
    | .eQMI_LOC_GENERAL_FAILURE_V02 => .eLOC_CLIENT_FAILURE_GENERAL
    | .eQMI_LOC_ENGINE_BUSY_V02 => .eLOC_CLIENT_FAILURE_ENGINE_BUSY
    | .other v => .other v
  locClientOpen := fun _ _ => (.eLOC_CLIENT_SUCCESS, some 1)
  locClientSupportMsgCheck := fun _ _ _ => (.eLOC_CLIENT_SUCCESS, 0)
  locClientClose := fun _ _ => .eLOC_CLIENT_SUCCESS

/-- The accepting transport, except that every registration is refused. -/
def Env.refusing : Env :=
  { Env.accepting with locClientRegisterEventMask := fun _ _ _ => false }

/-- An open adapter in a session whose consumer mask, position reports only,
is already registered. -/
def State.inSessionRegistered : State :=
  { State.init with
    clientHandle := some 1
    mInSession := true
    mMask := headerMasks.LOC_API_ADAPTER_BIT_PARSED_POSITION_REPORT
    mQmiMask := headerMasks.QMI_LOC_EVENT_MASK_POSITION_REPORT_V02 }

/-- An open adapter in a session with nothing registered yet. -/
def State.inSession : State :=
  { State.init with clientHandle := some 1, mInSession := true }

/-- The number of `locClientRegisterEventMask` calls in a trace. -/
def registerCalls (trace : List Event) : Nat :=
  (trace.filter (fun e =>
    match e with
    | .locClientRegisterEventMask _ _ _ => true
    | _ => false)).length

/-- The accepting transport, except that every blocking request is rejected
as engine-busy. -/
def Env.busy : Env :=
  { Env.accepting with
    loc_sync_send_req := fun _ _ _ _ _ _ _ => (.eLOC_CLIENT_FAILURE_ENGINE_BUSY, Ind.zero) }

/-- The busy transport with an allocator that always fails. -/
def Env.busyNoMemory : Env :=
  { Env.busy with malloc := fun _ => false }

/-- A legacy delete-all request, used as a sample payload. -/
def ReqPayload.sample : ReqPayload :=
  .pDeleteAssistDataReq
    { deleteAllFlag := true
      deleteSvInfoList_valid := false
      deleteSvInfoList_len := 0
      deleteSvInfoList := []
      deleteGnssDataMask_valid := false
      deleteGnssDataMask := 0
      deleteCellDbDataMask_valid := false
      deleteCellDbDataMask := 0 }

/-- The blocking sends of a trace, in order, each reduced to what a retry
record holds: request identifier, payload, timeout and indication
identifier. -/
def sentRequests (trace : List Event) : List Resender :=
  trace.filterMap (fun e =>
    match e with
    | .loc_sync_send_req _ req_id req_payload timeout_msec ind_id _ _ _ =>
      some { req_id := req_id, req_payload_copy := req_payload,
             timeout_msec := timeout_msec, ind_id := ind_id }
    | _ => none)

/-- The predicted-orbits parts sent in a trace, in order. -/
def sentParts (trace : List Event) : List qmiLocInjectPredictedOrbitsDataReqMsgT_v02 :=
  trace.filterMap (fun e =>
    match e with
    | .loc_sync_send_req _ _ (some (.pInjectPredictedOrbitsDataReq req)) _ _ _ _ _ => some req
    | _ => none)

/-- A retry record for a stop request. -/
def Resender.sampleStop : Resender :=
  { req_id := .QMI_LOC_STOP_REQ_V02
    req_payload_copy := some (.pStopReq { sessionId := LOC_API_V02_DEF_SESSION_ID })
    timeout_msec := 1000
    ind_id := .other 0 }

/-- A retry record for a legacy delete-all request. -/
def Resender.sampleDelete : Resender :=
  { req_id := .QMI_LOC_DELETE_ASSIST_DATA_REQ_V02
    req_payload_copy := some ReqPayload.sample
    timeout_msec := 1000
    ind_id := .QMI_LOC_DELETE_ASSIST_DATA_IND_V02 }

/-- An adapter in a session with two requests waiting in the retry queue. -/
def State.withQueue : State :=
  { State.inSession with mResenders := [Resender.sampleStop, Resender.sampleDelete] }

/-- The client statuses answered to the blocking sends of a trace, in
order. -/
def syncStatuses (trace : List Event) : List locClientStatusEnumType :=
  trace.filterMap (fun e =>
    match e with
    | .loc_sync_send_req _ _ _ _ _ _ status _ => some status
    | _ => none)

/-- The part numbers of the predicted-orbits parts sent in a trace, in
order. -/
def sentPartNums (trace : List Event) : List Nat :=
  trace.filterMap (fun e =>
    match e with
    | .loc_sync_send_req _ _ (some (.pInjectPredictedOrbitsDataReq req)) _ _ _ _ _ =>
      some req.partNum
    | _ => none)

/-- A transport that answers every predicted-orbits part with client status
success and indication status success, echoing the part number of the request,
except that part 2 is acknowledged with part number 3. -/
def Env.part2AckedAs3 : Env :=
  { Env.accepting with
    loc_sync_send_req := fun _ _ _ req_payload _ _ _ =>
      match req_payload with
      | some (.pInjectPredictedOrbitsDataReq req) =>
        (.eLOC_CLIENT_SUCCESS,
          { status := .eQMI_LOC_SUCCESS_V02
            partNum := if req.partNum = 2 then 3 else req.partNum })
      | _ => (.eLOC_CLIENT_SUCCESS, Ind.zero) }

/-- A transport that acknowledges every predicted-orbits part: client status
success, indication status success and the part number of the request. -/
def Env.acknowledging : Env :=
  { Env.accepting with
    loc_sync_send_req := fun _ _ _ req_payload _ _ _ =>
      match req_payload with
      | some (.pInjectPredictedOrbitsDataReq req) =>
        (.eLOC_CLIENT_SUCCESS, { status := .eQMI_LOC_SUCCESS_V02, partNum := req.partNum })
      | _ => (.eLOC_CLIENT_SUCCESS, Ind.zero) }

/-- A transport that answers every blocking request with client status
success and an indication whose status is a general failure. -/
def Env.indicationFailure : Env :=
  { Env.accepting with
    loc_sync_send_req := fun _ _ _ _ _ _ _ =>
      (.eLOC_CLIENT_SUCCESS, { status := .eQMI_LOC_GENERAL_FAILURE_V02, partNum := 0 }) }

/-- A blob of 2049 bytes: three parts of at most 1024 bytes. -/
def xtraBlob3 : List Nat := List.replicate 2049 0

/-- One concrete assignment of the delete constants, one distinct bit per
category in the order of the interface headers, used to evaluate the
definitions on examples. -/
def headerDelete : DeleteConsts where
  GNSS_AIDING_DATA_SV_EPHEMERIS_BIT := 1 <<< 0
  GNSS_AIDING_DATA_SV_ALMANAC_BIT := 1 <<< 1
  GNSS_AIDING_DATA_SV_HEALTH_BIT := 1 <<< 2
  GNSS_AIDING_DATA_SV_DIRECTION_BIT := 1 <<< 3
  GNSS_AIDING_DATA_SV_STEER_BIT := 1 <<< 4
  GNSS_AIDING_DATA_SV_ALMANAC_CORR_BIT := 1 <<< 5
  GNSS_AIDING_DATA_SV_BLACKLIST_BIT := 1 <<< 6
  GNSS_AIDING_DATA_SV_SA_DATA_BIT := 1 <<< 7
  GNSS_AIDING_DATA_SV_NO_EXIST_BIT := 1 <<< 8
  GNSS_AIDING_DATA_SV_IONOSPHERE_BIT := 1 <<< 9
  GNSS_AIDING_DATA_SV_TIME_BIT := 1 <<< 10
  GNSS_AIDING_DATA_SV_TYPE_GPS_BIT := 1 <<< 0
  GNSS_AIDING_DATA_SV_TYPE_GLONASS_BIT := 1 <<< 1
  GNSS_AIDING_DATA_SV_TYPE_QZSS_BIT := 1 <<< 2
  GNSS_AIDING_DATA_SV_TYPE_BEIDOU_BIT := 1 <<< 3
  GNSS_AIDING_DATA_SV_TYPE_GALILEO_BIT := 1 <<< 4
  GNSS_AIDING_DATA_COMMON_POSITION_BIT := 1 <<< 0
  GNSS_AIDING_DATA_COMMON_TIME_BIT := 1 <<< 1
  GNSS_AIDING_DATA_COMMON_UTC_BIT := 1 <<< 2
  GNSS_AIDING_DATA_COMMON_RTI_BIT := 1 <<< 3
  GNSS_AIDING_DATA_COMMON_FREQ_BIAS_EST_BIT := 1 <<< 4
  GNSS_AIDING_DATA_COMMON_CELLDB_BIT := 1 <<< 5
  QMI_LOC_DELETE_DATA_MASK_EPHEMERIS_V02 := 0x0001
  QMI_LOC_DELETE_DATA_MASK_ALMANAC_V02 := 0x0002
  QMI_LOC_DELETE_DATA_MASK_SVHEALTH_V02 := 0x0004
  QMI_LOC_DELETE_DATA_MASK_SVDIR_V02 := 0x0008
  QMI_LOC_DELETE_DATA_MASK_SVSTEER_V02 := 0x0010
  QMI_LOC_DELETE_DATA_MASK_ALM_CORR_V02 := 0x0020
  QMI_LOC_DELETE_DATA_MASK_BLACKLIST_V02 := 0x0040
  QMI_LOC_DELETE_DATA_MASK_SA_DATA_V02 := 0x0080
  QMI_LOC_DELETE_DATA_MASK_SV_NO_EXIST_V02 := 0x0100
  QMI_LOC_DELETE_DATA_MASK_IONO_V02 := 0x0200
  QMI_LOC_DELETE_DATA_MASK_TIME_V02 := 0x0400
  QMI_LOC_SYSTEM_GPS_V02 := 0x01
  QMI_LOC_SYSTEM_GAL_V02 := 0x02
  QMI_LOC_SYSTEM_GLO_V02 := 0x10
  QMI_LOC_SYSTEM_BDS_V02 := 0x20
  QMI_LOC_SYSTEM_QZSS_V02 := 0x40
  QMI_LOC_DELETE_COMMON_MASK_POS_V02 := 0x01
  QMI_LOC_DELETE_COMMON_MASK_TIME_V02 := 0x02
  QMI_LOC_DELETE_COMMON_MASK_UTC_V02 := 0x04
  QMI_LOC_DELETE_COMMON_MASK_RTI_V02 := 0x08
  QMI_LOC_DELETE_COMMON_MASK_FREQ_BIAS_EST_V02 := 0x10
  QMI_LOC_MASK_DELETE_CELLDB_POS_V02 := 0x001
  QMI_LOC_MASK_DELETE_CELLDB_LATEST_GPS_POS_V02 := 0x002
  QMI_LOC_MASK_DELETE_CELLDB_OTA_POS_V02 := 0x004
  QMI_LOC_MASK_DELETE_CELLDB_EXT_REF_POS_V02 := 0x008
  QMI_LOC_MASK_DELETE_CELLDB_TIMETAG_V02 := 0x010
  QMI_LOC_MASK_DELETE_CELLDB_CELLID_V02 := 0x020
  QMI_LOC_MASK_DELETE_CELLDB_CACHED_CELLID_V02 := 0x040
  QMI_LOC_MASK_DELETE_CELLDB_LAST_SRV_CELL_V02 := 0x080
  QMI_LOC_MASK_DELETE_CELLDB_CUR_SRV_CELL_V02 := 0x100
  QMI_LOC_MASK_DELETE_CELLDB_NEIGHBOR_INFO_V02 := 0x200
  QMI_LOC_MASK_DELETE_EPHEMERIS_V02 := 0x01
  QMI_LOC_MASK_DELETE_ALMANAC_V02 := 0x02
  QMI_LOC_MASK_DELETE_GPS_SVDIR_V02 := 0x00000001
  QMI_LOC_MASK_DELETE_POSITION_V02 := 0x00000400
  QMI_LOC_MASK_DELETE_TIME_V02 := 0x00000800
  QMI_LOC_MASK_DELETE_IONO_V02 := 0x00001000
  QMI_LOC_MASK_DELETE_UTC_V02 := 0x00002000
  QMI_LOC_MASK_DELETE_HEALTH_V02 := 0x00004000
  QMI_LOC_MASK_DELETE_SADATA_V02 := 0x00008000
  QMI_LOC_MASK_DELETE_RTI_V02 := 0x00010000

/-- What a retry record would hold for the bulk delete request that
`deleteAidingData` sends for `data`. -/
def deleteAidingData.bulkRequest (m : MiscConsts) (d : DeleteConsts) (data : GnssAidingData) :
    Resender :=
  { req_id := .QMI_LOC_DELETE_GNSS_SERVICE_DATA_REQ_V02
    req_payload_copy := some (.pDeleteGNSSServiceDataReq (deleteAidingData.delete_gnss_req d data))
    timeout_msec := m.LOC_ENGINE_SYNC_REQUEST_TIMEOUT
    ind_id := .QMI_LOC_DELETE_GNSS_SERVICE_DATA_IND_V02 }

/-- What a retry record would hold for the legacy delete request that
`deleteAidingData` sends for `data`. -/
def deleteAidingData.legacyRequest (m : MiscConsts) (d : DeleteConsts) (data : GnssAidingData) :
    Resender :=
  { req_id := .QMI_LOC_DELETE_ASSIST_DATA_REQ_V02
    req_payload_copy := some (.pDeleteAssistDataReq (deleteAidingData.delete_req d data))
    timeout_msec := m.LOC_ENGINE_SYNC_REQUEST_TIMEOUT
    ind_id := .QMI_LOC_DELETE_ASSIST_DATA_IND_V02 }

/-- The state after a sequence of `deleteAidingData` calls, one per element of
`later`. -/
def deleteAidingData.calls (env : Env) (k : MaskConsts) (m : MiscConsts) (d : DeleteConsts)
    (s : State) (later : List GnssAidingData) : State :=
  later.foldl (fun st data => (deleteAidingData env k m d st data).2) s

/-- A transport that answers the bulk delete request with status unsupported
and everything else with success. -/
def Env.bulkUnsupported : Env :=
  { Env.accepting with
    loc_sync_send_req := fun _ _ req_id _ _ _ _ =>
      if req_id = .QMI_LOC_DELETE_GNSS_SERVICE_DATA_REQ_V02 then
        (.eLOC_CLIENT_FAILURE_UNSUPPORTED, Ind.zero)
      else (.eLOC_CLIENT_SUCCESS, Ind.zero) }

/-- A delete-all request of the consumer. -/
def GnssAidingData.all : GnssAidingData :=
  { deleteAll := true, sv := { svMask := 0, svTypeMask := 0 }, common := { mask := 0 } }

/-- A request to delete the GPS ephemeris and the cached position. -/
def GnssAidingData.gpsEphemerisAndPosition : GnssAidingData :=
  { deleteAll := false
    sv := { svMask := headerDelete.GNSS_AIDING_DATA_SV_EPHEMERIS_BIT
            svTypeMask := headerDelete.GNSS_AIDING_DATA_SV_TYPE_GPS_BIT }
    common := { mask := headerDelete.GNSS_AIDING_DATA_COMMON_POSITION_BIT } }

/-- The masks handed to the transport in a trace, by `locClientOpen` and by
`locClientRegisterEventMask`, in order. -/
def registeredMasks (trace : List Event) : List Nat :=
  trace.filterMap (fun e =>
    match e with
    | .locClientOpen mask _ _ => some mask
    | .locClientRegisterEventMask _ mask _ => some mask
    | _ => none)

/-- An open adapter outside a session whose consumer asked for position
reports only; nothing is registered. -/
def State.opened : State :=
  { State.init with
    clientHandle := some 1
    mMask := headerMasks.LOC_API_ADAPTER_BIT_PARSED_POSITION_REPORT }

/-- Fix criteria for a standalone periodic fix every second. -/
def LocPosMode.sample : LocPosMode :=
  { mode := .LOC_POSITION_MODE_STANDALONE
    recurrence := .LOC_GPS_POSITION_RECURRENCE_PERIODIC
    min_interval := 1000
    preferred_accuracy := 50
    share_position := true
    credentials := List.replicate 14 0
    provider := List.replicate 8 0 }

/-- A transport that answers the bulk delete request with a timeout and
everything else with success. -/
def Env.bulkTimeout : Env :=
  { Env.accepting with
    loc_sync_send_req := fun _ _ req_id _ _ _ _ =>
      if req_id = .QMI_LOC_DELETE_GNSS_SERVICE_DATA_REQ_V02 then
        (.eLOC_CLIENT_FAILURE_TIMEOUT, Ind.zero)
      else (.eLOC_CLIENT_SUCCESS, Ind.zero) }

/-- A Galileo entry of the protocol satellite list with raw id 301. -/
def qmiLocSvInfoStructT_v02.galileo301 : qmiLocSvInfoStructT_v02 :=
  { validMask := 0x03, system := .eQMI_LOC_SV_SYSTEM_GALILEO_V02, gnssSvId := 301,
    svInfoMask := 0, elevation := 0, azimuth := 0, snr := 0 }

/-- A QZSS entry of the protocol satellite list with raw id 193. -/
def qmiLocSvInfoStructT_v02.qzss193 : qmiLocSvInfoStructT_v02 :=
  { validMask := 0x03, system := .eQMI_LOC_SV_SYSTEM_QZSS_V02, gnssSvId := 193,
    svInfoMask := 0, elevation := 0, azimuth := 0, snr := 0 }

/-- A satellite-info indication with a Galileo satellite, an entry without
satellite id, and a QZSS satellite. -/
def qmiLocEventGnssSvInfoIndMsgT_v02.sample : qmiLocEventGnssSvInfoIndMsgT_v02 :=
  { svList_valid := 1
    svList_len := 3
    svList := [qmiLocSvInfoStructT_v02.galileo301, qmiLocSvInfoStructT_v02.zero,
      qmiLocSvInfoStructT_v02.qzss193] }

/-- A GPS measurement indication that is a whole burst (message 1 of 1) with a
valid clock reading: reference frequency count 100, clock-reset count 0, and
one measurement. -/
def qmiLocEventGnssSvMeasInfoIndMsgT_v02.clockReading : qmiLocEventGnssSvMeasInfoIndMsgT_v02 :=
  { seqNum := 1, maxMessageNum := 1, system := .eQMI_LOC_SV_SYSTEM_GPS_V02
    svMeasurement_valid := 1, svMeasurement_len := 1
    svMeasurement := [{ gnssSvId := 3, gloFrequency := 0, measurementStatus := 0x04,
                        validMeasStatusMask := 0x04 }]
    systemTimeExt_valid := 1, systemTimeExt := { refFCount := 100 }
    numClockResets_valid := 1, numClockResets := 0 }

/-- A GLONASS measurement indication with a valid GLONASS time. -/
def qmiLocEventGnssSvMeasInfoIndMsgT_v02.glonass : qmiLocEventGnssSvMeasInfoIndMsgT_v02 :=
  { seqNum := 2, maxMessageNum := 2, system := .eQMI_LOC_SV_SYSTEM_GLONASS_V02
    gloTime_valid := 1, gloTime := { gloFourYear := 6, gloDays := 100 } }

/-- A measurement entry with raw id 66 on frequency channel 1 whose status has
the `MS_VALID` bit, marked valid. -/
def qmiLocSVMeasurementStructT_v02.tracked : qmiLocSVMeasurementStructT_v02 :=
  { gnssSvId := 66, gloFrequency := 1, measurementStatus := 0x04, validMeasStatusMask := 0x04 }

/-- Message `seqNum` of 5 of a burst, carrying 16 tracked measurements; the
first message is the GPS one. -/
def qmiLocEventGnssSvMeasInfoIndMsgT_v02.full (seqNum : Nat) :
    qmiLocEventGnssSvMeasInfoIndMsgT_v02 :=
  { seqNum := seqNum, maxMessageNum := 5
    system := if seqNum = 1 then .eQMI_LOC_SV_SYSTEM_GPS_V02 else .eQMI_LOC_SV_SYSTEM_GLONASS_V02
    svMeasurement_valid := 1, svMeasurement_len := 16
    svMeasurement := List.replicate 16 qmiLocSVMeasurementStructT_v02.tracked }

/-- A raw measurement indication declaring 17 measurements, with 17 tracked
entries in memory from index 0. -/
def qmiLocEventGnssSvMeasInfoIndMsgT_v02.seventeen : qmiLocEventGnssSvMeasInfoIndMsgT_v02 :=
  { seqNum := 1, maxMessageNum := 1, system := .eQMI_LOC_SV_SYSTEM_GLONASS_V02
    svMeasurement_valid := 1, svMeasurement_len := 17
    svMeasurement := List.replicate 17 qmiLocSVMeasurementStructT_v02.tracked }

/-- An open adapter in a session whose engine reported on. -/
def State.engineOn : State :=
  { State.inSessionRegistered with mEngineOn := true, mMeasurementsStarted := true }

/-- The accepting transport, except that closing fails. -/
def Env.closeFailing : Env :=
  { Env.accepting with locClientClose := fun _ _ => .eLOC_CLIENT_FAILURE_GENERAL }

/-- The accepting transport, except that every blocking request times out and
the indication buffer keeps the zeroed content the caller put there. -/
def Env.timingOut : Env :=
  { Env.accepting with
    loc_sync_send_req := fun _ _ _ _ _ _ ind_payload_ptr =>
      (.eLOC_CLIENT_FAILURE_TIMEOUT, ind_payload_ptr.getD Ind.zero) }

/-- A raw measurement indication with two entries: an empty one (id 0, status
0) followed by a tracked one. -/
def qmiLocEventGnssSvMeasInfoIndMsgT_v02.gap : qmiLocEventGnssSvMeasInfoIndMsgT_v02 :=
  { seqNum := 1, maxMessageNum := 1, system := .eQMI_LOC_SV_SYSTEM_GLONASS_V02
    svMeasurement_valid := 1, svMeasurement_len := 2
    svMeasurement := [qmiLocSVMeasurementStructT_v02.zero,
                      qmiLocSVMeasurementStructT_v02.tracked] }

/-- A request to delete the ephemeris of the constellations in `svTypeMask`. -/
def GnssAidingData.ephemerisOf (svTypeMask : Nat) : GnssAidingData :=
  { deleteAll := false
    sv := { svMask := headerDelete.GNSS_AIDING_DATA_SV_EPHEMERIS_BIT, svTypeMask := svTypeMask }
    common := { mask := 0 } }

/-- A request that names constellations and no satellite-data category. -/
def GnssAidingData.typesOnly (svTypeMask : Nat) : GnssAidingData :=
  { deleteAll := false
    sv := { svMask := 0, svTypeMask := svTypeMask }
    common := { mask := 0 } }

/-- A successful final position report with valid latitude and longitude and
one satellite in the used list. -/
def qmiLocEventPositionReportIndMsgT_v02.finalFix : qmiLocEventPositionReportIndMsgT_v02 :=
  { sessionStatus := headerSess.eQMI_LOC_SESS_STATUS_SUCCESS_V02
    latitude_valid := 1, longitude_valid := 1
    gnssSvUsedList_valid := 1, gnssSvUsedList_len := 1 }

/-- A Galileo entry of the satellite list with raw id 100, below the offset
300. -/
def qmiLocSvInfoStructT_v02.galileo100 : qmiLocSvInfoStructT_v02 :=
  { qmiLocSvInfoStructT_v02.galileo301 with gnssSvId := 100 }

/-- A Galileo measurement indication. -/
def qmiLocEventGnssSvMeasInfoIndMsgT_v02.galileo : qmiLocEventGnssSvMeasInfoIndMsgT_v02 :=
  { seqNum := 1, maxMessageNum := 1, system := .eQMI_LOC_SV_SYSTEM_GALILEO_V02 }

/-- A Galileo measurement entry with raw id 301 whose status has the
`MS_VALID` bit, marked valid, and bit 30. -/
def qmiLocSVMeasurementStructT_v02.galileoTracked : qmiLocSVMeasurementStructT_v02 :=
  { gnssSvId := 301, gloFrequency := 0, measurementStatus := 0x40000004,
    validMeasStatusMask := 0x04 }

/-! ## Theorems -/

/-! ### Bit-level facts about `not64` -/

theorem testBit_and_not64 (q c i : Nat) :
    (q &&& not64 c).testBit i = (q.testBit i && (decide (i < 64) && !c.testBit i)) := by
  unfold not64
  rw [Nat.testBit_land, Nat.testBit_xor, Nat.testBit_two_pow_sub_one, Nat.testBit_mod_two_pow]
  cases decide (i < 64) <;> cases c.testBit i <;> simp

theorem and_not64_and_eq_zero (q c p : Nat)
    (h : ∀ i, p.testBit i = true → c.testBit i = true) : (q &&& not64 c) &&& p = 0 := by
  apply Nat.eq_of_testBit_eq
  intro i
  rw [Nat.testBit_land, testBit_and_not64, Nat.zero_testBit]
  cases hp : p.testBit i
  · simp
  · simp [h i hp]

theorem testBit_clearMask (k : MaskConsts) (i : Nat) :
    (clearMask k).testBit i =
      (k.QMI_LOC_EVENT_MASK_POSITION_REPORT_V02.testBit i ||
       k.QMI_LOC_EVENT_MASK_GNSS_SV_INFO_V02.testBit i ||
       k.QMI_LOC_EVENT_MASK_NMEA_V02.testBit i ||
       k.QMI_LOC_EVENT_MASK_ENGINE_STATE_V02.testBit i ||
       k.QMI_LOC_EVENT_MASK_GNSS_MEASUREMENT_REPORT_V02.testBit i) := by
  simp [clearMask, Nat.testBit_lor]

/-- Without a session the adjusted mask shares no bit with any of the five
session constants, whatever mask goes in. -/
theorem adjust_noSession_disjoint (k : MaskConsts) (s : State) (hs : s.mInSession = false)
    (q : Nat) :
    adjustMaskIfNoSession k s q &&& k.QMI_LOC_EVENT_MASK_POSITION_REPORT_V02 = 0 ∧
    adjustMaskIfNoSession k s q &&& k.QMI_LOC_EVENT_MASK_GNSS_SV_INFO_V02 = 0 ∧
    adjustMaskIfNoSession k s q &&& k.QMI_LOC_EVENT_MASK_NMEA_V02 = 0 ∧
    adjustMaskIfNoSession k s q &&& k.QMI_LOC_EVENT_MASK_ENGINE_STATE_V02 = 0 ∧
    adjustMaskIfNoSession k s q &&& k.QMI_LOC_EVENT_MASK_GNSS_MEASUREMENT_REPORT_V02 = 0 := by
  simp only [adjustMaskIfNoSession, hs, Bool.not_false, if_true]
  refine ⟨?_, ?_, ?_, ?_, ?_⟩ <;>
  · apply and_not64_and_eq_zero
    intro i hi
    simp [testBit_clearMask, hi]

/-- C1: with fix-in-progress false, `adjustMaskIfNoSession q` is `q` with the
position-report, GNSS-SV-info, NMEA, engine-state and measurement-report bits
cleared and every other bit unchanged (bit `i` of the result is bit `i` of `q`
unless `i` is a bit of one of the five constants, and then it is clear); hence
`adjustMaskIfNoSession (convertMask M)` shares no bit with any of the five
constants, for every consumer mask `M`. -/
theorem C1_adjustMaskIfNoSession_clears_session_bits (k : MaskConsts) (s : State)
    (hs : s.mInSession = false) (q : Nat) (hq : q < 2 ^ 64) (M : Nat) :
    (∀ i, (adjustMaskIfNoSession k s q).testBit i =
      (q.testBit i &&
        !(k.QMI_LOC_EVENT_MASK_POSITION_REPORT_V02.testBit i ||
          k.QMI_LOC_EVENT_MASK_GNSS_SV_INFO_V02.testBit i ||
          k.QMI_LOC_EVENT_MASK_NMEA_V02.testBit i ||
          k.QMI_LOC_EVENT_MASK_ENGINE_STATE_V02.testBit i ||
          k.QMI_LOC_EVENT_MASK_GNSS_MEASUREMENT_REPORT_V02.testBit i))) ∧
    adjustMaskIfNoSession k s (convertMask k M) &&&
      k.QMI_LOC_EVENT_MASK_POSITION_REPORT_V02 = 0 ∧
    adjustMaskIfNoSession k s (convertMask k M) &&&
      k.QMI_LOC_EVENT_MASK_GNSS_SV_INFO_V02 = 0 ∧
    adjustMaskIfNoSession k s (convertMask k M) &&&
      k.QMI_LOC_EVENT_MASK_NMEA_V02 = 0 ∧
    adjustMaskIfNoSession k s (convertMask k M) &&&
      k.QMI_LOC_EVENT_MASK_ENGINE_STATE_V02 = 0 ∧
    adjustMaskIfNoSession k s (convertMask k M) &&&
      k.QMI_LOC_EVENT_MASK_GNSS_MEASUREMENT_REPORT_V02 = 0 := by
  refine ⟨?_, adjust_noSession_disjoint k s hs _⟩
  intro i
  simp only [adjustMaskIfNoSession, hs, Bool.not_false, if_true]
  rw [testBit_and_not64, testBit_clearMask]
  by_cases hi : i < 64
  · simp [hi]
  · have hlt : q < 2 ^ i :=
      Nat.lt_of_lt_of_le hq (Nat.pow_le_pow_right (by decide) (Nat.le_of_not_lt hi))
    simp [Nat.testBit_lt_two_pow hlt]

/-- C1, evaluated: the adapter right after construction has no session; the
theorem applies to the protocol mask 0x10001FF and the consumer mask with all
33 bits set. -/
theorem C1_adjustMaskIfNoSession_clears_session_bits_witness :
    State.init.mInSession = false ∧ (0x10001FF : Nat) < 2 ^ 64 ∧
    ((∀ i, (adjustMaskIfNoSession headerMasks State.init 0x10001FF).testBit i =
      (Nat.testBit 0x10001FF i &&
        !(headerMasks.QMI_LOC_EVENT_MASK_POSITION_REPORT_V02.testBit i ||
          headerMasks.QMI_LOC_EVENT_MASK_GNSS_SV_INFO_V02.testBit i ||
          headerMasks.QMI_LOC_EVENT_MASK_NMEA_V02.testBit i ||
          headerMasks.QMI_LOC_EVENT_MASK_ENGINE_STATE_V02.testBit i ||
          headerMasks.QMI_LOC_EVENT_MASK_GNSS_MEASUREMENT_REPORT_V02.testBit i))) ∧
    adjustMaskIfNoSession headerMasks State.init (convertMask headerMasks 0x1FFFFFFFF) &&&
      headerMasks.QMI_LOC_EVENT_MASK_POSITION_REPORT_V02 = 0 ∧
    adjustMaskIfNoSession headerMasks State.init (convertMask headerMasks 0x1FFFFFFFF) &&&
      headerMasks.QMI_LOC_EVENT_MASK_GNSS_SV_INFO_V02 = 0 ∧
    adjustMaskIfNoSession headerMasks State.init (convertMask headerMasks 0x1FFFFFFFF) &&&
      headerMasks.QMI_LOC_EVENT_MASK_NMEA_V02 = 0 ∧
    adjustMaskIfNoSession headerMasks State.init (convertMask headerMasks 0x1FFFFFFFF) &&&
      headerMasks.QMI_LOC_EVENT_MASK_ENGINE_STATE_V02 = 0 ∧
    adjustMaskIfNoSession headerMasks State.init (convertMask headerMasks 0x1FFFFFFFF) &&&
      headerMasks.QMI_LOC_EVENT_MASK_GNSS_MEASUREMENT_REPORT_V02 = 0) :=
  ⟨rfl, by decide,
    C1_adjustMaskIfNoSession_clears_session_bits headerMasks State.init rfl 0x10001FF
      (by decide) 0x1FFFFFFFF⟩

/-! ### Mask registration -/

theorem registerEventMask_mInSession (env : Env) (k : MaskConsts) (s : State) (M : Nat) :
    (registerEventMask env k s M).mInSession = s.mInSession := by
  unfold registerEventMask State.log
  simp only
  split_ifs <;> rfl

theorem registerEventMask_mMask (env : Env) (k : MaskConsts) (s : State) (M : Nat) :
    (registerEventMask env k s M).mMask = M := rfl

/-- The trace after one `registerEventMask`: nothing is added when the computed
mask equals the cached one, otherwise exactly the one registration call. -/
theorem registerEventMask_trace (env : Env) (k : MaskConsts) (s : State) (M : Nat) :
    (registerEventMask env k s M).trace =
      s.trace ++
        (if adjustMaskIfNoSession k s (convertMask k M) = s.mQmiMask then []
         else [Event.locClientRegisterEventMask s.clientHandle
                (adjustMaskIfNoSession k s (convertMask k M))
                (env.locClientRegisterEventMask s.trace s.clientHandle
                  (adjustMaskIfNoSession k s (convertMask k M)))]) := by
  unfold registerEventMask State.log
  simp only
  split_ifs <;> simp_all

/-- The cached mask after one `registerEventMask`: replaced by the computed
mask exactly when that differs and the transport accepts it. -/
theorem registerEventMask_mQmiMask (env : Env) (k : MaskConsts) (s : State) (M : Nat) :
    (registerEventMask env k s M).mQmiMask =
      (if adjustMaskIfNoSession k s (convertMask k M) ≠ s.mQmiMask ∧
          env.locClientRegisterEventMask s.trace s.clientHandle
            (adjustMaskIfNoSession k s (convertMask k M)) = true
       then adjustMaskIfNoSession k s (convertMask k M) else s.mQmiMask) := by
  unfold registerEventMask State.log
  simp only
  split_ifs <;> simp_all

theorem registerEventMask_clientHandle (env : Env) (k : MaskConsts) (s : State) (M : Nat) :
    (registerEventMask env k s M).clientHandle = s.clientHandle := by
  unfold registerEventMask State.log
  simp only
  split_ifs <;> rfl

theorem adjustMaskIfNoSession_congr (k : MaskConsts) (s t : State)
    (h : t.mInSession = s.mInSession) (q : Nat) :
    adjustMaskIfNoSession k t q = adjustMaskIfNoSession k s q := by
  simp [adjustMaskIfNoSession, h]

/-- C2 (as stated, refuted): two concrete runs of two consecutive
`registerEventMask (M)` calls.  When the computed mask is already the
registered one, no registration call is made at all; when the transport
refuses, both calls reach the transport.  Neither run has exactly one call. -/
theorem C2_registerEventMask_twice_counterexample :
    registerCalls (registerEventMask Env.accepting headerMasks
        (registerEventMask Env.accepting headerMasks State.inSessionRegistered
          headerMasks.LOC_API_ADAPTER_BIT_PARSED_POSITION_REPORT)
        headerMasks.LOC_API_ADAPTER_BIT_PARSED_POSITION_REPORT).trace
      = registerCalls State.inSessionRegistered.trace + 0 ∧
    registerCalls (registerEventMask Env.refusing headerMasks
        (registerEventMask Env.refusing headerMasks State.inSession
          headerMasks.LOC_API_ADAPTER_BIT_PARSED_POSITION_REPORT)
        headerMasks.LOC_API_ADAPTER_BIT_PARSED_POSITION_REPORT).trace
      = registerCalls State.inSession.trace + 2 := by
  constructor <;> decide

/-- C2 (amended): for every adapter state, transport and consumer mask `M`, two
consecutive `registerEventMask (M)` calls add to the trace: nothing when the
computed mask `adjustMaskIfNoSession (convertMask M)` equals the cached
`mQmiMask`; exactly one registration call of that mask when it differs and the
transport accepts it; and two registration calls of that mask when the
transport refuses the first. -/
theorem C2_registerEventMask_twice (env : Env) (k : MaskConsts) (s : State) (M : Nat) :
    (registerEventMask env k (registerEventMask env k s M) M).trace =
      s.trace ++
        (if adjustMaskIfNoSession k s (convertMask k M) = s.mQmiMask then []
         else if env.locClientRegisterEventMask s.trace s.clientHandle
                (adjustMaskIfNoSession k s (convertMask k M)) = true then
           [Event.locClientRegisterEventMask s.clientHandle
              (adjustMaskIfNoSession k s (convertMask k M)) true]
         else
           [Event.locClientRegisterEventMask s.clientHandle
              (adjustMaskIfNoSession k s (convertMask k M)) false,
            Event.locClientRegisterEventMask s.clientHandle
              (adjustMaskIfNoSession k s (convertMask k M))
              (env.locClientRegisterEventMask
                (s.trace ++ [Event.locClientRegisterEventMask s.clientHandle
                  (adjustMaskIfNoSession k s (convertMask k M)) false])
                s.clientHandle (adjustMaskIfNoSession k s (convertMask k M)))]) := by
  have hadj : adjustMaskIfNoSession k (registerEventMask env k s M) (convertMask k M) =
      adjustMaskIfNoSession k s (convertMask k M) :=
    adjustMaskIfNoSession_congr k s _ (registerEventMask_mInSession env k s M) _
  rw [registerEventMask_trace env k (registerEventMask env k s M) M, hadj,
    registerEventMask_mQmiMask, registerEventMask_trace, registerEventMask_clientHandle]
  by_cases h1 : adjustMaskIfNoSession k s (convertMask k M) = s.mQmiMask
  · simp [h1]
  · by_cases h2 : env.locClientRegisterEventMask s.trace s.clientHandle
        (adjustMaskIfNoSession k s (convertMask k M)) = true
    · simp [h1, h2]
    · simp [h1, h2]

/-! ### Stopping a fix -/

/-- C3: when `mEngineOn` is false, `stopFix` ends in the state that
`registerEventMask` produces from the state after the stop request (with
`mInSession` already false) and the stored consumer mask; fix-in-progress is
false afterwards and the consumer mask is unchanged; this holds whatever status
the stop request returned, and that status is what `stopFix` converts and
returns.  The mask computed for the registration shares no bit with the
position, SV-info, NMEA, engine-state and measurement constants, and it is the
only mask `stopFix` hands to the transport. -/
theorem C3_stopFix_registers_without_engine_on (env : Env) (k : MaskConsts) (s : State)
    (h : s.mEngineOn = false) :
    (stopFix env k s).2 = registerEventMask env k (stopFix.sent env s) s.mMask ∧
    (stopFix env k s).2.mInSession = false ∧
    (stopFix env k s).2.mMask = s.mMask ∧
    (stopFix env k s).1 = convertErr (stopFix.status env s) ∧
    (stopFix env k s).2.trace =
      (stopFix.sent env s).trace ++
        (if adjustMaskIfNoSession k (stopFix.sent env s) (convertMask k s.mMask) = s.mQmiMask
         then []
         else [Event.locClientRegisterEventMask s.clientHandle
                (adjustMaskIfNoSession k (stopFix.sent env s) (convertMask k s.mMask))
                (env.locClientRegisterEventMask (stopFix.sent env s).trace s.clientHandle
                  (adjustMaskIfNoSession k (stopFix.sent env s) (convertMask k s.mMask)))]) ∧
    adjustMaskIfNoSession k (stopFix.sent env s) (convertMask k s.mMask) &&&
      k.QMI_LOC_EVENT_MASK_POSITION_REPORT_V02 = 0 ∧
    adjustMaskIfNoSession k (stopFix.sent env s) (convertMask k s.mMask) &&&
      k.QMI_LOC_EVENT_MASK_GNSS_SV_INFO_V02 = 0 ∧
    adjustMaskIfNoSession k (stopFix.sent env s) (convertMask k s.mMask) &&&
      k.QMI_LOC_EVENT_MASK_NMEA_V02 = 0 ∧
    adjustMaskIfNoSession k (stopFix.sent env s) (convertMask k s.mMask) &&&
      k.QMI_LOC_EVENT_MASK_ENGINE_STATE_V02 = 0 ∧
    adjustMaskIfNoSession k (stopFix.sent env s) (convertMask k s.mMask) &&&
      k.QMI_LOC_EVENT_MASK_GNSS_MEASUREMENT_REPORT_V02 = 0 := by
  have hsent : (stopFix.sent env s).mEngineOn = false := h
  have hstop : (stopFix env k s).2 = registerEventMask env k (stopFix.sent env s) s.mMask := by
    have hm : (stopFix.sent env s).mMask = s.mMask := rfl
    simp only [stopFix, hsent, hm, Bool.not_false, if_true]
  refine ⟨hstop, ?_, ?_, rfl, ?_, adjust_noSession_disjoint k _ rfl _⟩
  · rw [hstop, registerEventMask_mInSession]; rfl
  · rw [hstop]; rfl
  · rw [hstop, registerEventMask_trace]; rfl

/-- C3, evaluated on an adapter in a session whose engine never reported on. -/
theorem C3_stopFix_registers_without_engine_on_witness :
    State.inSessionRegistered.mEngineOn = false ∧
    ((stopFix Env.accepting headerMasks State.inSessionRegistered).2 =
      registerEventMask Env.accepting headerMasks
        (stopFix.sent Env.accepting State.inSessionRegistered)
        State.inSessionRegistered.mMask ∧
    (stopFix Env.accepting headerMasks State.inSessionRegistered).2.mInSession = false ∧
    (stopFix Env.accepting headerMasks State.inSessionRegistered).2.mMask =
      State.inSessionRegistered.mMask ∧
    (stopFix Env.accepting headerMasks State.inSessionRegistered).1 =
      convertErr (stopFix.status Env.accepting State.inSessionRegistered) ∧
    (stopFix Env.accepting headerMasks State.inSessionRegistered).2.trace =
      (stopFix.sent Env.accepting State.inSessionRegistered).trace ++
        (if adjustMaskIfNoSession headerMasks
              (stopFix.sent Env.accepting State.inSessionRegistered)
              (convertMask headerMasks State.inSessionRegistered.mMask) =
            State.inSessionRegistered.mQmiMask
         then []
         else [Event.locClientRegisterEventMask State.inSessionRegistered.clientHandle
                (adjustMaskIfNoSession headerMasks
                  (stopFix.sent Env.accepting State.inSessionRegistered)
                  (convertMask headerMasks State.inSessionRegistered.mMask))
                (Env.accepting.locClientRegisterEventMask
                  (stopFix.sent Env.accepting State.inSessionRegistered).trace
                  State.inSessionRegistered.clientHandle
                  (adjustMaskIfNoSession headerMasks
                    (stopFix.sent Env.accepting State.inSessionRegistered)
                    (convertMask headerMasks State.inSessionRegistered.mMask)))]) ∧
    adjustMaskIfNoSession headerMasks (stopFix.sent Env.accepting State.inSessionRegistered)
      (convertMask headerMasks State.inSessionRegistered.mMask) &&&
      headerMasks.QMI_LOC_EVENT_MASK_POSITION_REPORT_V02 = 0 ∧
    adjustMaskIfNoSession headerMasks (stopFix.sent Env.accepting State.inSessionRegistered)
      (convertMask headerMasks State.inSessionRegistered.mMask) &&&
      headerMasks.QMI_LOC_EVENT_MASK_GNSS_SV_INFO_V02 = 0 ∧
    adjustMaskIfNoSession headerMasks (stopFix.sent Env.accepting State.inSessionRegistered)
      (convertMask headerMasks State.inSessionRegistered.mMask) &&&
      headerMasks.QMI_LOC_EVENT_MASK_NMEA_V02 = 0 ∧
    adjustMaskIfNoSession headerMasks (stopFix.sent Env.accepting State.inSessionRegistered)
      (convertMask headerMasks State.inSessionRegistered.mMask) &&&
      headerMasks.QMI_LOC_EVENT_MASK_ENGINE_STATE_V02 = 0 ∧
    adjustMaskIfNoSession headerMasks (stopFix.sent Env.accepting State.inSessionRegistered)
      (convertMask headerMasks State.inSessionRegistered.mMask) &&&
      headerMasks.QMI_LOC_EVENT_MASK_GNSS_MEASUREMENT_REPORT_V02 = 0) :=
  ⟨rfl, C3_stopFix_registers_without_engine_on Env.accepting headerMasks
    State.inSessionRegistered rfl⟩

/-! ### The busy path of `locSyncSendReq` -/

/-- The status returned by `locSyncSendReq` is the transport's answer. -/
theorem locSyncSendReq_status (env : Env) (k : MaskConsts) (s : State) (req_id : MsgId)
    (req_payload : Option ReqPayload) (timeout_msec : Nat) (ind_id : MsgId)
    (ind_payload_ptr : Option Ind) :
    (locSyncSendReq env k s req_id req_payload timeout_msec ind_id ind_payload_ptr).status =
      (env.loc_sync_send_req s.trace s.clientHandle req_id req_payload timeout_msec ind_id
        ind_payload_ptr).1 := by
  unfold locSyncSendReq
  simp only
  split_ifs <;> (try split) <;> rfl

/-- The indication buffer after `locSyncSendReq` is the transport's answer, when
the caller passed a buffer. -/
theorem locSyncSendReq_ind (env : Env) (k : MaskConsts) (s : State) (req_id : MsgId)
    (req_payload : Option ReqPayload) (timeout_msec : Nat) (ind_id : MsgId)
    (ind_payload_ptr : Option Ind) :
    (locSyncSendReq env k s req_id req_payload timeout_msec ind_id ind_payload_ptr).ind =
      ind_payload_ptr.map (fun _ =>
        (env.loc_sync_send_req s.trace s.clientHandle req_id req_payload timeout_msec ind_id
          ind_payload_ptr).2) := by
  unfold locSyncSendReq
  simp only
  split_ifs <;> (try split) <;> rfl

/-- C4 (as stated, refuted): the transport rejects a blocking request as
engine-busy and the copy of the request data cannot be allocated; the retry
queue, empty before, is still empty afterwards. -/
theorem C4_locSyncSendReq_busy_counterexample :
    (locSyncSendReq Env.busyNoMemory headerMasks State.inSession
        .QMI_LOC_DELETE_ASSIST_DATA_REQ_V02 (some ReqPayload.sample) 1000
        .QMI_LOC_DELETE_ASSIST_DATA_IND_V02 (some Ind.zero)).status =
      .eLOC_CLIENT_FAILURE_ENGINE_BUSY ∧
    (locSyncSendReq Env.busyNoMemory headerMasks State.inSession
        .QMI_LOC_DELETE_ASSIST_DATA_REQ_V02 (some ReqPayload.sample) 1000
        .QMI_LOC_DELETE_ASSIST_DATA_IND_V02 (some Ind.zero)).state.mResenders =
      State.inSession.mResenders := by
  constructor <;> decide

/-- C4 (amended): when the transport status of a blocking request sent through
`locSyncSendReq` is engine-busy, the retry queue grows by exactly one record,
unless the copy of the request data could not be allocated (the last boundary
event is a failed `malloc`), in which case the queue is unchanged.  The record
keeps the request identifier, the timeout, the indication identifier and a
copy of the request data reported by `validateRequest`, and replaying it in any
state sends exactly these, with a null indication pointer.  When neither the
status nor the leading status of the indication payload is engine-busy, the
retry queue is unchanged. -/
theorem C4_locSyncSendReq_busy_queue (env : Env) (k : MaskConsts) (s : State)
    (req_id : MsgId) (req_payload : Option ReqPayload) (timeout_msec : Nat) (ind_id : MsgId)
    (ind_payload_ptr : Option Ind) :
    ((locSyncSendReq env k s req_id req_payload timeout_msec ind_id ind_payload_ptr).status =
        .eLOC_CLIENT_FAILURE_ENGINE_BUSY →
      ((locSyncSendReq env k s req_id req_payload timeout_msec ind_id
            ind_payload_ptr).state.trace.getLast? ≠ some (Event.malloc false) →
        (locSyncSendReq env k s req_id req_payload timeout_msec ind_id
            ind_payload_ptr).state.mResenders =
          s.mResenders ++
            [{ req_id := req_id
               req_payload_copy := env.validateRequest req_id req_payload
               timeout_msec := timeout_msec
               ind_id := ind_id }]) ∧
      ((locSyncSendReq env k s req_id req_payload timeout_msec ind_id
            ind_payload_ptr).state.trace.getLast? = some (Event.malloc false) →
        (locSyncSendReq env k s req_id req_payload timeout_msec ind_id
            ind_payload_ptr).state.mResenders = s.mResenders)) ∧
    (∀ t : State,
      (Resender.run env t
          { req_id := req_id
            req_payload_copy := env.validateRequest req_id req_payload
            timeout_msec := timeout_msec
            ind_id := ind_id }).trace =
        t.trace ++
          [Event.loc_sync_send_req t.clientHandle req_id
            (env.validateRequest req_id req_payload) timeout_msec ind_id none
            (env.loc_sync_send_req t.trace t.clientHandle req_id
              (env.validateRequest req_id req_payload) timeout_msec ind_id none).1
            (env.loc_sync_send_req t.trace t.clientHandle req_id
              (env.validateRequest req_id req_payload) timeout_msec ind_id none).2]) ∧
    ((locSyncSendReq env k s req_id req_payload timeout_msec ind_id ind_payload_ptr).status ≠
        .eLOC_CLIENT_FAILURE_ENGINE_BUSY →
      (∀ ind,
        (locSyncSendReq env k s req_id req_payload timeout_msec ind_id ind_payload_ptr).ind =
            some ind →
          env.castStatus ind.status ≠ .eLOC_CLIENT_FAILURE_ENGINE_BUSY) →
      (locSyncSendReq env k s req_id req_payload timeout_msec ind_id
          ind_payload_ptr).state.mResenders = s.mResenders) := by
  refine ⟨?_, fun t => rfl, ?_⟩
  · intro hbusy
    rw [locSyncSendReq_status] at hbusy
    unfold locSyncSendReq
    simp only [hbusy, decide_True, Bool.true_or, if_true]
    cases hv : env.validateRequest req_id req_payload with
    | none =>
      simp only [State.log]
      split_ifs <;> simp
    | some d =>
      simp only
      split_ifs with h1 h2 h2
      · have h3 : env.malloc _ = true := h2
        simp only [State.log] at h3 ⊢
        rw [h3]
        simp
      · have h3 := Bool.eq_false_iff.mpr h2
        simp only [State.log] at h3 ⊢
        rw [h3]
        simp
      · have h3 : env.malloc _ = true := h2
        simp only [State.log] at h3 ⊢
        rw [h3]
        simp
      · have h3 := Bool.eq_false_iff.mpr h2
        simp only [State.log] at h3 ⊢
        rw [h3]
        simp
  · intro hnb hlead
    rw [locSyncSendReq_status] at hnb
    rw [locSyncSendReq_ind] at hlead
    unfold locSyncSendReq
    have hb : (decide ((env.loc_sync_send_req s.trace s.clientHandle req_id req_payload
          timeout_msec ind_id ind_payload_ptr).1 = .eLOC_CLIENT_FAILURE_ENGINE_BUSY) ||
        (decide ((env.loc_sync_send_req s.trace s.clientHandle req_id req_payload
          timeout_msec ind_id ind_payload_ptr).1 = .eLOC_CLIENT_SUCCESS) &&
          ind_payload_ptr.isSome &&
          decide (env.castStatus (env.loc_sync_send_req s.trace s.clientHandle req_id
            req_payload timeout_msec ind_id ind_payload_ptr).2.status =
              .eLOC_CLIENT_FAILURE_ENGINE_BUSY))) = false := by
      cases ind_payload_ptr with
      | none => simp [hnb]
      | some b =>
        have := hlead _ rfl
        simp [hnb, this]
    simp only [hb]
    rfl

/-- C4, evaluated: a legacy delete request rejected as engine-busy is queued
once, with the request itself as the copied data; the same request answered
with success leaves the queue as it was. -/
theorem C4_locSyncSendReq_busy_queue_witness :
    (locSyncSendReq Env.busy headerMasks State.inSession
        .QMI_LOC_DELETE_ASSIST_DATA_REQ_V02 (some ReqPayload.sample) 1000
        .QMI_LOC_DELETE_ASSIST_DATA_IND_V02 (some Ind.zero)).status =
      .eLOC_CLIENT_FAILURE_ENGINE_BUSY ∧
    (locSyncSendReq Env.busy headerMasks State.inSession
        .QMI_LOC_DELETE_ASSIST_DATA_REQ_V02 (some ReqPayload.sample) 1000
        .QMI_LOC_DELETE_ASSIST_DATA_IND_V02 (some Ind.zero)).state.mResenders =
      State.inSession.mResenders ++
        [{ req_id := .QMI_LOC_DELETE_ASSIST_DATA_REQ_V02
           req_payload_copy := some ReqPayload.sample
           timeout_msec := 1000
           ind_id := .QMI_LOC_DELETE_ASSIST_DATA_IND_V02 }] ∧
    (locSyncSendReq Env.accepting headerMasks State.inSession
        .QMI_LOC_DELETE_ASSIST_DATA_REQ_V02 (some ReqPayload.sample) 1000
        .QMI_LOC_DELETE_ASSIST_DATA_IND_V02 (some Ind.zero)).status ≠
      .eLOC_CLIENT_FAILURE_ENGINE_BUSY ∧
    (locSyncSendReq Env.accepting headerMasks State.inSession
        .QMI_LOC_DELETE_ASSIST_DATA_REQ_V02 (some ReqPayload.sample) 1000
        .QMI_LOC_DELETE_ASSIST_DATA_IND_V02 (some Ind.zero)).state.mResenders =
      State.inSession.mResenders := by
  have h1 := ((C4_locSyncSendReq_busy_queue Env.busy headerMasks State.inSession
    .QMI_LOC_DELETE_ASSIST_DATA_REQ_V02 (some ReqPayload.sample) 1000
    .QMI_LOC_DELETE_ASSIST_DATA_IND_V02 (some Ind.zero)).1 (by decide)).1 (by decide)
  have h2 := (C4_locSyncSendReq_busy_queue Env.accepting headerMasks State.inSession
    .QMI_LOC_DELETE_ASSIST_DATA_REQ_V02 (some ReqPayload.sample) 1000
    .QMI_LOC_DELETE_ASSIST_DATA_IND_V02 (some Ind.zero)).2.2 (by decide)
    (by intro ind h; cases h; decide)
  exact ⟨by decide, h1, by decide, h2⟩

/-! ### Draining the retry queue -/

theorem registerEventMask_mResenders (env : Env) (k : MaskConsts) (s : State) (M : Nat) :
    (registerEventMask env k s M).mResenders = s.mResenders := by
  unfold registerEventMask State.log
  simp only
  split_ifs <;> rfl

theorem registerEventMask_sentRequests (env : Env) (k : MaskConsts) (s : State) (M : Nat) :
    sentRequests (registerEventMask env k s M).trace = sentRequests s.trace := by
  rw [registerEventMask_trace]
  unfold sentRequests
  split_ifs <;> simp

theorem Resender.run_mResenders (env : Env) (s : State) (r : Resender) :
    (Resender.run env s r).mResenders = s.mResenders := rfl

theorem Resender.run_sentRequests (env : Env) (s : State) (r : Resender) :
    sentRequests (Resender.run env s r).trace = sentRequests s.trace ++ [r] := by
  simp [Resender.run, State.log, sentRequests]

/-- Replaying a list of records adds exactly these records, in order, to the
blocking sends of the trace. -/
theorem foldl_run_sentRequests (env : Env) (rs : List Resender) (s : State) :
    sentRequests (rs.foldl (Resender.run env) s).trace = sentRequests s.trace ++ rs := by
  induction rs generalizing s with
  | nil => simp
  | cons r rs ih =>
    rw [List.foldl_cons, ih, Resender.run_sentRequests]
    simp

/-- C5 (as stated, refuted): an adapter in a session holds two records in the
retry queue; processing an engine-ON indication reports the two status values
to the consumer, sends nothing and leaves both records in the queue. -/
theorem C5_engine_on_does_not_drain_counterexample :
    (reportEngineState Env.accepting headerMasks State.withQueue
        .eQMI_LOC_ENGINE_STATE_ON_V02).mResenders =
      [Resender.sampleStop, Resender.sampleDelete] ∧
    (reportEngineState Env.accepting headerMasks State.withQueue
        .eQMI_LOC_ENGINE_STATE_ON_V02).trace =
      [Event.reportStatus .LOC_GPS_STATUS_ENGINE_ON,
       Event.reportStatus .LOC_GPS_STATUS_SESSION_BEGIN] := by
  constructor <;> decide

/-- C5 (amended): for every retry-queue content, processing an engine-state
indication that reports the engine OFF replays every queued record exactly
once, in the order the records were queued, and leaves the retry queue empty:
the blocking sends of the trace grow by exactly the queue, in order.
Processing an indication that reports the engine ON sends nothing and leaves
the retry queue as it was. -/
theorem C5_engine_off_drains_queue_fifo (env : Env) (k : MaskConsts) (s : State) :
    (reportEngineState env k s .eQMI_LOC_ENGINE_STATE_OFF_V02).mResenders = [] ∧
    sentRequests (reportEngineState env k s .eQMI_LOC_ENGINE_STATE_OFF_V02).trace =
      sentRequests s.trace ++ s.mResenders ∧
    (reportEngineState env k s .eQMI_LOC_ENGINE_STATE_ON_V02).mResenders = s.mResenders ∧
    sentRequests (reportEngineState env k s .eQMI_LOC_ENGINE_STATE_ON_V02).trace =
      sentRequests s.trace := by
  refine ⟨?_, ?_, ?_, ?_⟩
  · simp [reportEngineState, MsgUpdateEngineState.proc]
  · simp only [reportEngineState, MsgUpdateEngineState.proc, Bool.false_eq_true, if_false]
    rw [foldl_run_sentRequests, registerEventMask_sentRequests, registerEventMask_mResenders]
    simp only [reportStatus, State.log]
    split_ifs
    · have h1 := registerEventMask_sentRequests env k s s.mMask
      have h2 := registerEventMask_mResenders env k s s.mMask
      simp [sentRequests] at h1 ⊢
      rw [h1, h2]
    · simp [sentRequests]
  · simp only [reportEngineState, MsgUpdateEngineState.proc, Bool.not_true, Bool.and_false,
      Bool.false_eq_true, if_false, if_true]
    split_ifs <;> rfl
  · simp only [reportEngineState, MsgUpdateEngineState.proc, Bool.not_true, Bool.and_false,
      Bool.false_eq_true, if_false, if_true]
    split_ifs <;> simp [reportStatus, State.log, sentRequests]

/-! ### XTRA injection -/

/-- C6 (the code at the failing input): a blob of 2049 bytes is three parts;
part 2 is acknowledged with part number 3.  `setXtraData` still sends part 3
after the failed part 2, and returns success. -/
theorem C6_setXtraData_sends_part_after_failure :
    setXtraData.total_parts headerMisc 2049 = 3 ∧
    (setXtraData Env.part2AckedAs3 headerMasks headerMisc 10 State.inSession
        xtraBlob3 2049).map (fun r => (r.1, sentPartNums r.2.trace)) =
      some (.LOC_API_ADAPTER_ERR_SUCCESS, [1, 2, 3]) := by
  constructor <;> decide

theorem getLast?_cons_getD {α : Type} (a d : α) (l : List α) :
    (a :: l).getLast?.getD d = l.getLast?.getD a := by
  cases l with
  | nil => simp
  | cons b t =>
    rw [List.getLast?_cons_cons]
    obtain ⟨x, hx⟩ : ∃ x, (b :: t).getLast? = some x :=
      ⟨(b :: t).getLast (by simp), List.getLast?_eq_getLast _ (by simp)⟩
    rw [hx]; rfl

theorem locSyncSendReq_syncStatuses (env : Env) (k : MaskConsts) (s : State) (req_id : MsgId)
    (req_payload : Option ReqPayload) (timeout_msec : Nat) (ind_id : MsgId)
    (ind_payload_ptr : Option Ind) :
    syncStatuses
        (locSyncSendReq env k s req_id req_payload timeout_msec ind_id ind_payload_ptr).state.trace =
      syncStatuses s.trace ++
        [(locSyncSendReq env k s req_id req_payload timeout_msec ind_id ind_payload_ptr).status] := by
  rw [locSyncSendReq_status]
  unfold locSyncSendReq
  simp only
  split_ifs <;> (try split) <;> simp [State.log, syncStatuses]

theorem locSyncSendReq_sentPartNums (env : Env) (k : MaskConsts) (s : State) (req_id : MsgId)
    (req : qmiLocInjectPredictedOrbitsDataReqMsgT_v02) (timeout_msec : Nat) (ind_id : MsgId)
    (ind_payload_ptr : Option Ind) :
    sentPartNums
        (locSyncSendReq env k s req_id (some (.pInjectPredictedOrbitsDataReq req)) timeout_msec
          ind_id ind_payload_ptr).state.trace =
      sentPartNums s.trace ++ [req.partNum] := by
  unfold locSyncSendReq
  simp only
  split_ifs <;> (try split) <;> simp [State.log, sentPartNums]

/-- The loop of `setXtraData`, started at `part` with enough fuel and a part
count below 65535, ends; it sends the parts `part, ..., total_parts` whatever
the acknowledgements, and the status it leaves is the client status of the
last send (the incoming status when nothing was sent). -/
theorem setXtraData.loop_spec (env : Env) (k : MaskConsts) (m : MiscConsts) (data : List Nat)
    (length : Int) (tp : Nat) (htp : tp < 65535) :
    ∀ (fuel part len_injected : Nat) (status : locClientStatusEnumType) (s : State),
      part ≤ tp + 1 → tp + 1 - part < fuel →
      ∃ st s1 sts,
        setXtraData.loop env k m data length tp fuel part len_injected status s = some (st, s1) ∧
        syncStatuses s1.trace = syncStatuses s.trace ++ sts ∧
        st = sts.getLast?.getD status ∧
        sentPartNums s1.trace = sentPartNums s.trace ++ List.range' part (tp + 1 - part) := by
  intro fuel
  induction fuel with
  | zero => intro part len_injected status s _ h; omega
  | succ n ih =>
    intro part len_injected status s hpart hfuel
    rw [setXtraData.loop]
    by_cases hle : part ≤ tp
    · have hmod : (part + 1) % 2 ^ 16 = part + 1 := Nat.mod_eq_of_lt (by omega)
      have hrange : List.range' part (tp + 1 - part) =
          part :: List.range' (part + 1) (tp + 1 - (part + 1)) := by
        have : tp + 1 - part = (tp + 1 - (part + 1)) + 1 := by omega
        rw [this, List.range'_succ]
      have hnum : (setXtraData.inject_xtra m data length tp part len_injected).partNum = part :=
        rfl
      simp only [hle, if_true, hmod]
      have step : ∀ len1 : Nat, ∃ st s1 sts,
          setXtraData.loop env k m data length tp n (part + 1) len1
            (locSyncSendReq env k s .QMI_LOC_INJECT_PREDICTED_ORBITS_DATA_REQ_V02
              (some (.pInjectPredictedOrbitsDataReq
                (setXtraData.inject_xtra m data length tp part len_injected)))
              m.LOC_ENGINE_SYNC_REQUEST_TIMEOUT
              .QMI_LOC_INJECT_PREDICTED_ORBITS_DATA_IND_V02 (some Ind.zero)).status
            (locSyncSendReq env k s .QMI_LOC_INJECT_PREDICTED_ORBITS_DATA_REQ_V02
              (some (.pInjectPredictedOrbitsDataReq
                (setXtraData.inject_xtra m data length tp part len_injected)))
              m.LOC_ENGINE_SYNC_REQUEST_TIMEOUT
              .QMI_LOC_INJECT_PREDICTED_ORBITS_DATA_IND_V02 (some Ind.zero)).state =
              some (st, s1) ∧
          syncStatuses s1.trace = syncStatuses s.trace ++ sts ∧
          st = sts.getLast?.getD status ∧
          sentPartNums s1.trace =
            sentPartNums s.trace ++ List.range' part (tp + 1 - part) := by
        intro len1
        obtain ⟨st, s1, sts, h1, h2, h3, h4⟩ :=
          ih (part + 1) len1
            (locSyncSendReq env k s .QMI_LOC_INJECT_PREDICTED_ORBITS_DATA_REQ_V02
              (some (.pInjectPredictedOrbitsDataReq
                (setXtraData.inject_xtra m data length tp part len_injected)))
              m.LOC_ENGINE_SYNC_REQUEST_TIMEOUT
              .QMI_LOC_INJECT_PREDICTED_ORBITS_DATA_IND_V02 (some Ind.zero)).status
            (locSyncSendReq env k s .QMI_LOC_INJECT_PREDICTED_ORBITS_DATA_REQ_V02
              (some (.pInjectPredictedOrbitsDataReq
                (setXtraData.inject_xtra m data length tp part len_injected)))
              m.LOC_ENGINE_SYNC_REQUEST_TIMEOUT
              .QMI_LOC_INJECT_PREDICTED_ORBITS_DATA_IND_V02 (some Ind.zero)).state
            (by omega) (by omega)
        refine ⟨st, s1,
          (locSyncSendReq env k s .QMI_LOC_INJECT_PREDICTED_ORBITS_DATA_REQ_V02
              (some (.pInjectPredictedOrbitsDataReq
                (setXtraData.inject_xtra m data length tp part len_injected)))
              m.LOC_ENGINE_SYNC_REQUEST_TIMEOUT
              .QMI_LOC_INJECT_PREDICTED_ORBITS_DATA_IND_V02 (some Ind.zero)).status :: sts,
          h1, ?_, ?_, ?_⟩
        · rw [h2, locSyncSendReq_syncStatuses, List.append_assoc]; rfl
        · rw [h3, getLast?_cons_getD]
        · rw [h4, locSyncSendReq_sentPartNums, hrange, hnum, List.append_assoc]; rfl
      split_ifs
      · exact step _
      · exact step _
    · have hp : tp + 1 - part = 0 := by omega
      simp only [hle, if_false]
      exact ⟨status, s, [], rfl, by simp, by simp, by simp [hp]⟩

/-- With a part count of 65535 the `uint16_t` loop counter wraps before the
loop condition can fail: the loop of `setXtraData` exhausts every fuel. -/
theorem setXtraData.loop_diverges (env : Env) (k : MaskConsts) (m : MiscConsts)
    (data : List Nat) (length : Int) :
    ∀ (fuel part len_injected : Nat) (status : locClientStatusEnumType) (s : State),
      part < 65536 →
      setXtraData.loop env k m data length 65535 fuel part len_injected status s = none := by
  intro fuel
  induction fuel with
  | zero => intro part len_injected status s _; rfl
  | succ n ih =>
    intro part len_injected status s hpart
    rw [setXtraData.loop]
    have hle : part ≤ 65535 := by omega
    simp only [hle, if_true]
    split_ifs <;> exact ih _ _ _ _ (Nat.mod_lt _ (by decide))

theorem convertErr_eq_success (st : locClientStatusEnumType) :
    convertErr st = .LOC_API_ADAPTER_ERR_SUCCESS ↔ st = .eLOC_CLIENT_SUCCESS := by
  cases st <;> simp [convertErr]

/-- C7 (as stated, refuted): a one-part blob whose only part comes back with
client status success and an indication status of general failure; the part
is not acknowledged, yet `setXtraData` returns the success code. -/
theorem C7_setXtraData_success_on_unacknowledged_part_counterexample :
    (setXtraData Env.indicationFailure headerMasks headerMisc 5 State.inSession
        (List.replicate 10 0) 10).map (fun r => (r.1, sentPartNums r.2.trace)) =
      some (.LOC_API_ADAPTER_ERR_SUCCESS, [1]) := by
  decide

/-- C7 (amended): when the part count is below 65535 and the fuel exceeds it,
`setXtraData` returns, and its code is the converted client status of the last
part it sent (success when it sent none).  So it returns
`LOC_API_ADAPTER_ERR_SUCCESS` exactly when that last send came back with client
status success; the indication status and the echoed part number do not enter
the returned code. -/
theorem C7_setXtraData_returns_last_client_status (env : Env) (k : MaskConsts)
    (m : MiscConsts) (fuel : Nat) (s : State) (data : List Nat) (length : Int)
    (hparts : setXtraData.total_parts m length < 65535)
    (hfuel : setXtraData.total_parts m length < fuel) :
    ∃ err s1 sts,
      setXtraData env k m fuel s data length = some (err, s1) ∧
      syncStatuses s1.trace = syncStatuses s.trace ++ sts ∧
      err = convertErr (sts.getLast?.getD .eLOC_CLIENT_SUCCESS) ∧
      (err = .LOC_API_ADAPTER_ERR_SUCCESS ↔
        sts.getLast?.getD .eLOC_CLIENT_SUCCESS = .eLOC_CLIENT_SUCCESS) := by
  obtain ⟨st, s1, sts, h1, h2, h3, _⟩ :=
    setXtraData.loop_spec env k m data length (setXtraData.total_parts m length) hparts fuel 1 0
      .eLOC_CLIENT_SUCCESS s (by omega) (by omega)
  refine ⟨convertErr st, s1, sts, ?_, h2, by rw [h3], ?_⟩
  · simp [setXtraData, h1]
  · rw [convertErr_eq_success, h3]

/-- C7, evaluated on the one-part blob with a failing indication. -/
theorem C7_setXtraData_returns_last_client_status_witness :
    setXtraData.total_parts headerMisc 10 < 65535 ∧
    setXtraData.total_parts headerMisc 10 < 5 ∧
    ∃ err s1 sts,
      setXtraData Env.indicationFailure headerMasks headerMisc 5 State.inSession
        (List.replicate 10 0) 10 = some (err, s1) ∧
      syncStatuses s1.trace = syncStatuses State.inSession.trace ++ sts ∧
      err = convertErr (sts.getLast?.getD .eLOC_CLIENT_SUCCESS) ∧
      (err = .LOC_API_ADAPTER_ERR_SUCCESS ↔
        sts.getLast?.getD .eLOC_CLIENT_SUCCESS = .eLOC_CLIENT_SUCCESS) :=
  ⟨by decide, by decide,
    C7_setXtraData_returns_last_client_status Env.indicationFailure headerMasks headerMisc 5
      State.inSession (List.replicate 10 0) 10 (by decide) (by decide)⟩

/-! ### Aiding data deletion -/

theorem locSyncSendReq_sentRequests (env : Env) (k : MaskConsts) (s : State) (req_id : MsgId)
    (req_payload : Option ReqPayload) (timeout_msec : Nat) (ind_id : MsgId)
    (ind_payload_ptr : Option Ind) :
    sentRequests
        (locSyncSendReq env k s req_id req_payload timeout_msec ind_id ind_payload_ptr).state.trace =
      sentRequests s.trace ++
        [{ req_id := req_id, req_payload_copy := req_payload,
           timeout_msec := timeout_msec, ind_id := ind_id }] := by
  unfold locSyncSendReq
  simp only
  split_ifs <;> (try split) <;> simp [State.log, sentRequests]

theorem locSyncSendReq_isNewApiSupported (env : Env) (k : MaskConsts) (s : State)
    (req_id : MsgId) (req_payload : Option ReqPayload) (timeout_msec : Nat) (ind_id : MsgId)
    (ind_payload_ptr : Option Ind) :
    (locSyncSendReq env k s req_id req_payload timeout_msec ind_id
      ind_payload_ptr).state.isNewApiSupported = s.isNewApiSupported := by
  unfold locSyncSendReq
  simp only
  split_ifs <;> (try split) <;> rfl

/-- Once the static flag is false, a `deleteAidingData` call sends the legacy
request and nothing else, and leaves the flag false. -/
theorem deleteAidingData_legacy_only (env : Env) (k : MaskConsts) (m : MiscConsts)
    (d : DeleteConsts) (s : State) (data : GnssAidingData) (h : s.isNewApiSupported = false) :
    (deleteAidingData env k m d s data).2.isNewApiSupported = false ∧
    sentRequests (deleteAidingData env k m d s data).2.trace =
      sentRequests s.trace ++ [deleteAidingData.legacyRequest m d data] := by
  unfold deleteAidingData
  simp only [h, Bool.false_eq_true, if_false, true_or, if_true]
  constructor
  · split_ifs <;> simp [locSyncSendReq_isNewApiSupported]
  · split_ifs <;> simp [locSyncSendReq_sentRequests, deleteAidingData.legacyRequest]

theorem deleteAidingData_calls_legacy_only (env : Env) (k : MaskConsts) (m : MiscConsts)
    (d : DeleteConsts) (later : List GnssAidingData) :
    ∀ s : State, s.isNewApiSupported = false →
      (deleteAidingData.calls env k m d s later).isNewApiSupported = false ∧
      sentRequests (deleteAidingData.calls env k m d s later).trace =
        sentRequests s.trace ++ later.map (deleteAidingData.legacyRequest m d) := by
  induction later with
  | nil => intro s h; simp [deleteAidingData.calls, h]
  | cons data rest ih =>
    intro s h
    obtain ⟨h1, h2⟩ := deleteAidingData_legacy_only env k m d s data h
    obtain ⟨h3, h4⟩ := ih _ h1
    simp only [deleteAidingData.calls, List.foldl_cons] at h3 h4 ⊢
    refine ⟨h3, ?_⟩
    rw [h4, h2]
    simp

/-- C8: if the bulk delete request of a `deleteAidingData` call comes back
with client status unsupported or internal, that call sends the bulk request
followed by the legacy request and clears the static flag; every later
`deleteAidingData` call, whatever its argument and whatever the transport
answers, sends the legacy request only: the blocking sends of any sequence of
later calls are exactly one legacy request per call, and the flag stays
false. -/
theorem C8_deleteAidingData_fallback_latch (env : Env) (k : MaskConsts) (m : MiscConsts)
    (d : DeleteConsts) (s : State) (data : GnssAidingData)
    (hnew : s.isNewApiSupported = true)
    (hstatus :
      (env.loc_sync_send_req s.trace s.clientHandle .QMI_LOC_DELETE_GNSS_SERVICE_DATA_REQ_V02
          (some (.pDeleteGNSSServiceDataReq (deleteAidingData.delete_gnss_req d data)))
          m.LOC_ENGINE_SYNC_REQUEST_TIMEOUT .QMI_LOC_DELETE_GNSS_SERVICE_DATA_IND_V02
          (some Ind.zero)).1 = .eLOC_CLIENT_FAILURE_UNSUPPORTED ∨
      (env.loc_sync_send_req s.trace s.clientHandle .QMI_LOC_DELETE_GNSS_SERVICE_DATA_REQ_V02
          (some (.pDeleteGNSSServiceDataReq (deleteAidingData.delete_gnss_req d data)))
          m.LOC_ENGINE_SYNC_REQUEST_TIMEOUT .QMI_LOC_DELETE_GNSS_SERVICE_DATA_IND_V02
          (some Ind.zero)).1 = .eLOC_CLIENT_FAILURE_INTERNAL)
    (later : List GnssAidingData) :
    sentRequests (deleteAidingData env k m d s data).2.trace =
      sentRequests s.trace ++
        [deleteAidingData.bulkRequest m d data, deleteAidingData.legacyRequest m d data] ∧
    (deleteAidingData env k m d s data).2.isNewApiSupported = false ∧
    (deleteAidingData.calls env k m d (deleteAidingData env k m d s data).2
      later).isNewApiSupported = false ∧
    sentRequests
        (deleteAidingData.calls env k m d (deleteAidingData env k m d s data).2 later).trace =
      sentRequests (deleteAidingData env k m d s data).2.trace ++
        later.map (deleteAidingData.legacyRequest m d) := by
  have hflag : (deleteAidingData env k m d s data).2.isNewApiSupported = false := by
    unfold deleteAidingData
    simp only [hnew, if_true, locSyncSendReq_status, hstatus]
    split_ifs <;> simp [locSyncSendReq_isNewApiSupported]
  refine ⟨?_, hflag, deleteAidingData_calls_legacy_only env k m d later _ hflag⟩
  unfold deleteAidingData
  simp only [hnew, if_true, locSyncSendReq_status, hstatus]
  split_ifs <;>
    simp [locSyncSendReq_sentRequests, deleteAidingData.legacyRequest,
      deleteAidingData.bulkRequest]

/-- C8, evaluated: the transport answers the bulk request of a delete-all call
with unsupported; two later calls follow, a delete-all and a selective one. -/
theorem C8_deleteAidingData_fallback_latch_witness :
    State.inSession.isNewApiSupported = true ∧
    ((Env.bulkUnsupported.loc_sync_send_req State.inSession.trace State.inSession.clientHandle
          .QMI_LOC_DELETE_GNSS_SERVICE_DATA_REQ_V02
          (some (.pDeleteGNSSServiceDataReq
            (deleteAidingData.delete_gnss_req headerDelete GnssAidingData.all)))
          headerMisc.LOC_ENGINE_SYNC_REQUEST_TIMEOUT .QMI_LOC_DELETE_GNSS_SERVICE_DATA_IND_V02
          (some Ind.zero)).1 = .eLOC_CLIENT_FAILURE_UNSUPPORTED ∨
      (Env.bulkUnsupported.loc_sync_send_req State.inSession.trace State.inSession.clientHandle
          .QMI_LOC_DELETE_GNSS_SERVICE_DATA_REQ_V02
          (some (.pDeleteGNSSServiceDataReq
            (deleteAidingData.delete_gnss_req headerDelete GnssAidingData.all)))
          headerMisc.LOC_ENGINE_SYNC_REQUEST_TIMEOUT .QMI_LOC_DELETE_GNSS_SERVICE_DATA_IND_V02
          (some Ind.zero)).1 = .eLOC_CLIENT_FAILURE_INTERNAL) ∧
    (sentRequests (deleteAidingData Env.bulkUnsupported headerMasks headerMisc headerDelete
        State.inSession GnssAidingData.all).2.trace =
      sentRequests State.inSession.trace ++
        [deleteAidingData.bulkRequest headerMisc headerDelete GnssAidingData.all,
         deleteAidingData.legacyRequest headerMisc headerDelete GnssAidingData.all] ∧
    (deleteAidingData Env.bulkUnsupported headerMasks headerMisc headerDelete
        State.inSession GnssAidingData.all).2.isNewApiSupported = false ∧
    (deleteAidingData.calls Env.bulkUnsupported headerMasks headerMisc headerDelete
        (deleteAidingData Env.bulkUnsupported headerMasks headerMisc headerDelete
          State.inSession GnssAidingData.all).2
        [GnssAidingData.all, GnssAidingData.gpsEphemerisAndPosition]).isNewApiSupported =
      false ∧
    sentRequests
        (deleteAidingData.calls Env.bulkUnsupported headerMasks headerMisc headerDelete
          (deleteAidingData Env.bulkUnsupported headerMasks headerMisc headerDelete
            State.inSession GnssAidingData.all).2
          [GnssAidingData.all, GnssAidingData.gpsEphemerisAndPosition]).trace =
      sentRequests (deleteAidingData Env.bulkUnsupported headerMasks headerMisc headerDelete
          State.inSession GnssAidingData.all).2.trace ++
        [GnssAidingData.all, GnssAidingData.gpsEphemerisAndPosition].map
          (deleteAidingData.legacyRequest headerMisc headerDelete)) :=
  ⟨rfl, Or.inl (by decide),
    C8_deleteAidingData_fallback_latch Env.bulkUnsupported headerMasks headerMisc headerDelete
      State.inSession GnssAidingData.all rfl (Or.inl (by decide))
      [GnssAidingData.all, GnssAidingData.gpsEphemerisAndPosition]⟩

/-! ### Field transcoders -/

/-- C9: on non-circular uncertainty `scaleAccuracyTo68PercentConfidence`
multiplies the accuracy by the table value 1.517 for every confidence
`c ≤ 39`, by 1.287 for `40 ≤ c ≤ 50` and by 1.072 for `51 ≤ c ≤ 63`; for every
confidence `c ≥ 68`, circular or not, the accuracy is unchanged.  The statement
holds for every type of accuracy values with its multiplication `mul` and its
reading `lit` of the decimal literals of the table. -/
theorem C9_scaleAccuracy_buckets {F : Type} (mul : F → F → F) (lit : ℚ → F) (c : Nat)
    (accuracy : F) :
    (c ≤ 39 →
      scaleAccuracyTo68PercentConfidence mul lit c accuracy false = mul accuracy (lit 1.517)) ∧
    (40 ≤ c → c ≤ 50 →
      scaleAccuracyTo68PercentConfidence mul lit c accuracy false = mul accuracy (lit 1.287)) ∧
    (51 ≤ c → c ≤ 63 →
      scaleAccuracyTo68PercentConfidence mul lit c accuracy false = mul accuracy (lit 1.072)) ∧
    (68 ≤ c → ∀ isCircularUnc : Bool,
      scaleAccuracyTo68PercentConfidence mul lit c accuracy isCircularUnc = accuracy) := by
  refine ⟨?_, ?_, ?_, ?_⟩
  · intro h
    have h68 : c < 68 := by omega
    simp [scaleAccuracyTo68PercentConfidence, scaleAccuracyTo68PercentConfidence.loop,
      confScalers, CONF_SCALER_ARRAY_MAX, h68, h]
  · intro h1 h2
    have h68 : c < 68 := by omega
    have h39 : ¬ c ≤ 39 := by omega
    simp [scaleAccuracyTo68PercentConfidence, scaleAccuracyTo68PercentConfidence.loop,
      confScalers, CONF_SCALER_ARRAY_MAX, h68, h39, h2]
  · intro h1 h2
    have h68 : c < 68 := by omega
    have h39 : ¬ c ≤ 39 := by omega
    have h50 : ¬ c ≤ 50 := by omega
    simp [scaleAccuracyTo68PercentConfidence, scaleAccuracyTo68PercentConfidence.loop,
      confScalers, CONF_SCALER_ARRAY_MAX, h68, h39, h50, h2]
  · intro h isCircularUnc
    have h68 : ¬ c < 68 := by omega
    simp [scaleAccuracyTo68PercentConfidence, h68]

/-- C9, evaluated in exact rational arithmetic: accuracy 10 with confidence 39
gives 15.17, confidence 45 gives 12.87, confidence 60 gives 10.72, and
confidence 68 leaves 10. -/
theorem C9_scaleAccuracy_buckets_witness :
    scaleAccuracyTo68PercentConfidence (fun x y : ℚ => x * y) id 39 10 false = 15.17 ∧
    scaleAccuracyTo68PercentConfidence (fun x y : ℚ => x * y) id 45 10 false = 12.87 ∧
    scaleAccuracyTo68PercentConfidence (fun x y : ℚ => x * y) id 60 10 false = 10.72 ∧
    scaleAccuracyTo68PercentConfidence (fun x y : ℚ => x * y) id 68 10 true = 10 := by
  refine ⟨?_, ?_, ?_, ?_⟩
  · rw [(C9_scaleAccuracy_buckets (fun x y : ℚ => x * y) id 39 10).1 (by decide)]
    norm_num
  · rw [(C9_scaleAccuracy_buckets (fun x y : ℚ => x * y) id 45 10).2.1 (by decide) (by decide)]
    norm_num
  · rw [(C9_scaleAccuracy_buckets (fun x y : ℚ => x * y) id 60 10).2.2.1 (by decide)
      (by decide)]
    norm_num
  · exact (C9_scaleAccuracy_buckets (fun x y : ℚ => x * y) id 68 10).2.2.2 (by decide) true

/-- The value stored in an `int16_t` lies in its range. -/
theorem toInt16_range (x : Int) : -2 ^ 15 ≤ toInt16 x ∧ toInt16 x < 2 ^ 15 := by
  unfold toInt16
  split_ifs <;> omega

/-- The value stored in an `int16_t` differs from the value assigned by a
multiple of 2^16. -/
theorem toInt16_congr (x : Int) : (toInt16 x - x) % 2 ^ 16 = 0 := by
  unfold toInt16
  split_ifs <;> omega

/-- A value in the range of `int16_t` is stored unchanged. -/
theorem toInt16_of_range (x : Int) (h1 : -2 ^ 15 ≤ x) (h2 : x < 2 ^ 15) : toInt16 x = x := by
  unfold toInt16
  split_ifs <;> omega

/-- The value stored in a `uint16_t` lies in its range. -/
theorem toUInt16_range (x : Int) : 0 ≤ toUInt16 x ∧ toUInt16 x < 2 ^ 16 := by
  unfold toUInt16
  omega

/-- The value stored in a `uint16_t` differs from the value assigned by a
multiple of 2^16. -/
theorem toUInt16_congr (x : Int) : (toUInt16 x - x) % 2 ^ 16 = 0 := by
  unfold toUInt16
  omega

/-- A value in the range of `uint16_t` is stored unchanged. -/
theorem toUInt16_of_range (x : Int) (h1 : 0 ≤ x) (h2 : x < 2 ^ 16) : toUInt16 x = x := by
  unfold toUInt16
  omega

/-- A negative value above -2^16 is stored in a `uint16_t` as the value plus
2^16. -/
theorem toUInt16_of_neg (x : Int) (h1 : -2 ^ 16 ≤ x) (h2 : x < 0) :
    toUInt16 x = x + 2 ^ 16 := by
  unfold toUInt16
  omega

/-- C10 (as stated, refuted): a GLONASS measurement with raw satellite id
40000, which is not the sentinel 255.  `rawId + 1 - GLO_SV_PRN_MIN` is 39936
for the header value 65, and the `int16_t` field `svId` holds -25600. -/
theorem C10_convertGnssMeasurements_glonass_id_wraps_counterexample :
    (40000 : Int) + 1 - headerMisc.GLO_SV_PRN_MIN = 39936 ∧
    (convertGnssMeasurements headerMisc .eQMI_LOC_SV_SYSTEM_GLONASS_V02
      { gnssSvId := 40000, gloFrequency := 0 }).svId = -25600 ∧
    (convertGnssMeasurements headerMisc .eQMI_LOC_SV_SYSTEM_GLONASS_V02
      { gnssSvId := 40000, gloFrequency := 0 }).svType = .GNSS_SV_TYPE_GLONASS := by
  decide

/-- C10 (amended): in `convertGnssMeasurements` a GLONASS measurement gets the
constellation GLONASS and an id in the range of `int16_t` that differs by a
multiple of 2^16 from `gloFrequency + 92` when the raw satellite id is the
sentinel 255, and from `rawId + 1 - GLO_SV_PRN_MIN` otherwise; the id is that
value itself whenever the value lies in the range of `int16_t`. -/
theorem C10_convertGnssMeasurements_glonass_id (m : MiscConsts)
    (info : qmiLocSVMeasurementStructT_v02) :
    (convertGnssMeasurements m .eQMI_LOC_SV_SYSTEM_GLONASS_V02 info).svType =
      .GNSS_SV_TYPE_GLONASS ∧
    (-2 ^ 15 ≤ (convertGnssMeasurements m .eQMI_LOC_SV_SYSTEM_GLONASS_V02 info).svId ∧
      (convertGnssMeasurements m .eQMI_LOC_SV_SYSTEM_GLONASS_V02 info).svId < 2 ^ 15) ∧
    (info.gnssSvId = 255 →
      ((convertGnssMeasurements m .eQMI_LOC_SV_SYSTEM_GLONASS_V02 info).svId -
        ((info.gloFrequency : Int) + 92)) % 2 ^ 16 = 0) ∧
    (info.gnssSvId ≠ 255 →
      ((convertGnssMeasurements m .eQMI_LOC_SV_SYSTEM_GLONASS_V02 info).svId -
        ((info.gnssSvId : Int) + 1 - m.GLO_SV_PRN_MIN)) % 2 ^ 16 = 0) ∧
    (info.gnssSvId = 255 → (info.gloFrequency : Int) + 92 < 2 ^ 15 →
      (convertGnssMeasurements m .eQMI_LOC_SV_SYSTEM_GLONASS_V02 info).svId =
        (info.gloFrequency : Int) + 92) ∧
    (info.gnssSvId ≠ 255 →
      -2 ^ 15 ≤ (info.gnssSvId : Int) + 1 - m.GLO_SV_PRN_MIN →
      (info.gnssSvId : Int) + 1 - m.GLO_SV_PRN_MIN < 2 ^ 15 →
      (convertGnssMeasurements m .eQMI_LOC_SV_SYSTEM_GLONASS_V02 info).svId =
        (info.gnssSvId : Int) + 1 - m.GLO_SV_PRN_MIN) := by
  refine ⟨rfl, ?_, ?_, ?_, ?_, ?_⟩
  · simp only [convertGnssMeasurements]
    split_ifs <;> exact toInt16_range _
  · intro h
    simp only [convertGnssMeasurements, h, ne_eq, not_true_eq_false, if_false]
    exact toInt16_congr _
  · intro h
    simp only [convertGnssMeasurements, h, ne_eq, not_false_eq_true, if_true]
    exact toInt16_congr _
  · intro h h2
    simp only [convertGnssMeasurements, h, ne_eq, not_true_eq_false, if_false]
    exact toInt16_of_range _ (by omega) h2
  · intro h h1 h2
    simp only [convertGnssMeasurements, h, ne_eq, not_false_eq_true, if_true]
    exact toInt16_of_range _ h1 h2

/-- C10 (amended), evaluated: unknown slot with frequency channel 5 gives 97;
known slot 10 gives `10 + 1 - GLO_SV_PRN_MIN`, which is -54 for the header
value 65. -/
theorem C10_convertGnssMeasurements_glonass_id_witness :
    (convertGnssMeasurements headerMisc .eQMI_LOC_SV_SYSTEM_GLONASS_V02
      { gnssSvId := 255, gloFrequency := 5 }).svId = 97 ∧
    (convertGnssMeasurements headerMisc .eQMI_LOC_SV_SYSTEM_GLONASS_V02
      { gnssSvId := 10, gloFrequency := 5 }).svId = 10 + 1 - headerMisc.GLO_SV_PRN_MIN ∧
    (10 : Int) + 1 - headerMisc.GLO_SV_PRN_MIN = -54 := by
  refine ⟨?_, ?_, by decide⟩
  · rw [(C10_convertGnssMeasurements_glonass_id headerMisc
      { gnssSvId := 255, gloFrequency := 5 }).2.2.2.2.1 rfl (by decide)]
    decide
  · exact (C10_convertGnssMeasurements_glonass_id headerMisc
      { gnssSvId := 10, gloFrequency := 5 }).2.2.2.2.2 (by decide) (by decide) (by decide)

/-! ### What `locSyncSendReq` leaves alone -/

/-- A `locSyncSendReq` call changes the trace and the retry queue only. -/
theorem locSyncSendReq_frame (env : Env) (k : MaskConsts) (s : State) (req_id : MsgId)
    (req_payload : Option ReqPayload) (timeout_msec : Nat) (ind_id : MsgId)
    (ind_payload_ptr : Option Ind) :
    (locSyncSendReq env k s req_id req_payload timeout_msec ind_id
      ind_payload_ptr).state.mInSession = s.mInSession ∧
    (locSyncSendReq env k s req_id req_payload timeout_msec ind_id
      ind_payload_ptr).state.mMask = s.mMask ∧
    (locSyncSendReq env k s req_id req_payload timeout_msec ind_id
      ind_payload_ptr).state.mQmiMask = s.mQmiMask ∧
    (locSyncSendReq env k s req_id req_payload timeout_msec ind_id
      ind_payload_ptr).state.clientHandle = s.clientHandle ∧
    (locSyncSendReq env k s req_id req_payload timeout_msec ind_id
      ind_payload_ptr).state.mEngineOn = s.mEngineOn := by
  unfold locSyncSendReq
  simp only
  split_ifs <;> (try split) <;> exact ⟨rfl, rfl, rfl, rfl, rfl⟩

/-- The trace after `locSyncSendReq` extends the trace before it. -/
theorem locSyncSendReq_trace_extends (env : Env) (k : MaskConsts) (s : State) (req_id : MsgId)
    (req_payload : Option ReqPayload) (timeout_msec : Nat) (ind_id : MsgId)
    (ind_payload_ptr : Option Ind) :
    ∃ evs, (locSyncSendReq env k s req_id req_payload timeout_msec ind_id
      ind_payload_ptr).state.trace = s.trace ++ evs := by
  unfold locSyncSendReq
  simp only [State.log]
  split_ifs <;> (try split) <;>
    first
    | exact ⟨_, rfl⟩
    | exact ⟨_, (List.append_assoc _ _ _)⟩
    | exact ⟨_, by rw [List.append_assoc, List.append_assoc]⟩

/-! ### Starting a fix -/

/-- C12: for every adapter state, transport and fix criteria, `startFix` ends
with fix-in-progress true and the consumer mask unchanged; its trace starts
with the trace of `registerEventMask` called with the stored consumer mask
right after `mInSession` was set, whatever the mode-setting and start requests
return afterwards; and the mask computed for that registration is
`convertMask` of the consumer mask with no bit removed, handed to the transport
unless it is already the cached mask. -/
theorem C12_startFix_registers_full_mask (env : Env) (k : MaskConsts) (m : MiscConsts)
    (c : StartConsts) (s : State) (fixCriteria : LocPosMode) :
    (startFix env k m c s fixCriteria).2.mInSession = true ∧
    (startFix env k m c s fixCriteria).2.mMask = s.mMask ∧
    (∃ rest, (startFix env k m c s fixCriteria).2.trace =
      (registerEventMask env k (startFix.entered s) s.mMask).trace ++ rest) ∧
    adjustMaskIfNoSession k (startFix.entered s) (convertMask k s.mMask) =
      convertMask k s.mMask ∧
    (registerEventMask env k (startFix.entered s) s.mMask).trace =
      s.trace ++
        (if convertMask k s.mMask = s.mQmiMask then []
         else [Event.locClientRegisterEventMask s.clientHandle (convertMask k s.mMask)
                (env.locClientRegisterEventMask s.trace s.clientHandle
                  (convertMask k s.mMask))]) := by
  have hadj : adjustMaskIfNoSession k (startFix.entered s) (convertMask k s.mMask) =
      convertMask k s.mMask := by
    simp [adjustMaskIfNoSession, startFix.entered]
  have hreg : (registerEventMask env k (startFix.entered s) s.mMask).mInSession = true := by
    rw [registerEventMask_mInSession]; rfl
  obtain ⟨h1, h2, -, -, -⟩ := locSyncSendReq_frame env k
    (registerEventMask env k (startFix.entered s) s.mMask)
    .QMI_LOC_SET_OPERATION_MODE_REQ_V02
    (some (.pSetOperationModeReq { operationMode := startFix.operationMode fixCriteria }))
    m.LOC_ENGINE_SYNC_REQUEST_TIMEOUT .QMI_LOC_SET_OPERATION_MODE_IND_V02 (some Ind.zero)
  obtain ⟨evs, h3⟩ := locSyncSendReq_trace_extends env k
    (registerEventMask env k (startFix.entered s) s.mMask)
    .QMI_LOC_SET_OPERATION_MODE_REQ_V02
    (some (.pSetOperationModeReq { operationMode := startFix.operationMode fixCriteria }))
    m.LOC_ENGINE_SYNC_REQUEST_TIMEOUT .QMI_LOC_SET_OPERATION_MODE_IND_V02 (some Ind.zero)
  have hm : (startFix.entered s).mMask = s.mMask := rfl
  refine ⟨?_, ?_, ?_, hadj, ?_⟩
  · unfold startFix
    simp only [hm]
    split_ifs
    · exact h1.trans hreg
    · exact h1.trans hreg
  · unfold startFix
    simp only [hm]
    split_ifs
    · exact h2.trans (registerEventMask_mMask _ _ _ _)
    · exact h2.trans (registerEventMask_mMask _ _ _ _)
  · unfold startFix
    simp only [hm]
    split_ifs
    · exact ⟨evs, h3⟩
    · simp only [State.log]
      rw [h3, List.append_assoc]
      exact ⟨_, rfl⟩
  · rw [registerEventMask_trace, hadj]
    rfl

/-! ### The drain itself -/

theorem foldl_run_mResenders (env : Env) (rs : List Resender) (s : State) :
    (rs.foldl (Resender.run env) s).mResenders = s.mResenders := by
  induction rs generalizing s with
  | nil => rfl
  | cons r rs ih => rw [List.foldl_cons, ih, Resender.run_mResenders]

theorem foldl_run_trace_length (env : Env) (rs : List Resender) (s : State) :
    (rs.foldl (Resender.run env) s).trace.length = s.trace.length + rs.length := by
  induction rs generalizing s with
  | nil => rfl
  | cons r rs ih =>
    rw [List.foldl_cons, ih]
    simp [Resender.run, State.log]
    omega

/-- C13: a drain of the retry queue never re-queues.  For every transport
(also one that rejects every replayed send as engine-busy), every state and
every queue content `rs`: running the records leaves `mResenders` as it was, so
no record is added during the drain; the blocking sends of the trace grow by
exactly `rs`, each record once and in order; the drain adds one boundary event
per record and nothing else; and when `MsgUpdateEngineState::proc` has
processed an engine-off message the queue is empty. -/
theorem C13_drain_never_requeues (env : Env) (k : MaskConsts) (s : State)
    (rs : List Resender) :
    (rs.foldl (Resender.run env) s).mResenders = s.mResenders ∧
    sentRequests (rs.foldl (Resender.run env) s).trace = sentRequests s.trace ++ rs ∧
    (rs.foldl (Resender.run env) s).trace.length = s.trace.length + rs.length ∧
    (MsgUpdateEngineState.proc env k s false).mResenders = [] := by
  refine ⟨foldl_run_mResenders env rs s, foldl_run_sentRequests env rs s,
    foldl_run_trace_length env rs s, ?_⟩
  simp [MsgUpdateEngineState.proc]

/-- C13, evaluated with a transport that rejects every blocking send as
engine-busy: the two queued records are each sent once, both sends come back
engine-busy, and the queue is empty afterwards. -/
theorem C13_drain_never_requeues_witness :
    ((State.withQueue.mResenders.foldl (Resender.run Env.busy) State.withQueue).mResenders =
        State.withQueue.mResenders ∧
      sentRequests
          (State.withQueue.mResenders.foldl (Resender.run Env.busy) State.withQueue).trace =
        sentRequests State.withQueue.trace ++ State.withQueue.mResenders ∧
      (State.withQueue.mResenders.foldl (Resender.run Env.busy) State.withQueue).trace.length =
        State.withQueue.trace.length + State.withQueue.mResenders.length ∧
      (MsgUpdateEngineState.proc Env.busy headerMasks State.withQueue false).mResenders = []) ∧
    syncStatuses (MsgUpdateEngineState.proc Env.busy headerMasks State.withQueue false).trace =
      [.eLOC_CLIENT_FAILURE_ENGINE_BUSY, .eLOC_CLIENT_FAILURE_ENGINE_BUSY] :=
  ⟨C13_drain_never_requeues Env.busy headerMasks State.withQueue State.withQueue.mResenders,
    by decide⟩

/-! ### Confidence buckets -/

theorem scale_circular {F : Type} (mul : F → F → F) (lit : ℚ → F) (c : Nat) (accuracy : F)
    (h : c < 68) :
    scaleAccuracyTo68PercentConfidence mul lit c accuracy true = mul accuracy (lit 1.072) := by
  simp [scaleAccuracyTo68PercentConfidence, scaleAccuracyTo68PercentConfidence.loop,
    confScalers, CONF_SCALER_ARRAY_MAX, h]

theorem scale_nonCircular {F : Type} (mul : F → F → F) (lit : ℚ → F) (c : Nat) (accuracy : F) :
    scaleAccuracyTo68PercentConfidence mul lit c accuracy false =
      if c ≤ 39 then mul accuracy (lit 1.517)
      else if c ≤ 50 then mul accuracy (lit 1.287)
      else if c ≤ 63 then mul accuracy (lit 1.072)
      else accuracy := by
  by_cases h68 : c < 68
  · simp [scaleAccuracyTo68PercentConfidence, scaleAccuracyTo68PercentConfidence.loop,
      confScalers, CONF_SCALER_ARRAY_MAX, h68]
  · have h1 : ¬ c ≤ 39 := by omega
    have h2 : ¬ c ≤ 50 := by omega
    have h3 : ¬ c ≤ 63 := by omega
    simp [scaleAccuracyTo68PercentConfidence, h68, h1, h2, h3]

/-- C15: for circular uncertainty and every declared confidence `c < 68`,
`scaleAccuracyTo68PercentConfidence` multiplies the accuracy by the table value
1.072 of the 63% bucket, whatever `c` is. -/
theorem C15_scaleAccuracy_circular {F : Type} (mul : F → F → F) (lit : ℚ → F) (c : Nat)
    (accuracy : F) (h : c < 68) :
    scaleAccuracyTo68PercentConfidence mul lit c accuracy true = mul accuracy (lit 1.072) :=
  scale_circular mul lit c accuracy h

/-- C15, evaluated in exact rational arithmetic at confidence 30 and at
confidence 67. -/
theorem C15_scaleAccuracy_circular_witness :
    (30 < 68 ∧
      scaleAccuracyTo68PercentConfidence (fun x y : ℚ => x * y) id 30 10 true =
        (fun x y : ℚ => x * y) 10 (id 1.072)) ∧
    (67 < 68 ∧
      scaleAccuracyTo68PercentConfidence (fun x y : ℚ => x * y) id 67 10 true =
        (fun x y : ℚ => x * y) 10 (id 1.072)) :=
  ⟨⟨by decide, C15_scaleAccuracy_circular (fun x y : ℚ => x * y) id 30 10 (by decide)⟩,
    ⟨by decide, C15_scaleAccuracy_circular (fun x y : ℚ => x * y) id 67 10 (by decide)⟩⟩

/-- C16 (as stated, refuted): a non-circular confidence of 65 is below 68, the
accuracy 10 is not zero, and the accuracy comes back unchanged. -/
theorem C16_scaleAccuracy_64_to_67_counterexample :
    65 < 68 ∧ (10 : ℚ) ≠ 0 ∧
    scaleAccuracyTo68PercentConfidence (fun x y : ℚ => x * y) id 65 10 false = 10 := by
  refine ⟨by decide, by norm_num, ?_⟩
  rw [scale_nonCircular]
  simp

/-- C16 (amended): for every declared confidence `c` below 68 that is circular
or at most 63, `scaleAccuracyTo68PercentConfidence` rescales the accuracy by one
of the three table multipliers (1.517, 1.287 or 1.072), so that in exact
arithmetic the result differs from a non-zero accuracy; for the non-circular
confidences 64 to 67 no table entry applies and the accuracy is unchanged. -/
theorem C16_scaleAccuracy_below_68 {F : Type} (mul : F → F → F) (lit : ℚ → F) (c : Nat)
    (accuracy : F) (isCircularUnc : Bool) (q : ℚ) :
    (c < 68 → (isCircularUnc = true ∨ c ≤ 63) →
      scaleAccuracyTo68PercentConfidence mul lit c accuracy isCircularUnc =
          mul accuracy (lit 1.517) ∨
      scaleAccuracyTo68PercentConfidence mul lit c accuracy isCircularUnc =
          mul accuracy (lit 1.287) ∨
      scaleAccuracyTo68PercentConfidence mul lit c accuracy isCircularUnc =
          mul accuracy (lit 1.072)) ∧
    (c < 68 → (isCircularUnc = true ∨ c ≤ 63) → q ≠ 0 →
      scaleAccuracyTo68PercentConfidence (fun x y : ℚ => x * y) id c q isCircularUnc ≠ q) ∧
    (64 ≤ c → c < 68 →
      scaleAccuracyTo68PercentConfidence mul lit c accuracy false = accuracy) := by
  refine ⟨?_, ?_, ?_⟩
  · intro h68 hb
    cases isCircularUnc with
    | true => right; right; exact scale_circular mul lit c accuracy h68
    | false =>
      have h63 : c ≤ 63 := by simpa using hb
      rw [scale_nonCircular]
      by_cases h1 : c ≤ 39
      · left; simp [h1]
      · by_cases h2 : c ≤ 50
        · right; left; simp [h1, h2]
        · right; right; simp [h1, h2, h63]
  · intro h68 hb hq
    cases isCircularUnc with
    | true =>
      rw [scale_circular _ _ c q h68]
      intro h
      apply hq
      have h' : q * (1.072 : ℚ) = q := h
      norm_num at h'
      linarith
    | false =>
      have h63 : c ≤ 63 := by simpa using hb
      rw [scale_nonCircular]
      by_cases h1 : c ≤ 39
      · simp only [h1, if_true]
        intro h
        apply hq
        have h' : q * (1.517 : ℚ) = q := h
        norm_num at h'
        linarith
      · by_cases h2 : c ≤ 50
        · simp only [h1, h2, if_true, if_false]
          intro h
          apply hq
          have h' : q * (1.287 : ℚ) = q := h
          norm_num at h'
          linarith
        · simp only [h1, h2, h63, if_true, if_false]
          intro h
          apply hq
          have h' : q * (1.072 : ℚ) = q := h
          norm_num at h'
          linarith
  · intro h64 h68
    have h1 : ¬ c ≤ 39 := by omega
    have h2 : ¬ c ≤ 50 := by omega
    have h3 : ¬ c ≤ 63 := by omega
    rw [scale_nonCircular]
    simp [h1, h2, h3]

/-- C16, evaluated in exact rational arithmetic: confidence 63 rescales 10 to
10.72, circular confidence 66 as well, and non-circular 66 leaves 10. -/
theorem C16_scaleAccuracy_below_68_witness :
    scaleAccuracyTo68PercentConfidence (fun x y : ℚ => x * y) id 63 10 false ≠ 10 ∧
    scaleAccuracyTo68PercentConfidence (fun x y : ℚ => x * y) id 66 10 true ≠ 10 ∧
    scaleAccuracyTo68PercentConfidence (fun x y : ℚ => x * y) id 66 10 false = 10 :=
  ⟨(C16_scaleAccuracy_below_68 (fun x y : ℚ => x * y) id 63 10 false 10).2.1 (by decide)
      (Or.inr (by decide)) (by norm_num),
    (C16_scaleAccuracy_below_68 (fun x y : ℚ => x * y) id 66 10 true 10).2.1 (by decide)
      (Or.inl rfl) (by norm_num),
    (C16_scaleAccuracy_below_68 (fun x y : ℚ => x * y) id 66 10 false 10).2.2 (by decide)
      (by decide)⟩

/-! ### The legacy delete request -/

theorem or_and_self_right (a b : Nat) : (a ||| b) &&& b = b := by
  apply Nat.eq_of_testBit_eq
  intro i
  rw [Nat.testBit_land, Nat.testBit_lor]
  cases a.testBit i <;> cases b.testBit i <;> rfl

theorem or_and_of_disjoint (a b e : Nat) (h : e &&& b = 0) : (a ||| b) &&& e = a &&& e := by
  apply Nat.eq_of_testBit_eq
  intro i
  have hi := congrArg (fun n => n.testBit i) h
  simp only [Nat.testBit_land, Nat.zero_testBit] at hi
  rw [Nat.testBit_land, Nat.testBit_lor, Nat.testBit_land]
  cases he : e.testBit i <;> cases hb : b.testBit i <;> simp_all

/-- The delete mask of the GPS entries of the legacy request, under distinct
non-empty ephemeris and almanac constants: it contains the ephemeris constant
exactly when ephemeris was requested, and likewise for the almanac. -/
theorem legacy_entry_mask (E A : Nat) (eph alm : Bool) (hE : E ≠ 0) (hA : A ≠ 0)
    (hEA : E &&& A = 0) :
    ((orIf alm A (orIf eph E 0)) &&& E = E ↔ eph = true) ∧
    ((orIf alm A (orIf eph E 0)) &&& A = A ↔ alm = true) := by
  have hAE : A &&& E = 0 := by rw [Nat.land_comm]; exact hEA
  cases eph <;> cases alm <;> simp only [orIf, if_true, if_false, Bool.false_eq_true]
  · simp [hE.symm, hA.symm]
  · rw [Nat.zero_or, Nat.and_self, hAE]
    simp [hE.symm]
  · rw [Nat.zero_or, Nat.and_self, hEA]
    simp [hA.symm]
  · rw [or_and_self_right, or_and_of_disjoint _ _ _ hEA, Nat.zero_or, Nat.and_self]
    simp

/-- C19: in the legacy delete request built for a call that is not delete-all,
with distinct non-empty protocol constants for ephemeris and almanac: if
`svTypeMask` has the GPS bit and `svMask` has the ephemeris or the almanac bit,
the satellite list is valid and has exactly `SV_ID_RANGE = 32` entries, entry
`i` (from 0) has `gnssSvId = i + 1` and system GPS, and its delete mask contains
the ephemeris constant iff ephemeris was requested and the almanac constant iff
the almanac was requested; otherwise the list is marked invalid, with length 0
and no entry. -/
theorem C19_delete_req_gps_list (d : DeleteConsts) (data : GnssAidingData)
    (hall : data.deleteAll = false)
    (hE : d.QMI_LOC_MASK_DELETE_EPHEMERIS_V02 ≠ 0)
    (hA : d.QMI_LOC_MASK_DELETE_ALMANAC_V02 ≠ 0)
    (hEA : d.QMI_LOC_MASK_DELETE_EPHEMERIS_V02 &&& d.QMI_LOC_MASK_DELETE_ALMANAC_V02 = 0) :
    ((hasBit d.GNSS_AIDING_DATA_SV_TYPE_GPS_BIT data.sv.svTypeMask = true ∧
        (hasBit d.GNSS_AIDING_DATA_SV_EPHEMERIS_BIT data.sv.svMask = true ∨
         hasBit d.GNSS_AIDING_DATA_SV_ALMANAC_BIT data.sv.svMask = true)) →
      (deleteAidingData.delete_req d data).deleteSvInfoList_valid = true ∧
      (deleteAidingData.delete_req d data).deleteSvInfoList_len = 32 ∧
      (deleteAidingData.delete_req d data).deleteSvInfoList.length = 32 ∧
      ∀ i, i < 32 →
        ∃ e, (deleteAidingData.delete_req d data).deleteSvInfoList[i]? = some e ∧
          e.gnssSvId = i + 1 ∧
          e.system = .eQMI_LOC_SV_SYSTEM_GPS_V02 ∧
          (e.deleteSvInfoMask &&& d.QMI_LOC_MASK_DELETE_EPHEMERIS_V02 =
              d.QMI_LOC_MASK_DELETE_EPHEMERIS_V02 ↔
            hasBit d.GNSS_AIDING_DATA_SV_EPHEMERIS_BIT data.sv.svMask = true) ∧
          (e.deleteSvInfoMask &&& d.QMI_LOC_MASK_DELETE_ALMANAC_V02 =
              d.QMI_LOC_MASK_DELETE_ALMANAC_V02 ↔
            hasBit d.GNSS_AIDING_DATA_SV_ALMANAC_BIT data.sv.svMask = true)) ∧
    (¬ (hasBit d.GNSS_AIDING_DATA_SV_TYPE_GPS_BIT data.sv.svTypeMask = true ∧
        (hasBit d.GNSS_AIDING_DATA_SV_EPHEMERIS_BIT data.sv.svMask = true ∨
         hasBit d.GNSS_AIDING_DATA_SV_ALMANAC_BIT data.sv.svMask = true)) →
      (deleteAidingData.delete_req d data).deleteSvInfoList_valid = false ∧
      (deleteAidingData.delete_req d data).deleteSvInfoList_len = 0 ∧
      (deleteAidingData.delete_req d data).deleteSvInfoList = []) := by
  constructor
  · rintro ⟨hgps, hsv⟩
    have hlist : ((hasBit d.GNSS_AIDING_DATA_SV_EPHEMERIS_BIT data.sv.svMask ||
        hasBit d.GNSS_AIDING_DATA_SV_ALMANAC_BIT data.sv.svMask) &&
        hasBit d.GNSS_AIDING_DATA_SV_TYPE_GPS_BIT data.sv.svTypeMask) = true := by
      rcases hsv with h | h <;> simp [h, hgps]
    simp only [deleteAidingData.delete_req, hall, Bool.false_eq_true, if_false, hlist, if_true]
    refine ⟨trivial, rfl, by simp [SV_ID_RANGE], ?_⟩
    intro i hi
    refine ⟨{ gnssSvId := GPS_SV_ID_OFFSET + i
              system := .eQMI_LOC_SV_SYSTEM_GPS_V02
              deleteSvInfoMask :=
                orIf (hasBit d.GNSS_AIDING_DATA_SV_ALMANAC_BIT data.sv.svMask)
                  d.QMI_LOC_MASK_DELETE_ALMANAC_V02
                  (orIf (hasBit d.GNSS_AIDING_DATA_SV_EPHEMERIS_BIT data.sv.svMask)
                    d.QMI_LOC_MASK_DELETE_EPHEMERIS_V02 0) }, ?_, ?_, rfl, ?_⟩
    · simp [SV_ID_RANGE, hi]
    · simp [GPS_SV_ID_OFFSET, Nat.add_comm]
    · exact legacy_entry_mask _ _ _ _ hE hA hEA
  · intro hn
    have hlist : ((hasBit d.GNSS_AIDING_DATA_SV_EPHEMERIS_BIT data.sv.svMask ||
        hasBit d.GNSS_AIDING_DATA_SV_ALMANAC_BIT data.sv.svMask) &&
        hasBit d.GNSS_AIDING_DATA_SV_TYPE_GPS_BIT data.sv.svTypeMask) = false := by
      rw [Bool.eq_false_iff]
      intro h
      apply hn
      simp only [Bool.and_eq_true, Bool.or_eq_true] at h
      exact ⟨h.2, h.1⟩
    simp [deleteAidingData.delete_req, hall, hlist]

/-- C19, evaluated on a request for the GPS ephemeris: 32 entries, the last of
which is satellite 32 of GPS with the ephemeris constant and without the
almanac constant. -/
theorem C19_delete_req_gps_list_witness :
    GnssAidingData.gpsEphemerisAndPosition.deleteAll = false ∧
    headerDelete.QMI_LOC_MASK_DELETE_EPHEMERIS_V02 ≠ 0 ∧
    headerDelete.QMI_LOC_MASK_DELETE_ALMANAC_V02 ≠ 0 ∧
    headerDelete.QMI_LOC_MASK_DELETE_EPHEMERIS_V02 &&&
      headerDelete.QMI_LOC_MASK_DELETE_ALMANAC_V02 = 0 ∧
    (deleteAidingData.delete_req headerDelete
      GnssAidingData.gpsEphemerisAndPosition).deleteSvInfoList.length = 32 ∧
    ∃ e, (deleteAidingData.delete_req headerDelete
        GnssAidingData.gpsEphemerisAndPosition).deleteSvInfoList[31]? = some e ∧
      e.gnssSvId = 31 + 1 ∧
      e.system = .eQMI_LOC_SV_SYSTEM_GPS_V02 ∧
      (e.deleteSvInfoMask &&& headerDelete.QMI_LOC_MASK_DELETE_EPHEMERIS_V02 =
          headerDelete.QMI_LOC_MASK_DELETE_EPHEMERIS_V02 ↔
        hasBit headerDelete.GNSS_AIDING_DATA_SV_EPHEMERIS_BIT
          GnssAidingData.gpsEphemerisAndPosition.sv.svMask = true) ∧
      (e.deleteSvInfoMask &&& headerDelete.QMI_LOC_MASK_DELETE_ALMANAC_V02 =
          headerDelete.QMI_LOC_MASK_DELETE_ALMANAC_V02 ↔
        hasBit headerDelete.GNSS_AIDING_DATA_SV_ALMANAC_BIT
          GnssAidingData.gpsEphemerisAndPosition.sv.svMask = true) :=
  have h := (C19_delete_req_gps_list headerDelete GnssAidingData.gpsEphemerisAndPosition rfl
    (by decide) (by decide) (by decide)).1 ⟨by decide, Or.inl (by decide)⟩
  ⟨rfl, by decide, by decide, by decide, h.2.2.1, h.2.2.2 31 (by decide)⟩

/-- C18 (the code at the failing input): the bulk delete request of a
delete-all call times out.  `deleteAidingData` sends the bulk request only, and
returns `LOCATION_ERROR_SUCCESS`. -/
theorem C18_deleteAidingData_success_after_bulk_timeout :
    syncStatuses (deleteAidingData Env.bulkTimeout headerMasks headerMisc headerDelete
        State.opened GnssAidingData.all).2.trace = [.eLOC_CLIENT_FAILURE_TIMEOUT] ∧
    sentRequests (deleteAidingData Env.bulkTimeout headerMasks headerMisc headerDelete
        State.opened GnssAidingData.all).2.trace =
      [deleteAidingData.bulkRequest headerMisc headerDelete GnssAidingData.all] ∧
    (deleteAidingData Env.bulkTimeout headerMasks headerMisc headerDelete
        State.opened GnssAidingData.all).1 = .LOCATION_ERROR_SUCCESS := by
  refine ⟨by decide, by decide, by decide⟩

/-! ### Satellite report -/

theorem reportSv.accepted_zero (c : SvConsts) :
    reportSv.accepted c qmiLocSvInfoStructT_v02.zero = false := by
  simp [reportSv.accepted, qmiLocSvInfoStructT_v02.zero, hasBit]

/-- Every entry that the loop of `reportSv` adds is the conversion of an
accepted entry of the input list. -/
theorem reportSv.loop_mem (c : SvConsts) (svList : List qmiLocSvInfoStructT_v02) :
    ∀ (idxs : List Nat) (SvNotify : GnssSvNotification),
      (∀ g ∈ SvNotify.gnssSvs, ∃ sv ∈ svList, g = reportSv.convert c sv) →
      ∀ g ∈ (reportSv.loop c svList idxs SvNotify).gnssSvs,
        ∃ sv ∈ svList, g = reportSv.convert c sv := by
  intro idxs
  induction idxs with
  | nil => intro SvNotify h; exact h
  | cons i rest ih =>
    intro SvNotify h
    rw [reportSv.loop]
    by_cases hacc : reportSv.accepted c (svList.getD i qmiLocSvInfoStructT_v02.zero) = true
    · simp only [hacc, if_true]
      apply ih
      intro g hg
      simp only [List.mem_append, List.mem_singleton] at hg
      rcases hg with hg | hg
      · exact h g hg
      · refine ⟨svList.getD i qmiLocSvInfoStructT_v02.zero, ?_, hg⟩
        by_cases hi : i < svList.length
        · rw [List.getD_eq_getElem _ _ hi]
          exact List.getElem_mem _
        · rw [List.getD_eq_default _ _ (Nat.le_of_not_lt hi), reportSv.accepted_zero] at hacc
          exact absurd hacc (by decide)
    · simp only [hacc, Bool.false_eq_true, if_false]
      exact ih SvNotify h

/-- The id that `reportSv` stores for an entry whose constellation switch
assigns `rawId - offset`. -/
theorem reportSv.svId_offset (raw : Nat) (offset : Int) :
    (0 ≤ toUInt16 ((raw : Int) - offset) ∧ toUInt16 ((raw : Int) - offset) < 2 ^ 16) ∧
    (toUInt16 ((raw : Int) - offset) - ((raw : Int) - offset)) % 2 ^ 16 = 0 ∧
    (offset ≤ (raw : Int) → (raw : Int) - offset < 2 ^ 16 →
      toUInt16 ((raw : Int) - offset) = (raw : Int) - offset) ∧
    ((raw : Int) < offset → -2 ^ 16 ≤ (raw : Int) - offset →
      toUInt16 ((raw : Int) - offset) = (raw : Int) - offset + 2 ^ 16) :=
  ⟨toUInt16_range _, toUInt16_congr _,
    fun h1 h2 => toUInt16_of_range _ (by omega) h2,
    fun h1 h2 => toUInt16_of_neg _ h2 (by omega)⟩

/-- C20 (as stated, refuted): a Galileo entry with raw id 100 and both
validity bits is accepted by `reportSv`; `rawId - 300` is -200 and the
`uint16_t` field `svId` of the reported satellite holds 65336. -/
theorem C20_reportSv_id_below_offset_counterexample :
    reportSv.accepted headerSv qmiLocSvInfoStructT_v02.galileo100 = true ∧
    (qmiLocSvInfoStructT_v02.galileo100.gnssSvId : Int) - 300 = -200 ∧
    (reportSv.convert headerSv qmiLocSvInfoStructT_v02.galileo100).svId = 65336 ∧
    (reportSv.convert headerSv qmiLocSvInfoStructT_v02.galileo100).type =
      .GNSS_SV_TYPE_GALILEO ∧
    (reportSv headerSv
      { svList_valid := 1, svList_len := 1
        svList := [qmiLocSvInfoStructT_v02.galileo100] }).gnssSvs.map
        (fun g => (g.svId, g.type)) = [(65336, .GNSS_SV_TYPE_GALILEO)] := by
  decide

/-- C20 (amended): in `reportSv` the entry written for a satellite has type
Galileo, BeiDou or QZSS for these constellations and an id in the range of
`uint16_t` that differs by a multiple of 2^16 from `rawId - 300`, `rawId - 200`
and `rawId - 192`: it is that difference when the raw id is at least the offset
and the difference plus 65536 when the raw id is below the offset.  GPS, SBAS
and GLONASS keep the raw id with their own type, and every other system (COMPASS
or an unnamed one) is reported with type UNKNOWN and the raw id.  Every
satellite of the report is such an entry, written for a satellite of the input
list. -/
theorem C20_reportSv_normalized_id (c : SvConsts) (sv : qmiLocSvInfoStructT_v02)
    (gnss_report_ptr : qmiLocEventGnssSvInfoIndMsgT_v02) :
    (0 ≤ (reportSv.convert c sv).svId ∧ (reportSv.convert c sv).svId < 2 ^ 16) ∧
    (sv.system = .eQMI_LOC_SV_SYSTEM_GALILEO_V02 →
      (reportSv.convert c sv).type = .GNSS_SV_TYPE_GALILEO ∧
      ((reportSv.convert c sv).svId - ((sv.gnssSvId : Int) - 300)) % 2 ^ 16 = 0 ∧
      (300 ≤ sv.gnssSvId → sv.gnssSvId < 2 ^ 16 →
        (reportSv.convert c sv).svId = (sv.gnssSvId : Int) - 300) ∧
      (sv.gnssSvId < 300 →
        (reportSv.convert c sv).svId = (sv.gnssSvId : Int) - 300 + 2 ^ 16)) ∧
    (sv.system = .eQMI_LOC_SV_SYSTEM_BDS_V02 →
      (reportSv.convert c sv).type = .GNSS_SV_TYPE_BEIDOU ∧
      ((reportSv.convert c sv).svId - ((sv.gnssSvId : Int) - 200)) % 2 ^ 16 = 0 ∧
      (200 ≤ sv.gnssSvId → sv.gnssSvId < 2 ^ 16 →
        (reportSv.convert c sv).svId = (sv.gnssSvId : Int) - 200) ∧
      (sv.gnssSvId < 200 →
        (reportSv.convert c sv).svId = (sv.gnssSvId : Int) - 200 + 2 ^ 16)) ∧
    (sv.system = .eQMI_LOC_SV_SYSTEM_QZSS_V02 →
      (reportSv.convert c sv).type = .GNSS_SV_TYPE_QZSS ∧
      ((reportSv.convert c sv).svId - ((sv.gnssSvId : Int) - 192)) % 2 ^ 16 = 0 ∧
      (192 ≤ sv.gnssSvId → sv.gnssSvId < 2 ^ 16 →
        (reportSv.convert c sv).svId = (sv.gnssSvId : Int) - 192) ∧
      (sv.gnssSvId < 192 →
        (reportSv.convert c sv).svId = (sv.gnssSvId : Int) - 192 + 2 ^ 16)) ∧
    (sv.system = .eQMI_LOC_SV_SYSTEM_GPS_V02 →
      (reportSv.convert c sv).type = .GNSS_SV_TYPE_GPS ∧
      (sv.gnssSvId < 2 ^ 16 → (reportSv.convert c sv).svId = (sv.gnssSvId : Int))) ∧
    (sv.system = .eQMI_LOC_SV_SYSTEM_SBAS_V02 →
      (reportSv.convert c sv).type = .GNSS_SV_TYPE_SBAS ∧
      (sv.gnssSvId < 2 ^ 16 → (reportSv.convert c sv).svId = (sv.gnssSvId : Int))) ∧
    (sv.system = .eQMI_LOC_SV_SYSTEM_GLONASS_V02 →
      (reportSv.convert c sv).type = .GNSS_SV_TYPE_GLONASS ∧
      (sv.gnssSvId < 2 ^ 16 → (reportSv.convert c sv).svId = (sv.gnssSvId : Int))) ∧
    ((sv.system = .eQMI_LOC_SV_SYSTEM_COMPASS_V02 ∨ ∃ v, sv.system = .other v) →
      (reportSv.convert c sv).type = .GNSS_SV_TYPE_UNKNOWN ∧
      (sv.gnssSvId < 2 ^ 16 → (reportSv.convert c sv).svId = (sv.gnssSvId : Int))) ∧
    (∀ g ∈ (reportSv c gnss_report_ptr).gnssSvs,
      ∃ sv0 ∈ gnss_report_ptr.svList, g = reportSv.convert c sv0) := by
  have hraw : sv.gnssSvId < 2 ^ 16 → toUInt16 (sv.gnssSvId : Int) = (sv.gnssSvId : Int) :=
    fun h => toUInt16_of_range _ (by omega) (by omega)
  refine ⟨?_, ?_, ?_, ?_, ?_, ?_, ?_, ?_, ?_⟩
  · simp only [reportSv.convert, reportSv.constellation]
    split <;> exact toUInt16_range _
  · intro h
    have := reportSv.svId_offset sv.gnssSvId 300
    simp only [reportSv.convert, reportSv.constellation, h]
    exact ⟨trivial, this.2.1, fun h1 h2 => this.2.2.1 (by omega) (by omega),
      fun h1 => this.2.2.2 (by omega) (by omega)⟩
  · intro h
    have := reportSv.svId_offset sv.gnssSvId 200
    simp only [reportSv.convert, reportSv.constellation, h]
    exact ⟨trivial, this.2.1, fun h1 h2 => this.2.2.1 (by omega) (by omega),
      fun h1 => this.2.2.2 (by omega) (by omega)⟩
  · intro h
    have := reportSv.svId_offset sv.gnssSvId 192
    simp only [reportSv.convert, reportSv.constellation, h]
    exact ⟨trivial, this.2.1, fun h1 h2 => this.2.2.1 (by omega) (by omega),
      fun h1 => this.2.2.2 (by omega) (by omega)⟩
  · intro h
    simp only [reportSv.convert, reportSv.constellation, h]
    exact ⟨trivial, hraw⟩
  · intro h
    simp only [reportSv.convert, reportSv.constellation, h]
    exact ⟨trivial, hraw⟩
  · intro h
    simp only [reportSv.convert, reportSv.constellation, h]
    exact ⟨trivial, hraw⟩
  · rintro (h | ⟨v, h⟩) <;> simp only [reportSv.convert, reportSv.constellation, h] <;>
      exact ⟨trivial, hraw⟩
  · unfold reportSv
    split_ifs
    · exact reportSv.loop_mem c _ _ _ (by simp)
    · simp

/-- C20 (amended), evaluated: Galileo 301 becomes satellite 1 of Galileo with
the carrier frequency 1575420032 Hz of the table, and QZSS 193 becomes
satellite 1 of QZSS; the sample report holds exactly these two. -/
theorem C20_reportSv_normalized_id_witness :
    (reportSv.convert headerSv qmiLocSvInfoStructT_v02.galileo301).svId =
      (qmiLocSvInfoStructT_v02.galileo301.gnssSvId : Int) - 300 ∧
    (reportSv.convert headerSv qmiLocSvInfoStructT_v02.qzss193).svId =
      (qmiLocSvInfoStructT_v02.qzss193.gnssSvId : Int) - 192 ∧
    (reportSv.convert headerSv qmiLocSvInfoStructT_v02.galileo301).carrierFrequencyHz =
      1575420032 ∧
    (reportSv headerSv qmiLocEventGnssSvInfoIndMsgT_v02.sample).count = 2 ∧
    (reportSv headerSv qmiLocEventGnssSvInfoIndMsgT_v02.sample).gnssSvs.map
        (fun g => (g.svId, g.type)) =
      [(1, .GNSS_SV_TYPE_GALILEO), (1, .GNSS_SV_TYPE_QZSS)] :=
  ⟨((C20_reportSv_normalized_id headerSv qmiLocSvInfoStructT_v02.galileo301
      qmiLocEventGnssSvInfoIndMsgT_v02.sample).2.1 rfl).2.2.1 (by decide) (by decide),
    ((C20_reportSv_normalized_id headerSv qmiLocSvInfoStructT_v02.qzss193
      qmiLocEventGnssSvInfoIndMsgT_v02.sample).2.2.2.1 rfl).2.2.1 (by decide) (by decide),
    by decide, by decide, by decide⟩

/-! ### Part count 65535 -/

/-- C17 (the code at the failing input): a blob of 67107840 bytes is 65535
parts of 1024 bytes, a part count that fits in 16 bits.  Whatever the transport
answers, also when it acknowledges every part, `setXtraData` never returns: the
`uint16_t` part counter wraps from 65535 to 0 and the loop condition
`part <= total_parts` cannot fail. -/
theorem C17_setXtraData_never_returns_at_65535_parts :
    setXtraData.total_parts headerMisc 67107840 = 65535 ∧
    ∀ (env : Env) (fuel : Nat) (s : State) (data : List Nat),
      setXtraData env headerMasks headerMisc fuel s data 67107840 = none := by
  have h : setXtraData.total_parts headerMisc 67107840 = 65535 := by decide
  refine ⟨h, ?_⟩
  intro env fuel s data
  unfold setXtraData
  rw [h, setXtraData.loop_diverges env headerMasks headerMisc data 67107840 fuel 1 0
    .eLOC_CLIENT_SUCCESS s (by decide)]
  rfl

/-! ### Part counts below 65535 -/

theorem locSyncSendReq_sentParts (env : Env) (k : MaskConsts) (s : State) (req_id : MsgId)
    (req : qmiLocInjectPredictedOrbitsDataReqMsgT_v02) (timeout_msec : Nat) (ind_id : MsgId)
    (ind_payload_ptr : Option Ind) :
    sentParts
        (locSyncSendReq env k s req_id (some (.pInjectPredictedOrbitsDataReq req)) timeout_msec
          ind_id ind_payload_ptr).state.trace =
      sentParts s.trace ++ [req] := by
  unfold locSyncSendReq
  simp only
  split_ifs <;> (try split) <;> simp [State.log, sentParts]

/-- The loop of `setXtraData` on a transport that acknowledges every part, for
a part count below 65535: started at `part` with `len_injected` at the start of
that part, it ends with client status success for the last part and has sent
the parts `part, ..., total_parts`, part `i` filled from offset
`(i - 1) * QMI_LOC_MAX_PREDICTED_ORBITS_PART_LEN_V02`. -/
theorem setXtraData.loop_acknowledged (env : Env) (k : MaskConsts) (m : MiscConsts)
    (data : List Nat) (length : Int) (tp : Nat) (htp : tp < 65535)
    (hack : ∀ trace handle req,
      (env.loc_sync_send_req trace handle .QMI_LOC_INJECT_PREDICTED_ORBITS_DATA_REQ_V02
        (some (.pInjectPredictedOrbitsDataReq req)) m.LOC_ENGINE_SYNC_REQUEST_TIMEOUT
        .QMI_LOC_INJECT_PREDICTED_ORBITS_DATA_IND_V02 (some Ind.zero)).1 =
          .eLOC_CLIENT_SUCCESS ∧
      (env.loc_sync_send_req trace handle .QMI_LOC_INJECT_PREDICTED_ORBITS_DATA_REQ_V02
        (some (.pInjectPredictedOrbitsDataReq req)) m.LOC_ENGINE_SYNC_REQUEST_TIMEOUT
        .QMI_LOC_INJECT_PREDICTED_ORBITS_DATA_IND_V02 (some Ind.zero)).2.status =
          .eQMI_LOC_SUCCESS_V02 ∧
      (env.loc_sync_send_req trace handle .QMI_LOC_INJECT_PREDICTED_ORBITS_DATA_REQ_V02
        (some (.pInjectPredictedOrbitsDataReq req)) m.LOC_ENGINE_SYNC_REQUEST_TIMEOUT
        .QMI_LOC_INJECT_PREDICTED_ORBITS_DATA_IND_V02 (some Ind.zero)).2.partNum = req.partNum)
    (hlen : ∀ part, 1 ≤ part → part < tp →
      ((part - 1) * m.QMI_LOC_MAX_PREDICTED_ORBITS_PART_LEN_V02 +
        setXtraData.partData_len m length
          ((part - 1) * m.QMI_LOC_MAX_PREDICTED_ORBITS_PART_LEN_V02)) % 2 ^ 32 =
        part * m.QMI_LOC_MAX_PREDICTED_ORBITS_PART_LEN_V02) :
    ∀ (fuel part len_injected : Nat) (status : locClientStatusEnumType) (s : State),
      1 ≤ part → part ≤ tp + 1 → tp + 1 - part < fuel →
      (part ≤ tp → len_injected = (part - 1) * m.QMI_LOC_MAX_PREDICTED_ORBITS_PART_LEN_V02) →
      ∃ st s1,
        setXtraData.loop env k m data length tp fuel part len_injected status s = some (st, s1) ∧
        (part ≤ tp → st = .eLOC_CLIENT_SUCCESS) ∧
        sentParts s1.trace = sentParts s.trace ++
          (List.range' part (tp + 1 - part)).map (fun i =>
            setXtraData.inject_xtra m data length tp i
              ((i - 1) * m.QMI_LOC_MAX_PREDICTED_ORBITS_PART_LEN_V02)) := by
  intro fuel
  induction fuel with
  | zero => intro part len_injected status s _ _ h; omega
  | succ n ih =>
    intro part len_injected status s h1 hpart hfuel hinv
    rw [setXtraData.loop]
    by_cases hle : part ≤ tp
    · have hmod : (part + 1) % 2 ^ 16 = part + 1 := Nat.mod_eq_of_lt (by omega)
      have hrange : List.range' part (tp + 1 - part) =
          part :: List.range' (part + 1) (tp + 1 - (part + 1)) := by
        have : tp + 1 - part = (tp + 1 - (part + 1)) + 1 := by omega
        rw [this, List.range'_succ]
      have hl := hinv hle
      subst hl
      obtain ⟨a1, a2, a3⟩ := hack s.trace s.clientHandle
        (setXtraData.inject_xtra m data length tp part
          ((part - 1) * m.QMI_LOC_MAX_PREDICTED_ORBITS_PART_LEN_V02))
      have hst := locSyncSendReq_status env k s .QMI_LOC_INJECT_PREDICTED_ORBITS_DATA_REQ_V02
        (some (.pInjectPredictedOrbitsDataReq (setXtraData.inject_xtra m data length tp part
          ((part - 1) * m.QMI_LOC_MAX_PREDICTED_ORBITS_PART_LEN_V02))))
        m.LOC_ENGINE_SYNC_REQUEST_TIMEOUT .QMI_LOC_INJECT_PREDICTED_ORBITS_DATA_IND_V02
        (some Ind.zero)
      have hind := locSyncSendReq_ind env k s .QMI_LOC_INJECT_PREDICTED_ORBITS_DATA_REQ_V02
        (some (.pInjectPredictedOrbitsDataReq (setXtraData.inject_xtra m data length tp part
          ((part - 1) * m.QMI_LOC_MAX_PREDICTED_ORBITS_PART_LEN_V02))))
        m.LOC_ENGINE_SYNC_REQUEST_TIMEOUT .QMI_LOC_INJECT_PREDICTED_ORBITS_DATA_IND_V02
        (some Ind.zero)
      rw [a1] at hst
      simp only [Option.map_some'] at hind
      have hcond : ¬ ((locSyncSendReq env k s .QMI_LOC_INJECT_PREDICTED_ORBITS_DATA_REQ_V02
          (some (.pInjectPredictedOrbitsDataReq (setXtraData.inject_xtra m data length tp part
            ((part - 1) * m.QMI_LOC_MAX_PREDICTED_ORBITS_PART_LEN_V02))))
          m.LOC_ENGINE_SYNC_REQUEST_TIMEOUT .QMI_LOC_INJECT_PREDICTED_ORBITS_DATA_IND_V02
          (some Ind.zero)).status ≠ .eLOC_CLIENT_SUCCESS ∨
        ((locSyncSendReq env k s .QMI_LOC_INJECT_PREDICTED_ORBITS_DATA_REQ_V02
          (some (.pInjectPredictedOrbitsDataReq (setXtraData.inject_xtra m data length tp part
            ((part - 1) * m.QMI_LOC_MAX_PREDICTED_ORBITS_PART_LEN_V02))))
          m.LOC_ENGINE_SYNC_REQUEST_TIMEOUT .QMI_LOC_INJECT_PREDICTED_ORBITS_DATA_IND_V02
          (some Ind.zero)).ind.getD Ind.zero).status ≠ .eQMI_LOC_SUCCESS_V02 ∨
        (setXtraData.inject_xtra m data length tp part
            ((part - 1) * m.QMI_LOC_MAX_PREDICTED_ORBITS_PART_LEN_V02)).partNum ≠
          ((locSyncSendReq env k s .QMI_LOC_INJECT_PREDICTED_ORBITS_DATA_REQ_V02
          (some (.pInjectPredictedOrbitsDataReq (setXtraData.inject_xtra m data length tp part
            ((part - 1) * m.QMI_LOC_MAX_PREDICTED_ORBITS_PART_LEN_V02))))
          m.LOC_ENGINE_SYNC_REQUEST_TIMEOUT .QMI_LOC_INJECT_PREDICTED_ORBITS_DATA_IND_V02
          (some Ind.zero)).ind.getD Ind.zero).partNum) := by
        rw [hst, hind]
        simp [a2, a3]
      simp only [hle, if_true, hmod, hcond, if_false]
      obtain ⟨st, s1, e1, e2, e3⟩ := ih (part + 1)
        (((part - 1) * m.QMI_LOC_MAX_PREDICTED_ORBITS_PART_LEN_V02 +
          (setXtraData.inject_xtra m data length tp part
            ((part - 1) * m.QMI_LOC_MAX_PREDICTED_ORBITS_PART_LEN_V02)).partData_len) % 2 ^ 32)
        (locSyncSendReq env k s .QMI_LOC_INJECT_PREDICTED_ORBITS_DATA_REQ_V02
          (some (.pInjectPredictedOrbitsDataReq (setXtraData.inject_xtra m data length tp part
            ((part - 1) * m.QMI_LOC_MAX_PREDICTED_ORBITS_PART_LEN_V02))))
          m.LOC_ENGINE_SYNC_REQUEST_TIMEOUT .QMI_LOC_INJECT_PREDICTED_ORBITS_DATA_IND_V02
          (some Ind.zero)).status
        (locSyncSendReq env k s .QMI_LOC_INJECT_PREDICTED_ORBITS_DATA_REQ_V02
          (some (.pInjectPredictedOrbitsDataReq (setXtraData.inject_xtra m data length tp part
            ((part - 1) * m.QMI_LOC_MAX_PREDICTED_ORBITS_PART_LEN_V02))))
          m.LOC_ENGINE_SYNC_REQUEST_TIMEOUT .QMI_LOC_INJECT_PREDICTED_ORBITS_DATA_IND_V02
          (some Ind.zero)).state
        (by omega) (by omega) (by omega)
        (by
          intro hlt
          have := hlen part h1 (by omega)
          simpa [setXtraData.inject_xtra] using this)
      refine ⟨st, s1, e1, ?_, ?_⟩
      · intro _
        by_cases hn : part + 1 ≤ tp
        · exact e2 hn
        · have hz : tp + 1 - (part + 1) = 0 := by omega
          cases n with
          | zero => omega
          | succ n' =>
            rw [setXtraData.loop] at e1
            simp only [hn, if_false, Option.some.injEq, Prod.mk.injEq] at e1
            rw [← e1.1, hst]
      · rw [e3, locSyncSendReq_sentParts, hrange, List.append_assoc]
        rfl
    · have hp : tp + 1 - part = 0 := by omega
      simp only [hle, if_false]
      exact ⟨status, s, rfl, fun h => h.elim, by simp [hp]⟩


theorem chunks_flatten (PL : Nat) (data : List Nat) :
    ∀ n, ((List.range n).map (fun i => (data.drop (i * PL)).take PL)).flatten =
      data.take (n * PL) := by
  intro n
  induction n with
  | zero => simp
  | succ n ih =>
    rw [List.range_succ, List.map_append, List.flatten_append, ih, Nat.succ_mul, List.take_add]
    simp

theorem setXtraData.total_parts_eq (m : MiscConsts) (L : Nat) (hL1 : 1 ≤ L)
    (hN : (L - 1) / m.QMI_LOC_MAX_PREDICTED_ORBITS_PART_LEN_V02 + 1 < 65535) :
    setXtraData.total_parts m (L : Int) =
      (L - 1) / m.QMI_LOC_MAX_PREDICTED_ORBITS_PART_LEN_V02 + 1 := by
  unfold setXtraData.total_parts
  have h1 : (L : Int) - 1 = ((L - 1 : Nat) : Int) := by omega
  have h2 : Int.tdiv ((L : Int) - 1) (m.QMI_LOC_MAX_PREDICTED_ORBITS_PART_LEN_V02 : Int) =
      (((L - 1) / m.QMI_LOC_MAX_PREDICTED_ORBITS_PART_LEN_V02 : Nat) : Int) := by
    rw [h1]
    exact (Int.ofNat_tdiv _ _).symm
  rw [h2]
  generalize (L - 1) / m.QMI_LOC_MAX_PREDICTED_ORBITS_PART_LEN_V02 = q at hN ⊢
  omega

theorem setXtraData.partData_len_eq (m : MiscConsts) (L off : Nat) (hoff : off ≤ L) (hL : L < 2 ^ 31)
    (hPL : m.QMI_LOC_MAX_PREDICTED_ORBITS_PART_LEN_V02 < 2 ^ 32) :
    setXtraData.partData_len m (L : Int) off =
      min m.QMI_LOC_MAX_PREDICTED_ORBITS_PART_LEN_V02 (L - off) := by
  unfold setXtraData.partData_len
  rw [Nat.mod_eq_of_lt hPL]
  generalize m.QMI_LOC_MAX_PREDICTED_ORBITS_PART_LEN_V02 = P at hPL ⊢
  split_ifs with h <;> omega


theorem take_min_length (l : List Nat) (n : Nat) : l.take (min n l.length) = l.take n := by
  rcases Nat.le_total n l.length with h | h
  · rw [Nat.min_eq_left h]
  · rw [Nat.min_eq_right h, List.take_length, List.take_of_length_le h]

/-- On a transport that acknowledges every part, for a blob of `L >= 1` bytes
whose part count `N = (L - 1) / PART_LEN + 1` is below 65535, `setXtraData`
returns success after sending exactly the parts 1, ..., `N` in order, each
declaring `totalParts = N` and `totalSize = L`; part `i + 1` carries the bytes
from offset `i * PART_LEN`, every part but the last has the maximum length, and
the payloads concatenated in order are the blob. -/
theorem setXtraData_acknowledged_chunks (env : Env) (k : MaskConsts) (m : MiscConsts)
    (data : List Nat) (fuel : Nat) (s : State)
    (hPL : 0 < m.QMI_LOC_MAX_PREDICTED_ORBITS_PART_LEN_V02)
    (hPL32 : m.QMI_LOC_MAX_PREDICTED_ORBITS_PART_LEN_V02 < 2 ^ 32)
    (hL1 : 1 ≤ data.length) (hL : data.length < 2 ^ 31)
    (hN : (data.length - 1) / m.QMI_LOC_MAX_PREDICTED_ORBITS_PART_LEN_V02 + 1 < 65535)
    (hfuel : (data.length - 1) / m.QMI_LOC_MAX_PREDICTED_ORBITS_PART_LEN_V02 + 1 < fuel)
    (hack : ∀ trace handle req,
      (env.loc_sync_send_req trace handle .QMI_LOC_INJECT_PREDICTED_ORBITS_DATA_REQ_V02
        (some (.pInjectPredictedOrbitsDataReq req)) m.LOC_ENGINE_SYNC_REQUEST_TIMEOUT
        .QMI_LOC_INJECT_PREDICTED_ORBITS_DATA_IND_V02 (some Ind.zero)).1 =
          .eLOC_CLIENT_SUCCESS ∧
      (env.loc_sync_send_req trace handle .QMI_LOC_INJECT_PREDICTED_ORBITS_DATA_REQ_V02
        (some (.pInjectPredictedOrbitsDataReq req)) m.LOC_ENGINE_SYNC_REQUEST_TIMEOUT
        .QMI_LOC_INJECT_PREDICTED_ORBITS_DATA_IND_V02 (some Ind.zero)).2.status =
          .eQMI_LOC_SUCCESS_V02 ∧
      (env.loc_sync_send_req trace handle .QMI_LOC_INJECT_PREDICTED_ORBITS_DATA_REQ_V02
        (some (.pInjectPredictedOrbitsDataReq req)) m.LOC_ENGINE_SYNC_REQUEST_TIMEOUT
        .QMI_LOC_INJECT_PREDICTED_ORBITS_DATA_IND_V02 (some Ind.zero)).2.partNum =
          req.partNum) :
    ∃ s1,
      setXtraData env k m fuel s data (data.length : Int) =
        some (.LOC_API_ADAPTER_ERR_SUCCESS, s1) ∧
      sentParts s1.trace = sentParts s.trace ++
        (List.range ((data.length - 1) / m.QMI_LOC_MAX_PREDICTED_ORBITS_PART_LEN_V02 + 1)).map
          (fun i =>
            { formatType_valid := true
              formatType := .eQMI_LOC_PREDICTED_ORBITS_XTRA_V02
              totalSize := data.length
              totalParts :=
                (data.length - 1) / m.QMI_LOC_MAX_PREDICTED_ORBITS_PART_LEN_V02 + 1
              partNum := i + 1
              partData_len :=
                ((data.drop (i * m.QMI_LOC_MAX_PREDICTED_ORBITS_PART_LEN_V02)).take
                  m.QMI_LOC_MAX_PREDICTED_ORBITS_PART_LEN_V02).length
              partData :=
                (data.drop (i * m.QMI_LOC_MAX_PREDICTED_ORBITS_PART_LEN_V02)).take
                  m.QMI_LOC_MAX_PREDICTED_ORBITS_PART_LEN_V02 }) ∧
      (∀ i, i + 1 < (data.length - 1) / m.QMI_LOC_MAX_PREDICTED_ORBITS_PART_LEN_V02 + 1 →
        ((data.drop (i * m.QMI_LOC_MAX_PREDICTED_ORBITS_PART_LEN_V02)).take
          m.QMI_LOC_MAX_PREDICTED_ORBITS_PART_LEN_V02).length =
            m.QMI_LOC_MAX_PREDICTED_ORBITS_PART_LEN_V02) ∧
      ((List.range ((data.length - 1) / m.QMI_LOC_MAX_PREDICTED_ORBITS_PART_LEN_V02 + 1)).map
        (fun i => (data.drop (i * m.QMI_LOC_MAX_PREDICTED_ORBITS_PART_LEN_V02)).take
          m.QMI_LOC_MAX_PREDICTED_ORBITS_PART_LEN_V02)).flatten = data := by
  have htp := setXtraData.total_parts_eq m data.length hL1 hN
  generalize hPLdef : m.QMI_LOC_MAX_PREDICTED_ORBITS_PART_LEN_V02 = PL at *
  generalize hLdef : data.length = L at *
  have hq1 : (L - 1) / PL * PL ≤ L - 1 := Nat.div_mul_le_self _ _
  have hq2 : L - 1 < ((L - 1) / PL + 1) * PL := by
    have h1 := Nat.div_add_mod (L - 1) PL
    have h2 := Nat.mod_lt (L - 1) hPL
    rw [Nat.succ_mul, Nat.mul_comm]
    omega
  have hoff : ∀ i, i ≤ (L - 1) / PL → i * PL ≤ L - 1 :=
    fun i hi => Nat.le_trans (Nat.mul_le_mul_right PL hi) hq1
  have hlen : ∀ part, 1 ≤ part → part < (L - 1) / PL + 1 →
      ((part - 1) * PL + setXtraData.partData_len m (L : Int) ((part - 1) * PL)) % 2 ^ 32 =
        part * PL := by
    intro part hp1 hp2
    obtain ⟨p, rfl⟩ : ∃ p, part = p + 1 := ⟨part - 1, by omega⟩
    have h1 := hoff (p + 1) (by omega)
    rw [Nat.succ_mul] at h1
    rw [setXtraData.partData_len_eq m L _ (by simp only [Nat.add_sub_cancel]; omega) hL
      (by rw [hPLdef]; exact hPL32), hPLdef, Nat.add_sub_cancel, Nat.succ_mul]
    rw [Nat.min_eq_left (by omega)]
    exact Nat.mod_eq_of_lt (by omega)
  obtain ⟨st, s1, e1, e2, e3⟩ := setXtraData.loop_acknowledged env k m data (L : Int)
    ((L - 1) / PL + 1) hN hack (by rw [hPLdef]; exact hlen) fuel 1 0 .eLOC_CLIENT_SUCCESS s
    (Nat.le_refl 1) (by omega) (by omega) (by intro _; simp)
  have hst : st = .eLOC_CLIENT_SUCCESS := e2 (Nat.le_add_left 1 _)
  subst hst
  refine ⟨s1, ?_, ?_, ?_, ?_⟩
  · unfold setXtraData
    rw [htp, e1]
    rfl
  · rw [e3, Nat.add_sub_cancel, List.range'_eq_map_range, List.map_map]
    congr 1
    apply List.map_congr_left
    intro i hi
    have hi' : i < (L - 1) / PL + 1 := List.mem_range.mp hi
    have h1 := hoff i (by omega)
    have hlenDrop : (data.drop (i * PL)).length = L - i * PL := by
      rw [List.length_drop, hLdef]
    simp only [Function.comp, setXtraData.inject_xtra, hPLdef, Nat.add_sub_cancel_left]
    rw [setXtraData.partData_len_eq m L _ (by omega) hL (by rw [hPLdef]; exact hPL32), hPLdef,
      ← hlenDrop, take_min_length, List.length_take]
    congr 1 <;> omega
  · intro i hi
    have h1 := hoff (i + 1) (by omega)
    rw [Nat.succ_mul] at h1
    rw [List.length_take, List.length_drop, hLdef]
    omega
  · rw [chunks_flatten]
    apply List.take_of_length_le
    rw [hLdef]
    omega

/-- The chunking of a 2049-byte blob on the acknowledging transport: three
parts numbered 1, 2, 3, each declaring 3 parts and 2049 bytes, of 1024, 1024
and 1 bytes. -/
theorem setXtraData_acknowledged_chunks_example :
    ∃ s1,
      setXtraData Env.acknowledging headerMasks headerMisc 5 State.opened xtraBlob3 2049 =
        some (.LOC_API_ADAPTER_ERR_SUCCESS, s1) ∧
      (sentParts s1.trace).map (fun p => (p.partNum, p.totalParts, p.totalSize, p.partData_len)) =
        [(1, 3, 2049, 1024), (2, 3, 2049, 1024), (3, 3, 2049, 1)] := by
  have hl : xtraBlob3.length = 2049 := List.length_replicate 2049 0
  obtain ⟨s1, h1, h2, -, -⟩ := setXtraData_acknowledged_chunks Env.acknowledging headerMasks
    headerMisc xtraBlob3 5 State.opened (by decide) (by decide) (by rw [hl]; decide)
    (by rw [hl]; decide) (by rw [hl]; decide) (by rw [hl]; decide)
    (fun _ _ _ => ⟨rfl, rfl, rfl⟩)
  rw [hl] at h1 h2
  refine ⟨s1, h1, ?_⟩
  rw [h2]
  simp [sentParts, State.opened, State.init, headerMisc, List.range_succ, hl]

/-! ### The masks handed to the transport -/

/-- The registrations of one `locSyncSendReq`: none, except the mask
`mQmiMask | QMI_LOC_EVENT_MASK_ENGINE_STATE_V02` on an engine-busy answer
received while the retry queue is empty and `mQmiMask` lacks the bit. -/
theorem locSyncSendReq_registeredMasks (env : Env) (k : MaskConsts) (s : State)
    (req_id : MsgId) (req_payload : Option ReqPayload) (timeout_msec : Nat) (ind_id : MsgId)
    (ind_payload_ptr : Option Ind) :
    registeredMasks
        (locSyncSendReq env k s req_id req_payload timeout_msec ind_id
          ind_payload_ptr).state.trace =
      registeredMasks s.trace ++
        (if ((env.loc_sync_send_req s.trace s.clientHandle req_id req_payload timeout_msec
                ind_id ind_payload_ptr).1 = .eLOC_CLIENT_FAILURE_ENGINE_BUSY ∨
              ((env.loc_sync_send_req s.trace s.clientHandle req_id req_payload timeout_msec
                  ind_id ind_payload_ptr).1 = .eLOC_CLIENT_SUCCESS ∧
                ind_payload_ptr.isSome = true ∧
                env.castStatus (env.loc_sync_send_req s.trace s.clientHandle req_id req_payload
                  timeout_msec ind_id ind_payload_ptr).2.status =
                  .eLOC_CLIENT_FAILURE_ENGINE_BUSY)) ∧
            s.mResenders = [] ∧
            s.mQmiMask &&& k.QMI_LOC_EVENT_MASK_ENGINE_STATE_V02 = 0
         then [s.mQmiMask ||| k.QMI_LOC_EVENT_MASK_ENGINE_STATE_V02] else []) := by
  unfold locSyncSendReq
  simp only [State.log]
  split_ifs with h1 h2 h3 h4 h5 <;> (try split) <;>
    simp_all [registeredMasks, List.isEmpty_iff]

theorem registerEventMask_trace_le (env : Env) (k : MaskConsts) (s : State) (M : Nat) :
    s.trace <+: (registerEventMask env k s M).trace := by
  rw [registerEventMask_trace]
  exact List.prefix_append _ _

/-- C14 (as stated, refuted): on the busy transport, an open adapter outside a
session sends a blocking request, which is rejected as engine-busy and
registers 128 (the engine-state bit); `startFix` follows, registers the
converted consumer mask 1 and has its mode-setting request rejected as
engine-busy while the retry queue holds a record, so nothing is registered
again.  After this second busy rejection the mask most recently registered is
1, without the engine-state bit, and two records are queued. -/
theorem C14_engine_state_bit_lost_counterexample :
    registeredMasks (startFix Env.busy headerMasks headerMisc headerStart
      (locSyncSendReq Env.busy headerMasks State.opened .QMI_LOC_DELETE_ASSIST_DATA_REQ_V02
        (some ReqPayload.sample) 1000 .QMI_LOC_DELETE_ASSIST_DATA_IND_V02
        (some Ind.zero)).state LocPosMode.sample).2.trace = [128, 1] ∧
    1 &&& headerMasks.QMI_LOC_EVENT_MASK_ENGINE_STATE_V02 = 0 ∧
    headerMasks.QMI_LOC_EVENT_MASK_ENGINE_STATE_V02 = 128 ∧
    syncStatuses (startFix Env.busy headerMasks headerMisc headerStart
      (locSyncSendReq Env.busy headerMasks State.opened .QMI_LOC_DELETE_ASSIST_DATA_REQ_V02
        (some ReqPayload.sample) 1000 .QMI_LOC_DELETE_ASSIST_DATA_IND_V02
        (some Ind.zero)).state LocPosMode.sample).2.trace =
      [.eLOC_CLIENT_FAILURE_ENGINE_BUSY, .eLOC_CLIENT_FAILURE_ENGINE_BUSY] ∧
    (startFix Env.busy headerMasks headerMisc headerStart
      (locSyncSendReq Env.busy headerMasks State.opened .QMI_LOC_DELETE_ASSIST_DATA_REQ_V02
        (some ReqPayload.sample) 1000 .QMI_LOC_DELETE_ASSIST_DATA_IND_V02
        (some Ind.zero)).state LocPosMode.sample).2.mResenders.length = 2 := by
  refine ⟨?_, ?_, ?_, ?_, ?_⟩ <;> decide

/-- C14 (amended): when `locSyncSendReq` has a request rejected as engine-busy
while the retry queue is empty and the cached mask lacks the engine-state bit,
it registers `mQmiMask | QMI_LOC_EVENT_MASK_ENGINE_STATE_V02` as the last mask
handed to the transport, and that mask contains the engine-state bit.  When the
retry queue is not empty or the cached mask has the bit, it registers nothing.
In both cases the cached mask `mQmiMask` is left as it was, so a later
`registerEventMask` compares against a mask without the bit. -/
theorem C14_locSyncSendReq_busy_registration (env : Env) (k : MaskConsts) (s : State)
    (req_id : MsgId) (req_payload : Option ReqPayload) (timeout_msec : Nat) (ind_id : MsgId)
    (ind_payload_ptr : Option Ind)
    (hbusy : (env.loc_sync_send_req s.trace s.clientHandle req_id req_payload timeout_msec
      ind_id ind_payload_ptr).1 = .eLOC_CLIENT_FAILURE_ENGINE_BUSY) :
    (s.mResenders = [] ∧ s.mQmiMask &&& k.QMI_LOC_EVENT_MASK_ENGINE_STATE_V02 = 0 →
      registeredMasks (locSyncSendReq env k s req_id req_payload timeout_msec ind_id
          ind_payload_ptr).state.trace =
        registeredMasks s.trace ++ [s.mQmiMask ||| k.QMI_LOC_EVENT_MASK_ENGINE_STATE_V02] ∧
      (s.mQmiMask ||| k.QMI_LOC_EVENT_MASK_ENGINE_STATE_V02) &&&
          k.QMI_LOC_EVENT_MASK_ENGINE_STATE_V02 = k.QMI_LOC_EVENT_MASK_ENGINE_STATE_V02) ∧
    (¬ (s.mResenders = [] ∧ s.mQmiMask &&& k.QMI_LOC_EVENT_MASK_ENGINE_STATE_V02 = 0) →
      registeredMasks (locSyncSendReq env k s req_id req_payload timeout_msec ind_id
          ind_payload_ptr).state.trace = registeredMasks s.trace) ∧
    (locSyncSendReq env k s req_id req_payload timeout_msec ind_id
      ind_payload_ptr).state.mQmiMask = s.mQmiMask := by
  have hreg := locSyncSendReq_registeredMasks env k s req_id req_payload timeout_msec
    ind_id ind_payload_ptr
  refine ⟨?_, ?_, (locSyncSendReq_frame env k s req_id req_payload timeout_msec ind_id
    ind_payload_ptr).2.2.1⟩
  · intro h
    rw [hreg, if_pos ⟨Or.inl hbusy, h⟩]
    exact ⟨rfl, or_and_self_right _ _⟩
  · intro h
    rw [hreg, if_neg (fun hc => h hc.2), List.append_nil]

/-- C14 (amended), evaluated: the first busy rejection of an open adapter with
an empty retry queue registers 128. -/
theorem C14_locSyncSendReq_busy_registration_witness :
    (Env.busy.loc_sync_send_req State.opened.trace State.opened.clientHandle
      .QMI_LOC_DELETE_ASSIST_DATA_REQ_V02 (some ReqPayload.sample) 1000
      .QMI_LOC_DELETE_ASSIST_DATA_IND_V02 (some Ind.zero)).1 =
        .eLOC_CLIENT_FAILURE_ENGINE_BUSY ∧
    registeredMasks (locSyncSendReq Env.busy headerMasks State.opened
      .QMI_LOC_DELETE_ASSIST_DATA_REQ_V02 (some ReqPayload.sample) 1000
      .QMI_LOC_DELETE_ASSIST_DATA_IND_V02 (some Ind.zero)).state.trace =
        registeredMasks State.opened.trace ++
          [State.opened.mQmiMask ||| headerMasks.QMI_LOC_EVENT_MASK_ENGINE_STATE_V02] :=
  ⟨rfl, ((C14_locSyncSendReq_busy_registration Env.busy headerMasks State.opened
    .QMI_LOC_DELETE_ASSIST_DATA_REQ_V02 (some ReqPayload.sample) 1000
    .QMI_LOC_DELETE_ASSIST_DATA_IND_V02 (some Ind.zero) rfl).1 ⟨rfl, by decide⟩).1⟩

/-! ### Satellite ids of measurements -/

theorem CarrierFrequencies.stored_fixed (type : GnssSvType) :
    floatOfInt (CarrierFrequencies.stored type) = CarrierFrequencies.stored type := by
  cases type <;> decide

/-- C22 (as stated, refuted): the table `CarrierFrequencies` is an array of
`float`, and 1575420000 is not a `float` value: the element read for GPS is
1575420032, which is the carrier frequency of a GPS measurement whether the
field is a `float` or wider.  With a `float` field a GLONASS measurement on
frequency channel 1 gets 1598062464, not 1602000000 + (1 - 8) * 562500 =
1598062500. -/
theorem C22_carrier_frequency_counterexample :
    CarrierFrequencies.stored .GNSS_SV_TYPE_GPS = 1575420032 ∧
    convertGnssMeasurements.carrierFrequencyHz floatOfInt headerMisc
      .eQMI_LOC_SV_SYSTEM_GPS_V02 { gnssSvId := 1, gloFrequency := 0 } = 1575420032 ∧
    convertGnssMeasurements.carrierFrequencyHz id headerMisc
      .eQMI_LOC_SV_SYSTEM_GPS_V02 { gnssSvId := 1, gloFrequency := 0 } = 1575420032 ∧
    convertGnssMeasurements.carrierFrequencyHz floatOfInt headerMisc
      .eQMI_LOC_SV_SYSTEM_GLONASS_V02 { gnssSvId := 66, gloFrequency := 1 } = 1598062464 ∧
    (1602000000 + (1 - 8) * 562500 : Int) = 1598062500 := by
  refine ⟨by decide, by decide, by decide, by decide, by decide⟩


/-- C22 (amended): in `convertGnssMeasurements` the carrier frequency is built
from the `float` elements of `CarrierFrequencies`, each result rounded into the
type of the field (any type that holds the three table elements): it is
1575420032 for GPS, SBAS, QZSS and Galileo, 1561097984 for BeiDou and
1602000000 for a GLONASS measurement with frequency channel outside [1, 14]; for
a GLONASS measurement with channel `k` in [1, 14] it is the rounding of
`(k - 8) * 562500`, itself rounded, plus 1602000000; for every other system it
is 0 and the flags are 0.  With a `float` field the GLONASS values for
`k = 1, ..., 14` are those listed. -/
theorem C22_carrier_frequency (rnd : Int → Int) (c : MeasConsts) (m : MiscConsts)
    (system : qmiLocSvSystemEnumT_v02) (info : qmiLocSVMeasurementStructT_v02)
    (hfix : ∀ type, rnd (CarrierFrequencies.stored type) = CarrierFrequencies.stored type) :
    ((system = .eQMI_LOC_SV_SYSTEM_GPS_V02 ∨ system = .eQMI_LOC_SV_SYSTEM_SBAS_V02 ∨
        system = .eQMI_LOC_SV_SYSTEM_QZSS_V02 ∨ system = .eQMI_LOC_SV_SYSTEM_GALILEO_V02) →
      convertGnssMeasurements.carrierFrequencyHz rnd m system info = 1575420032) ∧
    (system = .eQMI_LOC_SV_SYSTEM_BDS_V02 →
      convertGnssMeasurements.carrierFrequencyHz rnd m system info = 1561097984) ∧
    (system = .eQMI_LOC_SV_SYSTEM_GLONASS_V02 →
      ¬ (1 ≤ info.gloFrequency ∧ info.gloFrequency ≤ 14) →
      convertGnssMeasurements.carrierFrequencyHz rnd m system info = 1602000000) ∧
    (system = .eQMI_LOC_SV_SYSTEM_GLONASS_V02 →
      1 ≤ info.gloFrequency → info.gloFrequency ≤ 14 →
      convertGnssMeasurements.carrierFrequencyHz rnd m system info =
        rnd (rnd (((info.gloFrequency : Int) - 8) * 562500) + 1602000000)) ∧
    ((system = .eQMI_LOC_SV_SYSTEM_COMPASS_V02 ∨ ∃ value, system = .other value) →
      convertGnssMeasurements.carrierFrequencyHz rnd m system info = 0 ∧
      convertGnssMeasurements.flags c system = 0) ∧
    (List.range' 1 14).map (fun k =>
        floatOfInt (floatOfInt (((k : Int) - 8) * 562500) + 1602000000)) =
      [1598062464, 1598625024, 1599187456, 1599750016, 1600312448, 1600875008, 1601437440,
        1602000000, 1602562560, 1603124992, 1603687552, 1604249984, 1604812544,
        1605374976] := by
  have hgps : CarrierFrequencies.stored .GNSS_SV_TYPE_GPS = 1575420032 := by decide
  have hsbas : CarrierFrequencies.stored .GNSS_SV_TYPE_SBAS = 1575420032 := by decide
  have hqzss : CarrierFrequencies.stored .GNSS_SV_TYPE_QZSS = 1575420032 := by decide
  have hgal : CarrierFrequencies.stored .GNSS_SV_TYPE_GALILEO = 1575420032 := by decide
  have hbds : CarrierFrequencies.stored .GNSS_SV_TYPE_BEIDOU = 1561097984 := by decide
  have hglo : CarrierFrequencies.stored .GNSS_SV_TYPE_GLONASS = 1602000000 := by decide
  have hunk : CarrierFrequencies.stored .GNSS_SV_TYPE_UNKNOWN = 0 := by decide
  refine ⟨?_, ?_, ?_, ?_, ?_, by decide⟩
  · rintro (h | h | h | h) <;> subst h
    · have := hfix .GNSS_SV_TYPE_GPS
      simpa [convertGnssMeasurements.carrierFrequencyHz, convertGnssMeasurements, hgps] using this
    · have := hfix .GNSS_SV_TYPE_SBAS
      simpa [convertGnssMeasurements.carrierFrequencyHz, convertGnssMeasurements, hsbas] using this
    · have := hfix .GNSS_SV_TYPE_QZSS
      simpa [convertGnssMeasurements.carrierFrequencyHz, convertGnssMeasurements, hqzss] using this
    · have := hfix .GNSS_SV_TYPE_GALILEO
      simpa [convertGnssMeasurements.carrierFrequencyHz, convertGnssMeasurements, hgal] using this
  · intro h
    subst h
    have := hfix .GNSS_SV_TYPE_BEIDOU
    simpa [convertGnssMeasurements.carrierFrequencyHz, convertGnssMeasurements, hbds] using this
  · intro h hk
    subst h
    have := hfix .GNSS_SV_TYPE_GLONASS
    have hk' : ¬ (1 ≤ info.gloFrequency ∧ info.gloFrequency ≤ 14) := hk
    simp only [convertGnssMeasurements.carrierFrequencyHz, convertGnssMeasurements, true_and,
      hk', if_false, zero_add]
    simpa [hglo] using this
  · intro h hk1 hk2
    subst h
    simp only [convertGnssMeasurements.carrierFrequencyHz, convertGnssMeasurements, true_and,
      hk1, hk2, and_self, if_true, zero_add]
    rw [hglo]
  · intro h
    have := hfix .GNSS_SV_TYPE_UNKNOWN
    rcases h with h | ⟨value, h⟩ <;> subst h <;>
      simpa [convertGnssMeasurements.carrierFrequencyHz, convertGnssMeasurements,
        convertGnssMeasurements.flags, hunk] using this

/-- C22 (amended), evaluated with a `float` field: a GPS measurement and a
GLONASS measurement on frequency channel 1. -/
theorem C22_carrier_frequency_witness :
    convertGnssMeasurements.carrierFrequencyHz floatOfInt headerMisc
      .eQMI_LOC_SV_SYSTEM_GPS_V02 { gnssSvId := 1, gloFrequency := 0 } = 1575420032 ∧
    convertGnssMeasurements.carrierFrequencyHz floatOfInt headerMisc
      .eQMI_LOC_SV_SYSTEM_GLONASS_V02 { gnssSvId := 66, gloFrequency := 1 } =
        floatOfInt (floatOfInt ((((1 : Nat) : Int) - 8) * 562500) + 1602000000) :=
  ⟨(C22_carrier_frequency floatOfInt headerMeas headerMisc .eQMI_LOC_SV_SYSTEM_GPS_V02
      { gnssSvId := 1, gloFrequency := 0 } CarrierFrequencies.stored_fixed).1 (Or.inl rfl),
    (C22_carrier_frequency floatOfInt headerMeas headerMisc .eQMI_LOC_SV_SYSTEM_GLONASS_V02
      { gnssSvId := 66, gloFrequency := 1 } CarrierFrequencies.stored_fixed).2.2.2.1 rfl
      (by decide) (by decide)⟩


/-! ### Measurement state -/

theorem convertGnssMeasurements_svType_glonass (m : MiscConsts)
    (system : qmiLocSvSystemEnumT_v02) (info : qmiLocSVMeasurementStructT_v02) :
    (convertGnssMeasurements m system info).svType = .GNSS_SV_TYPE_GLONASS ↔
      system = .eQMI_LOC_SV_SYSTEM_GLONASS_V02 := by
  cases system <;> simp [convertGnssMeasurements]

theorem convertGnssMeasurements_svType_beidou (m : MiscConsts)
    (system : qmiLocSvSystemEnumT_v02) (info : qmiLocSVMeasurementStructT_v02) :
    (convertGnssMeasurements m system info).svType = .GNSS_SV_TYPE_BEIDOU ↔
      system = .eQMI_LOC_SV_SYSTEM_BDS_V02 := by
  cases system <;> simp [convertGnssMeasurements]

/-- The Galileo bits of the state mask, written out. -/
theorem convertGnssMeasurements.galSVstateMask_galileo (c : MeasConsts)
    (info : qmiLocSVMeasurementStructT_v02) :
    convertGnssMeasurements.galSVstateMask c .GNSS_SV_TYPE_GALILEO info =
      c.GNSS_MEASUREMENTS_STATE_GAL_E1BC_CODE_LOCK_BIT |||
        (if info.measurementStatus &&& 2 ^ 30 ≠ 0 then
          c.GNSS_MEASUREMENTS_STATE_GAL_E1C_2ND_CODE_LOCK_BIT else 0) |||
        (if info.measurementStatus &&& (2 ^ 64 - 2 ^ 31) ≠ 0 then
          c.GNSS_MEASUREMENTS_STATE_GAL_E1B_PAGE_SYNC_BIT else 0) := by
  simp only [convertGnssMeasurements.galSVstateMask, if_true, orIf, hasBit, bne_iff_ne, ne_eq,
    ite_not]
  split_ifs <;> simp

/-- C23: with `v = measurementStatus & validMeasStatusMask`, the state mask
that `convertGnssMeasurements` stores follows a priority chain.  For a
satellite that is neither Galileo nor BeiDou-GEO: if `v` has `MS_VALID` it is
`SUBFRAME_SYNC | TOW_DECODED | BIT_SYNC | CODE_LOCK`, with
`GLO_STRING_SYNC | GLO_TOD_DECODED` ORed in exactly when the satellite is
GLONASS and the GLONASS time is valid (`gloTime_valid`, four-year number not
255, days not 65535); else if `v` has both `BE_CONFIRM` and `SB_VALID` it is
`BIT_SYNC | CODE_LOCK`; else if `v` has `SM_VALID` it is `CODE_LOCK`.  For every
satellite, when none of the three tests holds the mask is `UNKNOWN` and the
received time and its uncertainty are 0.  For a Galileo satellite the Galileo
bits are ORed into the mask of each of the three other branches: `GAL_E1BC_CODE_LOCK`
always, `GAL_E1C_2ND_CODE_LOCK` when `measurementStatus` has bit 30, and
`GAL_E1B_PAGE_SYNC` when `measurementStatus & (1 << 31)` is not 0, the `int`
constant being `0xFFFFFFFF80000000` once converted to 64 bits.  For a
BeiDou-GEO satellite (BeiDou with normalized id 1 to 5) the two D2 bits are
ORed in in the `MS_VALID` branch only. -/
theorem C23_convertGnssMeasurements_state_chain {D : Type} (ops : DoubleOps D)
    (c : MeasConsts) (m : MiscConsts) (report : qmiLocEventGnssSvMeasInfoIndMsgT_v02)
    (info : qmiLocSVMeasurementStructT_v02) :
    ((convertGnssMeasurements m report.system info).svType ≠ .GNSS_SV_TYPE_GALILEO →
      IS_BDS_GEO_SV (convertGnssMeasurements m report.system info).svId
        (convertGnssMeasurements m report.system info).svType = false →
      (hasBit (info.measurementStatus &&& info.validMeasStatusMask)
          c.QMI_LOC_MASK_MEAS_STATUS_MS_VALID_V02 = true →
        (convertGnssMeasurements.state ops c m report info).stateMask =
          if report.system = .eQMI_LOC_SV_SYSTEM_GLONASS_V02 ∧ report.gloTime_valid ≠ 0 ∧
              report.gloTime.gloFourYear ≠ 255 ∧ report.gloTime.gloDays ≠ 65535 then
            (c.GNSS_MEASUREMENTS_STATE_SUBFRAME_SYNC_BIT |||
              c.GNSS_MEASUREMENTS_STATE_TOW_DECODED_BIT |||
              c.GNSS_MEASUREMENTS_STATE_BIT_SYNC_BIT |||
              c.GNSS_MEASUREMENTS_STATE_CODE_LOCK_BIT) |||
            (c.GNSS_MEASUREMENTS_STATE_GLO_STRING_SYNC_BIT |||
              c.GNSS_MEASUREMENTS_STATE_GLO_TOD_DECODED_BIT)
          else
            c.GNSS_MEASUREMENTS_STATE_SUBFRAME_SYNC_BIT |||
              c.GNSS_MEASUREMENTS_STATE_TOW_DECODED_BIT |||
              c.GNSS_MEASUREMENTS_STATE_BIT_SYNC_BIT |||
              c.GNSS_MEASUREMENTS_STATE_CODE_LOCK_BIT) ∧
      (hasBit (info.measurementStatus &&& info.validMeasStatusMask)
          c.QMI_LOC_MASK_MEAS_STATUS_MS_VALID_V02 = false →
        (info.measurementStatus &&& info.validMeasStatusMask) &&&
            (c.QMI_LOC_MASK_MEAS_STATUS_BE_CONFIRM_V02 |||
              c.QMI_LOC_MASK_MEAS_STATUS_SB_VALID_V02) =
          c.QMI_LOC_MASK_MEAS_STATUS_BE_CONFIRM_V02 |||
            c.QMI_LOC_MASK_MEAS_STATUS_SB_VALID_V02 →
        (convertGnssMeasurements.state ops c m report info).stateMask =
          c.GNSS_MEASUREMENTS_STATE_BIT_SYNC_BIT ||| c.GNSS_MEASUREMENTS_STATE_CODE_LOCK_BIT) ∧
      (hasBit (info.measurementStatus &&& info.validMeasStatusMask)
          c.QMI_LOC_MASK_MEAS_STATUS_MS_VALID_V02 = false →
        (info.measurementStatus &&& info.validMeasStatusMask) &&&
            (c.QMI_LOC_MASK_MEAS_STATUS_BE_CONFIRM_V02 |||
              c.QMI_LOC_MASK_MEAS_STATUS_SB_VALID_V02) ≠
          c.QMI_LOC_MASK_MEAS_STATUS_BE_CONFIRM_V02 |||
            c.QMI_LOC_MASK_MEAS_STATUS_SB_VALID_V02 →
        hasBit (info.measurementStatus &&& info.validMeasStatusMask)
          c.QMI_LOC_MASK_MEAS_STATUS_SM_VALID_V02 = true →
        (convertGnssMeasurements.state ops c m report info).stateMask =
          c.GNSS_MEASUREMENTS_STATE_CODE_LOCK_BIT)) ∧
    (hasBit (info.measurementStatus &&& info.validMeasStatusMask)
        c.QMI_LOC_MASK_MEAS_STATUS_MS_VALID_V02 = false →
      (info.measurementStatus &&& info.validMeasStatusMask) &&&
          (c.QMI_LOC_MASK_MEAS_STATUS_BE_CONFIRM_V02 |||
            c.QMI_LOC_MASK_MEAS_STATUS_SB_VALID_V02) ≠
        c.QMI_LOC_MASK_MEAS_STATUS_BE_CONFIRM_V02 |||
          c.QMI_LOC_MASK_MEAS_STATUS_SB_VALID_V02 →
      hasBit (info.measurementStatus &&& info.validMeasStatusMask)
        c.QMI_LOC_MASK_MEAS_STATUS_SM_VALID_V02 = false →
      convertGnssMeasurements.state ops c m report info =
        { stateMask := c.GNSS_MEASUREMENTS_STATE_UNKNOWN_BIT
          receivedSvTimeNs := 0
          receivedSvTimeUncertaintyNs := 0 }) ∧
    ((convertGnssMeasurements m report.system info).svType = .GNSS_SV_TYPE_GALILEO →
      (hasBit (info.measurementStatus &&& info.validMeasStatusMask)
          c.QMI_LOC_MASK_MEAS_STATUS_MS_VALID_V02 = true →
        (convertGnssMeasurements.state ops c m report info).stateMask =
          (c.GNSS_MEASUREMENTS_STATE_SUBFRAME_SYNC_BIT |||
            c.GNSS_MEASUREMENTS_STATE_TOW_DECODED_BIT |||
            c.GNSS_MEASUREMENTS_STATE_BIT_SYNC_BIT |||
            c.GNSS_MEASUREMENTS_STATE_CODE_LOCK_BIT) |||
          (c.GNSS_MEASUREMENTS_STATE_GAL_E1BC_CODE_LOCK_BIT |||
            (if info.measurementStatus &&& 2 ^ 30 ≠ 0 then
              c.GNSS_MEASUREMENTS_STATE_GAL_E1C_2ND_CODE_LOCK_BIT else 0) |||
            (if info.measurementStatus &&& (2 ^ 64 - 2 ^ 31) ≠ 0 then
              c.GNSS_MEASUREMENTS_STATE_GAL_E1B_PAGE_SYNC_BIT else 0))) ∧
      (hasBit (info.measurementStatus &&& info.validMeasStatusMask)
          c.QMI_LOC_MASK_MEAS_STATUS_MS_VALID_V02 = false →
        (info.measurementStatus &&& info.validMeasStatusMask) &&&
            (c.QMI_LOC_MASK_MEAS_STATUS_BE_CONFIRM_V02 |||
              c.QMI_LOC_MASK_MEAS_STATUS_SB_VALID_V02) =
          c.QMI_LOC_MASK_MEAS_STATUS_BE_CONFIRM_V02 |||
            c.QMI_LOC_MASK_MEAS_STATUS_SB_VALID_V02 →
        (convertGnssMeasurements.state ops c m report info).stateMask =
          (c.GNSS_MEASUREMENTS_STATE_BIT_SYNC_BIT ||| c.GNSS_MEASUREMENTS_STATE_CODE_LOCK_BIT) |||
          (c.GNSS_MEASUREMENTS_STATE_GAL_E1BC_CODE_LOCK_BIT |||
            (if info.measurementStatus &&& 2 ^ 30 ≠ 0 then
              c.GNSS_MEASUREMENTS_STATE_GAL_E1C_2ND_CODE_LOCK_BIT else 0) |||
            (if info.measurementStatus &&& (2 ^ 64 - 2 ^ 31) ≠ 0 then
              c.GNSS_MEASUREMENTS_STATE_GAL_E1B_PAGE_SYNC_BIT else 0))) ∧
      (hasBit (info.measurementStatus &&& info.validMeasStatusMask)
          c.QMI_LOC_MASK_MEAS_STATUS_MS_VALID_V02 = false →
        (info.measurementStatus &&& info.validMeasStatusMask) &&&
            (c.QMI_LOC_MASK_MEAS_STATUS_BE_CONFIRM_V02 |||
              c.QMI_LOC_MASK_MEAS_STATUS_SB_VALID_V02) ≠
          c.QMI_LOC_MASK_MEAS_STATUS_BE_CONFIRM_V02 |||
            c.QMI_LOC_MASK_MEAS_STATUS_SB_VALID_V02 →
        hasBit (info.measurementStatus &&& info.validMeasStatusMask)
          c.QMI_LOC_MASK_MEAS_STATUS_SM_VALID_V02 = true →
        (convertGnssMeasurements.state ops c m report info).stateMask =
          c.GNSS_MEASUREMENTS_STATE_CODE_LOCK_BIT |||
          (c.GNSS_MEASUREMENTS_STATE_GAL_E1BC_CODE_LOCK_BIT |||
            (if info.measurementStatus &&& 2 ^ 30 ≠ 0 then
              c.GNSS_MEASUREMENTS_STATE_GAL_E1C_2ND_CODE_LOCK_BIT else 0) |||
            (if info.measurementStatus &&& (2 ^ 64 - 2 ^ 31) ≠ 0 then
              c.GNSS_MEASUREMENTS_STATE_GAL_E1B_PAGE_SYNC_BIT else 0)))) ∧
    (IS_BDS_GEO_SV (convertGnssMeasurements m report.system info).svId
        (convertGnssMeasurements m report.system info).svType = true →
      (hasBit (info.measurementStatus &&& info.validMeasStatusMask)
          c.QMI_LOC_MASK_MEAS_STATUS_MS_VALID_V02 = true →
        (convertGnssMeasurements.state ops c m report info).stateMask =
          (c.GNSS_MEASUREMENTS_STATE_SUBFRAME_SYNC_BIT |||
            c.GNSS_MEASUREMENTS_STATE_TOW_DECODED_BIT |||
            c.GNSS_MEASUREMENTS_STATE_BIT_SYNC_BIT |||
            c.GNSS_MEASUREMENTS_STATE_CODE_LOCK_BIT) |||
          (c.GNSS_MEASUREMENTS_STATE_BDS_D2_BIT_SYNC_BIT |||
            c.GNSS_MEASUREMENTS_STATE_BDS_D2_SUBFRAME_SYNC_BIT)) ∧
      (hasBit (info.measurementStatus &&& info.validMeasStatusMask)
          c.QMI_LOC_MASK_MEAS_STATUS_MS_VALID_V02 = false →
        (info.measurementStatus &&& info.validMeasStatusMask) &&&
            (c.QMI_LOC_MASK_MEAS_STATUS_BE_CONFIRM_V02 |||
              c.QMI_LOC_MASK_MEAS_STATUS_SB_VALID_V02) =
          c.QMI_LOC_MASK_MEAS_STATUS_BE_CONFIRM_V02 |||
            c.QMI_LOC_MASK_MEAS_STATUS_SB_VALID_V02 →
        (convertGnssMeasurements.state ops c m report info).stateMask =
          c.GNSS_MEASUREMENTS_STATE_BIT_SYNC_BIT ||| c.GNSS_MEASUREMENTS_STATE_CODE_LOCK_BIT) ∧
      (hasBit (info.measurementStatus &&& info.validMeasStatusMask)
          c.QMI_LOC_MASK_MEAS_STATUS_MS_VALID_V02 = false →
        (info.measurementStatus &&& info.validMeasStatusMask) &&&
            (c.QMI_LOC_MASK_MEAS_STATUS_BE_CONFIRM_V02 |||
              c.QMI_LOC_MASK_MEAS_STATUS_SB_VALID_V02) ≠
          c.QMI_LOC_MASK_MEAS_STATUS_BE_CONFIRM_V02 |||
            c.QMI_LOC_MASK_MEAS_STATUS_SB_VALID_V02 →
        hasBit (info.measurementStatus &&& info.validMeasStatusMask)
          c.QMI_LOC_MASK_MEAS_STATUS_SM_VALID_V02 = true →
        (convertGnssMeasurements.state ops c m report info).stateMask =
          c.GNSS_MEASUREMENTS_STATE_CODE_LOCK_BIT)) ∧
    (IS_BDS_GEO_SV (convertGnssMeasurements m report.system info).svId
        (convertGnssMeasurements m report.system info).svType = true ↔
      report.system = .eQMI_LOC_SV_SYSTEM_BDS_V02 ∧
        1 ≤ (convertGnssMeasurements m report.system info).svId ∧
        (convertGnssMeasurements m report.system info).svId ≤ 5) := by
  have hglo := convertGnssMeasurements_svType_glonass m report.system info
  have hbds := convertGnssMeasurements_svType_beidou m report.system info
  have hvalid : convertGnssMeasurements.isGloTimeValid
      (convertGnssMeasurements m report.system info).svType report = true ↔
      (report.system = .eQMI_LOC_SV_SYSTEM_GLONASS_V02 ∧ report.gloTime_valid ≠ 0 ∧
        report.gloTime.gloFourYear ≠ 255 ∧ report.gloTime.gloDays ≠ 65535) := by
    simp [convertGnssMeasurements.isGloTimeValid, hglo, and_assoc]
  refine ⟨?_, ?_, ?_, ?_, ?_⟩
  · intro hgal hgeo
    have hg0 : convertGnssMeasurements.galSVstateMask c
        (convertGnssMeasurements m report.system info).svType info = 0 := by
      simp [convertGnssMeasurements.galSVstateMask, hgal]
    refine ⟨?_, ?_, ?_⟩
    · intro hms
      by_cases hv : convertGnssMeasurements.isGloTimeValid
          (convertGnssMeasurements m report.system info).svType report = true
      · rw [if_pos (hvalid.mp hv)]
        simp [convertGnssMeasurements.state, hms, hg0, hgeo, hv, orIf]
      · rw [if_neg (fun h => hv (hvalid.mpr h))]
        simp [convertGnssMeasurements.state, hms, hg0, hgeo, hv, orIf]
    · intro hms hbit
      simp [convertGnssMeasurements.state, hms, hg0, hbit]
    · intro hms hbit hsm
      simp [convertGnssMeasurements.state, hms, hg0, hbit, hsm]
  · intro hms hbit hsm
    simp [convertGnssMeasurements.state, hms, hbit, hsm]
  · intro hgal
    have hnglo : convertGnssMeasurements.isGloTimeValid
        (convertGnssMeasurements m report.system info).svType report = false := by
      simp [convertGnssMeasurements.isGloTimeValid, hgal]
    have hngeo : IS_BDS_GEO_SV (convertGnssMeasurements m report.system info).svId
        (convertGnssMeasurements m report.system info).svType = false := by
      simp [IS_BDS_GEO_SV, hgal]
    rw [hgal] at hnglo hngeo
    rw [← convertGnssMeasurements.galSVstateMask_galileo c info]
    refine ⟨?_, ?_, ?_⟩
    · intro hms
      simp [convertGnssMeasurements.state, hms, hgal, hnglo, hngeo, orIf]
    · intro hms hbit
      simp [convertGnssMeasurements.state, hms, hgal, hbit]
    · intro hms hbit hsm
      simp [convertGnssMeasurements.state, hms, hgal, hbit, hsm]
  · intro hgeo
    have htype : (convertGnssMeasurements m report.system info).svType =
        .GNSS_SV_TYPE_BEIDOU := by
      simp only [IS_BDS_GEO_SV, Bool.and_eq_true, decide_eq_true_eq] at hgeo
      exact hgeo.1.1
    have hg0 : convertGnssMeasurements.galSVstateMask c
        (convertGnssMeasurements m report.system info).svType info = 0 := by
      simp [convertGnssMeasurements.galSVstateMask, htype]
    have hnglo : convertGnssMeasurements.isGloTimeValid
        (convertGnssMeasurements m report.system info).svType report = false := by
      simp [convertGnssMeasurements.isGloTimeValid, htype]
    refine ⟨?_, ?_, ?_⟩
    · intro hms
      simp [convertGnssMeasurements.state, hms, hg0, hnglo, hgeo, orIf]
    · intro hms hbit
      simp [convertGnssMeasurements.state, hms, hg0, hbit]
    · intro hms hbit hsm
      simp [convertGnssMeasurements.state, hms, hg0, hbit, hsm]
  · simp only [IS_BDS_GEO_SV, Bool.and_eq_true, decide_eq_true_eq, hbds]
    constructor
    · rintro ⟨⟨h1, h2⟩, h3⟩
      exact ⟨h1, h3, h2⟩
    · rintro ⟨h1, h2, h3⟩
      exact ⟨⟨h1, h3⟩, h2⟩


/-- C23, evaluated: a GLONASS measurement with valid GLONASS time whose status
has `MS_VALID` gets the four decode bits and the two GLONASS bits; a Galileo
measurement whose status has `MS_VALID` and bit 30 gets the four decode bits,
`GAL_E1BC_CODE_LOCK` and `GAL_E1C_2ND_CODE_LOCK`. -/
theorem C23_convertGnssMeasurements_state_chain_witness :
    (convertGnssMeasurements.state DoubleOps.exact headerMeas headerMisc
      qmiLocEventGnssSvMeasInfoIndMsgT_v02.glonass
      qmiLocSVMeasurementStructT_v02.tracked).stateMask = 0xCF ∧
    (convertGnssMeasurements.state DoubleOps.exact headerMeas headerMisc
      qmiLocEventGnssSvMeasInfoIndMsgT_v02.galileo
      qmiLocSVMeasurementStructT_v02.galileoTracked).stateMask = 0xC0F :=
  ⟨((C23_convertGnssMeasurements_state_chain DoubleOps.exact headerMeas headerMisc
      qmiLocEventGnssSvMeasInfoIndMsgT_v02.glonass
      qmiLocSVMeasurementStructT_v02.tracked).1 (by decide) (by decide)).1 (by decide)
      |>.trans (by decide),
    ((C23_convertGnssMeasurements_state_chain DoubleOps.exact headerMeas headerMisc
      qmiLocEventGnssSvMeasInfoIndMsgT_v02.galileo
      qmiLocSVMeasurementStructT_v02.galileoTracked).2.2.1 (by decide)).1 (by decide)
      |>.trans (by decide)⟩

/-! ### Clock discontinuity -/

/-- C24 (as stated, refuted): two identical clock readings in a row, outside
the start of a session.  The first leaves the discontinuity counter at 0; the
second has the same reference frequency count and the same clock-reset count,
and the counter goes to 1. -/
theorem C24_unchanged_frequency_count_counterexample :
    State.opened.mMeasurementsStarted = false ∧
    (convertGnssClock headerMeas State.opened ClockStatics.init GnssMeasurementsClock.zero
      qmiLocEventGnssSvMeasInfoIndMsgT_v02.clockReading).clock.hwClockDiscontinuityCount = 0 ∧
    (convertGnssClock headerMeas
      (convertGnssClock headerMeas State.opened ClockStatics.init GnssMeasurementsClock.zero
        qmiLocEventGnssSvMeasInfoIndMsgT_v02.clockReading).state
      (convertGnssClock headerMeas State.opened ClockStatics.init GnssMeasurementsClock.zero
        qmiLocEventGnssSvMeasInfoIndMsgT_v02.clockReading).statics
      (convertGnssClock headerMeas State.opened ClockStatics.init GnssMeasurementsClock.zero
        qmiLocEventGnssSvMeasInfoIndMsgT_v02.clockReading).clock
      qmiLocEventGnssSvMeasInfoIndMsgT_v02.clockReading).clock.hwClockDiscontinuityCount = 1 := by
  refine ⟨by decide, by decide, by decide⟩

/-- C24 (amended): for every clock reading with valid extended system time and
valid clock-reset count, `convertGnssClock` increments the discontinuity
counter by one (modulo 2^32) if measurements-just-started is true, or the
clock-reset count differs from the previous reading, or the reference frequency
count is lower than or equal to that of the previous reading; in every other
case the counter keeps its value.  The counter is what the clock reports, the
two counts are remembered for the next reading, and measurements-just-started
is false afterwards. -/
theorem C24_convertGnssClock_discontinuity (c : MeasConsts) (s : State) (st : ClockStatics)
    (clock : GnssMeasurementsClock) (msg : qmiLocEventGnssSvMeasInfoIndMsgT_v02)
    (h1 : msg.systemTimeExt_valid ≠ 0) (h2 : msg.numClockResets_valid ≠ 0) :
    (convertGnssClock c s st clock msg).statics.localDiscCount =
      (if s.mMeasurementsStarted = true ∨ st.oldDiscCount ≠ msg.numClockResets % 2 ^ 32 ∨
          msg.systemTimeExt.refFCount % 2 ^ 32 ≤ st.oldRefFCount
       then (st.localDiscCount + 1) % 2 ^ 32 else st.localDiscCount) ∧
    (convertGnssClock c s st clock msg).clock.hwClockDiscontinuityCount =
      (convertGnssClock c s st clock msg).statics.localDiscCount ∧
    (convertGnssClock c s st clock msg).statics.oldRefFCount =
      msg.systemTimeExt.refFCount % 2 ^ 32 ∧
    (convertGnssClock c s st clock msg).statics.oldDiscCount = msg.numClockResets % 2 ^ 32 ∧
    (convertGnssClock c s st clock msg).state.mMeasurementsStarted = false := by
  have hb : (s.mMeasurementsStarted || (st.oldDiscCount != msg.numClockResets % 2 ^ 32) ||
      decide (msg.systemTimeExt.refFCount % 2 ^ 32 ≤ st.oldRefFCount)) = true ↔
      (s.mMeasurementsStarted = true ∨ st.oldDiscCount ≠ msg.numClockResets % 2 ^ 32 ∨
        msg.systemTimeExt.refFCount % 2 ^ 32 ≤ st.oldRefFCount) := by
    simp [or_assoc]
  unfold convertGnssClock
  simp only [h1, h2, ne_eq, not_false_eq_true, and_self, if_true]
  by_cases hp : s.mMeasurementsStarted = true ∨ st.oldDiscCount ≠ msg.numClockResets % 2 ^ 32 ∨
      msg.systemTimeExt.refFCount % 2 ^ 32 ≤ st.oldRefFCount
  · have hb1 := hb.mpr hp
    simp only [ne_eq] at hp
    rw [if_pos hp]
    simp only [hb1, Bool.true_and, if_true]
    refine ⟨?_, ?_, ?_, ?_, ?_⟩
    · split_ifs <;> rfl
    · split_ifs <;> rfl
    · split_ifs <;> rfl
    · split_ifs <;> rfl
    · cases hs : s.mMeasurementsStarted <;> split_ifs <;> simp_all
  · have hb0 : (s.mMeasurementsStarted || (st.oldDiscCount != msg.numClockResets % 2 ^ 32) ||
        decide (msg.systemTimeExt.refFCount % 2 ^ 32 ≤ st.oldRefFCount)) = false := by
      rw [← Bool.not_eq_true]
      exact fun h => hp (hb.mp h)
    have hs : s.mMeasurementsStarted = false := by
      rw [← Bool.not_eq_true]
      exact fun h => hp (Or.inl h)
    simp only [ne_eq] at hp
    rw [if_neg hp]
    simp only [hb0, Bool.false_and, Bool.false_eq_true, if_false]
    refine ⟨?_, ?_, ?_, ?_, ?_⟩
    · split_ifs <;> rfl
    · split_ifs <;> rfl
    · split_ifs <;> rfl
    · split_ifs <;> rfl
    · split_ifs <;> exact hs

/-- C24 (amended), evaluated on the second of two identical readings. -/
theorem C24_convertGnssClock_discontinuity_witness :
    (convertGnssClock headerMeas State.opened
      { oldRefFCount := 100, newRefFCount := 100, oldDiscCount := 0, newDiscCount := 0,
        localDiscCount := 0 }
      GnssMeasurementsClock.zero
      qmiLocEventGnssSvMeasInfoIndMsgT_v02.clockReading).clock.hwClockDiscontinuityCount =
    (convertGnssClock headerMeas State.opened
      { oldRefFCount := 100, newRefFCount := 100, oldDiscCount := 0, newDiscCount := 0,
        localDiscCount := 0 }
      GnssMeasurementsClock.zero
      qmiLocEventGnssSvMeasInfoIndMsgT_v02.clockReading).statics.localDiscCount :=
  (C24_convertGnssClock_discontinuity headerMeas State.opened
    { oldRefFCount := 100, newRefFCount := 100, oldDiscCount := 0, newDiscCount := 0,
      localDiscCount := 0 }
    GnssMeasurementsClock.zero qmiLocEventGnssSvMeasInfoIndMsgT_v02.clockReading
    (by decide) (by decide)).2.1

/-! ### Bursts of measurement indications -/

set_option maxRecDepth 100000 in
/-- C26 (the code at the failing input): a burst of five indications of 16
measurements each, with room for `GNSS_MEASUREMENTS_MAX` = 64 measurements.
`reportGnssMeasurementData` writes `measurements[meas_index]` for the indices
0 to 79 in turn: the writes at 64 to 79 are outside the array, and the count
that is forwarded with the last indication is 80. -/
theorem C26_reportGnssMeasurementData_writes_beyond_capacity :
    headerMeas.GNSS_MEASUREMENTS_MAX = 64 ∧
    (reportGnssMeasurementData.run headerMeas headerMisc State.opened ClockStatics.init
      MeasStatics.init
      ((List.range' 1 5).map qmiLocEventGnssSvMeasInfoIndMsgT_v02.full)).2.statics.measurementsNotify.measurements.map
        Prod.fst = (List.range 80).map (fun (j : Nat) => (j : Int)) ∧
    (reportGnssMeasurementData.run headerMeas headerMisc State.opened ClockStatics.init
      MeasStatics.init
      ((List.range' 1 5).map qmiLocEventGnssSvMeasInfoIndMsgT_v02.full)).2.statics.measurementsNotify.count =
        80 ∧
    (reportGnssMeasurementData.run headerMeas headerMisc State.opened ClockStatics.init
      MeasStatics.init
      ((List.range' 1 5).map qmiLocEventGnssSvMeasInfoIndMsgT_v02.full)).1.map
        (fun o => o.map (fun f => f.1.count)) = [none, none, none, none, some 80] := by
  refine ⟨rfl, by decide, by decide, by decide⟩

/-! ### Raw measurement report -/

theorem reportSvMeasurement.loop_indices (svMeasurement : List qmiLocSVMeasurementStructT_v02) :
    ∀ (idxs : List Nat) (cnt : Nat) (gnssMeas : Gnss_LocSvMeasStruct),
      (reportSvMeasurement.loop svMeasurement idxs cnt gnssMeas).svMeasurement.map Prod.fst =
        gnssMeas.svMeasurement.map Prod.fst ++ idxs := by
  intro idxs
  induction idxs with
  | nil => intro cnt gnssMeas; simp [reportSvMeasurement.loop]
  | cons i rest ih =>
    intro cnt gnssMeas
    rw [reportSvMeasurement.loop]
    split_ifs <;> rw [ih] <;> simp

/-- The slots written by `reportSvMeasurement` are those of the indices
0, ..., `svMeasurement_len - 1`, whatever `GNSS_LOC_SV_MEAS_LIST_MAX_SIZE`
is. -/
theorem reportSvMeasurement_indices (c : MeasConsts)
    (msg : qmiLocEventGnssSvMeasInfoIndMsgT_v02) (h : 1 = msg.svMeasurement_valid) :
    (reportSvMeasurement c msg).svMeasurement.map Prod.fst =
      List.range (msg.svMeasurement_len % 2 ^ 32) := by
  unfold reportSvMeasurement
  rw [if_pos h, reportSvMeasurement.loop_indices]
  rfl

/-- C27 (the code at the failing input): an indication that declares 17
measurements, one more than `GNSS_LOC_SV_MEAS_LIST_MAX_SIZE` = 16.  The loop of
`reportSvMeasurement` runs over the indices 0 to 16: slot 16 of the input is
read and slot 16 of the output, which is outside the array, is written; with 17
tracked entries in memory the reported `numSvs` is 17. -/
theorem C27_reportSvMeasurement_writes_beyond_capacity :
    headerMeas.GNSS_LOC_SV_MEAS_LIST_MAX_SIZE = 16 ∧
    (reportSvMeasurement headerMeas
      qmiLocEventGnssSvMeasInfoIndMsgT_v02.seventeen).svMeasurement.map Prod.fst =
        List.range 17 ∧
    16 ∈ (reportSvMeasurement headerMeas
      qmiLocEventGnssSvMeasInfoIndMsgT_v02.seventeen).svMeasurement.map Prod.fst ∧
    (reportSvMeasurement headerMeas qmiLocEventGnssSvMeasInfoIndMsgT_v02.seventeen).numSvs = 17 := by
  have h := reportSvMeasurement_indices headerMeas
    qmiLocEventGnssSvMeasInfoIndMsgT_v02.seventeen rfl
  refine ⟨rfl, h, ?_, by decide⟩
  rw [h]
  decide

/-! ### Satellites used in the fix -/

/-- C29 (the code at the failing input): a used-satellite list holding the
single id 0.  The id passes the only test of the GPS branch,
`gnssSvIdUsed <= GPS_SV_PRN_MAX`, and the statement executed is
`gps_sv_used_ids_mask |= (1 << (0 - GPS_SV_PRN_MIN))`, a shift by -1, whose
behaviour is undefined: no result is defined, where the claim has all masks
unchanged.  The four other branches test the lower bound as well. -/
theorem C29_reportPosition_id_zero_shifts_by_minus_one :
    ((0 : Int) ≤ headerMisc.GPS_SV_PRN_MAX) ∧
    (0 : Int) - headerMisc.GPS_SV_PRN_MIN = -1 ∧
    shiftLeftOne (-1) = none ∧
    reportPosition.markUsed headerMisc GnssSvUsedInPosition.zero 0 = none ∧
    reportPosition.gnss_sv_used_ids headerMisc 1 1 [0] true = none ∧
    reportPosition.gnss_sv_used_ids headerMisc 1 2 [3, 66] true =
      some { GnssSvUsedInPosition.zero with
        gps_sv_used_ids_mask := 2 ^ (3 - 1), glo_sv_used_ids_mask := 2 ^ (66 - 65) } := by
  refine ⟨by decide, by decide, by decide, by decide, by decide, by decide⟩

/-! ### The satellite count -/

theorem reportSv.loop_eq (c : SvConsts) (svList : List qmiLocSvInfoStructT_v02) :
    ∀ (idxs : List Nat) (SvNotify : GnssSvNotification),
      reportSv.loop c svList idxs SvNotify =
        { count := SvNotify.count +
            ((idxs.map (fun i => svList.getD i qmiLocSvInfoStructT_v02.zero)).filter
              (reportSv.accepted c)).length
          gnssSvs := SvNotify.gnssSvs ++
            ((idxs.map (fun i => svList.getD i qmiLocSvInfoStructT_v02.zero)).filter
              (reportSv.accepted c)).map (reportSv.convert c) } := by
  intro idxs
  induction idxs with
  | nil => intro SvNotify; simp [reportSv.loop]
  | cons i rest ih =>
    intro SvNotify
    rw [reportSv.loop]
    by_cases hacc : reportSv.accepted c (svList.getD i qmiLocSvInfoStructT_v02.zero) = true
    · simp only [hacc, if_true, ih, List.map_cons, List.filter_cons_of_pos, List.length_cons,
        List.append_assoc, List.singleton_append]
      congr 1
      omega
    · simp only [hacc, Bool.false_eq_true, if_false, ih, List.map_cons]
      rw [List.filter_cons_of_neg (by simpa using hacc)]

theorem map_getD_range (l : List qmiLocSvInfoStructT_v02) (d : qmiLocSvInfoStructT_v02) :
    ∀ n, (List.range n).map (fun i => l.getD i d) =
      l.take n ++ List.replicate (n - l.length) d := by
  intro n
  induction n with
  | zero => simp
  | succ n ih =>
    rw [List.range_succ, List.map_append, ih]
    by_cases h : n < l.length
    · have h1 : n - l.length = 0 := by omega
      have h2 : n + 1 - l.length = 0 := by omega
      rw [h1, h2]
      simp only [List.replicate_zero, List.append_nil, List.map_cons, List.map_nil]
      rw [List.getD_eq_getElem _ _ h, List.take_succ, List.getElem?_eq_getElem h]
      rfl
    · have h1 : n + 1 - l.length = (n - l.length) + 1 := by omega
      rw [h1, List.replicate_succ', List.take_of_length_le (by omega),
        List.take_of_length_le (by omega)]
      simp only [List.map_cons, List.map_nil, List.append_assoc]
      rw [List.getD_eq_default _ _ (by omega)]

theorem filter_accepted_replicate_zero (c : SvConsts) (k : Nat) :
    (List.replicate k qmiLocSvInfoStructT_v02.zero).filter (reportSv.accepted c) = [] := by
  rw [List.filter_eq_nil_iff]
  intro a ha
  rw [List.eq_of_mem_replicate ha, reportSv.accepted_zero]
  decide

theorem toInt32_of_lt (x : Nat) (h : x < 2 ^ 31) : toInt32 x = (x : Int) := by
  have h1 : x % 2 ^ 32 = x := Nat.mod_eq_of_lt (by omega)
  unfold toInt32
  rw [h1, if_pos h]

theorem toInt32_neg (x : Nat) (h : 2 ^ 31 ≤ x % 2 ^ 32) : toInt32 x < 0 := by
  have h1 : x % 2 ^ 32 < 2 ^ 32 := Nat.mod_lt _ (by decide)
  unfold toInt32
  rw [if_neg (by omega)]
  omega

/-- C28 (as stated, refuted): a valid list that declares 2^31 entries and
holds one acceptable Galileo entry.  Stored into the `int` `num_svs_max` the
length is negative, the loop does not run and the count is 0, while one of the
first min (2^31, GNSS_SV_MAX) entries has both validity bits and a non-zero
id. -/
theorem C28_reportSv_length_above_int_counterexample :
    (reportSv headerSv
      { svList_valid := 1, svList_len := 2 ^ 31,
        svList := [qmiLocSvInfoStructT_v02.galileo301] }).count = 0 ∧
    (([qmiLocSvInfoStructT_v02.galileo301].take (min (2 ^ 31) headerSv.GNSS_SV_MAX)).filter
      (reportSv.accepted headerSv)).length = 1 := by
  constructor <;> decide

/-- C28 (amended): for every satellite-info indication whose list is marked
valid and whose `svList_len` is below 2^31, `reportSv` reports the entries
among the first min (`svList_len`, `GNSS_SV_MAX`) that have both the system and
the satellite-id validity bits set and a non-zero satellite id, converted,
contiguously from index 0 in input order; the count is their number and is at
most `GNSS_SV_MAX`.  When `svList_len` is 2^31 or more, which is negative once
stored into the `int` `num_svs_max`, or when the list is not marked valid, the
count is 0 and nothing is stored. -/
theorem C28_reportSv_count (c : SvConsts) (gnss_report_ptr : qmiLocEventGnssSvInfoIndMsgT_v02) :
    (gnss_report_ptr.svList_valid = 1 → gnss_report_ptr.svList_len < 2 ^ 31 →
      (reportSv c gnss_report_ptr).gnssSvs =
        ((gnss_report_ptr.svList.take
            (min gnss_report_ptr.svList_len c.GNSS_SV_MAX)).filter
          (reportSv.accepted c)).map (reportSv.convert c) ∧
      (reportSv c gnss_report_ptr).count = (reportSv c gnss_report_ptr).gnssSvs.length ∧
      (reportSv c gnss_report_ptr).count ≤ c.GNSS_SV_MAX) ∧
    (gnss_report_ptr.svList_valid = 1 → 2 ^ 31 ≤ gnss_report_ptr.svList_len % 2 ^ 32 →
      (reportSv c gnss_report_ptr).count = 0 ∧ (reportSv c gnss_report_ptr).gnssSvs = []) ∧
    (gnss_report_ptr.svList_valid ≠ 1 →
      (reportSv c gnss_report_ptr).count = 0 ∧ (reportSv c gnss_report_ptr).gnssSvs = []) := by
  refine ⟨?_, ?_, ?_⟩
  · intro hv hlen
    have hn : (reportSv.num_svs_max c gnss_report_ptr.svList_len).toNat =
        min gnss_report_ptr.svList_len c.GNSS_SV_MAX := by
      unfold reportSv.num_svs_max
      rw [toInt32_of_lt _ hlen]
      split_ifs with h <;> omega
    have hg : (reportSv c gnss_report_ptr).gnssSvs =
        ((gnss_report_ptr.svList.take
            (min gnss_report_ptr.svList_len c.GNSS_SV_MAX)).filter
          (reportSv.accepted c)).map (reportSv.convert c) := by
      unfold reportSv
      rw [if_pos hv, reportSv.loop_eq, hn, map_getD_range, List.filter_append,
        filter_accepted_replicate_zero]
      simp
    have hc : (reportSv c gnss_report_ptr).count = (reportSv c gnss_report_ptr).gnssSvs.length := by
      unfold reportSv
      rw [if_pos hv, reportSv.loop_eq]
      simp
    refine ⟨hg, hc, ?_⟩
    rw [hc, hg, List.length_map]
    refine Nat.le_trans (List.length_filter_le _ _) ?_
    rw [List.length_take]
    omega
  · intro hv hlen
    have hn : (reportSv.num_svs_max c gnss_report_ptr.svList_len).toNat = 0 := by
      unfold reportSv.num_svs_max
      have := toInt32_neg _ hlen
      split_ifs with h <;> omega
    unfold reportSv
    rw [if_pos hv, hn]
    exact ⟨rfl, rfl⟩
  · intro hv
    unfold reportSv
    rw [if_neg hv]
    exact ⟨rfl, rfl⟩

/-- C28 (amended), evaluated on a list of a Galileo entry, an entry without
satellite id and a QZSS entry: two satellites are reported. -/
theorem C28_reportSv_count_witness :
    (reportSv headerSv qmiLocEventGnssSvInfoIndMsgT_v02.sample).count = 2 ∧
    (reportSv headerSv qmiLocEventGnssSvInfoIndMsgT_v02.sample).count ≤ headerSv.GNSS_SV_MAX :=
  have h := (C28_reportSv_count headerSv qmiLocEventGnssSvInfoIndMsgT_v02.sample).1
    (by decide) (by decide)
  ⟨by decide, h.2.2⟩

/-! ### The error taxonomy -/

/-- C30: `convertErr` is total; it maps each of the ten transport statuses
(success, general failure, unsupported, invalid parameter, engine busy, phone
offline, timeout, invalid handle, service not present, internal) to the
like-named adapter code, and these ten codes are pairwise distinct; it returns
the success code exactly for the success status; and every other status value
is mapped to `LOC_API_ADAPTER_ERR_FAILURE`. -/
theorem C30_convertErr_table :
    convertErr .eLOC_CLIENT_SUCCESS = .LOC_API_ADAPTER_ERR_SUCCESS ∧
    convertErr .eLOC_CLIENT_FAILURE_GENERAL = .LOC_API_ADAPTER_ERR_GENERAL_FAILURE ∧
    convertErr .eLOC_CLIENT_FAILURE_UNSUPPORTED = .LOC_API_ADAPTER_ERR_UNSUPPORTED ∧
    convertErr .eLOC_CLIENT_FAILURE_INVALID_PARAMETER = .LOC_API_ADAPTER_ERR_INVALID_PARAMETER ∧
    convertErr .eLOC_CLIENT_FAILURE_ENGINE_BUSY = .LOC_API_ADAPTER_ERR_ENGINE_BUSY ∧
    convertErr .eLOC_CLIENT_FAILURE_PHONE_OFFLINE = .LOC_API_ADAPTER_ERR_PHONE_OFFLINE ∧
    convertErr .eLOC_CLIENT_FAILURE_TIMEOUT = .LOC_API_ADAPTER_ERR_TIMEOUT ∧
    convertErr .eLOC_CLIENT_FAILURE_INVALID_HANDLE = .LOC_API_ADAPTER_ERR_INVALID_HANDLE ∧
    convertErr .eLOC_CLIENT_FAILURE_SERVICE_NOT_PRESENT =
      .LOC_API_ADAPTER_ERR_SERVICE_NOT_PRESENT ∧
    convertErr .eLOC_CLIENT_FAILURE_INTERNAL = .LOC_API_ADAPTER_ERR_INTERNAL ∧
    ([locClientStatusEnumType.eLOC_CLIENT_SUCCESS, .eLOC_CLIENT_FAILURE_GENERAL,
      .eLOC_CLIENT_FAILURE_UNSUPPORTED, .eLOC_CLIENT_FAILURE_INVALID_PARAMETER,
      .eLOC_CLIENT_FAILURE_ENGINE_BUSY, .eLOC_CLIENT_FAILURE_PHONE_OFFLINE,
      .eLOC_CLIENT_FAILURE_TIMEOUT, .eLOC_CLIENT_FAILURE_INVALID_HANDLE,
      .eLOC_CLIENT_FAILURE_SERVICE_NOT_PRESENT, .eLOC_CLIENT_FAILURE_INTERNAL].map
        convertErr).Nodup ∧
    (∀ status, convertErr status = .LOC_API_ADAPTER_ERR_SUCCESS ↔
      status = .eLOC_CLIENT_SUCCESS) ∧
    (∀ value, convertErr (.other value) = .LOC_API_ADAPTER_ERR_FAILURE) ∧
    (∀ status, ∃ err, convertErr status = err) := by
  refine ⟨rfl, rfl, rfl, rfl, rfl, rfl, rfl, rfl, rfl, rfl, by decide, convertErr_eq_success,
    fun _ => rfl, fun status => ⟨_, rfl⟩⟩


/-! ### The start request of `startFix` -/

theorem registerEventMask_sendReqCalls (env : Env) (k : MaskConsts) (s : State) (M : Nat) :
    sendReqCalls (registerEventMask env k s M).trace = sendReqCalls s.trace := by
  rw [registerEventMask_trace]
  unfold sendReqCalls
  split_ifs <;> simp

theorem locSyncSendReq_sendReqCalls (env : Env) (k : MaskConsts) (s : State) (req_id : MsgId)
    (req_payload : Option ReqPayload) (timeout_msec : Nat) (ind_id : MsgId)
    (ind_payload_ptr : Option Ind) :
    sendReqCalls
        (locSyncSendReq env k s req_id req_payload timeout_msec ind_id ind_payload_ptr).state.trace =
      sendReqCalls s.trace := by
  unfold locSyncSendReq
  simp only
  split_ifs <;> (try split) <;> simp [State.log, sendReqCalls]

/-- The mode-setting step of `startFix` hands nothing to `locClientSendReq`. -/
theorem startFix.modeSet_sendReqCalls (env : Env) (k : MaskConsts) (m : MiscConsts) (s : State)
    (fixCriteria : LocPosMode) :
    sendReqCalls (startFix.modeSet env k m s fixCriteria).state.trace = sendReqCalls s.trace := by
  unfold startFix.modeSet
  rw [locSyncSendReq_sendReqCalls, registerEventMask_sendReqCalls]
  rfl

/-- `startFix` when the start request is skipped. -/
theorem startFix_skipped (env : Env) (k : MaskConsts) (m : MiscConsts) (c : StartConsts)
    (s : State) (fixCriteria : LocPosMode)
    (h : ((startFix.modeSet env k m s fixCriteria).status ≠ .eLOC_CLIENT_SUCCESS ∧
          (startFix.modeSet env k m s fixCriteria).status ≠ .eLOC_CLIENT_FAILURE_TIMEOUT) ∨
        ((startFix.modeSet env k m s fixCriteria).ind.getD Ind.zero).status ≠
          .eQMI_LOC_SUCCESS_V02) :
    startFix env k m c s fixCriteria =
      (convertErr (startFix.modeSet env k m s fixCriteria).status,
        (startFix.modeSet env k m s fixCriteria).state) := by
  unfold startFix.modeSet at h
  unfold startFix startFix.modeSet
  simp only []
  rw [if_pos h]

/-- `startFix` when the start request is sent. -/
theorem startFix_sent (env : Env) (k : MaskConsts) (m : MiscConsts) (c : StartConsts)
    (s : State) (fixCriteria : LocPosMode)
    (h : ¬ (((startFix.modeSet env k m s fixCriteria).status ≠ .eLOC_CLIENT_SUCCESS ∧
          (startFix.modeSet env k m s fixCriteria).status ≠ .eLOC_CLIENT_FAILURE_TIMEOUT) ∨
        ((startFix.modeSet env k m s fixCriteria).ind.getD Ind.zero).status ≠
          .eQMI_LOC_SUCCESS_V02)) :
    startFix env k m c s fixCriteria =
      (convertErr (startFix.startStatus env k m c s fixCriteria),
        (startFix.modeSet env k m s fixCriteria).state.log
          (.locClientSendReq (startFix.modeSet env k m s fixCriteria).state.clientHandle
            .QMI_LOC_START_REQ_V02
            (some (ReqPayload.pStartReq (startFix.start_msg c fixCriteria)))
            (startFix.startStatus env k m c s fixCriteria))) := by
  unfold startFix.modeSet at h
  unfold startFix startFix.startStatus startFix.modeSet
  simp only []
  rw [if_neg h]

/-- C31: in `startFix`, with `r` the outcome of the mode-setting step, the
start request is handed to `locClientSendReq` exactly when the status of `r`
is success or timeout and the status of the mode-setting indication is success:
in that case the trace ends with that one start request and the returned code
is `convertErr` of its status, otherwise nothing is handed to
`locClientSendReq`.  A timeout that leaves the zeroed indication in place
satisfies the condition, so the start request is sent. -/
theorem C31_startFix_start_request (env : Env) (k : MaskConsts) (m : MiscConsts)
    (c : StartConsts) (s : State) (fixCriteria : LocPosMode) :
    (((startFix.modeSet env k m s fixCriteria).status = .eLOC_CLIENT_SUCCESS ∨
        (startFix.modeSet env k m s fixCriteria).status = .eLOC_CLIENT_FAILURE_TIMEOUT) ∧
      ((startFix.modeSet env k m s fixCriteria).ind.getD Ind.zero).status =
        .eQMI_LOC_SUCCESS_V02 →
      sendReqCalls (startFix env k m c s fixCriteria).2.trace =
        sendReqCalls s.trace ++
          [(.QMI_LOC_START_REQ_V02, startFix.startStatus env k m c s fixCriteria)] ∧
      (startFix env k m c s fixCriteria).2.trace =
        (startFix.modeSet env k m s fixCriteria).state.trace ++
          [Event.locClientSendReq (startFix.modeSet env k m s fixCriteria).state.clientHandle
            .QMI_LOC_START_REQ_V02
            (some (ReqPayload.pStartReq (startFix.start_msg c fixCriteria)))
            (startFix.startStatus env k m c s fixCriteria)] ∧
      (startFix env k m c s fixCriteria).1 =
        convertErr (startFix.startStatus env k m c s fixCriteria)) ∧
    (¬ (((startFix.modeSet env k m s fixCriteria).status = .eLOC_CLIENT_SUCCESS ∨
        (startFix.modeSet env k m s fixCriteria).status = .eLOC_CLIENT_FAILURE_TIMEOUT) ∧
      ((startFix.modeSet env k m s fixCriteria).ind.getD Ind.zero).status =
        .eQMI_LOC_SUCCESS_V02) →
      sendReqCalls (startFix env k m c s fixCriteria).2.trace = sendReqCalls s.trace ∧
      (startFix env k m c s fixCriteria).2.trace =
        (startFix.modeSet env k m s fixCriteria).state.trace) ∧
    ((startFix.modeSet env k m s fixCriteria).status = .eLOC_CLIENT_FAILURE_TIMEOUT →
      (startFix.modeSet env k m s fixCriteria).ind = some Ind.zero →
      sendReqCalls (startFix env k m c s fixCriteria).2.trace =
        sendReqCalls s.trace ++
          [(.QMI_LOC_START_REQ_V02, startFix.startStatus env k m c s fixCriteria)] ∧
      (startFix env k m c s fixCriteria).1 =
        convertErr (startFix.startStatus env k m c s fixCriteria)) := by
  have hsent : ∀ (_ : ((startFix.modeSet env k m s fixCriteria).status = .eLOC_CLIENT_SUCCESS ∨
        (startFix.modeSet env k m s fixCriteria).status = .eLOC_CLIENT_FAILURE_TIMEOUT) ∧
      ((startFix.modeSet env k m s fixCriteria).ind.getD Ind.zero).status =
        .eQMI_LOC_SUCCESS_V02),
      sendReqCalls (startFix env k m c s fixCriteria).2.trace =
        sendReqCalls s.trace ++
          [(.QMI_LOC_START_REQ_V02, startFix.startStatus env k m c s fixCriteria)] ∧
      (startFix env k m c s fixCriteria).2.trace =
        (startFix.modeSet env k m s fixCriteria).state.trace ++
          [Event.locClientSendReq (startFix.modeSet env k m s fixCriteria).state.clientHandle
            .QMI_LOC_START_REQ_V02
            (some (ReqPayload.pStartReq (startFix.start_msg c fixCriteria)))
            (startFix.startStatus env k m c s fixCriteria)] ∧
      (startFix env k m c s fixCriteria).1 =
        convertErr (startFix.startStatus env k m c s fixCriteria) := by
    intro h
    have hn : ¬ (((startFix.modeSet env k m s fixCriteria).status ≠ .eLOC_CLIENT_SUCCESS ∧
          (startFix.modeSet env k m s fixCriteria).status ≠ .eLOC_CLIENT_FAILURE_TIMEOUT) ∨
        ((startFix.modeSet env k m s fixCriteria).ind.getD Ind.zero).status ≠
          .eQMI_LOC_SUCCESS_V02) := by
      rintro (⟨h1, h2⟩ | h3)
      · rcases h.1 with h4 | h4
        · exact h1 h4
        · exact h2 h4
      · exact h3 h.2
    rw [startFix_sent env k m c s fixCriteria hn]
    refine ⟨?_, rfl, rfl⟩
    simp only [State.log]
    have := startFix.modeSet_sendReqCalls env k m s fixCriteria
    unfold sendReqCalls at this ⊢
    rw [List.filterMap_append, this]
    rfl
  refine ⟨hsent, ?_, ?_⟩
  · intro h
    have hp : ((startFix.modeSet env k m s fixCriteria).status ≠ .eLOC_CLIENT_SUCCESS ∧
          (startFix.modeSet env k m s fixCriteria).status ≠ .eLOC_CLIENT_FAILURE_TIMEOUT) ∨
        ((startFix.modeSet env k m s fixCriteria).ind.getD Ind.zero).status ≠
          .eQMI_LOC_SUCCESS_V02 := by
      by_contra hc
      apply h
      push_neg at hc
      refine ⟨?_, hc.2⟩
      by_cases h1 : (startFix.modeSet env k m s fixCriteria).status = .eLOC_CLIENT_SUCCESS
      · exact Or.inl h1
      · exact Or.inr (hc.1 h1)
    rw [startFix_skipped env k m c s fixCriteria hp]
    exact ⟨startFix.modeSet_sendReqCalls env k m s fixCriteria, rfl⟩
  · intro ht hi
    have := hsent ⟨Or.inr ht, by rw [hi]; rfl⟩
    exact ⟨this.1, this.2.2⟩

/-- C31, evaluated: every blocking request times out with the zeroed
indication left in place; the start request is sent and its status is what
`startFix` returns. -/
theorem C31_startFix_start_request_witness :
    sendReqCalls
        (startFix Env.timingOut headerMasks headerMisc headerStart State.opened
          LocPosMode.sample).2.trace =
      [(.QMI_LOC_START_REQ_V02, .eLOC_CLIENT_SUCCESS)] ∧
    (startFix Env.timingOut headerMasks headerMisc headerStart State.opened
      LocPosMode.sample).1 = .LOC_API_ADAPTER_ERR_SUCCESS :=
  (C31_startFix_start_request Env.timingOut headerMasks headerMisc headerStart State.opened
    LocPosMode.sample).2.2 (by decide) (by decide)

/-! ### Closing the client and routing events -/

/-- C32 (as stated, refuted): an adapter in a session whose engine reported
on is closed; the masks, the handle and fix-in-progress are reset, and
`mEngineOn` is still true. -/
theorem C32_close_keeps_engine_on_counterexample :
    State.engineOn.mEngineOn = true ∧
    (close Env.accepting State.engineOn).1 = .LOC_API_ADAPTER_ERR_SUCCESS ∧
    (close Env.accepting State.engineOn).2.mInSession = false ∧
    (close Env.accepting State.engineOn).2.clientHandle = none ∧
    (close Env.accepting State.engineOn).2.mEngineOn = true := by
  decide

/-- C32 (amended): for every prior adapter state and transport, after `close`
the consumer mask and the registered-mask cache are both 0, the handle is the
invalid handle and fix-in-progress is false, while `mEngineOn` and
`mMeasurementsStarted` keep their values; `locClientClose` is called exactly
when the handle was valid, and `close` returns success iff the handle was
already invalid or that call returned success, and the failure code
otherwise. -/
theorem C32_close_resets (env : Env) (s : State) :
    (close env s).2.mMask = 0 ∧
    (close env s).2.mQmiMask = 0 ∧
    (close env s).2.clientHandle = none ∧
    (close env s).2.mInSession = false ∧
    (close env s).2.mEngineOn = s.mEngineOn ∧
    (close env s).2.mMeasurementsStarted = s.mMeasurementsStarted ∧
    (close env s).2.trace =
      s.trace ++
        (if s.clientHandle = none then []
         else [Event.locClientClose s.clientHandle (env.locClientClose s.trace s.clientHandle)]) ∧
    ((close env s).1 = .LOC_API_ADAPTER_ERR_SUCCESS ↔
      s.clientHandle = none ∨
      env.locClientClose s.trace s.clientHandle = .eLOC_CLIENT_SUCCESS) ∧
    ((close env s).1 = .LOC_API_ADAPTER_ERR_SUCCESS ∨
      (close env s).1 = .LOC_API_ADAPTER_ERR_FAILURE) := by
  unfold close
  by_cases h : s.clientHandle = none
  · simp [h]
  · by_cases hc : env.locClientClose s.trace s.clientHandle = .eLOC_CLIENT_SUCCESS
    · simp [h, hc, State.log]
    · simp [h, hc, State.log]

/-- C33 (as stated, refuted): the measurement-report identifier is routed to
two functions, `reportSvMeasurement` and then `reportGnssMeasurementData`, and
the predicted-orbits request to `reportXtraServerUrl` and then
`requestXtraData`. -/
theorem C33_eventCb_two_handlers_counterexample :
    eventCb.handlers .QMI_LOC_EVENT_GNSS_MEASUREMENT_REPORT_IND_V02 =
      [.reportSvMeasurement, .reportGnssMeasurementData] ∧
    eventCb.handlers .QMI_LOC_EVENT_INJECT_PREDICTED_ORBITS_REQ_IND_V02 =
      [.reportXtraServerUrl, .requestXtraData] ∧
    eventCb (fun h (calls : List Handler) => calls ++ [h])
      .QMI_LOC_EVENT_GNSS_MEASUREMENT_REPORT_IND_V02 [] =
      [.reportSvMeasurement, .reportGnssMeasurementData] := by
  decide

/-- C33 (amended): `eventCb` routes the predicted-orbits request to
`reportXtraServerUrl` followed by `requestXtraData`, the measurement report to
`reportSvMeasurement` followed by `reportGnssMeasurementData`, and each of the
eleven other identifiers of its `switch` to exactly one function; for every
other identifier it calls no function, so whatever the functions do, the state
they act on is unchanged. -/
theorem C33_eventCb_routing (σ : Type) (handler : Handler → σ → σ) (st : σ) :
    eventCb handler .QMI_LOC_EVENT_INJECT_PREDICTED_ORBITS_REQ_IND_V02 st =
      handler .requestXtraData (handler .reportXtraServerUrl st) ∧
    eventCb handler .QMI_LOC_EVENT_GNSS_MEASUREMENT_REPORT_IND_V02 st =
      handler .reportGnssMeasurementData (handler .reportSvMeasurement st) ∧
    (∀ eventId : EventIndId,
      eventId ≠ .QMI_LOC_EVENT_INJECT_PREDICTED_ORBITS_REQ_IND_V02 →
      eventId ≠ .QMI_LOC_EVENT_GNSS_MEASUREMENT_REPORT_IND_V02 →
      (∀ v, eventId ≠ .other v) →
      ∃ h, eventCb.handlers eventId = [h] ∧ eventCb handler eventId st = handler h st) ∧
    (∀ v, eventCb.handlers (.other v) = [] ∧ eventCb handler (.other v) st = st) ∧
    eventCb.handlers .QMI_LOC_EVENT_POSITION_REPORT_IND_V02 = [.reportPosition] ∧
    eventCb.handlers .QMI_LOC_EVENT_GNSS_SV_INFO_IND_V02 = [.reportSv] ∧
    eventCb.handlers .QMI_LOC_EVENT_ENGINE_STATE_IND_V02 = [.reportEngineState] ∧
    eventCb.handlers .QMI_LOC_EVENT_FIX_SESSION_STATE_IND_V02 = [.reportFixSessionState] ∧
    eventCb.handlers .QMI_LOC_EVENT_NMEA_IND_V02 = [.reportNmea] ∧
    eventCb.handlers .QMI_LOC_EVENT_INJECT_TIME_REQ_IND_V02 = [.requestTime] ∧
    eventCb.handlers .QMI_LOC_EVENT_INJECT_POSITION_REQ_IND_V02 = [.requestLocation] ∧
    eventCb.handlers .QMI_LOC_EVENT_NI_NOTIFY_VERIFY_REQ_IND_V02 = [.reportNiRequest] ∧
    eventCb.handlers .QMI_LOC_EVENT_LOCATION_SERVER_CONNECTION_REQ_IND_V02 =
      [.reportAtlRequest] ∧
    eventCb.handlers .QMI_LOC_EVENT_SV_POLYNOMIAL_REPORT_IND_V02 = [.reportSvPolynomial] ∧
    eventCb.handlers .QMI_LOC_EVENT_WIFI_REQ_IND_V02 = [.reportOdcpiRequest] := by
  refine ⟨rfl, rfl, ?_, fun v => ⟨rfl, rfl⟩, rfl, rfl, rfl, rfl, rfl, rfl, rfl, rfl, rfl, rfl,
    rfl⟩
  intro eventId h1 h2 h3
  cases eventId with
  | QMI_LOC_EVENT_INJECT_PREDICTED_ORBITS_REQ_IND_V02 => exact absurd rfl h1
  | QMI_LOC_EVENT_GNSS_MEASUREMENT_REPORT_IND_V02 => exact absurd rfl h2
  | other v => exact absurd rfl (h3 v)
  | _ => exact ⟨_, rfl, rfl⟩

/-- C33 (amended), evaluated with functions that record their own name: the
satellite report is routed to `reportSv` alone. -/
theorem C33_eventCb_routing_witness :
    ∃ h, eventCb.handlers .QMI_LOC_EVENT_GNSS_SV_INFO_IND_V02 = [h] ∧
      eventCb (fun h (calls : List Handler) => calls ++ [h])
        .QMI_LOC_EVENT_GNSS_SV_INFO_IND_V02 [] =
        (fun h (calls : List Handler) => calls ++ [h]) h [] :=
  (C33_eventCb_routing (List Handler) (fun h calls => calls ++ [h]) []).2.2.1
    .QMI_LOC_EVENT_GNSS_SV_INFO_IND_V02 (by decide) (by decide) (by intro v; exact nofun)

/-! ### The measurement-support cache -/

/-- C35 (as stated, refuted): the mode-setting request comes back with client
status success and an indication status of general failure; the start request
is skipped, nothing is handed to `locClientSendReq`, yet `startFix` returns the
success code. -/
theorem C35_startFix_success_without_start_counterexample :
    (startFix Env.indicationFailure headerMasks headerMisc headerStart State.opened
      LocPosMode.sample).1 = .LOC_API_ADAPTER_ERR_SUCCESS ∧
    sendReqCalls (startFix Env.indicationFailure headerMasks headerMisc headerStart State.opened
      LocPosMode.sample).2.trace = [] := by
  decide

/-- C35 (amended): with `r` the outcome of the mode-setting step, `startFix`
returns the success code exactly when the start request was sent and came back
with success, or when `r` has client status success and an indication status
other than success (the start request is then skipped).  When the start request
is skipped because the client status of `r` is neither success nor timeout,
nothing is handed to `locClientSendReq` and the returned code is not success. -/
theorem C35_startFix_success_iff (env : Env) (k : MaskConsts) (m : MiscConsts)
    (c : StartConsts) (s : State) (fixCriteria : LocPosMode) :
    ((startFix env k m c s fixCriteria).1 = .LOC_API_ADAPTER_ERR_SUCCESS ↔
      ((((startFix.modeSet env k m s fixCriteria).status = .eLOC_CLIENT_SUCCESS ∨
          (startFix.modeSet env k m s fixCriteria).status = .eLOC_CLIENT_FAILURE_TIMEOUT) ∧
        ((startFix.modeSet env k m s fixCriteria).ind.getD Ind.zero).status =
          .eQMI_LOC_SUCCESS_V02) ∧
        startFix.startStatus env k m c s fixCriteria = .eLOC_CLIENT_SUCCESS) ∨
      ((startFix.modeSet env k m s fixCriteria).status = .eLOC_CLIENT_SUCCESS ∧
        ((startFix.modeSet env k m s fixCriteria).ind.getD Ind.zero).status ≠
          .eQMI_LOC_SUCCESS_V02)) ∧
    ((startFix.modeSet env k m s fixCriteria).status ≠ .eLOC_CLIENT_SUCCESS →
      (startFix.modeSet env k m s fixCriteria).status ≠ .eLOC_CLIENT_FAILURE_TIMEOUT →
      (startFix env k m c s fixCriteria).1 ≠ .LOC_API_ADAPTER_ERR_SUCCESS ∧
      sendReqCalls (startFix env k m c s fixCriteria).2.trace = sendReqCalls s.trace) := by
  constructor
  · by_cases hp : ((startFix.modeSet env k m s fixCriteria).status ≠ .eLOC_CLIENT_SUCCESS ∧
          (startFix.modeSet env k m s fixCriteria).status ≠ .eLOC_CLIENT_FAILURE_TIMEOUT) ∨
        ((startFix.modeSet env k m s fixCriteria).ind.getD Ind.zero).status ≠
          .eQMI_LOC_SUCCESS_V02
    · rw [startFix_skipped env k m c s fixCriteria hp]
      simp only [convertErr_eq_success]
      constructor
      · intro h
        rcases hp with ⟨h1, -⟩ | h3
        · exact absurd h h1
        · exact Or.inr ⟨h, h3⟩
      · rintro (⟨⟨h0, h2⟩, -⟩ | ⟨h, -⟩)
        · rcases hp with ⟨h1, h1'⟩ | h3
          · rcases h0 with h0 | h0
            · exact absurd h0 h1
            · exact absurd h0 h1'
          · exact absurd h2 h3
        · exact h
    · rw [startFix_sent env k m c s fixCriteria hp]
      simp only [convertErr_eq_success]
      push_neg at hp
      constructor
      · intro h
        refine Or.inl ⟨⟨?_, hp.2⟩, h⟩
        by_cases h1 : (startFix.modeSet env k m s fixCriteria).status = .eLOC_CLIENT_SUCCESS
        · exact Or.inl h1
        · exact Or.inr (hp.1 h1)
      · rintro (⟨-, h⟩ | ⟨-, h3⟩)
        · exact h
        · exact absurd hp.2 h3
  · intro h1 h2
    rw [startFix_skipped env k m c s fixCriteria (Or.inl ⟨h1, h2⟩)]
    refine ⟨?_, startFix.modeSet_sendReqCalls env k m s fixCriteria⟩
    simp only [ne_eq, convertErr_eq_success]
    exact h1

/-- C35 (amended), evaluated: every blocking request is rejected as
engine-busy; the start request is skipped and the returned code is not
success. -/
theorem C35_startFix_success_iff_witness :
    (startFix Env.busy headerMasks headerMisc headerStart State.opened
      LocPosMode.sample).1 ≠ .LOC_API_ADAPTER_ERR_SUCCESS ∧
    sendReqCalls (startFix Env.busy headerMasks headerMisc headerStart State.opened
      LocPosMode.sample).2.trace = sendReqCalls State.opened.trace :=
  (C35_startFix_success_iff Env.busy headerMasks headerMisc headerStart State.opened
    LocPosMode.sample).2 (by decide) (by decide)

/-! ### Gaps, system bits, session status and creation -/

/-- C36 (the code at the failing input): a valid indication whose first entry
is empty (id 0, status 0) and whose second entry is tracked.  `numSvs` is 1,
slot 0 of the set holds no measurement and the tracked measurement sits in slot
1, outside the first `numSvs` positions. -/
theorem C36_reportSvMeasurement_leaves_gap :
    (reportSvMeasurement headerMeas qmiLocEventGnssSvMeasInfoIndMsgT_v02.gap).numSvs = 1 ∧
    (reportSvMeasurement headerMeas qmiLocEventGnssSvMeasInfoIndMsgT_v02.gap).svMeasurement =
      [(0, { sizeSet := true, gnssSvId := 0, gloFrequency := 0, measurementStatus := 0 }),
       (1, { sizeSet := true, gnssSvId := 66, gloFrequency := 1, measurementStatus := 4 })] := by
  decide

/-- C37 (the code at the failing input): in the bulk delete request for the
ephemeris of one constellation, the QZSS bit of `svTypeMask` selects
`QMI_LOC_SYSTEM_BDS_V02`, the BeiDou bit `QMI_LOC_SYSTEM_GAL_V02` and the
Galileo bit `QMI_LOC_SYSTEM_QZSS_V02`; GPS and GLONASS select their own system
bit, and without a satellite-data category the system field stays 0. -/
theorem C37_delete_gnss_req_system_bits :
    (deleteAidingData.delete_gnss_req headerDelete
      (GnssAidingData.ephemerisOf
        headerDelete.GNSS_AIDING_DATA_SV_TYPE_QZSS_BIT)).deleteSatelliteData.system =
      headerDelete.QMI_LOC_SYSTEM_BDS_V02 ∧
    (deleteAidingData.delete_gnss_req headerDelete
      (GnssAidingData.ephemerisOf
        headerDelete.GNSS_AIDING_DATA_SV_TYPE_BEIDOU_BIT)).deleteSatelliteData.system =
      headerDelete.QMI_LOC_SYSTEM_GAL_V02 ∧
    (deleteAidingData.delete_gnss_req headerDelete
      (GnssAidingData.ephemerisOf
        headerDelete.GNSS_AIDING_DATA_SV_TYPE_GALILEO_BIT)).deleteSatelliteData.system =
      headerDelete.QMI_LOC_SYSTEM_QZSS_V02 ∧
    (deleteAidingData.delete_gnss_req headerDelete
      (GnssAidingData.ephemerisOf
        headerDelete.GNSS_AIDING_DATA_SV_TYPE_GPS_BIT)).deleteSatelliteData.system =
      headerDelete.QMI_LOC_SYSTEM_GPS_V02 ∧
    (deleteAidingData.delete_gnss_req headerDelete
      (GnssAidingData.ephemerisOf
        headerDelete.GNSS_AIDING_DATA_SV_TYPE_GLONASS_BIT)).deleteSatelliteData.system =
      headerDelete.QMI_LOC_SYSTEM_GLO_V02 ∧
    (deleteAidingData.delete_gnss_req headerDelete
      (GnssAidingData.typesOnly
        headerDelete.GNSS_AIDING_DATA_SV_TYPE_QZSS_BIT)).deleteSatelliteData.system = 0 ∧
    headerDelete.QMI_LOC_SYSTEM_BDS_V02 ≠ headerDelete.QMI_LOC_SYSTEM_QZSS_V02 ∧
    headerDelete.QMI_LOC_SYSTEM_GAL_V02 ≠ headerDelete.QMI_LOC_SYSTEM_BDS_V02 ∧
    headerDelete.QMI_LOC_SYSTEM_QZSS_V02 ≠ headerDelete.QMI_LOC_SYSTEM_GAL_V02 := by
  decide

/-- C38 (the code at the failing input): a successful final report with valid
latitude and longitude and a used-satellite list.  `LocApiBase::needReport` is
handed `LOC_SESS_INTERMEDIATE` and `LocApiBase::reportPosition`, called after
it, is handed `LOC_SESS_SUCCESS`; with the header value 1 of
`eQMI_LOC_SESS_STATUS_IN_PROGRESS_V02` every call of `needReport` gets
`LOC_SESS_INTERMEDIATE`, whatever the report. -/
theorem C38_reportPosition_needReport_status :
    reportPosition.calls headerSess qmiLocEventPositionReportIndMsgT_v02.finalFix =
      [.needReport .LOC_SESS_INTERMEDIATE, .reportPosition .LOC_SESS_SUCCESS] ∧
    (∀ (location_report_ptr : qmiLocEventPositionReportIndMsgT_v02) (status : loc_sess_status),
      LocApiBaseCall.needReport status ∈ reportPosition.calls headerSess location_report_ptr →
      status = .LOC_SESS_INTERMEDIATE) := by
  refine ⟨by decide, ?_⟩
  intro r status h
  have hne : headerSess.eQMI_LOC_SESS_STATUS_IN_PROGRESS_V02 ≠ 0 := by decide
  unfold reportPosition.calls at h
  rw [if_pos hne] at h
  split_ifs at h <;> simp at h <;> exact h

/-- C39 (the code at the failing input): for every non-null message task
`createLocApiV02` and `getLocApi` return `NULL`, and for the `NULL` message
task they return a new adapter built on it. -/
theorem C39_createLocApiV02_inverted_null_test :
    (∀ (t exMask : Nat) (context : Option Nat),
      createLocApiV02 (some t) exMask context = none ∧
      getLocApi (some t) exMask context = none) ∧
    (∀ (exMask : Nat) (context : Option Nat),
      createLocApiV02 none exMask context =
        some { msgTask := none, exMask := exMask, context := context, state := State.init } ∧
      getLocApi none exMask context =
        some { msgTask := none, exMask := exMask, context := context, state := State.init }) :=
  ⟨fun _ _ _ => ⟨rfl, rfl⟩, fun _ _ => ⟨rfl, rfl⟩⟩

/-! ### `convertMask` and unions -/

/-- A union is zero exactly when both sides are. -/
theorem lor_eq_zero (x y : Nat) : x ||| y = 0 ↔ x = 0 ∧ y = 0 := by
  constructor
  · intro h
    constructor
    · apply Nat.eq_of_testBit_eq
      intro i
      have := congrArg (fun n => n.testBit i) h
      simp only [Nat.testBit_lor, Nat.zero_testBit, Bool.or_eq_false_iff] at this
      simpa using this.1
    · apply Nat.eq_of_testBit_eq
      intro i
      have := congrArg (fun n => n.testBit i) h
      simp only [Nat.testBit_lor, Nat.zero_testBit, Bool.or_eq_false_iff] at this
      simpa using this.2
  · rintro ⟨rfl, rfl⟩
    rfl

/-- The test `mask & bit` on a union of masks. -/
theorem hasBit_or (a b B : Nat) : hasBit (a ||| b) B = (hasBit a B || hasBit b B) := by
  unfold hasBit
  rw [Nat.and_comm (a ||| b) B, Nat.and_or_distrib_left, Nat.and_comm B a, Nat.and_comm B b]
  rw [Bool.eq_iff_iff]
  simp only [bne_iff_ne, Bool.or_eq_true, ne_eq, lor_eq_zero]
  tauto

/-- The statement `if (c) m |= bits` on the empty mask, for a disjunction. -/
theorem orIf_or_zero (ca cb : Bool) (bits : Nat) :
    orIf (ca || cb) bits 0 = orIf ca bits 0 ||| orIf cb bits 0 := by
  cases ca <;> cases cb <;> simp [orIf]

/-- The statement `if (c) m |= bits` on a union, for a disjunction. -/
theorem orIf_or (ca cb : Bool) (bits x y : Nat) :
    orIf (ca || cb) bits (x ||| y) = orIf ca bits x ||| orIf cb bits y := by
  cases ca <;> cases cb <;> simp only [orIf, Bool.or_self, Bool.or_true, Bool.or_false,
    if_true, if_false, Bool.false_eq_true]
  · rw [Nat.lor_assoc]
  · rw [Nat.lor_assoc, Nat.lor_comm y bits, Nat.lor_assoc]
  · apply Nat.eq_of_testBit_eq
    intro i
    simp only [Nat.testBit_lor]
    cases x.testBit i <;> cases y.testBit i <;> cases bits.testBit i <;> rfl

/-- Regrouping a disjunction of two disjunctions. -/
theorem or_or_or_swap (p q r t : Bool) : ((p || q) || (r || t)) = ((p || r) || (q || t)) := by
  cases p <;> cases q <;> cases r <;> cases t <;> rfl

/-- The mask conversion distributes over unions. -/
theorem convertMask_or (k : MaskConsts) (a b : Nat) :
    convertMask k (a ||| b) = convertMask k a ||| convertMask k b := by
  conv_lhs => unfold convertMask
  simp only [hasBit_or]
  rw [or_or_or_swap]
  simp only [orIf_or_zero, orIf_or]
  rfl

theorem convertMask_zero (k : MaskConsts) : convertMask k 0 = 0 := by
  unfold convertMask
  simp [hasBit, orIf]

/-- C40: for every assignment of the mask constants, `convertMask` maps the
empty consumer mask to the empty protocol mask and a union of consumer masks to
the union of their conversions, hence a consumer mask contained in another
converts to a protocol mask contained in the conversion of the other.  With the
header constants the NMEA-position bit and the NMEA-1Hz bit are different
consumer masks with the same conversion, the NMEA protocol bit, so the
conversion is not injective. -/
theorem C40_convertMask_union_homomorphism (k : MaskConsts) :
    convertMask k 0 = 0 ∧
    (∀ a b : Nat, convertMask k (a ||| b) = convertMask k a ||| convertMask k b) ∧
    (∀ a b : Nat, a ||| b = b → convertMask k a ||| convertMask k b = convertMask k b) ∧
    headerMasks.LOC_API_ADAPTER_BIT_NMEA_POSITION_REPORT ≠
      headerMasks.LOC_API_ADAPTER_BIT_NMEA_1HZ_REPORT ∧
    convertMask headerMasks headerMasks.LOC_API_ADAPTER_BIT_NMEA_POSITION_REPORT =
      headerMasks.QMI_LOC_EVENT_MASK_NMEA_V02 ∧
    convertMask headerMasks headerMasks.LOC_API_ADAPTER_BIT_NMEA_1HZ_REPORT =
      headerMasks.QMI_LOC_EVENT_MASK_NMEA_V02 := by
  refine ⟨convertMask_zero k, convertMask_or k, ?_, by decide, by decide, by decide⟩
  intro a b h
  rw [← convertMask_or, h]

/-- C40, evaluated with the header constants: the position bit is contained in
the mask of position and satellite reports, and so is its conversion. -/
theorem C40_convertMask_union_homomorphism_witness :
    convertMask headerMasks headerMasks.LOC_API_ADAPTER_BIT_PARSED_POSITION_REPORT |||
        convertMask headerMasks
          (headerMasks.LOC_API_ADAPTER_BIT_PARSED_POSITION_REPORT |||
            headerMasks.LOC_API_ADAPTER_BIT_SATELLITE_REPORT) =
      convertMask headerMasks
        (headerMasks.LOC_API_ADAPTER_BIT_PARSED_POSITION_REPORT |||
          headerMasks.LOC_API_ADAPTER_BIT_SATELLITE_REPORT) :=
  (C40_convertMask_union_homomorphism headerMasks).2.2.1
    headerMasks.LOC_API_ADAPTER_BIT_PARSED_POSITION_REPORT
    (headerMasks.LOC_API_ADAPTER_BIT_PARSED_POSITION_REPORT |||
      headerMasks.LOC_API_ADAPTER_BIT_SATELLITE_REPORT) (by decide)

end LocApiV02
